import Mathlib

/-!
# GravitySample : the gravity-relative character movement component

A shallow embedding of `UGravityMovementcomponent`
(`Plugins/GravityMovementcomponent/.../Private/GravityMovementcomponent.cpp`).

Conventions of the embedding

* Scalars (`float`, `FVector::FReal`) are elements of a linearly ordered field `F`;
  rounding is not modelled.  Every definition is computable, so at `F = ℚ` it evaluates.
* `FMath::Sqrt` is passed as a parameter `Sqrt : F → F` to the functions that take a
  square root (`Size`, `GetSafeNormal`, `Distance`).
* Engine functions the component calls are written out from their engine definition when
  they are pure arithmetic (`GetSafeNormal`, `RotateAngleAxis`, `ModifyWalkableFloorZ`) and
  are fields of a `World` record when they query or notify the outside world.
* `GravityDirection` is the direction gravity pulls; "up" is `-GravityDirection`.
-/

namespace Gravity

variable {F : Type} [LinearOrderedField F]

/-! ## Engine constants -/

/-- Engine constant `KINDA_SMALL_NUMBER` (1.e-4f). -/
def KINDA_SMALL_NUMBER : F := 1 / 10000

/-- Engine constant `SMALL_NUMBER` (1.e-8f). -/
def SMALL_NUMBER : F := 1 / 100000000

/-- Constant `UCharacterMovementComponent::MIN_TICK_TIME` (1e-6f). -/
def MIN_TICK_TIME : F := 1 / 1000000

/-- Constant `UCharacterMovementComponent::MIN_FLOOR_DIST` (1.9f). -/
def MIN_FLOOR_DIST : F := 19 / 10

/-- Constant `UCharacterMovementComponent::MAX_FLOOR_DIST` (2.4f). -/
def MAX_FLOOR_DIST : F := 24 / 10

/-- Constant `UCharacterMovementComponent::SWEEP_EDGE_REJECT_DISTANCE` (0.15f). -/
def SWEEP_EDGE_REJECT_DISTANCE : F := 15 / 100

/-- Constant `CharacterMovementConstants::MAX_STEP_SIDE_Z` (0.08f). -/
def MAX_STEP_SIDE_Z : F := 8 / 100

/-- Constant `CharacterMovementConstants::VERTICAL_SLOPE_NORMAL_Z` (0.001f). -/
def VERTICAL_SLOPE_NORMAL_Z : F := 1 / 1000

/-! ## Vectors -/

/-- Engine type `FVector`. -/
structure FVector (F : Type) where
  X : F
  Y : F
  Z : F
deriving DecidableEq, Repr

namespace FVector

/-- The constant `FVector::ZeroVector`. -/
def ZeroVector : FVector F := ⟨0, 0, 0⟩

/-- Component-wise sum, `operator+`. -/
def add (a b : FVector F) : FVector F := ⟨a.X + b.X, a.Y + b.Y, a.Z + b.Z⟩

/-- Component-wise difference, `operator-`. -/
def sub (a b : FVector F) : FVector F := ⟨a.X - b.X, a.Y - b.Y, a.Z - b.Z⟩

/-- Unary `operator-`. -/
def neg (a : FVector F) : FVector F := ⟨-a.X, -a.Y, -a.Z⟩

/-- Scaling by a scalar, `operator*(float)`. -/
def scale (a : FVector F) (s : F) : FVector F := ⟨a.X * s, a.Y * s, a.Z * s⟩

/-- Division by a scalar, `operator/(float)`: the engine multiplies by the reciprocal. -/
def div (a : FVector F) (s : F) : FVector F := ⟨a.X * (1 / s), a.Y * (1 / s), a.Z * (1 / s)⟩

/-- Dot product, `FVector::DotProduct` and `operator|`. -/
def DotProduct (a b : FVector F) : F := a.X * b.X + a.Y * b.Y + a.Z * b.Z

/-- Cross product, `FVector::CrossProduct` and `operator^`. -/
def CrossProduct (a b : FVector F) : FVector F :=
  ⟨a.Y * b.Z - a.Z * b.Y, a.Z * b.X - a.X * b.Z, a.X * b.Y - a.Y * b.X⟩

/-- Squared length, `FVector::SizeSquared`. -/
def SizeSquared (a : FVector F) : F := a.X * a.X + a.Y * a.Y + a.Z * a.Z

/-- Length, `FVector::Size`. -/
def Size (Sqrt : F → F) (a : FVector F) : F := Sqrt (a.X * a.X + a.Y * a.Y + a.Z * a.Z)

/-- Exact zero test, `FVector::IsZero`. -/
def IsZero (a : FVector F) : Bool := decide (a.X = 0) && decide (a.Y = 0) && decide (a.Z = 0)

/-- Tolerant zero test, `FVector::IsNearlyZero(Tolerance)`. -/
def IsNearlyZero (a : FVector F) (Tolerance : F) : Bool :=
  decide (|a.X| ≤ Tolerance) && decide (|a.Y| ≤ Tolerance) && decide (|a.Z| ≤ Tolerance)

/-- Tolerant comparison, `FVector::Equals(V, Tolerance)`. -/
def Equals (a b : FVector F) (Tolerance : F) : Bool :=
  decide (|a.X - b.X| ≤ Tolerance) && decide (|a.Y - b.Y| ≤ Tolerance)
    && decide (|a.Z - b.Z| ≤ Tolerance)

/-- Engine `FVector::GetSafeNormal(Tolerance = SMALL_NUMBER)`: the vector itself when its
squared length is exactly one, zero when it is below the tolerance, and otherwise the vector
scaled by `FMath::InvSqrt` of the squared length. -/
def GetSafeNormal (Sqrt : F → F) (a : FVector F) : FVector F :=
  let SquareSum := a.X * a.X + a.Y * a.Y + a.Z * a.Z
  if SquareSum = 1 then a
  else if SquareSum < SMALL_NUMBER then ZeroVector
  else
    let Scale := 1 / Sqrt SquareSum
    ⟨a.X * Scale, a.Y * Scale, a.Z * Scale⟩

/-- Engine `FVector::Distance`. -/
def Distance (Sqrt : F → F) (a b : FVector F) : F := Size Sqrt (sub a b)

/-- Engine `FVector::RotateAngleAxis(AngleDeg, Axis)`, with `S` and `C` the sine and the
cosine of the angle (`FMath::SinCos`); the engine formula uses the axis as it is given. -/
def RotateAngleAxis (S C : F) (v Axis : FVector F) : FVector F :=
  let XX := Axis.X * Axis.X
  let YY := Axis.Y * Axis.Y
  let ZZ := Axis.Z * Axis.Z
  let XY := Axis.X * Axis.Y
  let YZ := Axis.Y * Axis.Z
  let ZX := Axis.Z * Axis.X
  let XS := Axis.X * S
  let YS := Axis.Y * S
  let ZS := Axis.Z * S
  let OMC := 1 - C
  ⟨(OMC * XX + C) * v.X + (OMC * XY - ZS) * v.Y + (OMC * ZX + YS) * v.Z,
   (OMC * XY + ZS) * v.X + (OMC * YY + C) * v.Y + (OMC * YZ - XS) * v.Z,
   (OMC * ZX - YS) * v.X + (OMC * YZ + XS) * v.Y + (OMC * ZZ + C) * v.Z⟩

end FVector

open FVector

/-! ## Hit results -/

/-- Engine enum `EWalkableSlopeBehavior`. -/
inductive EWalkableSlopeBehavior where
  | WalkableSlope_Default
  | WalkableSlope_Increase
  | WalkableSlope_Decrease
  | WalkableSlope_Unwalkable
deriving DecidableEq, Repr

/-- Engine struct `FWalkableSlopeOverride`; `CachedSlopeAngleCos` is the cosine of its
`WalkableSlopeAngle`. -/
structure FWalkableSlopeOverride (F : Type) where
  WalkableSlopeBehavior : EWalkableSlopeBehavior
  CachedSlopeAngleCos : F
deriving DecidableEq, Repr

/-- Engine `FWalkableSlopeOverride::ModifyWalkableFloorZ`. -/
def FWalkableSlopeOverride.ModifyWalkableFloorZ (o : FWalkableSlopeOverride F)
    (InWalkableFloorZ : F) : F :=
  match o.WalkableSlopeBehavior with
  | .WalkableSlope_Default => InWalkableFloorZ
  | .WalkableSlope_Increase => min InWalkableFloorZ o.CachedSlopeAngleCos
  | .WalkableSlope_Decrease => max InWalkableFloorZ o.CachedSlopeAngleCos
  | .WalkableSlope_Unwalkable => 2

/-- The part of a hit `UPrimitiveComponent` the movement component reads. -/
structure UPrimitiveComponent (F : Type) where
  WalkableSlopeOverride : FWalkableSlopeOverride F
  bIsSimulatedBase : Bool
deriving DecidableEq, Repr

/-- Engine struct `FHitResult` (the fields the movement component reads). -/
structure FHitResult (F : Type) where
  bBlockingHit : Bool
  bStartPenetrating : Bool
  Time : F
  Location : FVector F
  ImpactPoint : FVector F
  Normal : FVector F
  ImpactNormal : FVector F
  TraceStart : FVector F
  TraceEnd : FVector F
  Component : Option (UPrimitiveComponent F)
deriving DecidableEq, Repr

/-- The constructor `FHitResult(float InTime)`: everything cleared, `Time` set. -/
def FHitResult.init (InTime : F) : FHitResult F :=
  { bBlockingHit := false, bStartPenetrating := false, Time := InTime,
    Location := ZeroVector, ImpactPoint := ZeroVector, Normal := ZeroVector,
    ImpactNormal := ZeroVector, TraceStart := ZeroVector, TraceEnd := ZeroVector,
    Component := none }

/-- Engine `FHitResult::IsValidBlockingHit`. -/
def FHitResult.IsValidBlockingHit (Hit : FHitResult F) : Bool :=
  Hit.bBlockingHit && !Hit.bStartPenetrating

/-! ## The movement component -/

/-- Engine enum `EMovementMode`. -/
inductive EMovementMode where
  | MOVE_None
  | MOVE_Walking
  | MOVE_NavWalking
  | MOVE_Falling
  | MOVE_Swimming
  | MOVE_Flying
  | MOVE_Custom
deriving DecidableEq, Repr

/-- Engine enum `ENetRole`. -/
inductive ENetRole where
  | ROLE_None
  | ROLE_SimulatedProxy
  | ROLE_AutonomousProxy
  | ROLE_Authority
deriving DecidableEq, Repr

/-- Engine struct `FFindFloorResult`. -/
structure FFindFloorResult (F : Type) where
  bBlockingHit : Bool
  bWalkableFloor : Bool
  bLineTrace : Bool
  FloorDist : F
  LineDist : F
  HitResult : FHitResult F
deriving DecidableEq, Repr

/-- The state after `FFindFloorResult::Clear()` (also the default constructor). -/
def FFindFloorResult.Clear : FFindFloorResult F :=
  { bBlockingHit := false, bWalkableFloor := false, bLineTrace := false,
    FloorDist := 0, LineDist := 0, HitResult := FHitResult.init 1 }

/-- Engine `FFindFloorResult::IsWalkableFloor`. -/
def FFindFloorResult.IsWalkableFloor (r : FFindFloorResult F) : Bool :=
  r.bBlockingHit && r.bWalkableFloor

/-- Engine `FFindFloorResult::GetDistanceToFloor`. -/
def FFindFloorResult.GetDistanceToFloor (r : FFindFloorResult F) : F :=
  if r.bLineTrace then r.LineDist else r.FloorDist

/-- Engine `FFindFloorResult::SetFromSweep`. -/
def FFindFloorResult.SetFromSweep (InHit : FHitResult F) (InSweepFloorDist : F)
    (bIsWalkableFloor : Bool) : FFindFloorResult F :=
  { bBlockingHit := InHit.IsValidBlockingHit, bWalkableFloor := bIsWalkableFloor,
    bLineTrace := false, FloorDist := InSweepFloorDist, LineDist := 0, HitResult := InHit }

/-- Engine struct `FNavLocation`; `NodeRef = none` is `INVALID_NAVNODEREF`. -/
structure FNavLocation (F : Type) where
  Location : FVector F
  NodeRef : Option Nat
deriving DecidableEq, Repr

/-- Engine constant `FLT_MAX`. -/
def FLT_MAX : F := 340282346638528859811704183484516925440

/-- The default constructor `FNavLocation()`: `FNavigationSystem::InvalidLocation` (every
coordinate `FLT_MAX`) and `INVALID_NAVNODEREF`. -/
def FNavLocation.init : FNavLocation F := ⟨⟨FLT_MAX, FLT_MAX, FLT_MAX⟩, none⟩

/-- Engine struct `FStepDownResult`. -/
structure FStepDownResult (F : Type) where
  bComputedFloor : Bool
  FloorResult : FFindFloorResult F
deriving DecidableEq, Repr

/-- The default constructor of `FStepDownResult`. -/
def FStepDownResult.init : FStepDownResult F :=
  { bComputedFloor := false, FloorResult := FFindFloorResult.Clear }

/-- The members of `UGravityMovementcomponent` (its own, those inherited from
`UCharacterMovementComponent`, and the state of its owner and updated component) that the
modelled functions read or write.  `Location` is `UpdatedComponent->GetComponentLocation()`,
`AxisX` and `AxisY` are `CapsuleQuat.GetAxisX()` and `CapsuleQuat.GetAxisY()`, `PawnRadius`
and `PawnHalfHeight` are the scaled capsule size, `GravityZ` is `GetGravityZ()`. -/
structure UGravityMovementcomponent (F : Type) where
  Location : FVector F
  Velocity : FVector F
  Acceleration : FVector F
  MovementMode : EMovementMode
  GroundMovementMode : EMovementMode
  DefaultLandMovementMode : EMovementMode
  CurrentFloor : FFindFloorResult F
  GravityDirection : FVector F
  GravityOrigin : FVector F
  AxisX : FVector F
  AxisY : FVector F
  PreStepUpLocation : FVector F
  bJustTeleported : Bool
  bForceNextFloorCheck : Bool
  bMaintainHorizontalGroundVelocity : Bool
  bNotifyApex : Bool
  NumJumpApexAttempts : Int
  MaxJumpApexAttemptsPerSimulation : Int
  MaxSimulationIterations : Int
  MaxSimulationTimeStep : F
  JumpForceTimeRemaining : F
  bApplyGravityWhileJumping : Bool
  GravityZ : F
  WalkableFloorZ : F
  MaxStepHeight : F
  PawnRadius : F
  PawnHalfHeight : F
  CachedNavLocation : FNavLocation F
  bProjectNavMeshWalking : Bool
  NavMeshProjectionHeightScaleUp : F
  NavMeshProjectionHeightScaleDown : F
  bHasCharacterOwner : Bool
  bHasController : Bool
  bRunPhysicsWithNoController : Bool
  bQueryCollisionEnabled : Bool
  LocalRole : ENetRole
  MovementBase : Option (UPrimitiveComponent F)
  DefaultWaterMovementMode : EMovementMode
  bCanEverSwim : Bool
  CustomMovementMode : Nat
  TerminalVelocity : F
  ForceJumpPeakSubstep : Int
  GroundFriction : F
  FallingLateralFriction : F
  MaxAcceleration : F
  AirControl : F
  AirControlBoostMultiplier : F
  AirControlBoostVelocityThreshold : F
  bForceMaxAccel : Bool
  AnalogInputModifier : F
  bUseSeparateBrakingFriction : Bool
  BrakingFriction : F
  bUseRVOAvoidance : Bool
  bWasSimulatingRootMotion : Bool
  bHasRequestedVelocity : Bool
  PerchRadiusThreshold : F
  PerchAdditionalHeight : F
  bAlwaysCheckFloor : Bool
  bUseFlatBaseForFloorChecks : Bool
  CachedProjectedNavMeshHitResult : FHitResult F
  NavMeshProjectionTimer : F
  NavMeshProjectionInterval : F
  NavMeshProjectionInterpSpeed : F
  Mass : F
  StandingDownwardForceScale : F
deriving DecidableEq, Repr

namespace UGravityMovementcomponent

/-! Assignments to single members.  The modelled functions write a member through these, so
that a term mentions the member written and not the whole record. -/

/-- The component moved to `v` (a completed move of the updated component). -/
def setLocation (c : UGravityMovementcomponent F) (v : FVector F) :
    UGravityMovementcomponent F := { c with Location := v }

/-- Assignment `Velocity = v`. -/
def setVelocity (c : UGravityMovementcomponent F) (v : FVector F) :
    UGravityMovementcomponent F := { c with Velocity := v }

/-- Assignment `Acceleration = v`. -/
def setAcceleration (c : UGravityMovementcomponent F) (v : FVector F) :
    UGravityMovementcomponent F := { c with Acceleration := v }

/-- Assignment of `MovementMode` and `CustomMovementMode`. -/
def setMovementMode (c : UGravityMovementcomponent F) (m : EMovementMode) (k : Nat) :
    UGravityMovementcomponent F := { c with MovementMode := m, CustomMovementMode := k }

/-- Engine `SetGroundMovementMode`. -/
def setGroundMovementMode (c : UGravityMovementcomponent F) (m : EMovementMode) :
    UGravityMovementcomponent F := { c with GroundMovementMode := m }

/-- Assignment `CurrentFloor = r`. -/
def setCurrentFloor (c : UGravityMovementcomponent F) (r : FFindFloorResult F) :
    UGravityMovementcomponent F := { c with CurrentFloor := r }

/-- Assignment `bJustTeleported = b`. -/
def setJustTeleported (c : UGravityMovementcomponent F) (b : Bool) :
    UGravityMovementcomponent F := { c with bJustTeleported := b }

/-- Assignment `bForceNextFloorCheck = b`. -/
def setForceNextFloorCheck (c : UGravityMovementcomponent F) (b : Bool) :
    UGravityMovementcomponent F := { c with bForceNextFloorCheck := b }

/-- Assignment `CachedNavLocation = n`. -/
def setCachedNavLocation (c : UGravityMovementcomponent F) (n : FNavLocation F) :
    UGravityMovementcomponent F := { c with CachedNavLocation := n }

/-- Engine `SetBase`: the movement base the owner records. -/
def setMovementBase (c : UGravityMovementcomponent F) (b : Option (UPrimitiveComponent F)) :
    UGravityMovementcomponent F := { c with MovementBase := b }

/-- Assignment `NumJumpApexAttempts = n`. -/
def setNumJumpApexAttempts (c : UGravityMovementcomponent F) (n : Int) :
    UGravityMovementcomponent F := { c with NumJumpApexAttempts := n }

/-- Assignment `CharacterOwner->JumpForceTimeRemaining = t`. -/
def setJumpForceTimeRemaining (c : UGravityMovementcomponent F) (t : F) :
    UGravityMovementcomponent F := { c with JumpForceTimeRemaining := t }

/-- Assignment `AnalogInputModifier = a`. -/
def setAnalogInputModifier (c : UGravityMovementcomponent F) (a : F) :
    UGravityMovementcomponent F := { c with AnalogInputModifier := a }

/-- Assignment `bNotifyApex = b`. -/
def setNotifyApex (c : UGravityMovementcomponent F) (b : Bool) :
    UGravityMovementcomponent F := { c with bNotifyApex := b }

/-- Assignment `GravityDirection = v`. -/
def setGravityDirection (c : UGravityMovementcomponent F) (v : FVector F) :
    UGravityMovementcomponent F := { c with GravityDirection := v }

/-- Assignment `PreStepUpLocation = v`. -/
def setPreStepUpLocation (c : UGravityMovementcomponent F) (v : FVector F) :
    UGravityMovementcomponent F := { c with PreStepUpLocation := v }

/-- Assignment of `CapsuleQuat`, given by its X and Y axes. -/
def setCapsuleQuat (c : UGravityMovementcomponent F) (q : FVector F × FVector F) :
    UGravityMovementcomponent F := { c with AxisX := q.1, AxisY := q.2 }

/-- Assignment `CachedProjectedNavMeshHitResult = h`. -/
def setCachedProjectedNavMeshHitResult (c : UGravityMovementcomponent F) (h : FHitResult F) :
    UGravityMovementcomponent F := { c with CachedProjectedNavMeshHitResult := h }

/-- Assignment `NavMeshProjectionTimer = t`. -/
def setNavMeshProjectionTimer (c : UGravityMovementcomponent F) (t : F) :
    UGravityMovementcomponent F := { c with NavMeshProjectionTimer := t }

end UGravityMovementcomponent

/-! ## Walkability -/

/-- The threshold `TestWalkableZ` of `IsWalkable`: `GetWalkableFloorZ()`, modified by the
walkable-slope override of the hit component when the hit has one (lines 917-925). -/
def TestWalkableZ (c : UGravityMovementcomponent F) (Hit : FHitResult F) : F :=
  match Hit.Component with
  | some HitComponent => HitComponent.WalkableSlopeOverride.ModifyWalkableFloorZ c.WalkableFloorZ
  | none => c.WalkableFloorZ

/-- Function `UGravityMovementcomponent::IsWalkable`. -/
def IsWalkable (c : UGravityMovementcomponent F) (Hit : FHitResult F) : Bool :=
  if Hit.IsValidBlockingHit = false then
    -- No hit, or starting in penetration
    false
  else if DotProduct Hit.ImpactNormal (neg c.GravityDirection) < KINDA_SMALL_NUMBER then
    false
  else
    -- Can't walk on this surface if it is too steep.
    let Len := DotProduct Hit.ImpactNormal (neg c.GravityDirection)
    if Len < TestWalkableZ c Hit then false else true

/-! ## Ground movement delta -/

/-- The sine of -90 degrees, as `RotateAngleAxis(-90.f, Axis)` obtains it from `SinCos`. -/
def SinNeg90 : F := -1

/-- The cosine of -90 degrees, as `RotateAngleAxis(-90.f, Axis)` obtains it from `SinCos`. -/
def CosNeg90 : F := 0

/-- Function `UGravityMovementcomponent::ComputeGroundMovementDelta`. -/
def ComputeGroundMovementDelta (Sqrt : F → F) (c : UGravityMovementcomponent F)
    (Delta : FVector F) (RampHit : FHitResult F) (bHitFromLineTrace : Bool) : FVector F :=
  let FloorNormal := RampHit.ImpactNormal
  let ContactNormal := RampHit.Normal
  let FloorNormalZ := DotProduct FloorNormal (neg c.GravityDirection)
  let ContactNormalZ := DotProduct ContactNormal (neg c.GravityDirection)
  if FloorNormalZ < 1 - KINDA_SMALL_NUMBER ∧ FloorNormalZ > KINDA_SMALL_NUMBER ∧
      ContactNormalZ > KINDA_SMALL_NUMBER ∧ bHitFromLineTrace = false ∧
      IsWalkable c RampHit = true then
    let Axis := CrossProduct (GetSafeNormal Sqrt Delta) FloorNormal
    let NewDelta := RotateAngleAxis SinNeg90 CosNeg90 FloorNormal Axis
    scale NewDelta (Size Sqrt Delta)
  else
    Delta

/-! ## Nav-mesh walking : choice of the destination -/

/-- Engine interface `INavigationDataInterface`, as the component uses it.  `ProjectPoint`
returns its success flag and the location it wrote; its third argument, the search extent,
is `GravityDirection.Rotation().RotateVector(FVector(SearchRadius, SearchRadius,
SearchHeight))`, a function of the gravity direction and of the agent properties, so the
gravity direction is passed in its place. -/
structure INavigationDataInterface (F : Type) where
  IsNodeRefValid : Nat → Bool
  ProjectPoint : FVector F → FVector F → Bool × FNavLocation F

/-- Function `UGravityMovementcomponent::FindNavFloor`; `NavData` is `GetNavData()`. -/
def FindNavFloor (NavData : Option (INavigationDataInterface F))
    (c : UGravityMovementcomponent F) (TestLocation : FVector F) : Bool × FNavLocation F :=
  match NavData with
  | none => (false, ⟨ZeroVector, none⟩)
  | some nd =>
    if c.bHasCharacterOwner = false then (false, ⟨ZeroVector, none⟩)
    else nd.ProjectPoint TestLocation c.GravityDirection

/-- How lines 519-544 of `PhysNavWalking` leave the choice of `DestNavLocation`:
`fromCache` is the assignment `DestNavLocation = CachedNavLocation` of line 521,
`fromFindNavFloor` is a successful `FindNavFloor(AdjustedDest, DestNavLocation)` of line 536
(with the `AdjustedDest` it was asked for), `noNavigationData` is the exit of lines 537-541
(`SetMovementMode(MOVE_Walking); return`). -/
inductive NavDestination (F : Type) where
  | fromCache (DestNavLocation : FNavLocation F)
  | fromFindNavFloor (AdjustedDest : FVector F) (DestNavLocation : FNavLocation F)
  | noNavigationData (AdjustedDest : FVector F)

/-- The flag `bSameNavLocation` as lines 476-504 of `PhysNavWalking` compute it when
`CachedNavLocation.NodeRef` is set, before the node validity check. -/
def PhysNavWalking_bSameNavLocation (Sqrt : F → F) (c : UGravityMovementcomponent F)
    (OldLocation : FVector F) : Bool :=
  if c.bProjectNavMeshWalking then
    let TraceVec := sub OldLocation c.CachedNavLocation.Location
    let XVal := DotProduct TraceVec c.AxisX
    let YVal := DotProduct TraceVec c.AxisY
    let DistSq2D := Sqrt (XVal * XVal + YVal * YVal)
    let DistZ := DotProduct (sub OldLocation c.CachedNavLocation.Location) c.GravityDirection
    let TotalCapsuleHeight := c.PawnHalfHeight * 2
    let ProjectionScale :=
      if DotProduct OldLocation (neg c.GravityDirection) >
          DotProduct c.CachedNavLocation.Location (neg c.GravityDirection)
      then c.NavMeshProjectionHeightScaleUp else c.NavMeshProjectionHeightScaleDown
    let DistZThr := TotalCapsuleHeight * max 0 ProjectionScale
    decide (DistSq2D ≤ KINDA_SMALL_NUMBER) && decide (DistZ < DistZThr)
  else
    Equals c.CachedNavLocation.Location OldLocation KINDA_SMALL_NUMBER

/-- Lines 476-517 of `PhysNavWalking`: the flag `bSameNavLocation` after the validity check
of the cached node, and the component (whose cached `NodeRef` the check may clear). -/
def PhysNavWalking_CheckCache (Sqrt : F → F) (NavData : Option (INavigationDataInterface F))
    (c : UGravityMovementcomponent F) (OldLocation : FVector F)
    (bDeltaMoveNearlyZero : Bool) : Bool × UGravityMovementcomponent F :=
  match c.CachedNavLocation.NodeRef with
  | none => (false, c)
  | some NodeRef =>
    let bSameNavLocation := PhysNavWalking_bSameNavLocation Sqrt c OldLocation
    if bDeltaMoveNearlyZero && bSameNavLocation then
      match NavData with
      | some nd =>
        if nd.IsNodeRefValid NodeRef = false then
          (false, c.setCachedNavLocation { c.CachedNavLocation with NodeRef := none })
        else (bSameNavLocation, c)
      | none => (bSameNavLocation, c)
    else (bSameNavLocation, c)

/-- Lines 519-544 of `PhysNavWalking`: the destination is the cached location when the move
is nearly zero and the nav location is the same, and is asked of `FindNavFloor` otherwise. -/
def PhysNavWalking_Resolve (Sqrt : F → F) (NavData : Option (INavigationDataInterface F))
    (c : UGravityMovementcomponent F) (bDeltaMoveNearlyZero bSameNavLocation : Bool)
    (AdjustedDest : FVector F) : NavDestination F × UGravityMovementcomponent F :=
  if bDeltaMoveNearlyZero && bSameNavLocation then
    (.fromCache c.CachedNavLocation, c)
  else
    let AdjustedDest :=
      if bSameNavLocation && c.bProjectNavMeshWalking then
        let Vec1 := sub c.GravityOrigin AdjustedDest
        let Vec2 := sub c.GravityOrigin c.CachedNavLocation.Location
        scale (GetSafeNormal Sqrt Vec1) (DotProduct Vec2 Vec1)
      else AdjustedDest
    let found := FindNavFloor NavData c AdjustedDest
    if found.1 = false then
      (.noNavigationData AdjustedDest, c)
    else
      (.fromFindNavFloor AdjustedDest found.2, c.setCachedNavLocation found.2)

/-- Lines 467-544 of `UGravityMovementcomponent::PhysNavWalking`, entered after the early
exits: from the velocity, `deltaTime` and `OldLocation = GetActorFeetLocation()` it decides
where `DestNavLocation` comes from, and returns the component with its
`CachedNavLocation` updated. -/
def PhysNavWalking_Destination (Sqrt : F → F) (NavData : Option (INavigationDataInterface F))
    (c : UGravityMovementcomponent F) (deltaTime : F) (OldLocation : FVector F) :
    NavDestination F × UGravityMovementcomponent F :=
  let DesiredMove := c.Velocity
  let DeltaMove := scale DesiredMove deltaTime
  let bDeltaMoveNearlyZero := IsNearlyZero DeltaMove KINDA_SMALL_NUMBER
  let AdjustedDest := add OldLocation DeltaMove
  let r := PhysNavWalking_CheckCache Sqrt NavData c OldLocation bDeltaMoveNearlyZero
  PhysNavWalking_Resolve Sqrt NavData r.2 bDeltaMoveNearlyZero r.1 AdjustedDest

/-! ## The outside world -/

/-- Engine struct `FCollisionShape`, for the two shapes the floor sweeps use: a capsule
(`MakeCapsule(Radius, HalfHeight)`) and a box (`MakeBox(HalfExtent)`). -/
inductive FCollisionShape (F : Type) where
  | Capsule (Radius HalfHeight : F)
  | Box (HalfExtent : FVector F)
deriving DecidableEq, Repr

/-- Engine `FCollisionShape::IsNearlyZero` (a capsule is nearly zero when its radius is at
most `MinCapsuleRadius() = KINDA_SMALL_NUMBER`, a box when each half extent is). -/
def FCollisionShape.IsNearlyZero : FCollisionShape F → Bool
  | .Capsule Radius _ => decide (Radius ≤ KINDA_SMALL_NUMBER)
  | .Box HalfExtent =>
    decide (HalfExtent.X ≤ KINDA_SMALL_NUMBER) && decide (HalfExtent.Y ≤ KINDA_SMALL_NUMBER)
      && decide (HalfExtent.Z ≤ KINDA_SMALL_NUMBER)

/-- The rotations `FloorSweepTest` sweeps a shape with: `CapsuleQuat` (given by its X and Y
axes), `FQuat(FVector(0, 0, -1), PI * 0.25)`, and `FQuat::Identity`. -/
inductive SweepRotation (F : Type) where
  | CapsuleQuat (AxisX AxisY : FVector F)
  | EighthTurnAboutMinusZ
  | Identity
deriving DecidableEq, Repr

/-- The engine and game code the component calls into.  A sweep is a function of the start
location and of the requested delta and returns the location reached and the hit; a
notification is a function from the component to the component, because the game code it
runs may change the component (its movement mode, for one).

* `MoveComponent`, `SafeMoveComponent` : the swept moves behind
  `UMovementComponent::MoveUpdatedComponent` and `SafeMoveUpdatedComponent`, for a delta
  that is not zero (the capsule rotation is constant during a move).
* `CanStepUp` : `UCharacterMovementComponent::CanStepUp`.
* `MoveBlockedBy` : what `HandleImpact` notifies (`CharacterOwner->MoveBlockedBy`,
  `PFAgent->OnMoveBlockedBy`, `NotifyBumpedPawn`, `ApplyImpactPhysicsForces`).
* `SlideAlongSurface` : `UGravityMovementcomponent::SlideAlongSurface`, which ends in
  `UMovementComponent::SlideAlongSurface`: the component after the slide (moved, and
  notified of the impacts when `bHandleImpact`), the hit it leaves in `Hit`, and the
  fraction of the move applied.
* `FindFloor` : `UGravityMovementcomponent::FindFloor` as its callers see it: the floor
  result written to `OutFloorResult` and the new value of `bForceNextFloorCheck`, the only
  member this `const` function writes.
* `IsInWater` : `UMovementComponent::IsInWater`.
* `GetImpartedMovementBaseVelocity` : the engine function of that name.
* `TryToLeaveNavWalking` : the engine function of that name, its result and the component
  it leaves.
* `Falling`, `OnStartedFalling`, `OwnerOnMovementModeChanged` : the notifications
  `CharacterOwner->Falling()`, `PFAgent->OnStartedFalling()` and
  `CharacterOwner->OnMovementModeChanged(PreviousMovementMode, PreviousCustomMode)`.
* `StopMovement` : what entering `MOVE_None` runs (`StopMovementKeepPathing`,
  `ResetJumpState`, `ClearAccumulatedForces`).
* `NavData` : `GetNavData()`.
* `HasAnimRootMotion`, `HasOverrideVelocity`, `RestorePreAdditiveRootMotionVelocity`,
  `ApplyRootMotionToVelocity`, `DecayFormerBaseVelocity` : the root motion and former base
  velocity functions of the engine of those names (`HasOverrideVelocity` is
  `CurrentRootMotion.HasOverrideVelocity()`, and so for
  `HasOverrideVelocityWithIgnoreZAccumulate`).
* `GetActorFeetLocation` : the engine function of that name.
* `GetMaxBrakingDeceleration`, `GetMaxSpeed`, `GetMinAnalogSpeed`, `GetForwardVector` : the
  engine getters of those names.
* `RequestedMove` : the body of `ApplyRequestedMove` when path following has requested a
  velocity: its result, `OutAcceleration`, `OutRequestedSpeed` and the velocity it leaves.
* `BrakedVelocity` : the sub-stepped braking of `ApplyVelocityBraking` for a velocity that is
  not zero, from the time step, the friction and the braking deceleration.
* `CalcAvoidanceVelocity`, `ResetJumpState`, `NotifyJumpApex` : the engine functions of those
  names (the last two are `CharacterOwner->ResetJumpState()` and the apex notification).
* `LimitAirControl`, `ComputeSlideVector` : the engine functions of those names.
* `ContactVelocity` : `MovementBaseUtility::GetMovementBaseVelocity(HitComponent)` plus
  `GetMovementBaseTangentialVelocity(HitComponent, ImpactPoint)` for the component of a hit.
* `TwoWallAdjustBase` : `UMovementComponent::TwoWallAdjust`, the value it leaves in `Delta`.
* `RandomDirection` : `FQuat(GravityDirection, FMath::RandRange(0, 360)).Vector()`.
* `Landed` : the notifications of `ProcessLanded` (`CharacterOwner->Landed(Hit)` when
  `ShouldNotifyLanded`, and `PFAgent->OnLanded()`).
* `StartNewPhysics`, `StartSwimming` : the engine functions of those names, which run the
  physics of the movement mode the component is in for the time that remains.
* `CanWalkOffLedges`, `GetLedgeMove`, `HandleWalkingOffLedge` : the engine functions of
  those names.
* `CheckFall` : the engine function of that name, its result and the component it leaves
  (it starts the fall itself when it returns true).
* `ResolvePenetration` : `ResolvePenetration(GetPenetrationAdjustment(Hit), Hit, ...)`.
* `IsDynamicBase`, `BaseIsQueryCollisionEnabled` : `MovementBaseUtility::IsDynamicBase` and
  `IsQueryCollisionEnabled()` of a movement base.
* `CanRestoreBase` : the test of `RevertMove` on the old base, that it is valid and could
  not have moved or changed since the iteration started.
* `HitIsMovementBaseOwner` : `Hit.HitObjectHandle == CharacterOwner->GetMovementBase()->GetOwner()`.
* `RefusesStepUp` : `Hit.Component.IsValid() && !Hit.Component->CanCharacterStepUp(...)`.
* `bDelayFallingInEditor` : `GIsEditor` and the world has not been playing for a second,
  the case in which `StartFalling` does not set `MOVE_Falling`.
* `TickComponentBase` : `UGravityMovementcomponent::TickComponentBase`, the movement of one
  frame (input, `PerformMovement` or its simulated or replayed counterpart, physics
  interaction), from the component and `DeltaTime`.
* `GetComponentQuat` : `UpdatedComponent->GetComponentQuat()`, by its X and Y axes.
* `SweepSingleByChannel`, `LineTraceSingleByChannel` : the queries of those names of
  `UWorld`, on the collision channel of the updated component and ignoring the owner, from
  the start and the end (and the rotation and the shape of a sweep): the result and the hit
  written.
* `BaseBlocksChannel` : `MovementBase->GetCollisionResponseToChannel(CollisionChannel) ==
  ECR_Block` for a movement base.
* `BaseOwnerPendingKill` : `BaseActor && !IsValid(BaseActor)` for the owner of a movement
  base.
* `FindBestNavMeshLocation` : the engine function of that name, the hit it writes.
* `Fmod` : `FMath::Fmod`.
* `IsAnySimulatingPhysics` : `UPrimitiveComponent::IsAnySimulatingPhysics` of a component. -/
structure World (F : Type) where
  MoveComponent : FVector F → FVector F → FVector F × FHitResult F
  SafeMoveComponent : FVector F → FVector F → FVector F × FHitResult F
  CanStepUp : UGravityMovementcomponent F → FHitResult F → Bool
  MoveBlockedBy : UGravityMovementcomponent F → FHitResult F → UGravityMovementcomponent F
  SlideAlongSurface : UGravityMovementcomponent F → FVector F → F → FVector F → FHitResult F →
    Bool → UGravityMovementcomponent F × FHitResult F × F
  FindFloor : UGravityMovementcomponent F → FVector F → Bool → Option (FHitResult F) →
    FFindFloorResult F × Bool
  IsInWater : UGravityMovementcomponent F → Bool
  GetImpartedMovementBaseVelocity : UGravityMovementcomponent F → FVector F
  TryToLeaveNavWalking : UGravityMovementcomponent F → Bool × UGravityMovementcomponent F
  Falling : UGravityMovementcomponent F → UGravityMovementcomponent F
  OnStartedFalling : UGravityMovementcomponent F → UGravityMovementcomponent F
  OwnerOnMovementModeChanged : UGravityMovementcomponent F → EMovementMode → Nat →
    UGravityMovementcomponent F
  StopMovement : UGravityMovementcomponent F → UGravityMovementcomponent F
  NavData : Option (INavigationDataInterface F)
  HasAnimRootMotion : UGravityMovementcomponent F → Bool
  HasOverrideVelocity : UGravityMovementcomponent F → Bool
  HasOverrideVelocityWithIgnoreZAccumulate : UGravityMovementcomponent F → Bool
  GetActorFeetLocation : UGravityMovementcomponent F → FVector F
  RestorePreAdditiveRootMotionVelocity : UGravityMovementcomponent F → UGravityMovementcomponent F
  ApplyRootMotionToVelocity : UGravityMovementcomponent F → F → UGravityMovementcomponent F
  DecayFormerBaseVelocity : UGravityMovementcomponent F → F → UGravityMovementcomponent F
  GetMaxBrakingDeceleration : UGravityMovementcomponent F → F
  GetMaxSpeed : UGravityMovementcomponent F → F
  GetMinAnalogSpeed : UGravityMovementcomponent F → F
  GetForwardVector : UGravityMovementcomponent F → FVector F
  RequestedMove : UGravityMovementcomponent F → F → F → F → F → F →
    Bool × FVector F × F × FVector F
  BrakedVelocity : FVector F → F → F → F → FVector F
  CalcAvoidanceVelocity : UGravityMovementcomponent F → F → UGravityMovementcomponent F
  ResetJumpState : UGravityMovementcomponent F → UGravityMovementcomponent F
  NotifyJumpApex : UGravityMovementcomponent F → UGravityMovementcomponent F
  LimitAirControl : UGravityMovementcomponent F → F → FVector F → FHitResult F → Bool → FVector F
  ComputeSlideVector : UGravityMovementcomponent F → FVector F → F → FVector F → FHitResult F →
    FVector F
  ContactVelocity : FHitResult F → FVector F
  TwoWallAdjustBase : UGravityMovementcomponent F → FVector F → FHitResult F → FVector F →
    FVector F
  RandomDirection : FVector F
  Landed : UGravityMovementcomponent F → FHitResult F → UGravityMovementcomponent F
  StartNewPhysics : UGravityMovementcomponent F → F → Int → UGravityMovementcomponent F
  StartSwimming : UGravityMovementcomponent F → FVector F → FVector F → F → F → Int →
    UGravityMovementcomponent F
  CanWalkOffLedges : UGravityMovementcomponent F → Bool
  GetLedgeMove : UGravityMovementcomponent F → FVector F → FVector F → FVector F → FVector F
  HandleWalkingOffLedge : UGravityMovementcomponent F → FVector F → FVector F → FVector F → F →
    UGravityMovementcomponent F
  CheckFall : UGravityMovementcomponent F → FFindFloorResult F → FHitResult F → FVector F →
    FVector F → F → F → Int → Bool → Bool × UGravityMovementcomponent F
  ResolvePenetration : UGravityMovementcomponent F → FHitResult F → UGravityMovementcomponent F
  IsDynamicBase : UPrimitiveComponent F → Bool
  BaseIsQueryCollisionEnabled : UPrimitiveComponent F → Bool
  CanRestoreBase : UPrimitiveComponent F → Bool
  HitIsMovementBaseOwner : UGravityMovementcomponent F → FHitResult F → Bool
  RefusesStepUp : FHitResult F → Bool
  bDelayFallingInEditor : Bool
  TickComponentBase : UGravityMovementcomponent F → F → UGravityMovementcomponent F
  GetComponentQuat : UGravityMovementcomponent F → FVector F × FVector F
  SweepSingleByChannel : FVector F → FVector F → SweepRotation F → FCollisionShape F →
    Bool × FHitResult F
  LineTraceSingleByChannel : FVector F → FVector F → Bool × FHitResult F
  BaseBlocksChannel : UPrimitiveComponent F → Bool
  BaseOwnerPendingKill : UPrimitiveComponent F → Bool
  FindBestNavMeshLocation : UGravityMovementcomponent F → FVector F → FVector F → FVector F →
    FVector F → FHitResult F
  Fmod : F → F → F
  IsAnySimulatingPhysics : UPrimitiveComponent F → Bool

/-- Engine `UMovementComponent::MoveUpdatedComponent` with the rotation the component already
has: `MoveComponentImpl` returns at once, the hit initialised and nothing moved, when the
delta is zero; any other delta is swept through the world. -/
def MoveUpdatedComponent (W : World F) (Location Delta : FVector F) :
    FVector F × FHitResult F :=
  if IsZero Delta then (Location, FHitResult.init 1) else W.MoveComponent Location Delta

/-- Engine `UMovementComponent::SafeMoveUpdatedComponent` with the rotation the component
already has (see `MoveUpdatedComponent`). -/
def SafeMoveUpdatedComponent (W : World F) (Location Delta : FVector F) :
    FVector F × FHitResult F :=
  if IsZero Delta then (Location, FHitResult.init 1) else W.SafeMoveComponent Location Delta

/-- Engine `UCharacterMovementComponent::IsMovingOnGround` (the updated component exists). -/
def IsMovingOnGround (c : UGravityMovementcomponent F) : Bool :=
  decide (c.MovementMode = .MOVE_Walking) || decide (c.MovementMode = .MOVE_NavWalking)

/-- Engine `UCharacterMovementComponent::IsFalling` (the updated component exists). -/
def IsFalling (c : UGravityMovementcomponent F) : Bool :=
  decide (c.MovementMode = .MOVE_Falling)

/-- Engine `UCharacterMovementComponent::IsSwimming` (the updated component exists). -/
def IsSwimming (c : UGravityMovementcomponent F) : Bool :=
  decide (c.MovementMode = .MOVE_Swimming)

/-- Function `UGravityMovementcomponent::HandleImpact`. -/
def HandleImpact (W : World F) (c : UGravityMovementcomponent F) (Impact : FHitResult F) :
    UGravityMovementcomponent F :=
  W.MoveBlockedBy c Impact

/-- Engine `UKismetMathLibrary::FindClosestPointOnLine`. -/
def FindClosestPointOnLine (Sqrt : F → F) (Point LineOrigin LineDirection : FVector F) :
    FVector F :=
  let SafeDir := GetSafeNormal Sqrt LineDirection
  add LineOrigin (scale SafeDir (DotProduct (sub Point LineOrigin) SafeDir))

/-- Function `UGravityMovementcomponent::IsWithinEdgeTolerance`. -/
def IsWithinEdgeTolerance (Sqrt : F → F) (c : UGravityMovementcomponent F)
    (CapsuleLocation TestImpactPoint : FVector F) (CapsuleRadius : F) : Bool :=
  let ClosePt := FindClosestPointOnLine Sqrt TestImpactPoint CapsuleLocation c.GravityDirection
  let DistFromCenterSq := Distance Sqrt TestImpactPoint ClosePt
  let ReducedRadiusSq :=
    max (SWEEP_EDGE_REJECT_DISTANCE + KINDA_SMALL_NUMBER) (CapsuleRadius - SWEEP_EDGE_REJECT_DISTANCE)
  decide (DistFromCenterSq < ReducedRadiusSq)

/-! ## Floor height, movement mode -/

/-- Function `UGravityMovementcomponent::AdjustFloorHeight`. -/
def AdjustFloorHeight (W : World F) (c : UGravityMovementcomponent F) :
    UGravityMovementcomponent F :=
  -- If we have a floor check that hasn't hit anything, don't adjust height.
  if c.CurrentFloor.IsWalkableFloor = false then c
  else if c.CurrentFloor.bLineTrace = true ∧ c.CurrentFloor.FloorDist < MIN_FLOOR_DIST ∧
      c.CurrentFloor.LineDist ≥ MIN_FLOOR_DIST then
    -- This would cause us to scale unwalkable walls
    c
  else
    let OldFloorDist :=
      if c.CurrentFloor.bLineTrace then c.CurrentFloor.LineDist else c.CurrentFloor.FloorDist
    -- Move up or down to maintain floor height.
    if OldFloorDist < MIN_FLOOR_DIST ∨ OldFloorDist > MAX_FLOOR_DIST then
      let InitialZ := DotProduct c.Location (neg c.GravityDirection)
      let MoveDist : F := 0
      let m := SafeMoveUpdatedComponent W c.Location (neg (scale c.GravityDirection MoveDist))
      let c := c.setLocation m.1
      let AdjustHit := m.2
      let c :=
        if AdjustHit.IsValidBlockingHit = false then
          c.setCurrentFloor
            { c.CurrentFloor with FloorDist := c.CurrentFloor.FloorDist + MoveDist }
        else if MoveDist > 0 then
          let CurrentZ := DotProduct c.Location (neg c.GravityDirection)
          c.setCurrentFloor
            { c.CurrentFloor with FloorDist := c.CurrentFloor.FloorDist + (CurrentZ - InitialZ) }
        else
          let CurrentZ := DotProduct c.Location (neg c.GravityDirection)
          let FloorDist := CurrentZ - DotProduct AdjustHit.Location (neg c.GravityDirection)
          let c := c.setCurrentFloor { c.CurrentFloor with FloorDist := FloorDist }
          if IsWalkable c AdjustHit then
            c.setCurrentFloor (FFindFloorResult.SetFromSweep AdjustHit FloorDist true)
          else c
      -- Don't recalculate velocity based on this height adjustment, if considering vertical
      -- adjustments.  Also avoid it if we moved out of penetration
      let c := c.setJustTeleported
        (c.bJustTeleported || (!c.bMaintainHorizontalGroundVelocity || decide (OldFloorDist < 0)))
      if c.bHasCharacterOwner = true ∧ c.LocalRole ≠ ENetRole.ROLE_SimulatedProxy then
        c.setForceNextFloorCheck true
      else c
    else c

/-- Engine `UCharacterMovementComponent::SetBaseFromFloor`: the base is the component of a
walkable floor, and no base otherwise. -/
def SetBaseFromFloor (c : UGravityMovementcomponent F) (FloorResult : FFindFloorResult F) :
    UGravityMovementcomponent F :=
  if FloorResult.IsWalkableFloor then c.setMovementBase FloorResult.HitResult.Component
  else c.setMovementBase none

/-- Function `UGravityMovementcomponent::OnMovementModeChanged`.  Of what it touches, the
collision settings of nav walking, `bCrouchMaintainsBaseLocation` and the decaying former
base velocity are not part of the model. -/
def OnMovementModeChanged (W : World F) (c : UGravityMovementcomponent F)
    (PreviousMovementMode : EMovementMode) (PreviousCustomMode : Nat) :
    UGravityMovementcomponent F :=
  if c.bHasCharacterOwner = false then c
  else
    -- Update collision settings if needed
    let r : Bool × UGravityMovementcomponent F :=
      if c.MovementMode = .MOVE_NavWalking then
        (true, (c.setCachedNavLocation FNavLocation.init).setGroundMovementMode c.MovementMode)
      else if PreviousMovementMode = .MOVE_NavWalking then
        if c.MovementMode = c.DefaultLandMovementMode ∨ IsMovingOnGround c = true then
          W.TryToLeaveNavWalking c
        else (true, c)
      else (true, c)
    if r.1 = false then r.2
    else
      let c := r.2
      -- React to changes in the movement mode.
      let c :=
        if c.MovementMode = .MOVE_Walking then
          let c := c.setGroundMovementMode c.MovementMode
          -- make sure we update our new floor/base on initial entry of the walking physics
          let ff := W.FindFloor c c.Location false none
          let c := (c.setCurrentFloor ff.1).setForceNextFloorCheck ff.2
          let c := AdjustFloorHeight W c
          SetBaseFromFloor c c.CurrentFloor
        else
          let c := c.setCurrentFloor FFindFloorResult.Clear
          let c :=
            if c.MovementMode = .MOVE_Falling then
              let c := c.setVelocity (add c.Velocity (W.GetImpartedMovementBaseVelocity c))
              W.Falling c
            else c
          let c := c.setMovementBase none
          if c.MovementMode = .MOVE_None then W.StopMovement c else c
      let c :=
        if c.MovementMode = .MOVE_Falling ∧ PreviousMovementMode ≠ EMovementMode.MOVE_Falling then
          W.OnStartedFalling c
        else c
      W.OwnerOnMovementModeChanged c PreviousMovementMode PreviousCustomMode

/-- Engine `UCharacterMovementComponent::SetMovementMode`. -/
def SetMovementMode (W : World F) (c : UGravityMovementcomponent F)
    (NewMovementMode : EMovementMode) (NewCustomMode : Nat) : UGravityMovementcomponent F :=
  let NewCustomMode := if NewMovementMode ≠ EMovementMode.MOVE_Custom then 0 else NewCustomMode
  -- If trying to use NavWalking but there is no navmesh, use walking instead.
  let NewMovementMode :=
    if NewMovementMode = .MOVE_NavWalking ∧ W.NavData.isNone = true then .MOVE_Walking
    else NewMovementMode
  -- Do nothing if nothing is changing.
  if c.MovementMode = NewMovementMode ∧
      (NewMovementMode ≠ EMovementMode.MOVE_Custom ∨ NewCustomMode = c.CustomMovementMode) then c
  else
    let PrevMovementMode := c.MovementMode
    let PrevCustomMode := c.CustomMovementMode
    let c := c.setMovementMode NewMovementMode NewCustomMode
    if c.bHasCharacterOwner = false then c
    else OnMovementModeChanged W c PrevMovementMode PrevCustomMode

/-- Function `UGravityMovementcomponent::SetDefaultMovementMode`. -/
def SetDefaultMovementMode (W : World F) (c : UGravityMovementcomponent F) :
    UGravityMovementcomponent F :=
  if c.bCanEverSwim = true ∧ W.IsInWater c = true then
    SetMovementMode W c c.DefaultWaterMovementMode 0
  else if c.bHasCharacterOwner = false ∨ c.MovementMode ≠ c.DefaultLandMovementMode then
    let c := SetMovementMode W c c.DefaultLandMovementMode 0
    -- Avoid 1-frame delay if trying to walk but walking fails at this location.
    if c.MovementMode = .MOVE_Walking ∧ c.MovementBase = none then
      SetMovementMode W c .MOVE_Falling 0
    else c
  else c

/-- Function `UGravityMovementcomponent::SetPostLandedPhysics`; the closing
`ApplyImpactPhysicsForces` acts on the body that was hit. -/
def SetPostLandedPhysics (W : World F) (c : UGravityMovementcomponent F) (_Hit : FHitResult F) :
    UGravityMovementcomponent F :=
  if c.bHasCharacterOwner then
    if c.bCanEverSwim = true ∧ W.IsInWater c = true then
      SetMovementMode W c .MOVE_Swimming 0
    else if c.DefaultLandMovementMode = .MOVE_Walking ∨
        c.DefaultLandMovementMode = .MOVE_NavWalking ∨
        c.DefaultLandMovementMode = .MOVE_Falling then
      SetMovementMode W c c.GroundMovementMode 0
    else
      SetDefaultMovementMode W c
  else c

/-! ## The velocity solver -/

/-- Engine `FVector::GetClampedToMaxSize`. -/
def GetClampedToMaxSize (Sqrt : F → F) (v : FVector F) (MaxSize : F) : FVector F :=
  if MaxSize < KINDA_SMALL_NUMBER then ZeroVector
  else
    let VSq := SizeSquared v
    if VSq > MaxSize * MaxSize then
      let Scale := MaxSize * (1 / Sqrt VSq)
      ⟨v.X * Scale, v.Y * Scale, v.Z * Scale⟩
    else v

/-- Engine `UMovementComponent::IsExceedingMaxSpeed` (1% tolerance). -/
def IsExceedingMaxSpeed (c : UGravityMovementcomponent F) (MaxSpeed : F) : Bool :=
  let MaxSpeed := max 0 MaxSpeed
  let MaxSpeedSquared := MaxSpeed * MaxSpeed
  let OverVelocityPercent : F := 101 / 100
  decide (SizeSquared c.Velocity > MaxSpeedSquared * OverVelocityPercent)

/-- Engine `UCharacterMovementComponent::ApplyVelocityBraking`: nothing is done to a zero
velocity, without valid data, under animation root motion or for a time step below
`MIN_TICK_TIME`; otherwise the velocity is braked by `World.BrakedVelocity`. -/
def ApplyVelocityBraking (W : World F) (c : UGravityMovementcomponent F)
    (DeltaTime Friction BrakingDeceleration : F) : UGravityMovementcomponent F :=
  if IsZero c.Velocity = true ∨ c.bHasCharacterOwner = false ∨ W.HasAnimRootMotion c = true ∨
      DeltaTime < MIN_TICK_TIME then c
  else c.setVelocity (W.BrakedVelocity c.Velocity DeltaTime Friction BrakingDeceleration)

/-- Engine `UCharacterMovementComponent::ApplyRequestedMove`: its result, `OutAcceleration`,
`OutRequestedSpeed`, and the component with the velocity it leaves.  Without a requested
velocity it returns false and writes nothing. -/
def ApplyRequestedMove (W : World F) (c : UGravityMovementcomponent F)
    (DeltaTime MaxAccel MaxSpeed Friction BrakingDeceleration : F) :
    Bool × FVector F × F × UGravityMovementcomponent F :=
  if c.bHasRequestedVelocity then
    let r := W.RequestedMove c DeltaTime MaxAccel MaxSpeed Friction BrakingDeceleration
    if r.1 then (true, r.2.1, r.2.2.1, c.setVelocity r.2.2.2) else (false, ZeroVector, 0, c)
  else (false, ZeroVector, 0, c)

/-- Lines 609-623 of `CalcVelocity`: `bForceMaxAccel` forces the acceleration to full size. -/
def CalcVelocity_ForceMaxAccel (Sqrt : F → F) (W : World F) (c : UGravityMovementcomponent F)
    (MaxAccel : F) : UGravityMovementcomponent F :=
  if c.bForceMaxAccel then
    -- Force acceleration at full speed.
    -- In consideration order for direction: Acceleration, then Velocity, then Pawn's rotation.
    if SizeSquared c.Acceleration > SMALL_NUMBER then
      (c.setAcceleration (scale (GetSafeNormal Sqrt c.Acceleration) MaxAccel)).setAnalogInputModifier 1
    else
      (c.setAcceleration (scale
        (if SizeSquared c.Velocity < SMALL_NUMBER then W.GetForwardVector c
         else GetSafeNormal Sqrt c.Velocity) MaxAccel)).setAnalogInputModifier 1
  else c

/-- Lines 630-654 of `CalcVelocity`: braking, or the turn of the velocity towards the
acceleration. -/
def CalcVelocity_Brake (Sqrt : F → F) (W : World F) (c : UGravityMovementcomponent F)
    (DeltaTime Friction BrakingDeceleration MaxSpeed : F) (bZeroRequestedAcceleration : Bool) :
    UGravityMovementcomponent F :=
  let bZeroAcceleration := IsZero c.Acceleration
  let bVelocityOverMax := IsExceedingMaxSpeed c MaxSpeed
  -- Only apply braking if there is no acceleration, or we are over our max speed and need to
  -- slow down to it.
  if (bZeroAcceleration && bZeroRequestedAcceleration) || bVelocityOverMax then
    let OldVelocity := c.Velocity
    let ActualBrakingFriction :=
      if c.bUseSeparateBrakingFriction then c.BrakingFriction else Friction
    let cb := ApplyVelocityBraking W c DeltaTime ActualBrakingFriction BrakingDeceleration
    -- Don't allow braking to lower us below max speed if we started above it.
    if bVelocityOverMax = true ∧ SizeSquared cb.Velocity < MaxSpeed * MaxSpeed ∧
        DotProduct cb.Acceleration OldVelocity > 0 then
      cb.setVelocity (scale (GetSafeNormal Sqrt OldVelocity) MaxSpeed)
    else cb
  else if bZeroAcceleration = false then
    -- Friction affects our ability to change direction.
    let AccelDir := GetSafeNormal Sqrt c.Acceleration
    let VelSize := Size Sqrt c.Velocity
    c.setVelocity (sub c.Velocity
      (scale (sub c.Velocity (scale AccelDir VelSize)) (min (DeltaTime * Friction) 1)))
  else c

/-- Lines 656-668 of `CalcVelocity`: fluid friction, then the input acceleration
(`bZeroAcceleration` is computed at line 631; nothing writes `Acceleration` after it). -/
def CalcVelocity_Accelerate (Sqrt : F → F) (c : UGravityMovementcomponent F)
    (DeltaTime Friction : F) (bFluid : Bool) (MaxInputSpeed : F) :
    UGravityMovementcomponent F :=
  let bZeroAcceleration := IsZero c.Acceleration
  -- Apply fluid friction
  let cf := if bFluid then c.setVelocity (scale c.Velocity (1 - min (Friction * DeltaTime) 1))
            else c
  -- Apply input acceleration
  if bZeroAcceleration = false then
    let NewMaxInputSpeed :=
      if IsExceedingMaxSpeed cf MaxInputSpeed then Size Sqrt cf.Velocity else MaxInputSpeed
    cf.setVelocity (GetClampedToMaxSize Sqrt (add cf.Velocity (scale cf.Acceleration DeltaTime))
      NewMaxInputSpeed)
  else cf

/-- Lines 670-676 of `CalcVelocity`: the acceleration path following asked for. -/
def CalcVelocity_Requested (Sqrt : F → F) (c : UGravityMovementcomponent F) (DeltaTime : F)
    (bZeroRequestedAcceleration : Bool) (RequestedAcceleration : FVector F)
    (RequestedSpeed : F) : UGravityMovementcomponent F :=
  if bZeroRequestedAcceleration = false then
    let NewMaxRequestedSpeed :=
      if IsExceedingMaxSpeed c RequestedSpeed then Size Sqrt c.Velocity else RequestedSpeed
    c.setVelocity (GetClampedToMaxSize Sqrt
      (add c.Velocity (scale RequestedAcceleration DeltaTime)) NewMaxRequestedSpeed)
  else c

/-- Function `UGravityMovementcomponent::CalcVelocity`. -/
def CalcVelocity (Sqrt : F → F) (W : World F) (c : UGravityMovementcomponent F)
    (DeltaTime Friction : F) (bFluid : Bool) (BrakingDeceleration : F) :
    UGravityMovementcomponent F :=
  if c.bHasCharacterOwner = false ∨ W.HasAnimRootMotion c = true ∨ DeltaTime < MIN_TICK_TIME ∨
      (c.bHasCharacterOwner = true ∧ c.LocalRole = .ROLE_SimulatedProxy ∧
        c.bWasSimulatingRootMotion = false) then c
  else
    let Friction := max 0 Friction
    let MaxAccel := c.MaxAcceleration
    let MaxSpeed0 := W.GetMaxSpeed c
    -- Check if path following requested movement
    let rq := ApplyRequestedMove W c DeltaTime MaxAccel MaxSpeed0 Friction BrakingDeceleration
    let bZeroRequestedAcceleration := !rq.1
    let RequestedAcceleration := rq.2.1
    let RequestedSpeed := rq.2.2.1
    let c1 := CalcVelocity_ForceMaxAccel Sqrt W rq.2.2.2 MaxAccel
    -- Use max of requested speed and max speed if we modified the speed in
    -- ApplyRequestedMove above.
    let MaxInputSpeed := max (MaxSpeed0 * c1.AnalogInputModifier) (W.GetMinAnalogSpeed c1)
    let MaxSpeed := max RequestedSpeed MaxInputSpeed
    let c2 := CalcVelocity_Brake Sqrt W c1 DeltaTime Friction BrakingDeceleration MaxSpeed
      bZeroRequestedAcceleration
    let c3 := CalcVelocity_Accelerate Sqrt c2 DeltaTime Friction bFluid MaxInputSpeed
    let c4 := CalcVelocity_Requested Sqrt c3 DeltaTime bZeroRequestedAcceleration
      RequestedAcceleration RequestedSpeed
    if c4.bUseRVOAvoidance then W.CalcAvoidanceVelocity c4 DeltaTime else c4

/-! ## Falling : the functions `PhysFalling` calls -/

/-- Engine `UCharacterMovementComponent::GetSimulationTimeStep`. -/
def GetSimulationTimeStep (c : UGravityMovementcomponent F) (RemainingTime : F)
    (Iterations : Int) : F :=
  let RemainingTime :=
    if RemainingTime > c.MaxSimulationTimeStep ∧ Iterations < c.MaxSimulationIterations then
      -- Subdivide moves to be no longer than MaxSimulationTimeStep seconds
      min c.MaxSimulationTimeStep (RemainingTime * (1 / 2))
    else RemainingTime
  -- no less than MIN_TICK_TIME (to avoid potential divide-by-zero during simulation).
  max MIN_TICK_TIME RemainingTime

/-- Engine `UCharacterMovementComponent::NewFallVelocity`. -/
def NewFallVelocity (Sqrt : F → F) (c : UGravityMovementcomponent F)
    (InitialVelocity Gravity : FVector F) (DeltaTime : F) : FVector F :=
  if DeltaTime > 0 then
    -- Apply gravity.
    let Result := add InitialVelocity (scale Gravity DeltaTime)
    -- Don't exceed terminal velocity.
    let TerminalLimit := |c.TerminalVelocity|
    if SizeSquared Result > TerminalLimit * TerminalLimit then
      let GravityDir := GetSafeNormal Sqrt Gravity
      if DotProduct Result GravityDir > TerminalLimit then
        add (sub Result (scale GravityDir (DotProduct Result GravityDir)))
          (scale GravityDir TerminalLimit)
      else Result
    else Result
  else InitialVelocity

/-- Function `UGravityMovementcomponent::BoostAirControl`. -/
def BoostAirControl (c : UGravityMovementcomponent F) (TickAirControl : F) : F :=
  -- Allow a burst of initial acceleration
  if c.AirControlBoostMultiplier > 0 ∧
      DotProduct c.Velocity c.GravityDirection * DotProduct c.Velocity c.GravityDirection <
        c.AirControlBoostVelocityThreshold * c.AirControlBoostVelocityThreshold then
    min 1 (c.AirControlBoostMultiplier * TickAirControl)
  else TickAirControl

/-- Engine `UCharacterMovementComponent::GetAirControl`. -/
def GetAirControl (c : UGravityMovementcomponent F) (TickAirControl : F)
    (FallAcceleration : FVector F) : FVector F :=
  let TickAirControl :=
    if TickAirControl ≠ 0 then BoostAirControl c TickAirControl else TickAirControl
  scale FallAcceleration TickAirControl

/-- Function `UGravityMovementcomponent::GetFallingLateralAcceleration`. -/
def GetFallingLateralAcceleration (Sqrt : F → F) (W : World F)
    (c : UGravityMovementcomponent F) : FVector F :=
  let FallAcceleration := c.Acceleration
  -- bound acceleration, falling object has minimal ability to impact acceleration
  if W.HasAnimRootMotion c = false ∧
      DotProduct c.Velocity c.GravityDirection * DotProduct c.Velocity c.GravityDirection > 0 then
    GetClampedToMaxSize Sqrt (GetAirControl c c.AirControl FallAcceleration) c.MaxAcceleration
  else FallAcceleration

/-- Function `UGravityMovementcomponent::ShouldLimitAirControl`. -/
def ShouldLimitAirControl (c : UGravityMovementcomponent F) : Bool :=
  decide (DotProduct c.Velocity c.GravityDirection * DotProduct c.Velocity c.GravityDirection > 0)

/-- Function `UGravityMovementcomponent::IsValidLandingSpot`: its result, and the component
with the value `FindFloor` leaves in `bForceNextFloorCheck`. -/
def IsValidLandingSpot (Sqrt : F → F) (W : World F) (c : UGravityMovementcomponent F)
    (CapsuleLocation : FVector F) (Hit : FHitResult F) : Bool × UGravityMovementcomponent F :=
  if Hit.bBlockingHit = false then (false, c)
  else
    -- Skip some checks if penetrating.
    let bRejected : Bool :=
      if Hit.bStartPenetrating = false then
        -- Reject unwalkable floor normals.
        if IsWalkable c Hit = false then true
        else
          -- Reject hits that are above our lower hemisphere
          let LowerHemisphereZ :=
            DotProduct Hit.Location (neg c.GravityDirection) - c.PawnHalfHeight + c.PawnRadius
          if DotProduct Hit.ImpactPoint (neg c.GravityDirection) ≥ LowerHemisphereZ then true
          -- Reject hits that are barely on the cusp of the radius of the capsule
          else if IsWithinEdgeTolerance Sqrt c Hit.Location Hit.ImpactPoint c.PawnRadius = false
          then true
          else false
      else
        -- Penetrating
        let HitNormalZ := DotProduct Hit.Normal (neg c.GravityDirection)
        decide (HitNormalZ < KINDA_SMALL_NUMBER)
    if bRejected then (false, c)
    else
      let ff := W.FindFloor c CapsuleLocation false (some Hit)
      if ff.1.IsWalkableFloor = false then (false, c.setForceNextFloorCheck ff.2)
      else (true, c.setForceNextFloorCheck ff.2)

/-- Function `UGravityMovementcomponent::ShouldCheckForValidLandingSpot`. -/
def ShouldCheckForValidLandingSpot (Sqrt : F → F) (c : UGravityMovementcomponent F)
    (Hit : FHitResult F) : Bool :=
  let HitNormalZ := DotProduct Hit.Normal (neg c.GravityDirection)
  if HitNormalZ > KINDA_SMALL_NUMBER ∧
      Equals Hit.Normal Hit.ImpactNormal KINDA_SMALL_NUMBER = false then
    let PawnLocation := c.Location
    if IsWithinEdgeTolerance Sqrt c PawnLocation Hit.ImpactPoint c.PawnRadius then true
    else false
  else false

/-- Engine `UKismetMathLibrary::ProjectVectorOnToPlane` (`FVector::VectorPlaneProject`). -/
def ProjectVectorOnToPlane (V PlaneNormal : FVector F) : FVector F :=
  sub V (scale PlaneNormal (DotProduct V PlaneNormal))

/-- Function `UGravityMovementcomponent::TwoWallAdjust`: the value it leaves in `Delta`. -/
def TwoWallAdjust (W : World F) (c : UGravityMovementcomponent F) (Delta : FVector F)
    (Hit : FHitResult F) (OldHitNormal : FVector F) : FVector F :=
  let Delta := W.TwoWallAdjustBase c Delta Hit OldHitNormal
  if IsMovingOnGround c then
    -- Allow slides up walkable surfaces, but not unwalkable ones.
    let DeltaZ := DotProduct Delta (neg c.GravityDirection)
    if DeltaZ > 0 then ProjectVectorOnToPlane Delta c.GravityDirection
    else if DeltaZ < 0 then
      -- Don't push down into the floor.
      if c.CurrentFloor.FloorDist < MIN_FLOOR_DIST ∧ c.CurrentFloor.bBlockingHit = true then
        ProjectVectorOnToPlane Delta c.GravityDirection
      else Delta
    else Delta
  else Delta

/-- Engine `UCharacterMovementComponent::ProcessLanded`, up to its call of
`StartNewPhysics`: the landing is notified and a component still falling gets its
post-landed physics (after the ground mode is put back to walking when nav walking has no
navigation floor under the feet). -/
def ProcessLanded_SetMode (W : World F) (c : UGravityMovementcomponent F)
    (Hit : FHitResult F) : UGravityMovementcomponent F :=
  let c := W.Landed c Hit
  if IsFalling c then
    let c :=
      if c.GroundMovementMode = .MOVE_NavWalking then
        let nf := FindNavFloor W.NavData c (W.GetActorFeetLocation c)
        if nf.1 = false ∨ nf.2.NodeRef = none then c.setGroundMovementMode .MOVE_Walking
        else c
      else c
    SetPostLandedPhysics W c Hit
  else c

/-- Engine `UCharacterMovementComponent::ProcessLanded`: after `ProcessLanded_SetMode` the
physics of the new mode runs for the remaining time. -/
def ProcessLanded (W : World F) (c : UGravityMovementcomponent F) (Hit : FHitResult F)
    (remainingTime : F) (Iterations : Int) : UGravityMovementcomponent F :=
  W.StartNewPhysics (ProcessLanded_SetMode W c Hit) remainingTime Iterations

/-! ## Falling : one iteration of `PhysFalling` -/

/-- How one iteration of the loop of `PhysFalling` ends: the loop goes on with the given
remaining time and iteration count; the function returns; it returns through
`ProcessLanded(Hit, remainingTime, Iterations)`; it returns through `StartSwimming`. -/
inductive FallingStep (F : Type) where
  | continueLoop (c : UGravityMovementcomponent F) (remainingTime : F) (Iterations : Int)
  | returned (c : UGravityMovementcomponent F)
  | processLanded (c : UGravityMovementcomponent F) (Hit : FHitResult F) (remainingTime : F)
      (Iterations : Int)
  | startSwimming (c : UGravityMovementcomponent F) (OldLocation OldVelocity : FVector F)
      (timeTick remainingTime : F) (Iterations : Int)

/-- The local variables of an iteration of `PhysFalling` that its collision handling reads. -/
structure FallingLocals (F : Type) where
  timeTick : F
  remainingTime : F
  Iterations : Int
  OldLocation : FVector F
  OldVelocity : FVector F
  Gravity : FVector F
  GravityTime : F
  MaxDecel : F
  bHasLimitedAirControl : Bool

/-- Lines 2221-2270 of `PhysFalling`, after the velocity has been recomputed from the delta
adjusted to the second wall: the ditch test on the two impact normals, the move along
`Delta`, the side step when stuck, and the landing or the perch nudge.  `Hit` is the hit of
the second wall, `OldHitNormal` and `OldHitImpactNormal` those of the first. -/
def PhysFalling_Ditch (Sqrt : F → F) (W : World F) (c : UGravityMovementcomponent F)
    (L : FallingLocals F) (Delta OldHitNormal OldHitImpactNormal : FVector F)
    (Hit : FHitResult F) : FallingStep F :=
  -- bDitch=true means that pawn is straddling two slopes, neither of which he can stand on
  let OldHitImpactNormalZ := DotProduct OldHitImpactNormal (neg c.GravityDirection)
  let HitImpactNormalZ := DotProduct Hit.ImpactNormal (neg c.GravityDirection)
  let DeltaZ := DotProduct Delta (neg c.GravityDirection)
  let bDitch : Bool :=
    decide (OldHitImpactNormalZ > 0) && decide (HitImpactNormalZ > 0) &&
    decide (|DeltaZ| ≤ KINDA_SMALL_NUMBER) &&
    decide (DotProduct Hit.ImpactNormal OldHitImpactNormal < 0)
  let m := SafeMoveUpdatedComponent W c.Location Delta
  let c := c.setLocation m.1
  let Hit := m.2
  let ms :=
    if Hit.Time = 0 then
      -- if we are stuck then try to side step
      let SideDelta := CrossProduct (add OldHitNormal Hit.ImpactNormal) (neg c.GravityDirection)
      let SideDelta :=
        if IsNearlyZero SideDelta KINDA_SMALL_NUMBER then
          CrossProduct OldHitNormal (neg c.GravityDirection)
        else SideDelta
      SafeMoveUpdatedComponent W c.Location SideDelta
    else (c.Location, Hit)
  let c := c.setLocation ms.1
  let Hit := ms.2
  if bDitch then .processLanded c Hit 0 L.Iterations
  else
    let v := IsValidLandingSpot Sqrt W c c.Location Hit
    let c := v.2
    if v.1 = true ∨ Hit.Time = 0 then .processLanded c Hit 0 L.Iterations
    else if max 0 c.PerchRadiusThreshold > 0 ∧ Hit.Time = 1 ∧
        DotProduct OldHitImpactNormal (neg c.GravityDirection) ≥ c.WalkableFloorZ then
      -- We might be in a virtual 'ditch' within our perch radius. This is rare.
      let PawnLocation := c.Location
      let ZMovedDist := |DotProduct PawnLocation (neg c.GravityDirection) -
        DotProduct L.OldLocation (neg c.GravityDirection)|
      let LocationVec := sub PawnLocation L.OldLocation
      let XVal := DotProduct LocationVec c.AxisX
      let YVal := DotProduct LocationVec c.AxisY
      let MovedDist2DSq := XVal * XVal + YVal * YVal
      if ZMovedDist ≤ 2 / 10 * L.timeTick ∧ MovedDist2DSq ≤ 4 * L.timeTick then
        let c := c.setVelocity (add c.Velocity (scale W.RandomDirection (1 / 4 * W.GetMaxSpeed c)))
        let Delta := scale c.Velocity L.timeTick
        let m := SafeMoveUpdatedComponent W c.Location Delta
        .continueLoop (c.setLocation m.1) L.remainingTime L.Iterations
      else .continueLoop c L.remainingTime L.Iterations
    else .continueLoop c L.remainingTime L.Iterations

/-- Lines 2169-2270 of `PhysFalling`: the deflected move hit a second wall (`Hit`). -/
def PhysFalling_SecondWall (Sqrt : F → F) (W : World F) (c : UGravityMovementcomponent F)
    (L : FallingLocals F) (Delta OldHitNormal OldHitImpactNormal VelocityNoAirControl
    AirControlAccel : FVector F) (subTimeTickRemaining : F) (Hit : FHitResult F) :
    FallingStep F :=
  let LastMoveTimeSlice := subTimeTickRemaining
  let subTimeTickRemaining := subTimeTickRemaining * (1 - Hit.Time)
  let v := IsValidLandingSpot Sqrt W c c.Location Hit
  if v.1 then .processLanded v.2 Hit (L.remainingTime + subTimeTickRemaining) L.Iterations
  else
    let c := HandleImpact W v.2 Hit
    -- If we've changed physics mode, abort.
    if c.bHasCharacterOwner = false ∨ IsFalling c = false then .returned c
    else
      -- Act as if there was no air control on the last move when computing new deflection.
      let HitNormalZ := DotProduct Hit.Normal (neg c.GravityDirection)
      let Delta :=
        if L.bHasLimitedAirControl = true ∧ HitNormalZ > VERTICAL_SLOPE_NORMAL_Z then
          W.ComputeSlideVector c (scale VelocityNoAirControl LastMoveTimeSlice) 1 OldHitNormal Hit
        else Delta
      let Delta := TwoWallAdjust W c Delta Hit OldHitNormal
      -- Limit air control, but allow a slide along the second wall.
      let Delta :=
        if L.bHasLimitedAirControl then
          let AirControlDeltaV := scale
            (W.LimitAirControl c subTimeTickRemaining AirControlAccel Hit false)
            subTimeTickRemaining
          -- Only allow if not back in to first wall
          if DotProduct AirControlDeltaV OldHitNormal > 0 then
            add Delta (scale AirControlDeltaV subTimeTickRemaining)
          else Delta
        else Delta
      -- Compute velocity after deflection (only gravity component for RootMotion)
      let c :=
        if subTimeTickRemaining > KINDA_SMALL_NUMBER ∧ c.bJustTeleported = false then
          let NewVelocity := div Delta subTimeTickRemaining
          if W.HasAnimRootMotion c = true ∨ W.HasOverrideVelocityWithIgnoreZAccumulate c = true
          then c.setVelocity ⟨c.Velocity.X, c.Velocity.Y, NewVelocity.Z⟩
          else c.setVelocity NewVelocity
        else c
      PhysFalling_Ditch Sqrt W c L Delta OldHitNormal OldHitImpactNormal Hit

/-- Lines 2111-2272 of `PhysFalling`: the hit of the move is not a landing spot; the impact
is handled, the move is deflected along the surface and, when that hits again, handed to
`PhysFalling_SecondWall`.  `Adjusted` is `Velocity * timeTick`. -/
def PhysFalling_Deflect (Sqrt : F → F) (W : World F) (c : UGravityMovementcomponent F)
    (L : FallingLocals F) (Adjusted : FVector F) (subTimeTickRemaining : F)
    (Hit : FHitResult F) : FallingStep F :=
  let LastMoveTimeSlice := L.timeTick
  let c := HandleImpact W c Hit
  -- If we've changed physics mode, abort.
  if c.bHasCharacterOwner = false ∨ IsFalling c = false then .returned c
  else
    -- Limit air control based on what we hit.
    let lim : UGravityMovementcomponent F × FVector F × FVector F × FVector F :=
      if L.bHasLimitedAirControl then
        -- Find velocity *without* acceleration (both guards restore their member).
        let cv := CalcVelocity Sqrt W ((c.setAcceleration ZeroVector).setVelocity L.OldVelocity)
          L.timeTick c.FallingLateralFriction false L.MaxDecel
        let VelocityNoAirControl := NewFallVelocity Sqrt cv cv.Velocity L.Gravity L.GravityTime
        let c := (cv.setVelocity c.Velocity).setAcceleration c.Acceleration
        let AirControlAccel := div (sub c.Velocity VelocityNoAirControl) L.timeTick
        let AirControlDeltaV :=
          scale (W.LimitAirControl c LastMoveTimeSlice AirControlAccel Hit false) LastMoveTimeSlice
        (c, VelocityNoAirControl, AirControlAccel,
          scale (add VelocityNoAirControl AirControlDeltaV) LastMoveTimeSlice)
      else (c, L.OldVelocity, c.Acceleration, Adjusted)
    let c := lim.1
    let VelocityNoAirControl := lim.2.1
    let AirControlAccel := lim.2.2.1
    let Adjusted := lim.2.2.2
    let OldHitNormal := Hit.Normal
    let OldHitImpactNormal := Hit.ImpactNormal
    let Delta := W.ComputeSlideVector c Adjusted (1 - Hit.Time) OldHitNormal Hit
    -- Compute velocity after deflection (only gravity component for RootMotion)
    let bSimulatedBase : Bool :=
      match Hit.Component with
      | some HitComponent => HitComponent.bIsSimulatedBase
      | none => false
    let c :=
      if IsNearlyZero c.Velocity KINDA_SMALL_NUMBER = false ∧ bSimulatedBase = true then
        let ContactVelocity := W.ContactVelocity Hit
        c.setVelocity (sub c.Velocity
          (scale Hit.ImpactNormal (DotProduct (sub c.Velocity ContactVelocity) Hit.ImpactNormal)))
      else if subTimeTickRemaining > KINDA_SMALL_NUMBER ∧ c.bJustTeleported = false then
        c.setVelocity (div Delta subTimeTickRemaining)
      else c
    if subTimeTickRemaining > KINDA_SMALL_NUMBER ∧ DotProduct Delta Adjusted > 0 then
      -- Move in deflected direction.
      let m := SafeMoveUpdatedComponent W c.Location Delta
      let c := c.setLocation m.1
      if m.2.bBlockingHit then
        -- hit second wall
        PhysFalling_SecondWall Sqrt W c L Delta OldHitNormal OldHitImpactNormal
          VelocityNoAirControl AirControlAccel subTimeTickRemaining m.2
      else .continueLoop c L.remainingTime L.Iterations
    else .continueLoop c L.remainingTime L.Iterations

/-- Lines 2074-2273 of `PhysFalling`: what the iteration does with the hit of its move. -/
def PhysFalling_AfterMove (Sqrt : F → F) (W : World F) (c : UGravityMovementcomponent F)
    (L : FallingLocals F) (Hit : FHitResult F) : FallingStep F :=
  let subTimeTickRemaining := L.timeTick * (1 - Hit.Time)
  if IsSwimming c then
    -- just entered water
    .startSwimming c L.OldLocation L.OldVelocity L.timeTick
      (L.remainingTime + subTimeTickRemaining) L.Iterations
  else if Hit.bBlockingHit then
    let v := IsValidLandingSpot Sqrt W c c.Location Hit
    let c := v.2
    if v.1 then
      .processLanded c Hit (L.remainingTime + subTimeTickRemaining) L.Iterations
    else
      -- Compute impact deflection based on final velocity, not integration step.
      let Adjusted := scale c.Velocity L.timeTick
      -- See if we can convert a normally invalid landing spot to a usable one.
      if Hit.bStartPenetrating = false ∧ ShouldCheckForValidLandingSpot Sqrt c Hit = true then
        let PawnLocation := c.Location
        let ff := W.FindFloor c PawnLocation false none
        let c := c.setForceNextFloorCheck ff.2
        if ff.1.IsWalkableFloor then
          let v := IsValidLandingSpot Sqrt W c PawnLocation ff.1.HitResult
          let c := v.2
          if v.1 then
            .processLanded c ff.1.HitResult (L.remainingTime + subTimeTickRemaining) L.Iterations
          else PhysFalling_Deflect Sqrt W c L Adjusted subTimeTickRemaining Hit
        else PhysFalling_Deflect Sqrt W c L Adjusted subTimeTickRemaining Hit
      else PhysFalling_Deflect Sqrt W c L Adjusted subTimeTickRemaining Hit
  else .continueLoop c L.remainingTime L.Iterations

/-- What lines 1948-1998 of `PhysFalling` leave: the component with its new velocity, and the
locals `OldVelocityWithRootMotion`, `OldVelocity`, `MaxDecel`, `Gravity`, `GravityTime` and
`bEndingJumpForce`. -/
structure FallingVelocity (F : Type) where
  c : UGravityMovementcomponent F
  OldVelocityWithRootMotion : FVector F
  OldVelocity : FVector F
  MaxDecel : F
  Gravity : FVector F
  GravityTime : F
  bEndingJumpForce : Bool

/-- Lines 1948-1998 of `PhysFalling`: the lateral solver, then gravity over the tick. -/
def PhysFalling_Velocity (Sqrt : F → F) (W : World F) (c : UGravityMovementcomponent F)
    (FallAcceleration : FVector F) (timeTick : F) : FallingVelocity F :=
  let c := c.setJustTeleported false
  let OldVelocityWithRootMotion := c.Velocity
  let c := W.RestorePreAdditiveRootMotionVelocity c
  let OldVelocity := c.Velocity
  -- Apply input
  let MaxDecel := W.GetMaxBrakingDeceleration c
  let c :=
    if W.HasAnimRootMotion c = false ∧ W.HasOverrideVelocity c = false then
      -- Acceleration = FallAcceleration for CalcVelocity(), but we restore it after using it.
      let cv := CalcVelocity Sqrt W (c.setAcceleration FallAcceleration) timeTick
        c.FallingLateralFriction false MaxDecel
      (cv.setVelocity OldVelocity).setAcceleration c.Acceleration
    else c
  -- Compute current gravity
  let Gravity := scale c.GravityDirection (-c.GravityZ)
  -- If jump is providing force, gravity may be affected.
  let j : UGravityMovementcomponent F × F × Bool :=
    if c.JumpForceTimeRemaining > 0 then
      -- Consume some of the force time.
      let JumpForceTime := min c.JumpForceTimeRemaining timeTick
      let GravityTime :=
        if c.bApplyGravityWhileJumping then timeTick else max 0 (timeTick - JumpForceTime)
      -- Update Character state
      let c := c.setJumpForceTimeRemaining (c.JumpForceTimeRemaining - JumpForceTime)
      if c.JumpForceTimeRemaining ≤ 0 then (W.ResetJumpState c, GravityTime, true)
      else (c, GravityTime, false)
    else (c, timeTick, false)
  let c := j.1
  let GravityTime := j.2.1
  let bEndingJumpForce := j.2.2
  -- Apply gravity
  let c := c.setVelocity (NewFallVelocity Sqrt c c.Velocity Gravity GravityTime)
  let c := W.ApplyRootMotionToVelocity c timeTick
  let c := W.DecayFormerBaseVelocity c timeTick
  ⟨c, OldVelocityWithRootMotion, OldVelocity, MaxDecel, Gravity, GravityTime, bEndingJumpForce⟩

/-- What lines 2000-2051 of `PhysFalling` leave: the component, and the locals `timeTick`,
`remainingTime` and `Iterations`, which the apex sub-step rewrites. -/
structure FallingApex (F : Type) where
  c : UGravityMovementcomponent F
  timeTick : F
  remainingTime : F
  Iterations : Int

/-- Lines 2000-2044 of `PhysFalling`: the sub-step to the apex (the time refunded to the
active root motion sources is not part of the model). -/
def PhysFalling_Apex (c : UGravityMovementcomponent F) (OldVelocityWithRootMotion : FVector F)
    (timeTick remainingTime : F) (Iterations : Int) : FallingApex F :=
  let OldVelocityWithRootMotionZ := DotProduct OldVelocityWithRootMotion (neg c.GravityDirection)
  let VelocityZ := DotProduct c.Velocity (neg c.GravityDirection)
  if c.ForceJumpPeakSubstep ≠ 0 ∧ OldVelocityWithRootMotionZ > 0 ∧ VelocityZ ≤ 0 ∧
      c.NumJumpApexAttempts < c.MaxJumpApexAttemptsPerSimulation then
    let DerivedAccel := div (sub c.Velocity OldVelocityWithRootMotion) timeTick
    let DerivedAccelZ := DotProduct DerivedAccel (neg c.GravityDirection)
    if ¬ (|DerivedAccelZ| ≤ SMALL_NUMBER) then
      let TimeToApex := -OldVelocityWithRootMotionZ / DerivedAccelZ
      -- The time-to-apex calculation should be precise, and we want to avoid adding a
      -- substep when we are basically already at the apex from the previous iteration's work.
      let ApexTimeMinimum : F := 1 / 10000
      if TimeToApex ≥ ApexTimeMinimum ∧ TimeToApex < timeTick then
        let ApexVelocity := add OldVelocityWithRootMotion (scale DerivedAccel TimeToApex)
        let c := c.setVelocity ApexVelocity
        -- We only want to move the amount of time it takes to reach the apex, and refund the
        -- unused time for next iteration.
        let TimeToRefund := timeTick - TimeToApex
        ⟨c.setNumJumpApexAttempts (c.NumJumpApexAttempts + 1), TimeToApex,
          remainingTime + TimeToRefund, Iterations - 1⟩
      else ⟨c, timeTick, remainingTime, Iterations⟩
    else ⟨c, timeTick, remainingTime, Iterations⟩
  else ⟨c, timeTick, remainingTime, Iterations⟩

/-- Lines 2046-2051 of `PhysFalling`: the notification of the jump apex. -/
def PhysFalling_NotifyApex (Sqrt : F → F) (W : World F) (c : UGravityMovementcomponent F) :
    UGravityMovementcomponent F :=
  if c.bNotifyApex = true ∧ Size Sqrt c.Velocity < 0 then
    -- Just passed jump apex since now going down
    W.NotifyJumpApex (c.setNotifyApex false)
  else c

/-- Lines 2053-2063 of `PhysFalling`: the change in position, by the midpoint method. -/
def PhysFalling_Adjusted (c : UGravityMovementcomponent F)
    (OldVelocityWithRootMotion : FVector F) (timeTick GravityTime : F)
    (bEndingJumpForce : Bool) : FVector F :=
  -- Special handling if ending the jump force where we didn't apply gravity during the jump.
  if bEndingJumpForce = true ∧ c.bApplyGravityWhileJumping = false then
    -- We had a portion of the time at constant speed then a portion with acceleration due
    -- to gravity.
    let NonGravityTime := max 0 (timeTick - GravityTime)
    add (scale OldVelocityWithRootMotion NonGravityTime)
      (scale (scale (add OldVelocityWithRootMotion c.Velocity) (1 / 2)) GravityTime)
  else
    scale (scale (add OldVelocityWithRootMotion c.Velocity) (1 / 2)) timeTick

/-- One iteration of the loop of `PhysFalling` (lines 1944-2273). -/
def PhysFalling_Iteration (Sqrt : F → F) (W : World F) (c : UGravityMovementcomponent F)
    (FallAcceleration : FVector F) (bHasLimitedAirControl : Bool) (remainingTime : F)
    (Iterations : Int) : FallingStep F :=
  let Iterations := Iterations + 1
  let timeTick := GetSimulationTimeStep c remainingTime Iterations
  let remainingTime := remainingTime - timeTick
  let OldLocation := c.Location
  let v := PhysFalling_Velocity Sqrt W c FallAcceleration timeTick
  let a := PhysFalling_Apex v.c v.OldVelocityWithRootMotion timeTick remainingTime Iterations
  let c := PhysFalling_NotifyApex Sqrt W a.c
  let Adjusted :=
    PhysFalling_Adjusted c v.OldVelocityWithRootMotion a.timeTick v.GravityTime v.bEndingJumpForce
  -- Move
  let m := SafeMoveUpdatedComponent W c.Location Adjusted
  let c := c.setLocation m.1
  if c.bHasCharacterOwner = false then .returned c
  else
    PhysFalling_AfterMove Sqrt W c
      ⟨a.timeTick, a.remainingTime, a.Iterations, OldLocation, v.OldVelocity, v.Gravity,
        v.GravityTime, v.MaxDecel, bHasLimitedAirControl⟩ m.2

/-! ## Falling : the loop -/

/-- The loop of `PhysFalling` (lines 1942-2274), run for at most `fuel` iterations: the
outcome of every iteration it ran, in order, and the component the function leaves (after
`ProcessLanded` or `StartSwimming` when an iteration returned through one of them). -/
def PhysFalling_Loop (Sqrt : F → F) (W : World F) (FallAcceleration : FVector F)
    (bHasLimitedAirControl : Bool) :
    Nat → UGravityMovementcomponent F → F → Int →
      List (FallingStep F) × UGravityMovementcomponent F
  | 0, c, _, _ => ([], c)
  | fuel + 1, c, remainingTime, Iterations =>
    if remainingTime ≥ MIN_TICK_TIME ∧ Iterations < c.MaxSimulationIterations then
      let step := PhysFalling_Iteration Sqrt W c FallAcceleration bHasLimitedAirControl
        remainingTime Iterations
      match step with
      | .continueLoop c1 r i =>
        let rest := PhysFalling_Loop Sqrt W FallAcceleration bHasLimitedAirControl fuel c1 r i
        (step :: rest.1, rest.2)
      | .returned c1 => ([step], c1)
      | .processLanded c1 Hit r i => ([step], ProcessLanded W c1 Hit r i)
      | .startSwimming c1 OldLocation OldVelocity timeTick r i =>
        ([step], W.StartSwimming c1 OldLocation OldVelocity timeTick r i)
    else ([], c)

/-- Function `UGravityMovementcomponent::PhysFalling`, its loop run for at most `fuel`
iterations: the outcomes of the iterations and the component it leaves. -/
def PhysFalling (Sqrt : F → F) (W : World F) (fuel : Nat) (c : UGravityMovementcomponent F)
    (deltaTime : F) (Iterations : Int) :
    List (FallingStep F) × UGravityMovementcomponent F :=
  if deltaTime < MIN_TICK_TIME then ([], c)
  else
    let FallAcceleration := GetFallingLateralAcceleration Sqrt W c
    let bHasLimitedAirControl := ShouldLimitAirControl c
    PhysFalling_Loop Sqrt W FallAcceleration bHasLimitedAirControl fuel c deltaTime Iterations

/-- The component a `FallingStep` carries. -/
def FallingStep.Component : FallingStep F → UGravityMovementcomponent F
  | .continueLoop c _ _ => c
  | .returned c => c
  | .processLanded c _ _ _ => c
  | .startSwimming c _ _ _ _ _ => c

/-! ## Stepping up -/

/-- `FScopedMovementUpdate::RevertMove` in `StepUp`: the updated component is put back where
it was when the scope `ScopedStepUpMovement` was opened. -/
def RevertMove (c : UGravityMovementcomponent F) (OldLocation : FVector F) :
    UGravityMovementcomponent F :=
  c.setLocation OldLocation

/-- What `StepUp` returns: its boolean, the component after the call, and the value written
through `OutStepDownResult` (`none` when nothing is written). -/
structure StepUpResult (F : Type) where
  bResult : Bool
  Component : UGravityMovementcomponent F
  OutStepDownResult : Option (FStepDownResult F)

/-- Lines 1066-1164 of `StepUp`: the step down and the validation of where it lands.
`c` is the component after the forward step, `OldLocation` the location at scope entry. -/
def StepUp_StepDown (Sqrt : F → F) (W : World F) (c : UGravityMovementcomponent F)
    (GravDir Delta OldLocation : FVector F) (OldLocationZ StepTravelDownHeight PawnFloorPointZ
    StepSideZ : F) (bOutStepDownResult : Bool) : StepUpResult F :=
  let m := MoveUpdatedComponent W c.Location (scale GravDir StepTravelDownHeight)
  let c := c.setLocation m.1
  let Hit := m.2
  -- If step down was initially penetrating abort the step up
  if Hit.bStartPenetrating then ⟨false, RevertMove c OldLocation, none⟩
  else if Hit.IsValidBlockingHit then
    let HitImpactPointZ := DotProduct Hit.ImpactPoint (neg c.GravityDirection)
    let DeltaZ := HitImpactPointZ - PawnFloorPointZ
    if DeltaZ > c.MaxStepHeight then ⟨false, RevertMove c OldLocation, none⟩
    else if IsWalkable c Hit = false ∧ DotProduct Delta Hit.ImpactNormal < 0 then
      ⟨false, RevertMove c OldLocation, none⟩
    else if IsWalkable c Hit = false ∧
        DotProduct Hit.Location (neg c.GravityDirection) > OldLocationZ then
      ⟨false, RevertMove c OldLocation, none⟩
    else if IsWithinEdgeTolerance Sqrt c Hit.Location Hit.ImpactPoint c.PawnRadius = false then
      ⟨false, RevertMove c OldLocation, none⟩
    else if DeltaZ > 0 ∧ W.CanStepUp c Hit = false then
      ⟨false, RevertMove c OldLocation, none⟩
    else if bOutStepDownResult then
      let ff := W.FindFloor c c.Location false (some Hit)
      let c := c.setForceNextFloorCheck ff.2
      let HitLocationZ := DotProduct Hit.Location (neg c.GravityDirection)
      if HitLocationZ > OldLocationZ ∧ ff.1.bBlockingHit = false ∧ StepSideZ < MAX_STEP_SIDE_Z then
        ⟨false, RevertMove c OldLocation, none⟩
      else
        ⟨true,
         c.setJustTeleported (c.bJustTeleported || !c.bMaintainHorizontalGroundVelocity),
         some { bComputedFloor := true, FloorResult := ff.1 }⟩
    else
      ⟨true,
       c.setJustTeleported (c.bJustTeleported || !c.bMaintainHorizontalGroundVelocity),
       none⟩
  else
    ⟨true,
     c.setJustTeleported (c.bJustTeleported || !c.bMaintainHorizontalGroundVelocity),
     if bOutStepDownResult then some FStepDownResult.init else none⟩

/-- Lines 1019-1164 of `StepUp`: the forward step, the handling of what it hits, and then
the step down.  `c` is the component after the step up. -/
def StepUp_StepForward (Sqrt : F → F) (W : World F) (c : UGravityMovementcomponent F)
    (GravDir Delta OldLocation : FVector F) (SweepUpHit : FHitResult F)
    (OldLocationZ StepTravelDownHeight PawnFloorPointZ StepSideZ : F)
    (bOutStepDownResult : Bool) : StepUpResult F :=
  let m := MoveUpdatedComponent W c.Location Delta
  let c := c.setLocation m.1
  let Hit := m.2
  if Hit.bBlockingHit then
    if Hit.bStartPenetrating then ⟨false, RevertMove c OldLocation, none⟩
    else
      let c := if SweepUpHit.bBlockingHit && Hit.bBlockingHit then HandleImpact W c SweepUpHit
               else c
      -- pawn ran into a wall
      let c := HandleImpact W c Hit
      if IsFalling c then ⟨true, c, none⟩
      else
        -- adjust and try again
        let ForwardHitTime := Hit.Time
        let sl := W.SlideAlongSurface c Delta (1 - Hit.Time) Hit.Normal Hit true
        let c := sl.1
        let ForwardSlideAmount := sl.2.2
        if IsFalling c then ⟨false, RevertMove c OldLocation, none⟩
        else if ForwardHitTime = 0 ∧ ForwardSlideAmount = 0 then
          ⟨false, RevertMove c OldLocation, none⟩
        else
          StepUp_StepDown Sqrt W c GravDir Delta OldLocation OldLocationZ StepTravelDownHeight
            PawnFloorPointZ StepSideZ bOutStepDownResult
  else
    StepUp_StepDown Sqrt W c GravDir Delta OldLocation OldLocationZ StepTravelDownHeight
      PawnFloorPointZ StepSideZ bOutStepDownResult

/-- Function `UGravityMovementcomponent::StepUp`; `bOutStepDownResult` says whether the
pointer `OutStepDownResult` is not null. -/
def StepUp (Sqrt : F → F) (W : World F) (c : UGravityMovementcomponent F)
    (GravDir Delta : FVector F) (InHit : FHitResult F) (bOutStepDownResult : Bool) :
    StepUpResult F :=
  if W.CanStepUp c InHit = false ∨ c.MaxStepHeight ≤ 0 then ⟨false, c, none⟩
  else
    let OldLocation := c.Location
    let PawnRadius := c.PawnRadius
    let PawnHalfHeight := c.PawnHalfHeight
    -- Don't bother stepping up if top of capsule is hitting something.
    let InHitImpactPointZ := DotProduct InHit.ImpactPoint (neg c.GravityDirection)
    let OldLocationZ := DotProduct OldLocation (neg c.GravityDirection)
    let InitialImpactZ := InHitImpactPointZ
    if InitialImpactZ > OldLocationZ + (PawnHalfHeight - PawnRadius) then ⟨false, c, none⟩
    else if IsZero GravDir then ⟨false, c, none⟩
    else
      let StepSideZ := -1 * DotProduct InHit.ImpactNormal (neg GravDir)
      let bOnFloor := IsMovingOnGround c && c.CurrentFloor.IsWalkableFloor
      -- Since we float a variable amount off the floor, we need to enforce max step height
      -- off the actual point of impact with the floor.
      let FloorDist := max 0 c.CurrentFloor.GetDistanceToFloor
      let PawnInitialFloorBaseZ :=
        if bOnFloor then OldLocationZ - PawnHalfHeight - FloorDist
        else OldLocationZ - PawnHalfHeight
      let StepTravelUpHeight :=
        if bOnFloor then max (c.MaxStepHeight - FloorDist) 0 else c.MaxStepHeight
      let StepTravelDownHeight :=
        if bOnFloor then c.MaxStepHeight + MAX_FLOOR_DIST * 2 else c.MaxStepHeight
      let bHitVerticalFace :=
        !IsWithinEdgeTolerance Sqrt c InHit.Location InHit.ImpactPoint PawnRadius
      let PawnFloorPointZ :=
        if bOnFloor then
          if !c.CurrentFloor.bLineTrace && !bHitVerticalFace then
            DotProduct c.CurrentFloor.HitResult.ImpactPoint (neg GravDir)
          else OldLocationZ - PawnHalfHeight - c.CurrentFloor.FloorDist
        else OldLocationZ - PawnHalfHeight
      -- Don't step up if the impact is below us, accounting for distance from floor.
      if InitialImpactZ ≤ PawnInitialFloorBaseZ then ⟨false, c, none⟩
      else
        -- step up - treat as vertical wall
        let m := MoveUpdatedComponent W c.Location (scale (neg GravDir) StepTravelUpHeight)
        let c := c.setLocation m.1
        let SweepUpHit := m.2
        if SweepUpHit.bStartPenetrating then ⟨false, RevertMove c OldLocation, none⟩
        else
          StepUp_StepForward Sqrt W c GravDir Delta OldLocation SweepUpHit OldLocationZ
            StepTravelDownHeight PawnFloorPointZ StepSideZ bOutStepDownResult

/-! ## Walking : the functions `PhysWalking` calls -/

/-- Function `UGravityMovementcomponent::MaintainHorizontalGroundVelocity`: its body is
empty. -/
def MaintainHorizontalGroundVelocity (c : UGravityMovementcomponent F) :
    UGravityMovementcomponent F := c

/-- Engine `UCharacterMovementComponent::ShouldCatchAir`, which the component does not
override. -/
def ShouldCatchAir (_OldFloor _NewFloor : FFindFloorResult F) : Bool := false

/-- Engine `UCharacterMovementComponent::OnCharacterStuckInGeometry` (its logging apart). -/
def OnCharacterStuckInGeometry (c : UGravityMovementcomponent F) :
    UGravityMovementcomponent F :=
  -- Don't update velocity based on our (failed) change in position this update
  c.setJustTeleported true

/-- Engine `UCharacterMovementComponent::RevertMove(OldLocation, OldBase,
PreviousBaseLocation, OldFloor, bFailMove)`. -/
def CharacterRevertMove (W : World F) (c : UGravityMovementcomponent F)
    (OldLocation : FVector F) (OldBase : Option (UPrimitiveComponent F))
    (OldFloor : FFindFloorResult F) (bFailMove : Bool) : UGravityMovementcomponent F :=
  let c := (c.setLocation OldLocation).setJustTeleported false
  -- if our previous base couldn't have moved or changed in any physics-affecting way,
  -- restore it
  let c :=
    if OldBase.isSome = true ∧ OldBase.all W.CanRestoreBase = true then
      (c.setCurrentFloor OldFloor).setMovementBase OldBase
    else c.setMovementBase none
  if bFailMove then
    -- end movement now
    (c.setVelocity ZeroVector).setAcceleration ZeroVector
  else c

/-- Function `UGravityMovementcomponent::StartFalling`. -/
def StartFalling (Sqrt : F → F) (W : World F) (c : UGravityMovementcomponent F)
    (Iterations : Int) (remainingTime timeTick : F) (Delta subLoc : FVector F) :
    UGravityMovementcomponent F :=
  -- start falling
  let DesiredDist := Size Sqrt Delta
  let LocationVec := sub c.Location subLoc
  let XVal := DotProduct LocationVec c.AxisX
  let YVal := DotProduct LocationVec c.AxisY
  let ActualDist := Sqrt (XVal * XVal + YVal * YVal)
  let remainingTime :=
    if DesiredDist < KINDA_SMALL_NUMBER then 0
    else remainingTime + timeTick * (1 - min 1 (ActualDist / DesiredDist))
  let c :=
    if IsMovingOnGround c then
      if W.bDelayFallingInEditor = false then
        -- default behavior if script didn't change physics
        SetMovementMode W c .MOVE_Falling 0
      else
        -- Make sure that the floor check code continues processing during this delay.
        c.setForceNextFloorCheck true
    else c
  W.StartNewPhysics c remainingTime Iterations

/-- Lines 745-775 of `MoveAlongFloor`: what is done with a hit that still blocks, the step
up over a barrier or the slide along it.  The result is the component and what was written
through `OutStepDownResult` (`none` when nothing was). -/
def MoveAlongFloor_Barrier (Sqrt : F → F) (W : World F) (c : UGravityMovementcomponent F)
    (Delta : FVector F) (DeltaSeconds PercentTimeApplied : F) (Hit : FHitResult F) :
    UGravityMovementcomponent F × Option (FStepDownResult F) :=
  if Hit.IsValidBlockingHit then
    if W.CanStepUp c Hit = true ∨
        (c.MovementBase.isSome = true ∧ W.HitIsMovementBaseOwner c Hit = true) then
      -- hit a barrier, try to step up
      let GravDir := c.GravityDirection
      let s := StepUp Sqrt W c GravDir (scale Delta (1 - PercentTimeApplied)) Hit true
      if s.bResult = false then
        let c := HandleImpact W s.Component Hit
        ((W.SlideAlongSurface c Delta (1 - PercentTimeApplied) Hit.Normal Hit true).1,
          s.OutStepDownResult)
      else
        let c := s.Component
        if c.bMaintainHorizontalGroundVelocity = false then
          -- Don't recalculate velocity based on this height adjustment, if considering
          -- vertical adjustments. Only consider horizontal movement.
          let c := c.setJustTeleported true
          let StepUpTimeSlice := (1 - PercentTimeApplied) * DeltaSeconds
          if W.HasAnimRootMotion c = false ∧ W.HasOverrideVelocity c = false ∧
              StepUpTimeSlice ≥ KINDA_SMALL_NUMBER then
            (c.setVelocity (div (sub c.Location c.PreStepUpLocation) StepUpTimeSlice),
              s.OutStepDownResult)
          else (c, s.OutStepDownResult)
        else (c, s.OutStepDownResult)
    else if W.RefusesStepUp Hit then
      let c := HandleImpact W c Hit
      ((W.SlideAlongSurface c Delta (1 - PercentTimeApplied) Hit.Normal Hit true).1, none)
    else (c, none)
  else (c, none)

/-- Function `UGravityMovementcomponent::MoveAlongFloor`: the component it leaves and what
it wrote through `OutStepDownResult` (`none` when nothing was written). -/
def MoveAlongFloor (Sqrt : F → F) (W : World F) (c : UGravityMovementcomponent F)
    (InVelocity : FVector F) (DeltaSeconds : F) :
    UGravityMovementcomponent F × Option (FStepDownResult F) :=
  if c.CurrentFloor.IsWalkableFloor = false then (c, none)
  else
    -- Move along the current floor
    let Delta := scale InVelocity DeltaSeconds
    let RampVector :=
      ComputeGroundMovementDelta Sqrt c Delta c.CurrentFloor.HitResult c.CurrentFloor.bLineTrace
    let m := SafeMoveUpdatedComponent W c.Location RampVector
    let c := c.setLocation m.1
    let Hit := m.2
    if Hit.bStartPenetrating then
      -- Allow this hit to be used as an impact we can deflect off
      let c := HandleImpact W c Hit
      let s := W.SlideAlongSurface c Delta 1 Hit.Normal Hit true
      if s.2.1.bStartPenetrating then (OnCharacterStuckInGeometry s.1, none) else (s.1, none)
    else if Hit.IsValidBlockingHit then
      -- We impacted something (most likely another ramp, but possibly a barrier).
      let PercentTimeApplied := Hit.Time
      let HitNormalZ := DotProduct Hit.Normal (neg c.GravityDirection)
      if Hit.Time > 0 ∧ HitNormalZ > KINDA_SMALL_NUMBER ∧ IsWalkable c Hit = true then
        -- Another walkable ramp.
        let InitialPercentRemaining := 1 - PercentTimeApplied
        let RampVector :=
          ComputeGroundMovementDelta Sqrt c (scale Delta InitialPercentRemaining) Hit false
        let m := SafeMoveUpdatedComponent W c.Location RampVector
        let c := c.setLocation m.1
        let Hit := m.2
        let SecondHitPercent := Hit.Time * InitialPercentRemaining
        let Sum := PercentTimeApplied + SecondHitPercent
        let PercentTimeApplied := if Sum < 0 then 0 else if Sum < 1 then Sum else 1
        MoveAlongFloor_Barrier Sqrt W c Delta DeltaSeconds PercentTimeApplied Hit
      else MoveAlongFloor_Barrier Sqrt W c Delta DeltaSeconds PercentTimeApplied Hit
    else (c, none)

/-! ## Walking : one iteration of `PhysWalking` -/

/-- How one iteration of the loop of `PhysWalking` ends: the loop goes on (`continue`, or
the end of the body) with the given remaining time, iteration count, `bCheckedFall` and
`bTriedLedgeMove`; the loop is left by `break`; the function returns. -/
inductive WalkingStep (F : Type) where
  | continueLoop (c : UGravityMovementcomponent F) (remainingTime : F) (Iterations : Int)
      (bCheckedFall bTriedLedgeMove : Bool)
  | breakLoop (c : UGravityMovementcomponent F)
  | returned (c : UGravityMovementcomponent F)

/-- The local variables of an iteration of `PhysWalking` that the code after the move
reads. -/
structure WalkingLocals (F : Type) where
  timeTick : F
  remainingTime : F
  Iterations : Int
  OldBase : Option (UPrimitiveComponent F)
  OldLocation : FVector F
  OldFloor : FFindFloorResult F
  OldVelocity : FVector F
  Delta : FVector F
  bZeroDelta : Bool
  bCheckedFall : Bool
  bTriedLedgeMove : Bool

/-- The test `OldBase == NULL || (!OldBase->IsQueryCollisionEnabled() &&
MovementBaseUtility::IsDynamicBase(OldBase))` of lines 342 and 395. -/
def PhysWalking_BaseGone (W : World F) (OldBase : Option (UPrimitiveComponent F)) : Bool :=
  OldBase.isNone || OldBase.all (fun b => !W.BaseIsQueryCollisionEnabled b && W.IsDynamicBase b)

/-- Lines 405-422 of `PhysWalking`: the velocity is made to reflect the actual move, and
the loop is left when the iteration did not move the component at all. -/
def PhysWalking_End (W : World F) (c : UGravityMovementcomponent F) (L : WalkingLocals F)
    (bCheckedFall : Bool) : WalkingStep F :=
  -- Allow overlap events and such to change physics state and velocity
  let c :=
    if IsMovingOnGround c = true ∧ c.bJustTeleported = false ∧ W.HasAnimRootMotion c = false ∧
        W.HasOverrideVelocity c = false ∧ L.timeTick ≥ MIN_TICK_TIME then
      -- Make velocity reflect actual move
      MaintainHorizontalGroundVelocity
        (c.setVelocity (div (sub c.Location L.OldLocation) L.timeTick))
    else c
  -- If we didn't move at all this iteration then abort (since future iterations will also
  -- be stuck).
  if c.Location = L.OldLocation then .breakLoop c
  else .continueLoop c L.remainingTime L.Iterations bCheckedFall L.bTriedLedgeMove

/-- Lines 385-402 of `PhysWalking`: the check for water and the check for a fall. -/
def PhysWalking_CheckFall (W : World F) (c : UGravityMovementcomponent F)
    (L : WalkingLocals F) : WalkingStep F :=
  -- check if just entered water
  if IsSwimming c then
    .returned (W.StartSwimming c L.OldLocation c.Velocity L.timeTick L.remainingTime L.Iterations)
  -- See if we need to start falling.
  else if c.CurrentFloor.IsWalkableFloor = false ∧
      c.CurrentFloor.HitResult.bStartPenetrating = false then
    let bMustJump := c.bJustTeleported || L.bZeroDelta || PhysWalking_BaseGone W L.OldBase
    if bMustJump = true ∨ L.bCheckedFall = false then
      let r := W.CheckFall c L.OldFloor c.CurrentFloor.HitResult L.Delta L.OldLocation
        L.remainingTime L.timeTick L.Iterations bMustJump
      if r.1 then .returned r.2 else PhysWalking_End W r.2 L true
    else PhysWalking_End W c L true
  else PhysWalking_End W c L L.bCheckedFall

/-- Lines 355-402 of `PhysWalking`: the validation of the floor that was found. -/
def PhysWalking_ValidateFloor (Sqrt : F → F) (W : World F) (c : UGravityMovementcomponent F)
    (L : WalkingLocals F) : WalkingStep F :=
  -- Validate the floor check
  if c.CurrentFloor.IsWalkableFloor then
    if ShouldCatchAir L.OldFloor c.CurrentFloor then
      let c := W.HandleWalkingOffLedge c L.OldFloor.HitResult.ImpactNormal
        L.OldFloor.HitResult.Normal L.OldLocation L.timeTick
      if IsMovingOnGround c then
        -- If still walking, then fall. If not, assume the user set a different mode they
        -- want to keep.
        .returned (StartFalling Sqrt W c L.Iterations L.remainingTime L.timeTick L.Delta
          L.OldLocation)
      else .returned c
    else
      let c := AdjustFloorHeight W c
      let c := c.setMovementBase c.CurrentFloor.HitResult.Component
      PhysWalking_CheckFall W c L
  else if c.CurrentFloor.HitResult.bStartPenetrating = true ∧ L.remainingTime ≤ 0 then
    -- The floor check failed because it started in penetration
    let c := W.ResolvePenetration c c.CurrentFloor.HitResult
    PhysWalking_CheckFall W (c.setForceNextFloorCheck true) L
  else PhysWalking_CheckFall W c L

/-- Lines 318-354 of `PhysWalking`: on a floor that is not walkable, with ledges checked,
the alternate move along the ledge, or the fall, or the end of the move. -/
def PhysWalking_Ledge (W : World F) (c : UGravityMovementcomponent F) (L : WalkingLocals F) :
    WalkingStep F :=
  -- calculate possible alternate movement
  let GravDir := c.GravityDirection
  let NewDelta :=
    if L.bTriedLedgeMove then ZeroVector else W.GetLedgeMove c L.OldLocation L.Delta GravDir
  if IsZero NewDelta = false then
    -- first revert this move
    let c := CharacterRevertMove W c L.OldLocation L.OldBase L.OldFloor false
    -- avoid repeated ledge moves if the first one fails; try new movement direction
    .continueLoop (c.setVelocity (div NewDelta L.timeTick)) (L.remainingTime + L.timeTick)
      L.Iterations L.bCheckedFall true
  else
    -- see if it is OK to jump
    let bMustJump := L.bZeroDelta || PhysWalking_BaseGone W L.OldBase
    if bMustJump = true ∨ L.bCheckedFall = false then
      let r := W.CheckFall c L.OldFloor c.CurrentFloor.HitResult L.Delta L.OldLocation
        L.remainingTime L.timeTick L.Iterations bMustJump
      if r.1 then .returned r.2
      else
        -- revert this move
        .breakLoop (CharacterRevertMove W r.2 L.OldLocation L.OldBase L.OldFloor true)
    else .breakLoop (CharacterRevertMove W c L.OldLocation L.OldBase L.OldFloor true)

/-- Lines 307-402 of `PhysWalking`: the floor is updated, from the step down of `StepUp`
when it computed one and by `FindFloor` otherwise, then checked. -/
def PhysWalking_UpdateFloor (Sqrt : F → F) (W : World F) (c : UGravityMovementcomponent F)
    (L : WalkingLocals F) (StepDownResult : FStepDownResult F) : WalkingStep F :=
  -- Update floor.  StepUp might have already done it for us.
  let c :=
    if StepDownResult.bComputedFloor then c.setCurrentFloor StepDownResult.FloorResult
    else
      let ff := W.FindFloor c c.Location L.bZeroDelta none
      (c.setCurrentFloor ff.1).setForceNextFloorCheck ff.2
  -- check for ledges here
  let bCheckLedges := !W.CanWalkOffLedges c
  if bCheckLedges = true ∧ c.CurrentFloor.IsWalkableFloor = false then PhysWalking_Ledge W c L
  else PhysWalking_ValidateFloor Sqrt W c L

/-- Lines 269-402 of `PhysWalking`: the move along the floor, unless the delta is nearly
zero, and what follows it.  `c` is the component with its new velocity. -/
def PhysWalking_Move (Sqrt : F → F) (W : World F) (c : UGravityMovementcomponent F)
    (L : WalkingLocals F) : WalkingStep F :=
  -- Compute move parameters
  let MoveVelocity := c.Velocity
  let Delta := scale MoveVelocity L.timeTick
  let bZeroDelta := IsNearlyZero Delta KINDA_SMALL_NUMBER
  if bZeroDelta then
    PhysWalking_UpdateFloor Sqrt W c
      { L with Delta := Delta, bZeroDelta := bZeroDelta, remainingTime := 0 }
      FStepDownResult.init
  else
    -- try to move forward
    let m := MoveAlongFloor Sqrt W c MoveVelocity L.timeTick
    let c := m.1
    if IsFalling c then
      -- pawn decided to jump up
      let DesiredDist := Size Sqrt Delta
      let remainingTime :=
        if DesiredDist > KINDA_SMALL_NUMBER then
          let LocationVec := sub c.Location L.OldLocation
          let XVal := DotProduct LocationVec c.AxisX
          let YVal := DotProduct LocationVec c.AxisY
          let ActualDist := Sqrt (XVal * XVal + YVal * YVal)
          L.remainingTime + L.timeTick * (1 - min 1 (ActualDist / DesiredDist))
        else L.remainingTime
      .returned (W.StartNewPhysics c remainingTime L.Iterations)
    else if IsSwimming c then
      -- just entered water
      .returned (W.StartSwimming c L.OldLocation L.OldVelocity L.timeTick L.remainingTime
        L.Iterations)
    else
      PhysWalking_UpdateFloor Sqrt W c { L with Delta := Delta, bZeroDelta := bZeroDelta }
        (m.2.getD FStepDownResult.init)

/-- One iteration of the loop of `PhysWalking` (lines 236-422). -/
def PhysWalking_Iteration (Sqrt : F → F) (W : World F) (c : UGravityMovementcomponent F)
    (remainingTime : F) (Iterations : Int) (bCheckedFall bTriedLedgeMove : Bool) :
    WalkingStep F :=
  let Iterations := Iterations + 1
  let c := c.setJustTeleported false
  let timeTick := GetSimulationTimeStep c remainingTime Iterations
  let remainingTime := remainingTime - timeTick
  -- Save current values
  let OldBase := c.MovementBase
  let OldLocation := c.Location
  let OldFloor := c.CurrentFloor
  let c := W.RestorePreAdditiveRootMotionVelocity c
  -- Ensure velocity is horizontal.
  let c := MaintainHorizontalGroundVelocity c
  let OldVelocity := c.Velocity
  -- Apply acceleration
  let c :=
    if W.HasAnimRootMotion c = false ∧ W.HasOverrideVelocity c = false then
      CalcVelocity Sqrt W c timeTick c.GroundFriction false (W.GetMaxBrakingDeceleration c)
    else c
  let c := W.ApplyRootMotionToVelocity c timeTick
  if IsFalling c then
    -- Root motion could have put us into Falling.  No movement has taken place this
    -- movement tick so we pass on full time/past iteration count
    .returned (W.StartNewPhysics c (remainingTime + timeTick) (Iterations - 1))
  else
    PhysWalking_Move Sqrt W c
      { timeTick := timeTick, remainingTime := remainingTime, Iterations := Iterations,
        OldBase := OldBase, OldLocation := OldLocation, OldFloor := OldFloor,
        OldVelocity := OldVelocity, Delta := ZeroVector, bZeroDelta := false,
        bCheckedFall := bCheckedFall, bTriedLedgeMove := bTriedLedgeMove }

/-! ## Walking : the loop -/

/-- The condition of the loop of `PhysWalking` (lines 223-234). -/
def PhysWalking_Guard (W : World F) (c : UGravityMovementcomponent F) (remainingTime : F)
    (Iterations : Int) : Bool :=
  decide (remainingTime ≥ MIN_TICK_TIME) && decide (Iterations < c.MaxSimulationIterations) &&
    c.bHasCharacterOwner &&
    (c.bHasController || c.bRunPhysicsWithNoController || W.HasAnimRootMotion c ||
      W.HasOverrideVelocity c || decide (c.LocalRole = .ROLE_SimulatedProxy))

/-- The loop of `PhysWalking` (lines 223-423) and the lines after it, run for at most
`fuel` iterations: the component the function leaves, or `none` when the fuel runs out
before the loop ends. -/
def PhysWalking_Loop (Sqrt : F → F) (W : World F) :
    Nat → UGravityMovementcomponent F → F → Int → Bool → Bool →
      Option (UGravityMovementcomponent F)
  | 0, _, _, _, _, _ => none
  | fuel + 1, c, remainingTime, Iterations, bCheckedFall, bTriedLedgeMove =>
    if PhysWalking_Guard W c remainingTime Iterations then
      match PhysWalking_Iteration Sqrt W c remainingTime Iterations bCheckedFall
          bTriedLedgeMove with
      | .continueLoop c1 r i b1 b2 => PhysWalking_Loop Sqrt W fuel c1 r i b1 b2
      | .breakLoop c1 =>
        some (if IsMovingOnGround c1 then MaintainHorizontalGroundVelocity c1 else c1)
      | .returned c1 => some c1
    else some (if IsMovingOnGround c then MaintainHorizontalGroundVelocity c else c)

/-- Function `UGravityMovementcomponent::PhysWalking`, its loop run for at most `fuel`
iterations: the component it leaves, or `none` when the fuel runs out before the loop
ends. -/
def PhysWalking (Sqrt : F → F) (W : World F) (fuel : Nat) (c : UGravityMovementcomponent F)
    (deltaTime : F) (Iterations : Int) : Option (UGravityMovementcomponent F) :=
  if deltaTime < MIN_TICK_TIME then some c
  else if c.bHasCharacterOwner = false ∨
      (c.bHasController = false ∧ c.bRunPhysicsWithNoController = false ∧
        W.HasAnimRootMotion c = false ∧ W.HasOverrideVelocity c = false ∧
        c.LocalRole ≠ ENetRole.ROLE_SimulatedProxy) then
    some ((c.setAcceleration ZeroVector).setVelocity ZeroVector)
  else if c.bQueryCollisionEnabled = false then
    some (SetMovementMode W c .MOVE_Walking 0)
  else
    PhysWalking_Loop Sqrt W fuel (c.setJustTeleported false) deltaTime Iterations false false

/-- A sequence of calls of `PhysWalking`, one for each `(deltaTime, Iterations)` of the
list, each on the component the call before it left. -/
def PhysWalking_Calls (Sqrt : F → F) (W : World F) (fuel : Nat) :
    List (F × Int) → UGravityMovementcomponent F → Option (UGravityMovementcomponent F)
  | [], c => some c
  | call :: rest, c =>
    (PhysWalking Sqrt W fuel c call.1 call.2).bind (PhysWalking_Calls Sqrt W fuel rest)

/-- The calls of `CharacterOwner->OnMovementModeChanged` that an invocation of
`UGravityMovementcomponent::OnMovementModeChanged` makes itself, with their arguments, in
order: the function has one such call, its last statement (line 2417), which the two early
returns skip (line 2333, without valid data; line 2355, when `TryToLeaveNavWalking` fails). -/
def OnMovementModeChanged_OwnerCalls (W : World F) (c : UGravityMovementcomponent F)
    (PreviousMovementMode : EMovementMode) (PreviousCustomMode : Nat) :
    List (EMovementMode × Nat) :=
  if c.bHasCharacterOwner = false then []
  else
    -- Update collision settings if needed
    let bSucceeded : Bool :=
      if c.MovementMode = .MOVE_NavWalking then true
      else if PreviousMovementMode = .MOVE_NavWalking then
        if c.MovementMode = c.DefaultLandMovementMode ∨ IsMovingOnGround c = true then
          (W.TryToLeaveNavWalking c).1
        else true
      else true
    if bSucceeded = false then []
    else [(PreviousMovementMode, PreviousCustomMode)]

/-! ## The tick : the gravity frame -/

/-- Function `UGravityMovementcomponent::TickComponent`.  `NewRot = MakeRotFromZX(
-GravityDirection, CapsuleQuat.GetAxisX())` is handed to the closing
`SafeMoveUpdatedComponent(FVector::ZeroVector, NewRot, true, Hit)`, whose delta is zero: it
sweeps nothing and sets the rotation of the updated component, which the next tick reads
back through `GetComponentQuat`; the location stays where it is. -/
def TickComponent (Sqrt : F → F) (W : World F) (c : UGravityMovementcomponent F)
    (DeltaTime : F) : UGravityMovementcomponent F :=
  let c := W.TickComponentBase c DeltaTime
  let c := c.setPreStepUpLocation c.Location
  let c := c.setGravityDirection (GetSafeNormal Sqrt (sub c.GravityOrigin c.PreStepUpLocation))
  c.setCapsuleQuat (W.GetComponentQuat c)

/-! ## Nav-mesh walking : the projection onto the geometry -/

/-- Engine `FMath::Clamp`. -/
def Clamp (X Min Max : F) : F := if X < Min then Min else if X < Max then X else Max

/-- Engine `FMath::IsNearlyEqual`. -/
def IsNearlyEqual (A B ErrorTolerance : F) : Bool := decide (|A - B| ≤ ErrorTolerance)

/-- Engine `FMath::FInterpTo`. -/
def FInterpTo (Current Target DeltaTime InterpSpeed : F) : F :=
  -- If no interp speed, jump to target value
  if InterpSpeed ≤ 0 then Target
  else
    -- Distance to reach
    let Dist := Target - Current
    -- If distance is too small, just set the desired location
    if Dist * Dist < SMALL_NUMBER then Target
    else
      -- Delta Move, Clamp so we do not over shoot.
      let DeltaMove := Dist * Clamp (DeltaTime * InterpSpeed) 0 1
      Current + DeltaMove

/-- Engine `FHitResult::Reset(InTime, bPreserveTraceData)`. -/
def FHitResult.Reset (Hit : FHitResult F) (InTime : F) (bPreserveTraceData : Bool) :
    FHitResult F :=
  if bPreserveTraceData then
    { FHitResult.init InTime with TraceStart := Hit.TraceStart, TraceEnd := Hit.TraceEnd }
  else FHitResult.init InTime

/-- What a call of `ProjectLocationFromNavMesh` leaves: the location returned, the component
(the call writes `NavMeshProjectionTimer` and `CachedProjectedNavMeshHitResult`), and the
divisors of the divisions the call executed, in order. -/
structure FProjectedLocation (F : Type) where
  NewLocation : FVector F
  c : UGravityMovementcomponent F
  Divisors : List F

/-- Lines 2444-2472 of `ProjectLocationFromNavMesh`: the timer, and the trace that refreshes
the cached hit when the timer has run out. -/
def ProjectLocationFromNavMesh_Trace (W : World F) (c : UGravityMovementcomponent F)
    (DeltaSeconds : F) (CurrentFeetLocation TargetNavLocation TraceStart TraceEnd : FVector F)
    (bCachedLocationStillValid : Bool) : UGravityMovementcomponent F :=
  let c := c.setNavMeshProjectionTimer (c.NavMeshProjectionTimer - DeltaSeconds)
  if c.NavMeshProjectionTimer ≤ 0 then
    let c :=
      if bCachedLocationStillValid = false ∨ c.bAlwaysCheckFloor = true then
        let HitResult :=
          W.FindBestNavMeshLocation c TraceStart TraceEnd CurrentFeetLocation TargetNavLocation
        -- discard result if we were already inside something
        if HitResult.bStartPenetrating = true ∨ HitResult.bBlockingHit = false then
          c.setCachedProjectedNavMeshHitResult (c.CachedProjectedNavMeshHitResult.Reset 1 true)
        else c.setCachedProjectedNavMeshHitResult HitResult
      else c
    -- Wrap around to maintain same relative offset to tick time changes.
    let ModTime :=
      if c.NavMeshProjectionInterval > SMALL_NUMBER then
        W.Fmod (-c.NavMeshProjectionTimer) c.NavMeshProjectionInterval
      else 0
    c.setNavMeshProjectionTimer (c.NavMeshProjectionInterval - ModTime)
  else c

/-- Lines 2492-2517 of `ProjectLocationFromNavMesh`: the height of the intersection of the
trace with the cached plane, clamped to the trace, interpolated from the current height and
clamped again. -/
def ProjectLocationFromNavMesh_ProjectedZ (c : UGravityMovementcomponent F)
    (DeltaSeconds : F) (CurrentFeetLocation TraceStart TraceEnd : FVector F) (ZOffset : F) :
    F :=
  -- Optimized assuming we only care about Z coordinate of result.
  let PlaneOrigin := c.CachedProjectedNavMeshHitResult.ImpactPoint
  let PlaneNormal := c.CachedProjectedNavMeshHitResult.Normal
  let ProjectedZ :=
    DotProduct TraceStart (neg c.GravityDirection) + ZOffset *
      (DotProduct (sub PlaneOrigin TraceStart) PlaneNormal /
        (ZOffset * DotProduct PlaneNormal (neg c.GravityDirection)))
  -- Limit to not be too far above or below NavMesh location
  let TraceEndZ := DotProduct TraceEnd (neg c.GravityDirection)
  let TraceStartZ := DotProduct TraceStart (neg c.GravityDirection)
  let ProjectedZ := Clamp ProjectedZ TraceEndZ TraceStartZ
  -- Interp for smoother updates (less "pop" when trace hits something new). 0 interp speed
  -- is instant.
  let InterpSpeed := max 0 c.NavMeshProjectionInterpSpeed
  let ProjectedZ := FInterpTo (DotProduct CurrentFeetLocation (neg c.GravityDirection))
    ProjectedZ DeltaSeconds InterpSpeed
  Clamp ProjectedZ TraceEndZ TraceStartZ

/-- Function `UGravityMovementcomponent::ProjectLocationFromNavMesh`. -/
def ProjectLocationFromNavMesh (Sqrt : F → F) (W : World F) (c : UGravityMovementcomponent F)
    (DeltaSeconds : F) (CurrentFeetLocation TargetNavLocation : FVector F)
    (UpOffset DownOffset : F) : FProjectedLocation F :=
  let NewLocation := TargetNavLocation
  let ZOffset := -(DownOffset + UpOffset)
  if ZOffset > -SMALL_NUMBER then ⟨NewLocation, c, []⟩
  else
    let TraceStart := sub TargetNavLocation (scale c.GravityDirection UpOffset)
    let TraceEnd := add TargetNavLocation (scale c.GravityDirection DownOffset)
    -- We can skip this trace if we are checking at the same location as the last trace
    -- (ie, we haven't moved).
    let bCachedLocationStillValid :=
      c.CachedProjectedNavMeshHitResult.bBlockingHit &&
        decide (c.CachedProjectedNavMeshHitResult.TraceStart = TraceStart) &&
        decide (c.CachedProjectedNavMeshHitResult.TraceEnd = TraceEnd)
    let c := ProjectLocationFromNavMesh_Trace W c DeltaSeconds CurrentFeetLocation
      TargetNavLocation TraceStart TraceEnd bCachedLocationStillValid
    -- Project to last plane we found.
    if c.CachedProjectedNavMeshHitResult.bBlockingHit then
      let CurrentFeetLocationZ := DotProduct CurrentFeetLocation (neg c.GravityDirection)
      let CachedProjectedNavMeshHitResultImpactPointZ :=
        DotProduct c.CachedProjectedNavMeshHitResult.ImpactPoint (neg c.GravityDirection)
      if bCachedLocationStillValid = true ∧ IsNearlyEqual CurrentFeetLocationZ
          CachedProjectedNavMeshHitResultImpactPointZ (1 / 100) = true then
        -- Already at destination.
        let Vec1 := sub c.GravityOrigin NewLocation
        let Vec2 := sub c.GravityOrigin CurrentFeetLocation
        ⟨scale (GetSafeNormal Sqrt Vec1) (DotProduct Vec2 Vec1), c, []⟩
      else
        let ProjectedZ := ProjectLocationFromNavMesh_ProjectedZ c DeltaSeconds
          CurrentFeetLocation TraceStart TraceEnd ZOffset
        -- Final result
        ⟨scale (GetSafeNormal Sqrt (sub c.GravityOrigin NewLocation)) ProjectedZ, c,
          [ZOffset * DotProduct c.CachedProjectedNavMeshHitResult.Normal
            (neg c.GravityDirection)]⟩
    else ⟨NewLocation, c, []⟩

/-! ## The floor probe -/

/-- Engine `FFindFloorResult::SetFromLineTrace`. -/
def FFindFloorResult.SetFromLineTrace (r : FFindFloorResult F) (InHit : FHitResult F)
    (InSweepFloorDist InLineDist : F) (bIsWalkableFloor : Bool) : FFindFloorResult F :=
  -- We require a sweep that hit if we are going to use a line result.
  if r.HitResult.bBlockingHit = true ∧ InHit.bBlockingHit = true then
    -- Override most of the sweep result with the line result, but save some values
    let OldHit := r.HitResult
    { bBlockingHit := r.bBlockingHit, bWalkableFloor := bIsWalkableFloor, bLineTrace := true,
      FloorDist := InSweepFloorDist, LineDist := InLineDist,
      HitResult :=
        { InHit with
          Time := OldHit.Time, ImpactPoint := OldHit.ImpactPoint, Location := OldHit.Location,
          TraceStart := OldHit.TraceStart, TraceEnd := OldHit.TraceEnd } }
  else r

/-- What a floor probe does, in order: a call of `ComputeFloorDist`, a query
`GetWorld()->SweepSingleByChannel` or `GetWorld()->LineTraceSingleByChannel` made by it, a
call of `ShouldComputePerchResult` or of `ComputePerchResult` (the perch test). -/
inductive FloorEvent (F : Type) where
  | ComputeFloorDist (CapsuleLocation : FVector F) (LineDistance SweepDistance SweepRadius : F)
  | Sweep (Start End : FVector F) (Rot : SweepRotation F) (Shape : FCollisionShape F)
  | LineTrace (Start End : FVector F)
  | ShouldComputePerchResult (InHit : FHitResult F)
  | ComputePerchResult (TestRadius : F) (InHit : FHitResult F) (InMaxFloorDist : F)
deriving DecidableEq, Repr

/-- Function `UGravityMovementcomponent::FloorSweepTest`: its result, the hit it leaves in
`OutHit`, and the sweeps it made. -/
def FloorSweepTest (W : World F) (c : UGravityMovementcomponent F) (Start End : FVector F)
    (Radius HalfHeight : F) : Bool × FHitResult F × List (FloorEvent F) :=
  if c.bUseFlatBaseForFloorChecks = false then
    let r := W.SweepSingleByChannel Start End (.CapsuleQuat c.AxisX c.AxisY)
      (.Capsule Radius HalfHeight)
    (r.1, r.2, [.Sweep Start End (.CapsuleQuat c.AxisX c.AxisY) (.Capsule Radius HalfHeight)])
  else
    -- Test with a box that is enclosed by the capsule.
    let CapsuleRadius := Radius
    let CapsuleHeight := HalfHeight
    let BoxShape : FCollisionShape F :=
      .Box ⟨CapsuleRadius * (707 / 1000), CapsuleRadius * (707 / 1000), CapsuleHeight⟩
    -- First test with the box rotated so the corners are along the major axes (ie rotated
    -- 45 degrees).
    let r := W.SweepSingleByChannel Start End .EighthTurnAboutMinusZ BoxShape
    if r.1 = false then
      -- Test again with the same box, not rotated.
      let r2 := W.SweepSingleByChannel Start End .Identity BoxShape
      (r2.1, r2.2, [.Sweep Start End .EighthTurnAboutMinusZ BoxShape,
        .Sweep Start End .Identity BoxShape])
    else (r.1, r.2, [.Sweep Start End .EighthTurnAboutMinusZ BoxShape])

/-- Lines 1373-1409 of `ComputeFloorDist`: the use of the downward sweep the caller supplies:
`bSkipSweep`, the floor result so far, and whether the function returns here. -/
def ComputeFloorDist_Supplied (Sqrt : F → F) (c : UGravityMovementcomponent F)
    (CapsuleLocation : FVector F) (DownwardSweepResult : Option (FHitResult F)) :
    Bool × FFindFloorResult F × Bool :=
  match DownwardSweepResult with
  | none => (false, FFindFloorResult.Clear, false)
  | some Down =>
    if Down.IsValidBlockingHit then
      -- Only if the supplied sweep was vertical and downward.
      let DownwardSweepResultTraceStartZ := DotProduct Down.TraceStart (neg c.GravityDirection)
      let DownwardSweepResultTraceEndZ := DotProduct Down.TraceEnd (neg c.GravityDirection)
      let TraceVec := sub Down.TraceStart Down.TraceEnd
      let XVal := DotProduct TraceVec c.AxisX
      let YVal := DotProduct TraceVec c.AxisY
      if DownwardSweepResultTraceStartZ > DownwardSweepResultTraceEndZ ∧
          XVal * XVal + YVal * YVal ≤ KINDA_SMALL_NUMBER then
        -- Reject hits that are barely on the cusp of the radius of the capsule
        if IsWithinEdgeTolerance Sqrt c Down.Location Down.ImpactPoint c.PawnRadius then
          -- Don't try a redundant sweep, regardless of whether this sweep is usable.
          let bIsWalkable := IsWalkable c Down
          let CapsuleLocationZ := DotProduct CapsuleLocation (neg c.GravityDirection)
          let DownwardSweepResultLocationZ := DotProduct Down.Location (neg c.GravityDirection)
          let FloorDist := CapsuleLocationZ - DownwardSweepResultLocationZ
          -- Use the supplied downward sweep as the floor hit result.
          (true, FFindFloorResult.SetFromSweep Down FloorDist bIsWalkable, bIsWalkable)
        else (false, FFindFloorResult.Clear, false)
      else (false, FFindFloorResult.Clear, false)
    else (false, FFindFloorResult.Clear, false)

/-- Lines 1425-1487 of `ComputeFloorDist`: the sweep test: the floor result so far, whether
the function returns here, and the sweeps made. -/
def ComputeFloorDist_Sweep (Sqrt : F → F) (W : World F) (c : UGravityMovementcomponent F)
    (CapsuleLocation : FVector F) (SweepDistance SweepRadius : F)
    (OutFloorResult : FFindFloorResult F) :
    FFindFloorResult F × Bool × List (FloorEvent F) :=
  -- Use a shorter height to avoid sweeps giving weird results if we start on a surface.
  -- This also allows us to adjust out of penetrations.
  let ShrinkScale : F := 9 / 10
  let ShrinkScaleOverlap : F := 1 / 10
  let ShrinkHeight := (c.PawnHalfHeight - c.PawnRadius) * (1 - ShrinkScale)
  let TraceDist := SweepDistance + ShrinkHeight
  let Radius := SweepRadius
  let s := FloorSweepTest W c CapsuleLocation
    (add CapsuleLocation (scale c.GravityDirection TraceDist)) Radius
    (c.PawnHalfHeight - ShrinkHeight)
  if s.1 then
    -- Reject hits adjacent to us, we only care about hits on the bottom portion of our
    -- capsule.  Check 2D distance to impact point, reject if within a tolerance from radius.
    let t : FHitResult F × F × F × List (FloorEvent F) :=
      if s.2.1.bStartPenetrating = true ∨
          IsWithinEdgeTolerance Sqrt c CapsuleLocation s.2.1.ImpactPoint Radius = false then
        -- Use a capsule with a slightly smaller radius and shorter height to avoid the
        -- adjacent object.
        let Radius := max 0 (Radius - SWEEP_EDGE_REJECT_DISTANCE - KINDA_SMALL_NUMBER)
        if (FCollisionShape.Capsule Radius (c.PawnHalfHeight - ShrinkHeight)).IsNearlyZero
            = false then
          let ShrinkHeight := (c.PawnHalfHeight - c.PawnRadius) * (1 - ShrinkScaleOverlap)
          let TraceDist := SweepDistance + ShrinkHeight
          let HalfHeight := max (c.PawnHalfHeight - ShrinkHeight) Radius
          let s2 := FloorSweepTest W c CapsuleLocation
            (add CapsuleLocation (scale c.GravityDirection TraceDist)) Radius HalfHeight
          (s2.2.1, ShrinkHeight, TraceDist, s.2.2 ++ s2.2.2)
        else (s.2.1, ShrinkHeight, TraceDist, s.2.2)
      else (s.2.1, ShrinkHeight, TraceDist, s.2.2)
    let Hit := t.1
    let ShrinkHeight := t.2.1
    let TraceDist := t.2.2.1
    -- Reduce hit distance by ShrinkHeight because we shrank the capsule for the trace.
    -- We allow negative distances here, because this allows us to pull out of penetrations.
    let MaxPenetrationAdjust := max MAX_FLOOR_DIST c.PawnRadius
    let SweepResult := max (-MaxPenetrationAdjust) (Hit.Time * TraceDist - ShrinkHeight)
    let Out := FFindFloorResult.SetFromSweep Hit SweepResult false
    if Hit.IsValidBlockingHit = true ∧ IsWalkable c Hit = true ∧
        SweepResult ≤ SweepDistance then
      -- Hit within test distance.
      ({ Out with bWalkableFloor := true }, true, t.2.2.2)
    else (Out, false, t.2.2.2)
  else (OutFloorResult, false, s.2.2)

/-- Lines 1489-1526 of `ComputeFloorDist`: what follows the sweep test: the line trace. -/
def ComputeFloorDist_Line (W : World F) (c : UGravityMovementcomponent F)
    (CapsuleLocation : FVector F) (LineDistance SweepDistance : F)
    (OutFloorResult : FFindFloorResult F) : FFindFloorResult F × List (FloorEvent F) :=
  -- Since we require a longer sweep than line trace, we don't want to run the line trace if
  -- the sweep missed everything.  We do however want to try a line trace if the sweep was
  -- stuck in penetration.
  if OutFloorResult.bBlockingHit = false ∧ OutFloorResult.HitResult.bStartPenetrating = false
  then ({ OutFloorResult with FloorDist := SweepDistance }, [])
  -- Line trace
  else if LineDistance > 0 then
    let ShrinkHeight := c.PawnHalfHeight
    let LineTraceStart := CapsuleLocation
    let TraceDist := LineDistance + ShrinkHeight
    let Down := scale c.GravityDirection (-TraceDist)
    let l := W.LineTraceSingleByChannel LineTraceStart (add LineTraceStart Down)
    let Hit := l.2
    if l.1 = true ∧ Hit.Time > 0 then
      -- Reduce hit distance by ShrinkHeight because we started the trace higher than the
      -- base.  We allow negative distances here, because this allows us to pull out of
      -- penetrations.
      let MaxPenetrationAdjust := max MAX_FLOOR_DIST c.PawnRadius
      let LineResult := max (-MaxPenetrationAdjust) (Hit.Time * TraceDist - ShrinkHeight)
      let Out := { OutFloorResult with bBlockingHit := true }
      if LineResult ≤ LineDistance ∧ IsWalkable c Hit = true then
        (Out.SetFromLineTrace Hit Out.FloorDist LineResult true,
          [.LineTrace LineTraceStart (add LineTraceStart Down)])
      else
        -- No hits were acceptable.
        ({ Out with bWalkableFloor := false },
          [.LineTrace LineTraceStart (add LineTraceStart Down)])
    else
      -- No hits were acceptable.
      ({ OutFloorResult with bWalkableFloor := false },
        [.LineTrace LineTraceStart (add LineTraceStart Down)])
  else
    -- No hits were acceptable.
    ({ OutFloorResult with bWalkableFloor := false }, [])

/-- Function `UGravityMovementcomponent::ComputeFloorDist`: the floor result it writes, and
what it did (its own call first). -/
def ComputeFloorDist (Sqrt : F → F) (W : World F) (c : UGravityMovementcomponent F)
    (CapsuleLocation : FVector F) (LineDistance SweepDistance SweepRadius : F)
    (DownwardSweepResult : Option (FHitResult F)) :
    FFindFloorResult F × List (FloorEvent F) :=
  let call : FloorEvent F :=
    .ComputeFloorDist CapsuleLocation LineDistance SweepDistance SweepRadius
  let d := ComputeFloorDist_Supplied Sqrt c CapsuleLocation DownwardSweepResult
  let bSkipSweep := d.1
  if d.2.2 then (d.2.1, [call])
  -- We require the sweep distance to be >= the line distance, otherwise the HitResult can't
  -- be interpreted as the sweep result.
  else if SweepDistance < LineDistance then (d.2.1, [call])
  -- Sweep test
  else if bSkipSweep = false ∧ SweepDistance > 0 ∧ SweepRadius > 0 then
    let s := ComputeFloorDist_Sweep Sqrt W c CapsuleLocation SweepDistance SweepRadius d.2.1
    if s.2.1 then (s.1, call :: s.2.2)
    else
      let l := ComputeFloorDist_Line W c CapsuleLocation LineDistance SweepDistance s.1
      (l.1, call :: (s.2.2 ++ l.2))
  else
    let l := ComputeFloorDist_Line W c CapsuleLocation LineDistance SweepDistance d.2.1
    (l.1, call :: l.2)

/-- Engine `UCharacterMovementComponent::GetPerchRadiusThreshold`. -/
def GetPerchRadiusThreshold (c : UGravityMovementcomponent F) : F :=
  max 0 c.PerchRadiusThreshold

/-- Engine `UCharacterMovementComponent::GetValidPerchRadius`. -/
def GetValidPerchRadius (c : UGravityMovementcomponent F) : F :=
  if c.bHasCharacterOwner then
    Clamp (c.PawnRadius - GetPerchRadiusThreshold c) (11 / 100) c.PawnRadius
  else 0

/-- Function `UGravityMovementcomponent::ShouldComputePerchResult`. -/
def ShouldComputePerchResult (Sqrt : F → F) (c : UGravityMovementcomponent F)
    (InHit : FHitResult F) (bCheckRadius : Bool) : Bool :=
  if InHit.IsValidBlockingHit = false then false
  -- Don't try to perch if the edge radius is very small.
  else if GetPerchRadiusThreshold c ≤ SWEEP_EDGE_REJECT_DISTANCE then false
  else if bCheckRadius then
    let ClosePt := FindClosestPointOnLine Sqrt InHit.ImpactPoint InHit.Location c.GravityDirection
    let DistFromCenterSq :=
      Distance Sqrt ClosePt InHit.ImpactPoint * Distance Sqrt ClosePt InHit.ImpactPoint
    let StandOnEdgeRadius := GetValidPerchRadius c
    if DistFromCenterSq ≤ StandOnEdgeRadius * StandOnEdgeRadius then
      -- Already within perch radius.
      false
    else true
  else true

/-- Function `UGravityMovementcomponent::ComputePerchResult`: its result, the floor result
it writes to `OutPerchFloorResult`, and what it did. -/
def ComputePerchResult (Sqrt : F → F) (W : World F) (c : UGravityMovementcomponent F)
    (TestRadius : F) (InHit : FHitResult F) (InMaxFloorDist : F)
    (OutPerchFloorResult : FFindFloorResult F) :
    Bool × FFindFloorResult F × List (FloorEvent F) :=
  if InMaxFloorDist ≤ 0 then (false, OutPerchFloorResult, [])
  else
    -- Sweep further than actual requested distance, because a reduced capsule radius means
    -- we could miss some hits that the normal radius would contact.
    let CapsuleLocation := if c.bUseFlatBaseForFloorChecks then InHit.TraceStart else InHit.Location
    let InHitAboveBase := max 0
      (DotProduct InHit.ImpactPoint (neg c.GravityDirection) -
        (DotProduct CapsuleLocation (neg c.GravityDirection) - c.PawnHalfHeight))
    let PerchLineDist := max 0 (InMaxFloorDist - InHitAboveBase)
    let PerchSweepDist := max 0 InMaxFloorDist
    let ActualSweepDist := PerchSweepDist + c.PawnRadius
    let d := ComputeFloorDist Sqrt W c CapsuleLocation PerchLineDist ActualSweepDist TestRadius
      none
    if d.1.IsWalkableFloor = false then (false, d.1, d.2)
    else if InHitAboveBase + d.1.FloorDist > InMaxFloorDist then
      -- Hit something past max distance
      (false, { d.1 with bWalkableFloor := false }, d.2)
    else (true, d.1, d.2)

/-- What a call of `FindFloor` leaves: the floor result written to `OutFloorResult`, the
value of `bForceNextFloorCheck` (the only member this `const` function writes), and what
the probe did, in order. -/
structure FFindFloorOutcome (F : Type) where
  OutFloorResult : FFindFloorResult F
  bForceNextFloorCheck : Bool
  Events : List (FloorEvent F)

/-- Lines 1277-1312 of `FindFloor`: the perch test on the result of the vertical floor
check. -/
def FindFloor_Perch (Sqrt : F → F) (W : World F) (c : UGravityMovementcomponent F)
    (HeightCheckAdjust : F) (OutFloorResult : FFindFloorResult F) :
    FFindFloorResult F × List (FloorEvent F) :=
  let bCheckRadius := true
  if ShouldComputePerchResult Sqrt c OutFloorResult.HitResult bCheckRadius then
    let MaxPerchFloorDist := max MAX_FLOOR_DIST (c.MaxStepHeight + HeightCheckAdjust)
    let MaxPerchFloorDist :=
      if IsMovingOnGround c then MaxPerchFloorDist + max 0 c.PerchAdditionalHeight
      else MaxPerchFloorDist
    let p := ComputePerchResult Sqrt W c (GetValidPerchRadius c) OutFloorResult.HitResult
      MaxPerchFloorDist FFindFloorResult.Clear
    let PerchFloorResult := p.2.1
    let events : List (FloorEvent F) :=
      .ShouldComputePerchResult OutFloorResult.HitResult ::
        .ComputePerchResult (GetValidPerchRadius c) OutFloorResult.HitResult MaxPerchFloorDist
          :: p.2.2
    if p.1 then
      -- Don't allow the floor distance adjustment to push us up too high, or we will move
      -- beyond the perch distance and fall next time.
      let AvgFloorDist : F := (MIN_FLOOR_DIST + MAX_FLOOR_DIST) * (1 / 2)
      let MoveUpDist := AvgFloorDist - OutFloorResult.FloorDist
      let Out :=
        if MoveUpDist + PerchFloorResult.FloorDist ≥ MaxPerchFloorDist then
          { OutFloorResult with FloorDist := AvgFloorDist }
        else OutFloorResult
      -- If the regular capsule is on an unwalkable surface but the perched one would allow
      -- us to stand, override the normal to be one that is walkable.
      if Out.bWalkableFloor = false then
        (Out.SetFromLineTrace PerchFloorResult.HitResult Out.FloorDist
          (max Out.FloorDist MIN_FLOOR_DIST) true, events)
      else (Out, events)
    else
      -- We had no floor (or an invalid one because it was unwalkable), and couldn't perch
      -- here, so invalidate floor (which will cause us to start falling).
      ({ OutFloorResult with bWalkableFloor := false }, events)
  else (OutFloorResult, [.ShouldComputePerchResult OutFloorResult.HitResult])

/-- Lines 1233-1273 of `FindFloor`: the vertical floor check, fresh or from the cache: the
floor result, `bForceNextFloorCheck`, `bNeedToValidateFloor`, and what the check did. -/
def FindFloor_Sweep (Sqrt : F → F) (W : World F) (c : UGravityMovementcomponent F)
    (CapsuleLocation : FVector F) (bCanUseCachedLocation : Bool)
    (DownwardSweepResult : Option (FHitResult F)) (FloorLineTraceDist FloorSweepTraceDist : F) :
    FFindFloorResult F × Bool × Bool × List (FloorEvent F) :=
  if c.bAlwaysCheckFloor = true ∨ bCanUseCachedLocation = false ∨
      c.bForceNextFloorCheck = true ∨ c.bJustTeleported = true then
    let d := ComputeFloorDist Sqrt W c CapsuleLocation FloorLineTraceDist FloorSweepTraceDist
      c.PawnRadius DownwardSweepResult
    (d.1, false, true, d.2)
  else
    -- Force floor check if base has collision disabled or if it does not block us.
    let bForceNextFloorCheck :=
      match c.MovementBase with
      | some MovementBase =>
        !W.BaseIsQueryCollisionEnabled MovementBase || !W.BaseBlocksChannel MovementBase
          || W.IsDynamicBase MovementBase
      | none => c.bForceNextFloorCheck
    let IsActorBasePendingKill :=
      match c.MovementBase with
      | some MovementBase => W.BaseOwnerPendingKill MovementBase
      | none => false
    if bForceNextFloorCheck = false ∧ IsActorBasePendingKill = false ∧
        c.MovementBase.isSome = true then
      (c.CurrentFloor, bForceNextFloorCheck, false, [])
    else
      let d := ComputeFloorDist Sqrt W c CapsuleLocation FloorLineTraceDist FloorSweepTraceDist
        c.PawnRadius DownwardSweepResult
      (d.1, false, true, d.2)

/-- Function `UGravityMovementcomponent::FindFloor`; `OutFloorResult` is the value the
caller's variable has when the call is made. -/
def FindFloor (Sqrt : F → F) (W : World F) (c : UGravityMovementcomponent F)
    (CapsuleLocation : FVector F) (OutFloorResult : FFindFloorResult F)
    (bCanUseCachedLocation : Bool) (DownwardSweepResult : Option (FHitResult F)) :
    FFindFloorOutcome F :=
  -- No collision, no floor...
  if c.bHasCharacterOwner = false ∨ c.bQueryCollisionEnabled = false then
    ⟨FFindFloorResult.Clear, c.bForceNextFloorCheck, []⟩
  else
    -- Increase height check slightly if walking, to prevent floor height adjustment from
    -- later invalidating the floor result.
    let HeightCheckAdjust :=
      if IsMovingOnGround c then MAX_FLOOR_DIST + KINDA_SMALL_NUMBER else -MAX_FLOOR_DIST
    let FloorSweepTraceDist := max MAX_FLOOR_DIST (c.MaxStepHeight + HeightCheckAdjust)
    let FloorLineTraceDist := FloorSweepTraceDist
    -- Sweep floor
    let s : FFindFloorResult F × Bool × Bool × List (FloorEvent F) :=
      if FloorLineTraceDist > 0 ∨ FloorSweepTraceDist > 0 then
        FindFloor_Sweep Sqrt W c CapsuleLocation bCanUseCachedLocation DownwardSweepResult
          FloorLineTraceDist FloorSweepTraceDist
      else (OutFloorResult, c.bForceNextFloorCheck, true, [])
    let bNeedToValidateFloor := s.2.2.1
    -- OutFloorResult.HitResult is now the result of the vertical floor check.
    -- See if we should try to "perch" at this location.
    if bNeedToValidateFloor = true ∧ s.1.bBlockingHit = true ∧ s.1.bLineTrace = false then
      let p := FindFloor_Perch Sqrt W c HeightCheckAdjust s.1
      ⟨p.1, s.2.1, s.2.2.2 ++ p.2⟩
    else ⟨s.1, s.2.1, s.2.2.2⟩

/-- The loop of `PhysWalking` (lines 223-423), run for at most `fuel` iterations: the outcome
of every iteration it ran, in order. -/
def PhysWalking_Trace (Sqrt : F → F) (W : World F) :
    Nat → UGravityMovementcomponent F → F → Int → Bool → Bool → List (WalkingStep F)
  | 0, _, _, _, _, _ => []
  | fuel + 1, c, remainingTime, Iterations, bCheckedFall, bTriedLedgeMove =>
    if PhysWalking_Guard W c remainingTime Iterations then
      match PhysWalking_Iteration Sqrt W c remainingTime Iterations bCheckedFall
          bTriedLedgeMove with
      | .continueLoop c1 r i b1 b2 =>
        .continueLoop c1 r i b1 b2 :: PhysWalking_Trace Sqrt W fuel c1 r i b1 b2
      | .breakLoop c1 => [.breakLoop c1]
      | .returned c1 => [.returned c1]
    else []

/-! ## The time handed on when the walk ends in a fall, the force on the floor -/

/-- Lines 1899-1910 of `StartFalling`: the value of `remainingTime` that is handed to
`StartNewPhysics`. -/
def StartFalling_RemainingTime (Sqrt : F → F) (c : UGravityMovementcomponent F)
    (remainingTime timeTick : F) (Delta subLoc : FVector F) : F :=
  -- start falling
  let DesiredDist := Size Sqrt Delta
  let LocationVec := sub c.Location subLoc
  let XVal := DotProduct LocationVec c.AxisX
  let YVal := DotProduct LocationVec c.AxisY
  let ActualDist := Sqrt (XVal * XVal + YVal * YVal)
  if DesiredDist < KINDA_SMALL_NUMBER then 0
  else remainingTime + timeTick * (1 - min 1 (ActualDist / DesiredDist))

/-- Lines 286-297 of `PhysWalking`: the value of `remainingTime` that is handed to
`StartNewPhysics` when the pawn is found falling after `MoveAlongFloor`. -/
def PhysWalking_JumpRemainingTime (Sqrt : F → F) (c : UGravityMovementcomponent F)
    (remainingTime timeTick : F) (Delta OldLocation : FVector F) : F :=
  -- pawn decided to jump up
  let DesiredDist := Size Sqrt Delta
  if DesiredDist > KINDA_SMALL_NUMBER then
    let LocationVec := sub c.Location OldLocation
    let XVal := DotProduct LocationVec c.AxisX
    let YVal := DotProduct LocationVec c.AxisY
    let ActualDist := Sqrt (XVal * XVal + YVal * YVal)
    remainingTime + timeTick * (1 - min 1 (ActualDist / DesiredDist))
  else remainingTime

/-- Function `UGravityMovementcomponent::ApplyDownwardForce`: the force and the location of
the call `BaseComp->AddForceAtLocation(Gravity * Mass * StandingDownwardForceScale,
CurrentFloor.HitResult.ImpactPoint, ...)` it makes, or `none` when it makes none. -/
def ApplyDownwardForce (W : World F) (c : UGravityMovementcomponent F) (_DeltaSeconds : F) :
    Option (FVector F × FVector F) :=
  if c.StandingDownwardForceScale ≠ 0 ∧ c.CurrentFloor.HitResult.IsValidBlockingHit = true then
    let Gravity := scale c.GravityDirection c.GravityZ
    match c.CurrentFloor.HitResult.Component with
    | some BaseComp =>
      if W.IsAnySimulatingPhysics BaseComp = true ∧ IsZero Gravity = false then
        some (scale (scale Gravity c.Mass) c.StandingDownwardForceScale,
          c.CurrentFloor.HitResult.ImpactPoint)
      else none
    | none => none
  else none

/-! ## Predicates used to state the properties of `StepUp` -/

/-- Two components have the same velocity and the same cached floor. -/
def SameVelocityAndFloor (a b : UGravityMovementcomponent F) : Prop :=
  a.Velocity = b.Velocity ∧ a.CurrentFloor = b.CurrentFloor

/-- A result of `StepUp` that, when it is a rejection, leaves the component at `OldLocation`. -/
def RevertsOnRejection (OldLocation : FVector F) (r : StepUpResult F) : Prop :=
  r.bResult = false → r.Component.Location = OldLocation

/-- A result of `StepUp` whose component has the velocity and the cached floor of `c`. -/
def KeepsVelocityAndFloor (c : UGravityMovementcomponent F) (r : StepUpResult F) : Prop :=
  SameVelocityAndFloor r.Component c

/-- The notifications sent while a move is handled (`HandleImpact`, and the impacts
`SlideAlongSurface` handles) change neither the velocity nor the cached floor. -/
def ImpactsKeepVelocityAndFloor (W : World F) : Prop :=
  (∀ c Hit, SameVelocityAndFloor (W.MoveBlockedBy c Hit) c) ∧
  (∀ c Delta Time Normal Hit b,
    SameVelocityAndFloor (W.SlideAlongSurface c Delta Time Normal Hit b).1 c)

/-! ## Predicates used to state the properties of a free fall -/

/-- The component of the velocity along -GravityDirection. -/
def UpVelocity (c : UGravityMovementcomponent F) : F :=
  DotProduct c.Velocity (neg c.GravityDirection)

/-- The height of the actor along -GravityDirection. -/
def Height (c : UGravityMovementcomponent F) : F :=
  DotProduct c.Location (neg c.GravityDirection)

/-- The component `a` is the component `b` but for the three members `CalcVelocity` writes
without the avoidance: `Velocity`, `Acceleration` and `AnalogInputModifier`. -/
def SolverFrame (a b : UGravityMovementcomponent F) : Prop :=
  ∃ v acc m, a = ((b.setVelocity v).setAcceleration acc).setAnalogInputModifier m

/-- A world in which a fall meets nothing: every move reaches its end without a blocking
hit, and there is no root motion and no former base velocity. -/
def FreeFallWorld (W : World F) : Prop :=
  (∀ Location Delta, (W.SafeMoveComponent Location Delta).1 = add Location Delta ∧
    (W.SafeMoveComponent Location Delta).2.bBlockingHit = false) ∧
  (∀ c, W.HasAnimRootMotion c = false) ∧
  (∀ c, W.HasOverrideVelocity c = false) ∧
  (∀ c, W.RestorePreAdditiveRootMotionVelocity c = c) ∧
  (∀ c t, W.ApplyRootMotionToVelocity c t = c) ∧
  (∀ c t, W.DecayFormerBaseVelocity c t = c)

/-- A component falling under a gravity of constant magnitude `-GravityZ > 0` along a unit
`GravityDirection`, with no jump force left and no avoidance. -/
def FreeFallComponent (c : UGravityMovementcomponent F) : Prop :=
  DotProduct c.GravityDirection c.GravityDirection = 1 ∧ c.GravityZ < 0 ∧
  c.JumpForceTimeRemaining ≤ 0 ∧ c.bUseRVOAvoidance = false ∧
  c.bHasCharacterOwner = true ∧ c.MovementMode = .MOVE_Falling

/-- Neither the velocity of the component nor the velocity that falling freely for
`remainingTime` would give it exceeds the terminal velocity of the physics volume. -/
def WithinTerminalVelocity (c : UGravityMovementcomponent F) (remainingTime : F) : Prop :=
  SizeSquared c.Velocity ≤ |c.TerminalVelocity| * |c.TerminalVelocity| ∧
  SizeSquared (add c.Velocity (scale (scale c.GravityDirection (-c.GravityZ)) remainingTime))
    ≤ |c.TerminalVelocity| * |c.TerminalVelocity|

/-- The members a free fall reads and does not write are the same in `a` and in `b`. -/
def FallFrame (a b : UGravityMovementcomponent F) : Prop :=
  a.GravityDirection = b.GravityDirection ∧ a.GravityZ = b.GravityZ ∧
  a.TerminalVelocity = b.TerminalVelocity ∧
  a.JumpForceTimeRemaining = b.JumpForceTimeRemaining ∧
  a.bUseRVOAvoidance = b.bUseRVOAvoidance ∧ a.bHasCharacterOwner = b.bHasCharacterOwner ∧
  a.MovementMode = b.MovementMode ∧ a.bApplyGravityWhileJumping = b.bApplyGravityWhileJumping ∧
  a.ForceJumpPeakSubstep = b.ForceJumpPeakSubstep ∧
  a.MaxJumpApexAttemptsPerSimulation = b.MaxJumpApexAttemptsPerSimulation

/-- The guard of the apex sub-step in a free fall, where the derived acceleration along
-GravityDirection is `GravityZ`: sub-stepping enabled, the upward velocity positive before
the tick and not after it, an attempt left, and `ApexTimeMinimum <= TimeToApex < timeTick`
with `TimeToApex = UpVelocity / -GravityZ`. -/
def ApexSplitTaken (c : UGravityMovementcomponent F) (timeTick : F) : Prop :=
  c.ForceJumpPeakSubstep ≠ 0 ∧ UpVelocity c > 0 ∧ UpVelocity c + c.GravityZ * timeTick ≤ 0 ∧
  c.NumJumpApexAttempts < c.MaxJumpApexAttemptsPerSimulation ∧
  ¬ (|c.GravityZ| ≤ SMALL_NUMBER) ∧
  -(UpVelocity c) / c.GravityZ ≥ 1 / 10000 ∧ -(UpVelocity c) / c.GravityZ < timeTick

/-! ## Predicates used to state the properties of an actor at rest -/

/-- The component walks, at rest at `L`: zero velocity and acceleration, and nothing in it
that would drive it (no forced maximal acceleration, no velocity requested by path
following, no avoidance). -/
def RestingAt (c : UGravityMovementcomponent F) (L : FVector F) : Prop :=
  c.MovementMode = .MOVE_Walking ∧ c.Location = L ∧ c.Velocity = ZeroVector ∧
  c.Acceleration = ZeroVector ∧ c.bForceMaxAccel = false ∧ c.bHasRequestedVelocity = false ∧
  c.bUseRVOAvoidance = false

/-- A world without root motion. -/
def NoRootMotionWorld (W : World F) : Prop :=
  (∀ c, W.HasAnimRootMotion c = false) ∧ (∀ c, W.HasOverrideVelocity c = false) ∧
  (∀ c, W.RestorePreAdditiveRootMotionVelocity c = c) ∧
  (∀ c t, W.ApplyRootMotionToVelocity c t = c)

/-- Every floor probe at the location `L` reports a walkable floor. -/
def WalkableFloorAt (W : World F) (L : FVector F) : Prop :=
  ∀ c bCanUseCachedLocation DownwardSweepResult,
    (W.FindFloor c L bCanUseCachedLocation DownwardSweepResult).1.IsWalkableFloor = true

/-! ## Predicates used to state the properties of the edge tolerance -/

/-- The distance from the point `P` to the line through `C` directed along the unit vector
`G`, by Pythagoras: the square root of `|P - C|^2 - ((P - C) . G)^2`. -/
def PerpendicularDistance (Sqrt : F → F) (P C G : FVector F) : F :=
  Sqrt (SizeSquared (sub P C) - DotProduct (sub P C) G * DotProduct (sub P C) G)

/-! ## Predicates used to state the gravity frame invariant -/

/-- The states the component can be in: it is constructed with `GravityDirection =
FVector::ZeroVector` (the initialiser of the member in the header); `TickComponent` runs, in
any world; and any other code runs, which leaves `GravityDirection` as it is (line 180, in
`TickComponent`, is the only assignment to this protected member). -/
inductive Reachable (Sqrt : F → F) : UGravityMovementcomponent F → Prop where
  | constructed (c : UGravityMovementcomponent F) :
      c.GravityDirection = ZeroVector → Reachable Sqrt c
  | tick (W : World F) (c : UGravityMovementcomponent F) (DeltaTime : F) :
      Reachable Sqrt c → Reachable Sqrt (TickComponent Sqrt W c DeltaTime)
  | other (c c1 : UGravityMovementcomponent F) :
      Reachable Sqrt c → c1.GravityDirection = c.GravityDirection → Reachable Sqrt c1

/-! ## Predicates used to state the properties of the floor probe -/

/-- The floor check is not forced (`bAlwaysCheckFloor` and `bForceNextFloorCheck` are both
false), `bCanUseCachedLocation` is true, the actor was not just teleported, and a movement
base exists that has query collision enabled, blocks the collision channel of the actor, is
not a dynamic base, and whose owner is not pending kill. -/
def FloorCacheUsable (W : World F) (c : UGravityMovementcomponent F)
    (bCanUseCachedLocation : Bool) : Prop :=
  c.bAlwaysCheckFloor = false ∧ c.bForceNextFloorCheck = false ∧
  bCanUseCachedLocation = true ∧ c.bJustTeleported = false ∧
  ∃ MovementBase, c.MovementBase = some MovementBase ∧
    W.BaseIsQueryCollisionEnabled MovementBase = true ∧
    W.BaseBlocksChannel MovementBase = true ∧ W.IsDynamicBase MovementBase = false ∧
    W.BaseOwnerPendingKill MovementBase = false

/-- The distance `FloorSweepTraceDist` (and `FloorLineTraceDist`) of `FindFloor`. -/
def FloorSweepTraceDist (c : UGravityMovementcomponent F) : F :=
  max MAX_FLOOR_DIST (c.MaxStepHeight +
    (if IsMovingOnGround c then MAX_FLOOR_DIST + KINDA_SMALL_NUMBER else -MAX_FLOOR_DIST))

/-! ## Predicates used to state the bound on the iterations -/

/-- The members that bound the iterations of a simulation: `MaxSimulationIterations`,
`MaxJumpApexAttemptsPerSimulation` and `NumJumpApexAttempts`. -/
def Budget (c : UGravityMovementcomponent F) : Int × Int × Int :=
  (c.MaxSimulationIterations, c.MaxJumpApexAttemptsPerSimulation, c.NumJumpApexAttempts)

/-- The game and engine code that the loops of `PhysWalking` and `PhysFalling` call and go on
after (the impact notifications, the slide along a surface, the root motion and avoidance
functions, the jump notifications, `CheckFall` and `ResolvePenetration`) leaves the members
of `Budget` as they are. -/
def KeepsBudget (W : World F) : Prop :=
  (∀ c Hit, Budget (W.MoveBlockedBy c Hit) = Budget c) ∧
  (∀ c Delta Time Normal Hit b,
    Budget (W.SlideAlongSurface c Delta Time Normal Hit b).1 = Budget c) ∧
  (∀ c, Budget (W.RestorePreAdditiveRootMotionVelocity c) = Budget c) ∧
  (∀ c t, Budget (W.ApplyRootMotionToVelocity c t) = Budget c) ∧
  (∀ c t, Budget (W.DecayFormerBaseVelocity c t) = Budget c) ∧
  (∀ c t, Budget (W.CalcAvoidanceVelocity c t) = Budget c) ∧
  (∀ c, Budget (W.ResetJumpState c) = Budget c) ∧
  (∀ c, Budget (W.NotifyJumpApex c) = Budget c) ∧
  (∀ c OldFloor Hit Delta OldLocation remainingTime timeTick Iterations bMustJump,
    Budget (W.CheckFall c OldFloor Hit Delta OldLocation remainingTime timeTick Iterations
      bMustJump).2 = Budget c) ∧
  (∀ c Hit, Budget (W.ResolvePenetration c Hit) = Budget c)

/-- An iteration of `PhysFalling` that goes on leaves a component of budget `B` and the
iteration count `i`. -/
def FallingStep.GoesOnWith (s : FallingStep F) (B : Int × Int × Int) (i : Int) : Prop :=
  match s with
  | .continueLoop c _ i1 => Budget c = B ∧ i1 = i
  | _ => True

/-- An iteration of `PhysWalking` that goes on leaves a component of budget `B` and the
iteration count `i`. -/
def WalkingStep.GoesOnWith (s : WalkingStep F) (B : Int × Int × Int) (i : Int) : Prop :=
  match s with
  | .continueLoop c _ i1 _ _ => Budget c = B ∧ i1 = i
  | _ => True

/-! ## Predicates used to state the properties of the hand-over to falling -/

/-- The distance between `P` and `Q` in the plane of the X and Y axes of the capsule. -/
def LateralDistance (Sqrt : F → F) (c : UGravityMovementcomponent F) (P Q : FVector F) : F :=
  Sqrt (DotProduct (sub P Q) c.AxisX * DotProduct (sub P Q) c.AxisX +
    DotProduct (sub P Q) c.AxisY * DotProduct (sub P Q) c.AxisY)

/-! ## Predicates used to state the properties of the perch test -/

/-- The distance `MaxPerchFloorDist` that `FindFloor` hands to `ComputePerchResult`. -/
def MaxPerchFloorDist (c : UGravityMovementcomponent F) : F :=
  if IsMovingOnGround c then
    max MAX_FLOOR_DIST (c.MaxStepHeight +
      (if IsMovingOnGround c then MAX_FLOOR_DIST + KINDA_SMALL_NUMBER else -MAX_FLOOR_DIST))
      + max 0 c.PerchAdditionalHeight
  else
    max MAX_FLOOR_DIST (c.MaxStepHeight +
      (if IsMovingOnGround c then MAX_FLOOR_DIST + KINDA_SMALL_NUMBER else -MAX_FLOOR_DIST))

/-- A floor result that, when it says walkable, holds a blocking hit. -/
def WalkableHasHit (r : FFindFloorResult F) : Prop :=
  r.bWalkableFloor = true → r.HitResult.bBlockingHit = true

/-! ## Concrete values used to evaluate the definitions -/

/-- A component at the origin of a world whose gravity pulls along -Z, with the engine's
default tunables (walkable floor angle of about 44.765 degrees, i.e. `WalkableFloorZ = 0.71`,
`MaxStepHeight = 45`, capsule 34 x 88). -/
def sampleComponent : UGravityMovementcomponent ℚ :=
  { Location := ⟨0, 0, 0⟩, Velocity := ⟨0, 0, 0⟩, Acceleration := ⟨0, 0, 0⟩,
    MovementMode := .MOVE_Walking, GroundMovementMode := .MOVE_Walking,
    DefaultLandMovementMode := .MOVE_Walking,
    CurrentFloor := FFindFloorResult.Clear,
    GravityDirection := ⟨0, 0, -1⟩, GravityOrigin := ⟨0, 0, -1000⟩,
    AxisX := ⟨1, 0, 0⟩, AxisY := ⟨0, 1, 0⟩, PreStepUpLocation := ⟨0, 0, 0⟩,
    bJustTeleported := false, bForceNextFloorCheck := false,
    bMaintainHorizontalGroundVelocity := true, bNotifyApex := false,
    NumJumpApexAttempts := 0, MaxJumpApexAttemptsPerSimulation := 2,
    MaxSimulationIterations := 8, MaxSimulationTimeStep := 1 / 20,
    JumpForceTimeRemaining := 0, bApplyGravityWhileJumping := true,
    GravityZ := -980, WalkableFloorZ := 71 / 100, MaxStepHeight := 45,
    PawnRadius := 34, PawnHalfHeight := 88,
    CachedNavLocation := ⟨⟨0, 0, 0⟩, none⟩, bProjectNavMeshWalking := false,
    NavMeshProjectionHeightScaleUp := 67 / 100, NavMeshProjectionHeightScaleDown := 1,
    bHasCharacterOwner := true, bHasController := true,
    bRunPhysicsWithNoController := false, bQueryCollisionEnabled := true,
    LocalRole := .ROLE_Authority, MovementBase := none,
    DefaultWaterMovementMode := .MOVE_Swimming, bCanEverSwim := true,
    CustomMovementMode := 0, TerminalVelocity := 4000, ForceJumpPeakSubstep := 1,
    GroundFriction := 8, FallingLateralFriction := 0, MaxAcceleration := 2048,
    AirControl := 1 / 20, AirControlBoostMultiplier := 2,
    AirControlBoostVelocityThreshold := 25, bForceMaxAccel := false,
    AnalogInputModifier := 1, bUseSeparateBrakingFriction := false, BrakingFriction := 0,
    bUseRVOAvoidance := false, bWasSimulatingRootMotion := false,
    bHasRequestedVelocity := false, PerchRadiusThreshold := 0, PerchAdditionalHeight := 40,
    bAlwaysCheckFloor := true, bUseFlatBaseForFloorChecks := false,
    CachedProjectedNavMeshHitResult := FHitResult.init 1, NavMeshProjectionTimer := 0,
    NavMeshProjectionInterval := 1 / 10, NavMeshProjectionInterpSpeed := 12,
    Mass := 100, StandingDownwardForceScale := 1 }

/-- A blocking, non-penetrating hit at the point `P` of a surface with unit normal `N`. -/
def sampleHit (P N : FVector ℚ) : FHitResult ℚ :=
  { bBlockingHit := true, bStartPenetrating := false, Time := 1 / 2,
    Location := ⟨0, 0, 0⟩, ImpactPoint := P, Normal := N, ImpactNormal := N,
    TraceStart := ⟨0, 0, 0⟩, TraceEnd := ⟨0, 0, 0⟩, Component := none }

/-- An empty, dry world without navigation data: every move goes through unobstructed, every
surface can be stepped on, no notification changes the component, the floor probe reports
the cached floor. -/
def sampleWorld : World ℚ :=
  { MoveComponent := fun Location Delta => (add Location Delta, FHitResult.init 1),
    SafeMoveComponent := fun Location Delta => (add Location Delta, FHitResult.init 1),
    CanStepUp := fun _ _ => true,
    MoveBlockedBy := fun c _ => c,
    SlideAlongSurface := fun c _ _ _ Hit _ => (c, Hit, 0),
    FindFloor := fun c _ _ _ => (c.CurrentFloor, false),
    IsInWater := fun _ => false,
    GetImpartedMovementBaseVelocity := fun _ => ZeroVector,
    TryToLeaveNavWalking := fun c => (true, c),
    Falling := fun c => c,
    OnStartedFalling := fun c => c,
    OwnerOnMovementModeChanged := fun c _ _ => c,
    StopMovement := fun c => c,
    NavData := none,
    HasAnimRootMotion := fun _ => false,
    HasOverrideVelocity := fun _ => false,
    HasOverrideVelocityWithIgnoreZAccumulate := fun _ => false,
    GetActorFeetLocation := fun c => sub c.Location ⟨0, 0, c.PawnHalfHeight⟩,
    RestorePreAdditiveRootMotionVelocity := fun c => c,
    ApplyRootMotionToVelocity := fun c _ => c,
    DecayFormerBaseVelocity := fun c _ => c,
    GetMaxBrakingDeceleration := fun _ => 0,
    GetMaxSpeed := fun _ => 600,
    GetMinAnalogSpeed := fun _ => 0,
    GetForwardVector := fun c => c.AxisX,
    RequestedMove := fun c _ _ _ _ _ => (false, ZeroVector, 0, c.Velocity),
    BrakedVelocity := fun _ _ _ _ => ZeroVector,
    CalcAvoidanceVelocity := fun c _ => c,
    ResetJumpState := fun c => c.setJumpForceTimeRemaining 0,
    NotifyJumpApex := fun c => c,
    LimitAirControl := fun _ _ FallAcceleration _ _ => FallAcceleration,
    ComputeSlideVector := fun _ Delta Time Normal _ =>
      scale (sub Delta (scale Normal (DotProduct Delta Normal))) Time,
    ContactVelocity := fun _ => ZeroVector,
    TwoWallAdjustBase := fun _ Delta _ _ => Delta,
    RandomDirection := ⟨1, 0, 0⟩,
    Landed := fun c _ => c,
    StartNewPhysics := fun c _ _ => c,
    StartSwimming := fun c _ _ _ _ _ => c,
    CanWalkOffLedges := fun _ => true,
    GetLedgeMove := fun _ _ _ _ => ZeroVector,
    HandleWalkingOffLedge := fun c _ _ _ _ => c,
    CheckFall := fun c _ _ _ _ _ _ _ _ => (false, c),
    ResolvePenetration := fun c _ => c,
    IsDynamicBase := fun _ => false,
    BaseIsQueryCollisionEnabled := fun _ => true,
    CanRestoreBase := fun _ => true,
    HitIsMovementBaseOwner := fun _ _ => false,
    RefusesStepUp := fun _ => false,
    bDelayFallingInEditor := false,
    TickComponentBase := fun c _ => c,
    GetComponentQuat := fun c => (c.AxisX, c.AxisY),
    SweepSingleByChannel := fun Start End _ _ =>
      (false, { FHitResult.init 1 with TraceStart := Start, TraceEnd := End }),
    LineTraceSingleByChannel := fun Start End =>
      (false, { FHitResult.init 1 with TraceStart := Start, TraceEnd := End }),
    BaseBlocksChannel := fun _ => true,
    BaseOwnerPendingKill := fun _ => false,
    FindBestNavMeshLocation := fun _ TraceStart TraceEnd _ _ =>
      { FHitResult.init 1 with TraceStart := TraceStart, TraceEnd := TraceEnd },
    Fmod := fun X Y =>
      X - Y * ((if 0 ≤ X / Y then Rat.floor (X / Y) else Rat.ceil (X / Y) : ℤ) : ℚ),
    IsAnySimulatingPhysics := fun b => b.bIsSimulatedBase }

/-- A flat walkable floor 2 units under the capsule of `sampleComponent`. -/
def flatFloor : FFindFloorResult ℚ :=
  { bBlockingHit := true, bWalkableFloor := true, bLineTrace := false, FloorDist := 2,
    LineDist := 0, HitResult := sampleHit ⟨0, 0, -90⟩ ⟨0, 0, 1⟩ }

/-- The component `sampleComponent` walking on `flatFloor`. -/
def walkingComponent : UGravityMovementcomponent ℚ :=
  { sampleComponent with CurrentFloor := flatFloor }

/-- A wall in front of the capsule: the hit of a forward move stopped half way. -/
def wallHit : FHitResult ℚ :=
  { sampleHit ⟨34, 0, -60⟩ ⟨-1, 0, 0⟩ with Location := ⟨5, 0, 43⟩ }

/-- The world `sampleWorld` with a wall ahead (every move with a positive X component is
stopped half way by `wallHit`) and game code that answers the impact notified during the
slide by `SetMovementMode(MOVE_Falling)`. -/
def wallWorld : World ℚ :=
  { sampleWorld with
    MoveComponent := fun Location Delta =>
      if 0 < Delta.X then (add Location (scale Delta (1 / 2)), wallHit)
      else (add Location Delta, FHitResult.init 1),
    SlideAlongSurface := fun c _ _ _ Hit _ =>
      (SetMovementMode sampleWorld c .MOVE_Falling 0, Hit, 0) }

/-- The world `sampleWorld` with a wall right against the capsule: every move with a positive
X component is blocked at once (hit time 0) and the slide along the wall gets nowhere. -/
def blockedWorld : World ℚ :=
  { sampleWorld with
    MoveComponent := fun Location Delta =>
      if 0 < Delta.X then (Location, { wallHit with Time := 0 })
      else (add Location Delta, FHitResult.init 1) }

/-- The component `sampleComponent` nav-walking, at rest, with node 3 cached at its feet. -/
def navComponent : UGravityMovementcomponent ℚ :=
  { sampleComponent with
    MovementMode := .MOVE_NavWalking, CachedNavLocation := ⟨⟨0, 0, -88⟩, some 3⟩ }

/-- The world `sampleWorld` in which the floor probe always reports `flatFloor`. -/
def floorWorld : World ℚ :=
  { sampleWorld with FindFloor := fun _ _ _ _ => (flatFloor, false) }

/-- The scenario with gravity pulling along -Z: gravity direction (0, 0, -1), velocity
(0, 0, -500), falling. -/
def landingComponent : UGravityMovementcomponent ℚ :=
  { sampleComponent with Velocity := ⟨0, 0, -500⟩, MovementMode := .MOVE_Falling }

/-- The locals of a first iteration of `PhysFalling` with a tick of 1/60 s. -/
def sampleLocals : FallingLocals ℚ :=
  { timeTick := 1 / 60, remainingTime := 0, Iterations := 1, OldLocation := ⟨0, 0, 0⟩,
    OldVelocity := ⟨0, 0, -500⟩, Gravity := ⟨0, 0, -980⟩, GravityTime := 1 / 60,
    MaxDecel := 0, bHasLimitedAirControl := true }

/-- The hit of a second wall whose impact normal (-4/5, 0, 3/5) faces the first wall's
(4/5, 0, 3/5); neither slope is walkable. -/
def ditchHit : FHitResult ℚ := sampleHit ⟨-20, 0, -80⟩ ⟨-4 / 5, 0, 3 / 5⟩

/-- The component `sampleComponent` falling with an upward velocity of 49/1000: under its
gravity of 980 the apex is 1/20000 s away. -/
def risingComponent : UGravityMovementcomponent ℚ :=
  { sampleComponent with Velocity := ⟨0, 0, 49 / 1000⟩, MovementMode := .MOVE_Falling }

/-- The component `sampleComponent` falling with an upward velocity of 49/5: under its gravity
of 980 the apex is 1/100 s away. -/
def hopComponent : UGravityMovementcomponent ℚ :=
  { sampleComponent with Velocity := ⟨0, 0, 49 / 5⟩, MovementMode := .MOVE_Falling }

/-- The component `walkingComponent`, at rest on `flatFloor`, with `bForceMaxAccel` set. -/
def forcedComponent : UGravityMovementcomponent ℚ :=
  { walkingComponent with bForceMaxAccel := true }

/-- The component `forcedComponent` as the velocity solver leaves it in a first iteration of
`PhysWalking` with a tick of 1/60 s. -/
def forcedAccelerated : UGravityMovementcomponent ℚ :=
  (((forcedComponent.setJustTeleported false).setAcceleration
    ⟨2048, 0, 0⟩).setAnalogInputModifier 1).setVelocity ⟨512 / 15, 0, 0⟩

/-- The component `hopComponent` after the gravity of a tick of 1/60 s: its upward velocity
has gone from 49/5 to -98/15. -/
def hopAfterGravity : UGravityMovementcomponent ℚ :=
  hopComponent.setVelocity ⟨0, 0, -98 / 15⟩

/-- The component `sampleComponent` moving along X at 1001 while its input accelerates it along
the unit direction (3/5, 4/5, 0): it is above a max speed of 1000, by 0.1 %. -/
def overSpeedComponent : UGravityMovementcomponent ℚ :=
  { sampleComponent with Velocity := ⟨1001, 0, 0⟩, Acceleration := ⟨3 / 5, 4 / 5, 0⟩ }

/-- The component `sampleComponent` creeping along X at 9/100000 while its input accelerates it
along X: it is above a max speed of 1/20000, and the square of its speed is below
`SMALL_NUMBER`. -/
def creepComponent : UGravityMovementcomponent ℚ :=
  { sampleComponent with Velocity := ⟨9 / 100000, 0, 0⟩, Acceleration := ⟨1, 0, 0⟩ }

/-- The component `sampleComponent` moving along X at 1300, above a max speed of 1000, while
its input accelerates it along X. -/
def fastComponent : UGravityMovementcomponent ℚ :=
  { sampleComponent with Velocity := ⟨1300, 0, 0⟩, Acceleration := ⟨1, 0, 0⟩ }

/-- The component `navComponent` projecting onto the nav mesh, at rest, with node 3 cached at
the origin. -/
def projectingNavComponent : UGravityMovementcomponent ℚ :=
  { navComponent with bProjectNavMeshWalking := true, CachedNavLocation := ⟨⟨0, 0, 0⟩, some 3⟩ }

/-- The world `sampleWorld` in which the capsule cannot leave the nav mesh
(`TryToLeaveNavWalking` finds no collision-free spot and returns false) and the owner answers
`OnMovementModeChanged` by launching the character upwards. -/
def stuckNavWorld : World ℚ :=
  { sampleWorld with
    TryToLeaveNavWalking := fun c => (false, c),
    OwnerOnMovementModeChanged := fun c _ _ => c.setVelocity ⟨0, 0, 420⟩ }

/-- The component as it is constructed (the gravity direction is zero, the capsule rotation
is the identity), with the tunables of `sampleComponent`, at `Location` in a world whose
gravity pulls towards `GravityOrigin`; over any field. -/
def constructedComponent (GravityOrigin Location : FVector F) : UGravityMovementcomponent F :=
  { Location := Location, Velocity := ⟨0, 0, 0⟩, Acceleration := ⟨0, 0, 0⟩,
    MovementMode := .MOVE_Walking, GroundMovementMode := .MOVE_Walking,
    DefaultLandMovementMode := .MOVE_Walking,
    CurrentFloor := FFindFloorResult.Clear,
    GravityDirection := ⟨0, 0, 0⟩, GravityOrigin := GravityOrigin,
    AxisX := ⟨1, 0, 0⟩, AxisY := ⟨0, 1, 0⟩, PreStepUpLocation := ⟨0, 0, 0⟩,
    bJustTeleported := false, bForceNextFloorCheck := false,
    bMaintainHorizontalGroundVelocity := true, bNotifyApex := false,
    NumJumpApexAttempts := 0, MaxJumpApexAttemptsPerSimulation := 2,
    MaxSimulationIterations := 8, MaxSimulationTimeStep := 1 / 20,
    JumpForceTimeRemaining := 0, bApplyGravityWhileJumping := true,
    GravityZ := -980, WalkableFloorZ := 71 / 100, MaxStepHeight := 45,
    PawnRadius := 34, PawnHalfHeight := 88,
    CachedNavLocation := ⟨⟨0, 0, 0⟩, none⟩, bProjectNavMeshWalking := false,
    NavMeshProjectionHeightScaleUp := 67 / 100, NavMeshProjectionHeightScaleDown := 1,
    bHasCharacterOwner := true, bHasController := true,
    bRunPhysicsWithNoController := false, bQueryCollisionEnabled := true,
    LocalRole := .ROLE_Authority, MovementBase := none,
    DefaultWaterMovementMode := .MOVE_Swimming, bCanEverSwim := true,
    CustomMovementMode := 0, TerminalVelocity := 4000, ForceJumpPeakSubstep := 1,
    GroundFriction := 8, FallingLateralFriction := 0, MaxAcceleration := 2048,
    AirControl := 1 / 20, AirControlBoostMultiplier := 2,
    AirControlBoostVelocityThreshold := 25, bForceMaxAccel := false,
    AnalogInputModifier := 1, bUseSeparateBrakingFriction := false, BrakingFriction := 0,
    bUseRVOAvoidance := false, bWasSimulatingRootMotion := false,
    bHasRequestedVelocity := false, PerchRadiusThreshold := 0, PerchAdditionalHeight := 40,
    bAlwaysCheckFloor := true, bUseFlatBaseForFloorChecks := false,
    CachedProjectedNavMeshHitResult := FHitResult.init 1, NavMeshProjectionTimer := 0,
    NavMeshProjectionInterval := 1 / 10, NavMeshProjectionInterpSpeed := 12,
    Mass := 100, StandingDownwardForceScale := 1 }

/-- The world `sampleWorld` over any field with a floor function: empty, dry, without
navigation data, and in which the frame before the gravity update leaves the component as it
is. -/
def quietWorld [FloorRing F] : World F :=
  { MoveComponent := fun Location Delta => (add Location Delta, FHitResult.init 1),
    SafeMoveComponent := fun Location Delta => (add Location Delta, FHitResult.init 1),
    CanStepUp := fun _ _ => true,
    MoveBlockedBy := fun c _ => c,
    SlideAlongSurface := fun c _ _ _ Hit _ => (c, Hit, 0),
    FindFloor := fun c _ _ _ => (c.CurrentFloor, false),
    IsInWater := fun _ => false,
    GetImpartedMovementBaseVelocity := fun _ => ZeroVector,
    TryToLeaveNavWalking := fun c => (true, c),
    Falling := fun c => c,
    OnStartedFalling := fun c => c,
    OwnerOnMovementModeChanged := fun c _ _ => c,
    StopMovement := fun c => c,
    NavData := none,
    HasAnimRootMotion := fun _ => false,
    HasOverrideVelocity := fun _ => false,
    HasOverrideVelocityWithIgnoreZAccumulate := fun _ => false,
    GetActorFeetLocation := fun c => sub c.Location ⟨0, 0, c.PawnHalfHeight⟩,
    RestorePreAdditiveRootMotionVelocity := fun c => c,
    ApplyRootMotionToVelocity := fun c _ => c,
    DecayFormerBaseVelocity := fun c _ => c,
    GetMaxBrakingDeceleration := fun _ => 0,
    GetMaxSpeed := fun _ => 600,
    GetMinAnalogSpeed := fun _ => 0,
    GetForwardVector := fun c => c.AxisX,
    RequestedMove := fun c _ _ _ _ _ => (false, ZeroVector, 0, c.Velocity),
    BrakedVelocity := fun _ _ _ _ => ZeroVector,
    CalcAvoidanceVelocity := fun c _ => c,
    ResetJumpState := fun c => c.setJumpForceTimeRemaining 0,
    NotifyJumpApex := fun c => c,
    LimitAirControl := fun _ _ FallAcceleration _ _ => FallAcceleration,
    ComputeSlideVector := fun _ Delta Time Normal _ =>
      scale (sub Delta (scale Normal (DotProduct Delta Normal))) Time,
    ContactVelocity := fun _ => ZeroVector,
    TwoWallAdjustBase := fun _ Delta _ _ => Delta,
    RandomDirection := ⟨1, 0, 0⟩,
    Landed := fun c _ => c,
    StartNewPhysics := fun c _ _ => c,
    StartSwimming := fun c _ _ _ _ _ => c,
    CanWalkOffLedges := fun _ => true,
    GetLedgeMove := fun _ _ _ _ => ZeroVector,
    HandleWalkingOffLedge := fun c _ _ _ _ => c,
    CheckFall := fun c _ _ _ _ _ _ _ _ => (false, c),
    ResolvePenetration := fun c _ => c,
    IsDynamicBase := fun _ => false,
    BaseIsQueryCollisionEnabled := fun _ => true,
    CanRestoreBase := fun _ => true,
    HitIsMovementBaseOwner := fun _ _ => false,
    RefusesStepUp := fun _ => false,
    bDelayFallingInEditor := false,
    TickComponentBase := fun c _ => c,
    GetComponentQuat := fun c => (c.AxisX, c.AxisY),
    SweepSingleByChannel := fun Start End _ _ =>
      (false, { FHitResult.init 1 with TraceStart := Start, TraceEnd := End }),
    LineTraceSingleByChannel := fun Start End =>
      (false, { FHitResult.init 1 with TraceStart := Start, TraceEnd := End }),
    BaseBlocksChannel := fun _ => true,
    BaseOwnerPendingKill := fun _ => false,
    FindBestNavMeshLocation := fun _ TraceStart TraceEnd _ _ =>
      { FHitResult.init 1 with TraceStart := TraceStart, TraceEnd := TraceEnd },
    Fmod := fun X Y => X - Y * ((if 0 ≤ X / Y then ⌊X / Y⌋ else ⌈X / Y⌉ : ℤ) : F),
    IsAnySimulatingPhysics := fun b => b.bIsSimulatedBase }

/-- A hit on level ground 1000 units above the origin, on the axis of the capsule of
`planetNavComponent`, recorded by an earlier trace from 1010 down to 990. -/
def groundHit : FHitResult ℚ :=
  { sampleHit ⟨0, 0, 1000⟩ ⟨0, 0, 1⟩ with
    Location := ⟨0, 0, 1000⟩, TraceStart := ⟨0, 0, 1010⟩, TraceEnd := ⟨0, 0, 990⟩ }

/-- The component `navComponent` on a planet whose centre is the origin, 1000 units above
it on the Z axis (so that gravity pulls along -Z), projecting onto the nav mesh, with
`groundHit` cached and 1/10 s left on the projection timer. -/
def planetNavComponent : UGravityMovementcomponent ℚ :=
  { navComponent with
    GravityOrigin := ⟨0, 0, 0⟩, Location := ⟨0, 0, 1093⟩, bProjectNavMeshWalking := true,
    CachedProjectedNavMeshHitResult := groundHit, NavMeshProjectionTimer := 1 / 10 }

/-- The component `planetNavComponent` with a gravity direction of zero, as it is before the
first tick and for an actor at the gravity origin. -/
def weightlessNavComponent : UGravityMovementcomponent ℚ :=
  { planetNavComponent with GravityDirection := ⟨0, 0, 0⟩ }

/-- The component `planetNavComponent` whose cached hit is on a vertical wall, of normal
(1, 0, 0). -/
def wallNavComponent : UGravityMovementcomponent ℚ :=
  { planetNavComponent with
    CachedProjectedNavMeshHitResult := { groundHit with Normal := ⟨1, 0, 0⟩ } }

/-- A static floor mesh with the default walkable slope. -/
def floorMesh : UPrimitiveComponent ℚ :=
  { WalkableSlopeOverride := ⟨.WalkableSlope_Default, 0⟩, bIsSimulatedBase := false }

/-- The component `walkingComponent` standing on `floorMesh`, with `bAlwaysCheckFloor`
switched off. -/
def basedComponent : UGravityMovementcomponent ℚ :=
  { walkingComponent with bAlwaysCheckFloor := false, MovementBase := some floorMesh }

/-- The component `sampleComponent` on a walkable floor found by the sweep 1 unit under the
capsule: closer than `MIN_FLOOR_DIST`. -/
def sunkenComponent : UGravityMovementcomponent ℚ :=
  { sampleComponent with CurrentFloor := { flatFloor with FloorDist := 1 } }

/-- The component `sampleComponent` on a walkable floor found by the sweep 3 units under the
capsule: farther than `MAX_FLOOR_DIST`. -/
def hoveringComponent : UGravityMovementcomponent ℚ :=
  { sampleComponent with CurrentFloor := { flatFloor with FloorDist := 3 } }

/-- A hit on a vertical face (unit normal (1, 0, 0): not walkable) under the axis of the
capsule, met half way through the sweep. -/
def steepHit : FHitResult ℚ := sampleHit ⟨0, 0, -88⟩ ⟨1, 0, 0⟩

/-- The world `sampleWorld` in which every sweep is stopped by `steepHit` and no line trace hits
anything. -/
def steepWorld : World ℚ :=
  { sampleWorld with
    SweepSingleByChannel := fun _ _ _ _ => (true, steepHit) }

/-- A body under the capsule that simulates physics. -/
def physicsCrate : UPrimitiveComponent ℚ :=
  { WalkableSlopeOverride := ⟨.WalkableSlope_Default, 0⟩, bIsSimulatedBase := true }

/-- The component `sampleComponent` standing on `physicsCrate`: its floor is `flatFloor`, hit
on that body. -/
def standingComponent : UGravityMovementcomponent ℚ :=
  { sampleComponent with
    CurrentFloor := { flatFloor with
      HitResult := { sampleHit ⟨0, 0, -90⟩ ⟨0, 0, 1⟩ with Component := some physicsCrate } } }

/-- The component `walkingComponent`, at rest on `flatFloor`, with an input acceleration along
+Z, straight up against its gravity. -/
def liftedComponent : UGravityMovementcomponent ℚ :=
  { walkingComponent with Acceleration := ⟨0, 0, 2048⟩ }

/-- The component `liftedComponent` as the velocity solver leaves it in a first iteration of
`PhysWalking` with a tick of 1/60 s. -/
def liftedAccelerated : UGravityMovementcomponent ℚ :=
  (liftedComponent.setJustTeleported false).setVelocity ⟨0, 0, 512 / 15⟩

/-- The component `walkingComponent` moving up at 5 units a second. -/
def climbingComponent : UGravityMovementcomponent ℚ :=
  { walkingComponent with Velocity := ⟨0, 0, 5⟩ }

/-- The hit of a capsule sweep on the edge of a ledge: the impact point is 30 units off the
axis of a capsule of radius 34, on a flat top 72 units under the start of the sweep; the
capsule centre is then 7.4 units under that start. -/
def ledgeHit : FHitResult ℚ :=
  { sampleHit ⟨30, 0, -72⟩ ⟨0, 0, 1⟩ with Time := 74000 / 528001, Location := ⟨0, 0, -37 / 5⟩ }

/-- The world `sampleWorld` with that ledge: a capsule wider than 30 units hits it
(`ledgeHit`), a narrower capsule and a box hit nothing. -/
def ledgeWorld : World ℚ :=
  { sampleWorld with
    SweepSingleByChannel := fun _ _ _ Shape =>
      match Shape with
      | .Capsule Radius _ => if 30 < Radius then (true, ledgeHit) else (false, FHitResult.init 1)
      | .Box _ => (false, FHitResult.init 1) }

/-- The component `walkingComponent` with a perch radius threshold of 10 units: it can stand
on an edge up to 24 units off its axis. -/
def ledgeComponent : UGravityMovementcomponent ℚ :=
  { walkingComponent with PerchRadiusThreshold := 10 }

/-- The hit of a capsule sweep on the vertical face of a rim (unit normal (1, 0, 0): not
walkable), 30 units off the axis of the capsule. -/
def rimHit : FHitResult ℚ :=
  { sampleHit ⟨30, 0, -72⟩ ⟨1, 0, 0⟩ with Time := 74000 / 528001, Location := ⟨0, 0, -37 / 5⟩ }

/-- The hit of a narrower capsule, swept from where `rimHit` left the capsule, on a flat shelf
under its axis. -/
def shelfHit : FHitResult ℚ :=
  { sampleHit ⟨0, 0, -100⟩ ⟨0, 0, 1⟩ with
    Time := 100000 / 1268001, Location := ⟨0, 0, -87 / 5⟩ }

/-- The world `sampleWorld` with that rim and that shelf: a capsule wider than 30 units is
stopped by the rim, a narrower one by the shelf, a box and a line trace hit nothing. -/
def cliffWorld : World ℚ :=
  { sampleWorld with
    SweepSingleByChannel := fun _ _ _ Shape =>
      match Shape with
      | .Capsule Radius _ => if 30 < Radius then (true, rimHit) else (true, shelfHit)
      | .Box _ => (false, FHitResult.init 1) }

/-- A component like `sampleComponent` whose walkable floor Z is exactly 4/5. -/
def thresholdComponent : UGravityMovementcomponent ℚ :=
  { sampleComponent with WalkableFloorZ := 4 / 5 }

/-- A hit on a ramp with unit normal (3/5, 0, 4/5), below the capsule. -/
def rampHit : FHitResult ℚ := sampleHit ⟨0, 0, -88⟩ ⟨3 / 5, 0, 4 / 5⟩

/-! # Theorems -/

/-! ## Walkability -/

theorem Rat_sqrt_one : Rat.sqrt 1 = 1 := by
  simp

theorem Rat_sqrt_sixteen_twentyfifths : Rat.sqrt (16 / 25) = 4 / 5 := by
  have h := Rat.sqrt_eq (4 / 5)
  have e : (4 / 5 : ℚ) * (4 / 5) = 16 / 25 := by norm_num
  rw [e] at h
  rw [h]
  norm_num [abs_of_pos]

/-- C1 (counterexample): a valid blocking hit whose normal has a component along
-GravityDirection exactly equal to the walkable threshold W (4/5 = 4/5, so dot <= W) is
reported walkable, where the claim says IsWalkable returns false at the threshold. -/
theorem IsWalkable_at_threshold_is_true :
    rampHit.IsValidBlockingHit = true ∧
    DotProduct rampHit.ImpactNormal (neg thresholdComponent.GravityDirection)
      ≤ TestWalkableZ thresholdComponent rampHit ∧
    IsWalkable thresholdComponent rampHit = true := by
  refine ⟨by simp [rampHit, sampleHit, FHitResult.IsValidBlockingHit], ?_, ?_⟩
  · norm_num [rampHit, sampleHit, thresholdComponent, sampleComponent, TestWalkableZ,
      DotProduct, neg]
  · norm_num [IsWalkable, rampHit, sampleHit, thresholdComponent, sampleComponent,
      TestWalkableZ, FHitResult.IsValidBlockingHit, DotProduct, neg, KINDA_SMALL_NUMBER]

theorem IsWalkable_true_iff (c : UGravityMovementcomponent F) (Hit : FHitResult F)
    (hv : Hit.IsValidBlockingHit = true) :
    IsWalkable c Hit = true ↔
      (KINDA_SMALL_NUMBER ≤ DotProduct Hit.ImpactNormal (neg c.GravityDirection) ∧
       TestWalkableZ c Hit ≤ DotProduct Hit.ImpactNormal (neg c.GravityDirection)) := by
  unfold IsWalkable
  simp only [hv, Bool.true_eq_false, if_false]
  by_cases h1 : DotProduct Hit.ImpactNormal (neg c.GravityDirection) < KINDA_SMALL_NUMBER
  · simp [h1, not_le.mpr h1]
  · by_cases h2 : DotProduct Hit.ImpactNormal (neg c.GravityDirection) < TestWalkableZ c Hit
    · simp [h1, h2, not_le.mpr h2]
    · simp [h1, h2, not_lt.mp h1, not_lt.mp h2]

/-- C1 (amended): for every valid blocking, non-start-penetrating hit, IsWalkable returns true
exactly when dot(ImpactNormal, -GravityDirection) is at least KINDA_SMALL_NUMBER and at least
the walkable floor Z after the hit component's slope override; so it is true at the
threshold itself and false strictly below it. -/
theorem IsWalkable_iff_meets_threshold (c : UGravityMovementcomponent F) (Hit : FHitResult F)
    (hv : Hit.IsValidBlockingHit = true) :
    IsWalkable c Hit = true ↔
      (KINDA_SMALL_NUMBER ≤ DotProduct Hit.ImpactNormal (neg c.GravityDirection) ∧
       TestWalkableZ c Hit ≤ DotProduct Hit.ImpactNormal (neg c.GravityDirection)) :=
  IsWalkable_true_iff c Hit hv

theorem IsWalkable_iff_meets_threshold_witness :
    rampHit.IsValidBlockingHit = true ∧
    (IsWalkable thresholdComponent rampHit = true ↔
      ((KINDA_SMALL_NUMBER : ℚ)
          ≤ DotProduct rampHit.ImpactNormal (neg thresholdComponent.GravityDirection) ∧
       TestWalkableZ thresholdComponent rampHit
          ≤ DotProduct rampHit.ImpactNormal (neg thresholdComponent.GravityDirection))) :=
  ⟨by simp [rampHit, sampleHit, FHitResult.IsValidBlockingHit],
   IsWalkable_iff_meets_threshold thresholdComponent rampHit
     (by simp [rampHit, sampleHit, FHitResult.IsValidBlockingHit])⟩

/-- C2: if IsWalkable(Hit) returns true then Hit is blocking, does not start in penetration,
and dot(Hit.ImpactNormal, -GravityDirection) is at least the walkable floor Z as modified by
the hit component's walkable-slope override. -/
theorem IsWalkable_necessary (c : UGravityMovementcomponent F) (Hit : FHitResult F)
    (h : IsWalkable c Hit = true) :
    Hit.bBlockingHit = true ∧ Hit.bStartPenetrating = false ∧
    TestWalkableZ c Hit ≤ DotProduct Hit.ImpactNormal (neg c.GravityDirection) := by
  unfold IsWalkable at h
  by_cases hv : Hit.IsValidBlockingHit = false
  · simp [hv] at h
  · have hv' : Hit.IsValidBlockingHit = true := by simpa using hv
    by_cases h1 : DotProduct Hit.ImpactNormal (neg c.GravityDirection) < KINDA_SMALL_NUMBER
    · simp [hv', h1] at h
    · by_cases h2 : DotProduct Hit.ImpactNormal (neg c.GravityDirection) < TestWalkableZ c Hit
      · simp [hv', h1, h2] at h
      · simp only [FHitResult.IsValidBlockingHit, Bool.and_eq_true, Bool.not_eq_true'] at hv'
        exact ⟨hv'.1, hv'.2, not_lt.mp h2⟩

theorem IsWalkable_necessary_witness :
    IsWalkable sampleComponent rampHit = true ∧
    (rampHit.bBlockingHit = true ∧ rampHit.bStartPenetrating = false ∧
     TestWalkableZ sampleComponent rampHit
       ≤ DotProduct rampHit.ImpactNormal (neg sampleComponent.GravityDirection)) :=
  have h : IsWalkable sampleComponent rampHit = true := by
    norm_num [IsWalkable, rampHit, sampleHit, sampleComponent, TestWalkableZ,
      FHitResult.IsValidBlockingHit, DotProduct, neg, KINDA_SMALL_NUMBER]
  ⟨h, IsWalkable_necessary sampleComponent rampHit h⟩

/-! ## Ground movement delta : properties -/

/-- C3 (the code at the failing input): on a walkable, angled ramp that is not a line-trace
result, ComputeGroundMovementDelta turns the horizontal delta (1, 0, 0) of length 1 into
(16/25, 0, -12/25), whose length is 4/5. -/
theorem ComputeGroundMovementDelta_ramp_shortens :
    IsWalkable sampleComponent rampHit = true ∧
    ComputeGroundMovementDelta Rat.sqrt sampleComponent ⟨1, 0, 0⟩ rampHit false
      = ⟨16 / 25, 0, -12 / 25⟩ ∧
    Size Rat.sqrt (ComputeGroundMovementDelta Rat.sqrt sampleComponent ⟨1, 0, 0⟩ rampHit false)
      = 4 / 5 ∧
    Size Rat.sqrt (⟨1, 0, 0⟩ : FVector ℚ) = 1 := by
  have hw : IsWalkable sampleComponent rampHit = true := by
    norm_num [IsWalkable, rampHit, sampleHit, sampleComponent, TestWalkableZ,
      FHitResult.IsValidBlockingHit, DotProduct, neg, KINDA_SMALL_NUMBER]
  have hs : Size Rat.sqrt (⟨1, 0, 0⟩ : FVector ℚ) = 1 := by
    simp [Size, Rat_sqrt_one]
  have hd : ComputeGroundMovementDelta Rat.sqrt sampleComponent ⟨1, 0, 0⟩ rampHit false
      = ⟨16 / 25, 0, -12 / 25⟩ := by
    unfold ComputeGroundMovementDelta
    rw [hw, hs]
    norm_num [rampHit, sampleHit, sampleComponent, DotProduct, neg, KINDA_SMALL_NUMBER,
      GetSafeNormal, CrossProduct, RotateAngleAxis, SinNeg90, CosNeg90, scale]
  refine ⟨hw, hd, ?_, hs⟩
  rw [hd]
  have e : ((16 / 25 : ℚ) * (16 / 25) + 0 * 0 + (-12 / 25) * (-12 / 25)) = 16 / 25 := by
    norm_num
  simp only [Size, e, Rat_sqrt_sixteen_twentyfifths]

/-- C4: when bHitFromLineTrace is true, ComputeGroundMovementDelta returns Delta unchanged,
for every Delta, every hit and every gravity direction. -/
theorem ComputeGroundMovementDelta_lineTrace (Sqrt : F → F) (c : UGravityMovementcomponent F)
    (Delta : FVector F) (RampHit : FHitResult F) :
    ComputeGroundMovementDelta Sqrt c Delta RampHit true = Delta := by
  simp [ComputeGroundMovementDelta]

/-! ## Nav-mesh walking -/

theorem ite_pred {α : Type} (P : α → Prop) (c : Prop) [Decidable c] (a b : α)
    (ha : c → P a) (hb : ¬ c → P b) : P (if c then a else b) := by
  by_cases h : c
  · rw [if_pos h]; exact ha h
  · rw [if_neg h]; exact hb h

theorem StepUp_StepDown_reverts (Sqrt : F → F) (W : World F) (c : UGravityMovementcomponent F)
    (GravDir Delta OldLocation : FVector F) (OldLocationZ StepTravelDownHeight PawnFloorPointZ
    StepSideZ : F) (bOut : Bool) :
    RevertsOnRejection OldLocation (StepUp_StepDown Sqrt W c GravDir Delta OldLocation
      OldLocationZ StepTravelDownHeight PawnFloorPointZ StepSideZ bOut) := by
  unfold StepUp_StepDown
  dsimp only
  repeat' (first
    | exact fun _ => rfl
    | exact fun h => Bool.noConfusion h
    | (apply ite_pred <;> intro _))

theorem StepUp_StepDown_keeps (Sqrt : F → F) (W : World F) (c : UGravityMovementcomponent F)
    (GravDir Delta OldLocation : FVector F) (OldLocationZ StepTravelDownHeight PawnFloorPointZ
    StepSideZ : F) (bOut : Bool) :
    KeepsVelocityAndFloor c (StepUp_StepDown Sqrt W c GravDir Delta OldLocation
      OldLocationZ StepTravelDownHeight PawnFloorPointZ StepSideZ bOut) := by
  unfold StepUp_StepDown
  dsimp only
  repeat' (first
    | exact ⟨rfl, rfl⟩
    | (apply ite_pred <;> intro _))

theorem StepUp_StepForward_reverts (Sqrt : F → F) (W : World F)
    (c : UGravityMovementcomponent F) (GravDir Delta OldLocation : FVector F)
    (SweepUpHit : FHitResult F) (OldLocationZ StepTravelDownHeight PawnFloorPointZ
    StepSideZ : F) (bOut : Bool) :
    RevertsOnRejection OldLocation (StepUp_StepForward Sqrt W c GravDir Delta OldLocation
      SweepUpHit OldLocationZ StepTravelDownHeight PawnFloorPointZ StepSideZ bOut) := by
  unfold StepUp_StepForward
  dsimp only
  repeat' (first
    | exact fun _ => rfl
    | exact fun h => Bool.noConfusion h
    | exact StepUp_StepDown_reverts _ _ _ _ _ _ _ _ _ _ _
    | (apply ite_pred <;> intro _))

theorem SameVelocityAndFloor_trans {a b c : UGravityMovementcomponent F}
    (h1 : SameVelocityAndFloor a b) (h2 : SameVelocityAndFloor b c) :
    SameVelocityAndFloor a c :=
  ⟨h1.1.trans h2.1, h1.2.trans h2.2⟩

theorem StepUp_StepForward_keeps (Sqrt : F → F) (W : World F)
    (hW : ImpactsKeepVelocityAndFloor W)
    (c : UGravityMovementcomponent F) (GravDir Delta OldLocation : FVector F)
    (SweepUpHit : FHitResult F) (OldLocationZ StepTravelDownHeight PawnFloorPointZ
    StepSideZ : F) (bOut : Bool) :
    KeepsVelocityAndFloor c (StepUp_StepForward Sqrt W c GravDir Delta OldLocation
      SweepUpHit OldLocationZ StepTravelDownHeight PawnFloorPointZ StepSideZ bOut) := by
  unfold StepUp_StepForward
  dsimp only
  generalize MoveUpdatedComponent W c.Location Delta = m
  have h2 : SameVelocityAndFloor (c.setLocation m.1) c := ⟨rfl, rfl⟩
  generalize c.setLocation m.1 = c2 at h2 ⊢
  apply ite_pred <;> intro _
  · apply ite_pred <;> intro _
    · exact h2
    · have h3 : SameVelocityAndFloor
          (if (SweepUpHit.bBlockingHit && m.2.bBlockingHit) = true then
            HandleImpact W c2 SweepUpHit else c2) c := by
        exact ite_pred (fun x => SameVelocityAndFloor x c) _ _ _
          (fun _ => SameVelocityAndFloor_trans (hW.1 _ _) h2) (fun _ => h2)
      generalize (if (SweepUpHit.bBlockingHit && m.2.bBlockingHit) = true then
            HandleImpact W c2 SweepUpHit else c2) = c3 at h3 ⊢
      have h4 : SameVelocityAndFloor (HandleImpact W c3 m.2) c :=
        SameVelocityAndFloor_trans (hW.1 _ _) h3
      generalize HandleImpact W c3 m.2 = c4 at h4 ⊢
      apply ite_pred <;> intro _
      · exact h4
      · have h5 : SameVelocityAndFloor
            (W.SlideAlongSurface c4 Delta (1 - m.2.Time) m.2.Normal m.2 true).1 c :=
          SameVelocityAndFloor_trans (hW.2 _ _ _ _ _ _) h4
        generalize W.SlideAlongSurface c4 Delta (1 - m.2.Time) m.2.Normal m.2 true = sl at h5 ⊢
        apply ite_pred <;> intro _
        · exact h5
        · apply ite_pred <;> intro _
          · exact h5
          · exact SameVelocityAndFloor_trans (StepUp_StepDown_keeps _ _ _ _ _ _ _ _ _ _ _) h5
  · exact SameVelocityAndFloor_trans (StepUp_StepDown_keeps _ _ _ _ _ _ _ _ _ _ _) h2

theorem StepUp_reverts (Sqrt : F → F) (W : World F) (c : UGravityMovementcomponent F)
    (GravDir Delta : FVector F) (InHit : FHitResult F) (bOut : Bool) :
    RevertsOnRejection c.Location (StepUp Sqrt W c GravDir Delta InHit bOut) := by
  unfold StepUp
  dsimp only
  repeat' (first
    | exact fun _ => rfl
    | exact StepUp_StepForward_reverts _ _ _ _ _ _ _ _ _ _ _ _
    | (apply ite_pred <;> intro _))

theorem StepUp_keeps (Sqrt : F → F) (W : World F) (hW : ImpactsKeepVelocityAndFloor W)
    (c : UGravityMovementcomponent F) (GravDir Delta : FVector F) (InHit : FHitResult F)
    (bOut : Bool) :
    KeepsVelocityAndFloor c (StepUp Sqrt W c GravDir Delta InHit bOut) := by
  unfold StepUp
  dsimp only
  repeat' (first
    | exact ⟨rfl, rfl⟩
    | exact SameVelocityAndFloor_trans
        (StepUp_StepForward_keeps _ _ hW _ _ _ _ _ _ _ _ _ _) ⟨rfl, rfl⟩
    | (apply ite_pred <;> intro _))

/-- C5 (counterexample): a walking actor steps up against a wall; the impact notified during
the slide makes the game code call SetMovementMode(MOVE_Falling); StepUp then reverts the
move and returns false, but the cached floor, cleared by the mode change, is no longer the
one the actor had before the call. -/
theorem StepUp_rejection_changes_floor :
    (StepUp Rat.sqrt wallWorld walkingComponent ⟨0, 0, -1⟩ ⟨10, 0, 0⟩ wallHit true).bResult
      = false ∧
    (StepUp Rat.sqrt wallWorld walkingComponent ⟨0, 0, -1⟩ ⟨10, 0, 0⟩ wallHit true).Component.CurrentFloor
      ≠ walkingComponent.CurrentFloor := by
  have h : (StepUp Rat.sqrt wallWorld walkingComponent ⟨0, 0, -1⟩ ⟨10, 0, 0⟩ wallHit true).bResult
        = false ∧
      (StepUp Rat.sqrt wallWorld walkingComponent ⟨0, 0, -1⟩ ⟨10, 0, 0⟩ wallHit
        true).Component.CurrentFloor = FFindFloorResult.Clear := by
    simp [StepUp, StepUp_StepForward, wallWorld, sampleWorld, walkingComponent, sampleComponent,
      wallHit, sampleHit, flatFloor, MoveUpdatedComponent, IsZero, DotProduct, neg, scale, add,
      IsMovingOnGround, FFindFloorResult.IsWalkableFloor, FFindFloorResult.GetDistanceToFloor,
      MAX_FLOOR_DIST, UGravityMovementcomponent.setLocation, HandleImpact, IsFalling,
      SetMovementMode, OnMovementModeChanged, UGravityMovementcomponent.setMovementMode,
      RevertMove, FHitResult.init, UGravityMovementcomponent.setCurrentFloor,
      UGravityMovementcomponent.setVelocity, UGravityMovementcomponent.setMovementBase]
    norm_num
  refine ⟨h.1, ?_⟩
  rw [h.2]
  simp [walkingComponent, flatFloor, FFindFloorResult.Clear]

/-- C5 (amended): every call to StepUp that returns false leaves the actor's location exactly
equal to its value before the call; and StepUp itself writes neither Velocity nor
CurrentFloor, so they too equal their values before the call whenever the impact
notifications sent during the call (HandleImpact, and the impacts SlideAlongSurface handles)
leave them unchanged. -/
theorem StepUp_rollback (Sqrt : F → F) (W : World F) (c : UGravityMovementcomponent F)
    (GravDir Delta : FVector F) (InHit : FHitResult F) (bOutStepDownResult : Bool)
    (hrej : (StepUp Sqrt W c GravDir Delta InHit bOutStepDownResult).bResult = false) :
    (StepUp Sqrt W c GravDir Delta InHit bOutStepDownResult).Component.Location = c.Location ∧
    (ImpactsKeepVelocityAndFloor W →
      (StepUp Sqrt W c GravDir Delta InHit bOutStepDownResult).Component.Velocity = c.Velocity ∧
      (StepUp Sqrt W c GravDir Delta InHit bOutStepDownResult).Component.CurrentFloor
        = c.CurrentFloor) :=
  ⟨StepUp_reverts Sqrt W c GravDir Delta InHit bOutStepDownResult hrej,
   fun hW => StepUp_keeps Sqrt W hW c GravDir Delta InHit bOutStepDownResult⟩

theorem StepUp_rollback_witness :
    (StepUp Rat.sqrt blockedWorld walkingComponent ⟨0, 0, -1⟩ ⟨10, 0, 0⟩ wallHit true).bResult
      = false ∧
    ((StepUp Rat.sqrt blockedWorld walkingComponent ⟨0, 0, -1⟩ ⟨10, 0, 0⟩ wallHit
        true).Component.Location = walkingComponent.Location ∧
     (ImpactsKeepVelocityAndFloor blockedWorld →
      (StepUp Rat.sqrt blockedWorld walkingComponent ⟨0, 0, -1⟩ ⟨10, 0, 0⟩ wallHit
        true).Component.Velocity = walkingComponent.Velocity ∧
      (StepUp Rat.sqrt blockedWorld walkingComponent ⟨0, 0, -1⟩ ⟨10, 0, 0⟩ wallHit
        true).Component.CurrentFloor = walkingComponent.CurrentFloor)) :=
  have h : (StepUp Rat.sqrt blockedWorld walkingComponent ⟨0, 0, -1⟩ ⟨10, 0, 0⟩ wallHit
      true).bResult = false := by
    simp [StepUp, StepUp_StepForward, blockedWorld, sampleWorld, walkingComponent,
      sampleComponent, wallHit, sampleHit, flatFloor, MoveUpdatedComponent, IsZero, DotProduct,
      neg, scale, add, IsMovingOnGround, FFindFloorResult.IsWalkableFloor,
      FFindFloorResult.GetDistanceToFloor, MAX_FLOOR_DIST, UGravityMovementcomponent.setLocation,
      HandleImpact, IsFalling, RevertMove, FHitResult.init]
  ⟨h, StepUp_rollback Rat.sqrt blockedWorld walkingComponent ⟨0, 0, -1⟩ ⟨10, 0, 0⟩ wallHit true h⟩

/-! ## Falling -/

/-- C9: in PhysFalling, whenever the second-wall hit and the first-wall hit both have impact
normals with a positive component along -GravityDirection, the two impact normals oppose
each other and the adjusted Delta has a component along -GravityDirection of absolute value
at most KINDA_SMALL_NUMBER, the iteration ends by ProcessLanded with remaining time 0 (and
the current iteration count): the loop does not go on. -/
theorem PhysFalling_ditch_lands (Sqrt : F → F) (W : World F) (c : UGravityMovementcomponent F)
    (L : FallingLocals F) (Delta OldHitNormal OldHitImpactNormal : FVector F)
    (Hit : FHitResult F)
    (hOld : DotProduct OldHitImpactNormal (neg c.GravityDirection) > 0)
    (hNew : DotProduct Hit.ImpactNormal (neg c.GravityDirection) > 0)
    (hOppose : DotProduct Hit.ImpactNormal OldHitImpactNormal < 0)
    (hFlat : |DotProduct Delta (neg c.GravityDirection)| ≤ KINDA_SMALL_NUMBER) :
    ∃ (c1 : UGravityMovementcomponent F) (Hit1 : FHitResult F),
      PhysFalling_Ditch Sqrt W c L Delta OldHitNormal OldHitImpactNormal Hit
        = FallingStep.processLanded c1 Hit1 0 L.Iterations := by
  unfold PhysFalling_Ditch
  simp only [hOld, hNew, hOppose, hFlat, decide_True, Bool.and_self, if_true]
  exact ⟨_, _, rfl⟩

theorem PhysFalling_ditch_lands_witness :
    DotProduct (⟨4 / 5, 0, 3 / 5⟩ : FVector ℚ) (neg landingComponent.GravityDirection) > 0 ∧
    DotProduct ditchHit.ImpactNormal (neg landingComponent.GravityDirection) > 0 ∧
    DotProduct ditchHit.ImpactNormal (⟨4 / 5, 0, 3 / 5⟩ : FVector ℚ) < 0 ∧
    |DotProduct (⟨0, 1, 0⟩ : FVector ℚ) (neg landingComponent.GravityDirection)|
      ≤ KINDA_SMALL_NUMBER ∧
    ∃ (c1 : UGravityMovementcomponent ℚ) (Hit1 : FHitResult ℚ),
      PhysFalling_Ditch Rat.sqrt sampleWorld landingComponent sampleLocals ⟨0, 1, 0⟩
        ⟨4 / 5, 0, 3 / 5⟩ ⟨4 / 5, 0, 3 / 5⟩ ditchHit
        = FallingStep.processLanded c1 Hit1 0 sampleLocals.Iterations :=
  have h1 : DotProduct (⟨4 / 5, 0, 3 / 5⟩ : FVector ℚ) (neg landingComponent.GravityDirection)
      > 0 := by
    norm_num [DotProduct, neg, landingComponent, sampleComponent]
  have h2 : DotProduct ditchHit.ImpactNormal (neg landingComponent.GravityDirection) > 0 := by
    norm_num [DotProduct, neg, landingComponent, sampleComponent, ditchHit, sampleHit]
  have h3 : DotProduct ditchHit.ImpactNormal (⟨4 / 5, 0, 3 / 5⟩ : FVector ℚ) < 0 := by
    norm_num [DotProduct, ditchHit, sampleHit]
  have h4 : |DotProduct (⟨0, 1, 0⟩ : FVector ℚ) (neg landingComponent.GravityDirection)|
      ≤ KINDA_SMALL_NUMBER := by
    norm_num [DotProduct, neg, landingComponent, sampleComponent, KINDA_SMALL_NUMBER]
  ⟨h1, h2, h3, h4,
   PhysFalling_ditch_lands Rat.sqrt sampleWorld landingComponent sampleLocals ⟨0, 1, 0⟩
     ⟨4 / 5, 0, 3 / 5⟩ ⟨4 / 5, 0, 3 / 5⟩ ditchHit h1 h2 h3 h4⟩

/-! ## Landing -/

theorem SolverFrame_refl (c : UGravityMovementcomponent F) : SolverFrame c c :=
  ⟨c.Velocity, c.Acceleration, c.AnalogInputModifier, rfl⟩

theorem SolverFrame_setVelocity {a b : UGravityMovementcomponent F} (h : SolverFrame a b)
    (v : FVector F) : SolverFrame (a.setVelocity v) b := by
  obtain ⟨v0, acc, m, rfl⟩ := h
  exact ⟨v, acc, m, rfl⟩

theorem SolverFrame_setAcceleration {a b : UGravityMovementcomponent F} (h : SolverFrame a b)
    (acc : FVector F) : SolverFrame (a.setAcceleration acc) b := by
  obtain ⟨v0, acc0, m, rfl⟩ := h
  exact ⟨v0, acc, m, rfl⟩

theorem SolverFrame_setAnalogInputModifier {a b : UGravityMovementcomponent F}
    (h : SolverFrame a b) (m : F) : SolverFrame (a.setAnalogInputModifier m) b := by
  obtain ⟨v0, acc0, m0, rfl⟩ := h
  exact ⟨v0, acc0, m, rfl⟩

theorem SolverFrame_trans {a b c : UGravityMovementcomponent F} (h1 : SolverFrame a b)
    (h2 : SolverFrame b c) : SolverFrame a c := by
  obtain ⟨v, acc, m, rfl⟩ := h1
  obtain ⟨v', acc', m', rfl⟩ := h2
  exact ⟨v, acc, m, rfl⟩

theorem CalcVelocity_ForceMaxAccel_frame (Sqrt : F → F) (W : World F)
    (c : UGravityMovementcomponent F) (MaxAccel : F) :
    SolverFrame (CalcVelocity_ForceMaxAccel Sqrt W c MaxAccel) c := by
  unfold CalcVelocity_ForceMaxAccel
  repeat' (first
    | exact SolverFrame_refl c
    | exact SolverFrame_setAnalogInputModifier (SolverFrame_setAcceleration (SolverFrame_refl c) _) _
    | (apply ite_pred (fun x => SolverFrame x c) <;> intro _))

theorem ApplyVelocityBraking_frame (W : World F) (c : UGravityMovementcomponent F)
    (DeltaTime Friction BrakingDeceleration : F) :
    SolverFrame (ApplyVelocityBraking W c DeltaTime Friction BrakingDeceleration) c := by
  unfold ApplyVelocityBraking
  exact ite_pred (fun x => SolverFrame x c) _ _ _ (fun _ => SolverFrame_refl c)
    (fun _ => SolverFrame_setVelocity (SolverFrame_refl c) _)

theorem CalcVelocity_Brake_frame (Sqrt : F → F) (W : World F)
    (c : UGravityMovementcomponent F) (DeltaTime Friction BrakingDeceleration MaxSpeed : F)
    (b : Bool) :
    SolverFrame (CalcVelocity_Brake Sqrt W c DeltaTime Friction BrakingDeceleration MaxSpeed b)
      c := by
  unfold CalcVelocity_Brake
  dsimp only
  repeat' (first
    | exact SolverFrame_refl c
    | exact SolverFrame_setVelocity (SolverFrame_refl c) _
    | exact ApplyVelocityBraking_frame _ _ _ _ _
    | exact SolverFrame_setVelocity (ApplyVelocityBraking_frame _ _ _ _ _) _
    | (apply ite_pred (fun x => SolverFrame x c) <;> intro _))

theorem CalcVelocity_Accelerate_frame (Sqrt : F → F)
    (c : UGravityMovementcomponent F) (DeltaTime Friction : F) (bFluid : Bool)
    (MaxInputSpeed : F) :
    SolverFrame (CalcVelocity_Accelerate Sqrt c DeltaTime Friction bFluid MaxInputSpeed) c := by
  unfold CalcVelocity_Accelerate
  dsimp only
  have hf : SolverFrame (if bFluid = true then
      c.setVelocity (scale c.Velocity (1 - min (Friction * DeltaTime) 1)) else c) c :=
    ite_pred (fun x => SolverFrame x c) _ _ _
      (fun _ => SolverFrame_setVelocity (SolverFrame_refl c) _) (fun _ => SolverFrame_refl c)
  generalize (if bFluid = true then
      c.setVelocity (scale c.Velocity (1 - min (Friction * DeltaTime) 1)) else c) = cf at hf ⊢
  exact ite_pred (fun x => SolverFrame x c) _ _ _
    (fun _ => SolverFrame_setVelocity hf _) (fun _ => hf)

theorem CalcVelocity_Requested_frame (Sqrt : F → F)
    (c : UGravityMovementcomponent F) (DeltaTime : F) (b : Bool) (RA : FVector F) (RS : F) :
    SolverFrame (CalcVelocity_Requested Sqrt c DeltaTime b RA RS) c := by
  unfold CalcVelocity_Requested
  exact ite_pred (fun x => SolverFrame x c) _ _ _
    (fun _ => SolverFrame_setVelocity (SolverFrame_refl c) _) (fun _ => SolverFrame_refl c)

theorem ApplyRequestedMove_frame (W : World F) (c : UGravityMovementcomponent F)
    (DeltaTime MaxAccel MaxSpeed Friction BrakingDeceleration : F) :
    SolverFrame (ApplyRequestedMove W c DeltaTime MaxAccel MaxSpeed Friction
      BrakingDeceleration).2.2.2 c := by
  unfold ApplyRequestedMove
  dsimp only
  repeat' (first
    | exact SolverFrame_refl c
    | exact SolverFrame_setVelocity (SolverFrame_refl c) _
    | (apply ite_pred (fun x : Bool × FVector F × F × UGravityMovementcomponent F =>
        SolverFrame x.2.2.2 c) <;> intro _))

theorem SolverFrame_bUseRVOAvoidance {a b : UGravityMovementcomponent F}
    (h : SolverFrame a b) : a.bUseRVOAvoidance = b.bUseRVOAvoidance := by
  obtain ⟨v, acc, m, rfl⟩ := h
  rfl

theorem CalcVelocity_frame (Sqrt : F → F) (W : World F) (c : UGravityMovementcomponent F)
    (DeltaTime Friction : F) (bFluid : Bool) (BrakingDeceleration : F)
    (hRVO : c.bUseRVOAvoidance = false) :
    SolverFrame (CalcVelocity Sqrt W c DeltaTime Friction bFluid BrakingDeceleration) c := by
  unfold CalcVelocity
  apply ite_pred (fun x => SolverFrame x c)
  · intro _; exact SolverFrame_refl c
  · intro _
    dsimp only
    have h0 := ApplyRequestedMove_frame W c DeltaTime c.MaxAcceleration (W.GetMaxSpeed c)
      (max 0 Friction) BrakingDeceleration
    generalize ApplyRequestedMove W c DeltaTime c.MaxAcceleration (W.GetMaxSpeed c)
      (max 0 Friction) BrakingDeceleration = rq at h0 ⊢
    have h1 := SolverFrame_trans
      (CalcVelocity_ForceMaxAccel_frame Sqrt W rq.2.2.2 c.MaxAcceleration) h0
    generalize CalcVelocity_ForceMaxAccel Sqrt W rq.2.2.2 c.MaxAcceleration = c1 at h1 ⊢
    generalize max (W.GetMaxSpeed c * c1.AnalogInputModifier) (W.GetMinAnalogSpeed c1) = MIS
    have h2 := SolverFrame_trans
      (CalcVelocity_Brake_frame Sqrt W c1 DeltaTime (max 0 Friction) BrakingDeceleration
        (max rq.2.2.1 MIS) (!rq.1)) h1
    generalize CalcVelocity_Brake Sqrt W c1 DeltaTime (max 0 Friction) BrakingDeceleration
        (max rq.2.2.1 MIS) (!rq.1) = c2 at h2 ⊢
    have h3 := SolverFrame_trans
      (CalcVelocity_Accelerate_frame Sqrt c2 DeltaTime (max 0 Friction) bFluid MIS) h2
    generalize CalcVelocity_Accelerate Sqrt c2 DeltaTime (max 0 Friction) bFluid MIS = c3
      at h3 ⊢
    have h4 := SolverFrame_trans
      (CalcVelocity_Requested_frame Sqrt c3 DeltaTime (!rq.1) rq.2.1 rq.2.2.1) h3
    generalize CalcVelocity_Requested Sqrt c3 DeltaTime (!rq.1) rq.2.1 rq.2.2.1 = c4 at h4 ⊢
    have h5 : c4.bUseRVOAvoidance = false := (SolverFrame_bUseRVOAvoidance h4).trans hRVO
    simp only [h5, Bool.false_eq_true, if_false]
    exact h4

theorem SolverFrame_FallFrame {a b : UGravityMovementcomponent F} (h : SolverFrame a b) :
    FallFrame a b ∧ a.Location = b.Location ∧ a.NumJumpApexAttempts = b.NumJumpApexAttempts := by
  obtain ⟨v, acc, m, rfl⟩ := h
  exact ⟨⟨rfl, rfl, rfl, rfl, rfl, rfl, rfl, rfl, rfl, rfl⟩, rfl, rfl⟩

theorem NewFallVelocity_unclamped (Sqrt : F → F) (c : UGravityMovementcomponent F)
    (V G : FVector F) (t : F)
    (h : SizeSquared (add V (scale G t)) ≤ |c.TerminalVelocity| * |c.TerminalVelocity|)
    (ht : 0 < t) : NewFallVelocity Sqrt c V G t = add V (scale G t) := by
  unfold NewFallVelocity
  rw [if_pos ht]
  dsimp only
  rw [if_neg (not_lt.mpr h)]

theorem PhysFalling_Velocity_freeFall (Sqrt : F → F) (W : World F)
    (c : UGravityMovementcomponent F) (FallAcceleration : FVector F) (timeTick : F)
    (hW : FreeFallWorld W) (hc : FreeFallComponent c) (ht : 0 < timeTick)
    (hT : SizeSquared (add c.Velocity (scale (scale c.GravityDirection (-c.GravityZ)) timeTick))
      ≤ |c.TerminalVelocity| * |c.TerminalVelocity|) :
    (PhysFalling_Velocity Sqrt W c FallAcceleration timeTick).c.Velocity =
        add c.Velocity (scale (scale c.GravityDirection (-c.GravityZ)) timeTick) ∧
      (PhysFalling_Velocity Sqrt W c FallAcceleration timeTick).c.Location = c.Location ∧
      FallFrame (PhysFalling_Velocity Sqrt W c FallAcceleration timeTick).c c ∧
      (PhysFalling_Velocity Sqrt W c FallAcceleration timeTick).c.NumJumpApexAttempts =
        c.NumJumpApexAttempts ∧
      (PhysFalling_Velocity Sqrt W c FallAcceleration timeTick).OldVelocityWithRootMotion =
        c.Velocity ∧
      (PhysFalling_Velocity Sqrt W c FallAcceleration timeTick).OldVelocity = c.Velocity ∧
      (PhysFalling_Velocity Sqrt W c FallAcceleration timeTick).GravityTime = timeTick ∧
      (PhysFalling_Velocity Sqrt W c FallAcceleration timeTick).bEndingJumpForce = false := by
  obtain ⟨hMove, hAnim, hOver, hRestore, hApply, hDecay⟩ := hW
  obtain ⟨hG, hgz, hJump, hRVO, hOwner, hMode⟩ := hc
  obtain ⟨v, acc, m, hcv⟩ := CalcVelocity_frame Sqrt W
    ((c.setJustTeleported false).setAcceleration FallAcceleration) timeTick
    (c.setJustTeleported false).FallingLateralFriction false
    (W.GetMaxBrakingDeceleration (c.setJustTeleported false)) hRVO
  have hJ : ¬ ((((((((c.setJustTeleported false).setAcceleration FallAcceleration).setVelocity
      v).setAcceleration acc).setAnalogInputModifier m).setVelocity
      (c.setJustTeleported false).Velocity).setAcceleration
      (c.setJustTeleported false).Acceleration).JumpForceTimeRemaining > 0) :=
    not_lt.mpr hJump
  have hN := NewFallVelocity_unclamped Sqrt
    (((((((c.setJustTeleported false).setAcceleration FallAcceleration).setVelocity
      v).setAcceleration acc).setAnalogInputModifier m).setVelocity
      (c.setJustTeleported false).Velocity).setAcceleration
      (c.setJustTeleported false).Acceleration)
    c.Velocity (scale c.GravityDirection (-c.GravityZ)) timeTick hT ht
  unfold PhysFalling_Velocity
  simp only [hRestore, hAnim, hOver, hApply, hDecay, and_self, if_true, hcv]
  rw [if_neg hJ]
  refine ⟨hN, rfl, ⟨rfl, rfl, rfl, rfl, rfl, rfl, rfl, rfl, rfl, rfl⟩, rfl, rfl, rfl, rfl, rfl⟩

theorem FVector_eq {a b : FVector F} (hx : a.X = b.X) (hy : a.Y = b.Y) (hz : a.Z = b.Z) :
    a = b := by
  cases a; cases b; simp_all

theorem DerivedAccel_freeFall (V G : FVector F) (t : F) (ht : t ≠ 0) :
    div (sub (add V (scale G t)) V) t = G := by
  apply FVector_eq <;> simp only [FVector.div, FVector.sub, FVector.add, FVector.scale] <;>
    field_simp

theorem UpVelocity_after (V G : FVector F) (gz t : F) (hG : DotProduct G G = 1) :
    DotProduct (add V (scale (scale G (-gz)) t)) (neg G) = DotProduct V (neg G) + gz * t := by
  simp only [DotProduct, FVector.add, FVector.scale, FVector.neg] at hG ⊢
  linear_combination (gz * t) * hG

theorem DerivedAccelZ_freeFall (G : FVector F) (gz : F) (hG : DotProduct G G = 1) :
    DotProduct (scale G (-gz)) (neg G) = gz := by
  simp only [DotProduct, FVector.scale, FVector.neg] at hG ⊢
  linear_combination gz * hG

theorem PhysFalling_Apex_freeFall (c1 c : UGravityMovementcomponent F)
    (timeTick remainingTime : F) (Iterations : Int)
    (hV : c1.Velocity = add c.Velocity (scale (scale c.GravityDirection (-c.GravityZ)) timeTick))
    (hF : FallFrame c1 c) (hN : c1.NumJumpApexAttempts = c.NumJumpApexAttempts)
    (hG : DotProduct c.GravityDirection c.GravityDirection = 1) (ht : 0 < timeTick) :
    ∃ tt, 0 < tt ∧ tt ≤ timeTick ∧
      (PhysFalling_Apex c1 c.Velocity timeTick remainingTime Iterations).timeTick = tt ∧
      (PhysFalling_Apex c1 c.Velocity timeTick remainingTime Iterations).remainingTime =
        remainingTime + (timeTick - tt) ∧
      (PhysFalling_Apex c1 c.Velocity timeTick remainingTime Iterations).c.Velocity =
        add c.Velocity (scale (scale c.GravityDirection (-c.GravityZ)) tt) ∧
      (PhysFalling_Apex c1 c.Velocity timeTick remainingTime Iterations).c.Location =
        c1.Location ∧
      FallFrame (PhysFalling_Apex c1 c.Velocity timeTick remainingTime Iterations).c c1 ∧
      (ApexSplitTaken c timeTick → tt = -(UpVelocity c) / c.GravityZ) ∧
      (¬ ApexSplitTaken c timeTick → tt = timeTick) ∧
      (¬ ApexSplitTaken c timeTick →
        (PhysFalling_Apex c1 c.Velocity timeTick remainingTime Iterations).c.NumJumpApexAttempts
          = c.NumJumpApexAttempts) := by
  have hGD : c1.GravityDirection = c.GravityDirection := hF.1
  have hFJ : c1.ForceJumpPeakSubstep = c.ForceJumpPeakSubstep := hF.2.2.2.2.2.2.2.2.1
  have hMJ : c1.MaxJumpApexAttemptsPerSimulation = c.MaxJumpApexAttemptsPerSimulation :=
    hF.2.2.2.2.2.2.2.2.2
  have hD := DerivedAccel_freeFall c.Velocity (scale c.GravityDirection (-c.GravityZ)) timeTick
    (ne_of_gt ht)
  have hU := UpVelocity_after c.Velocity c.GravityDirection c.GravityZ timeTick hG
  have hDZ := DerivedAccelZ_freeFall c.GravityDirection c.GravityZ hG
  have hUp : DotProduct c.Velocity (neg c.GravityDirection) = UpVelocity c := rfl
  unfold PhysFalling_Apex
  simp only [hGD, hFJ, hMJ, hN, hV, hD, hU, hDZ, hUp]
  by_cases hS : ApexSplitTaken c timeTick
  · obtain ⟨h1, h2, h3, h4, h5, h6, h7⟩ := hS
    rw [if_pos ⟨h1, h2, h3, h4⟩, if_pos h5, if_pos ⟨h6, h7⟩]
    refine ⟨-(UpVelocity c) / c.GravityZ, ?_, le_of_lt h7, rfl, rfl, rfl, rfl,
      ⟨rfl, rfl, rfl, rfl, rfl, rfl, rfl, rfl, rfl, rfl⟩, fun _ => rfl,
      fun h => absurd ⟨h1, h2, h3, h4, h5, h6, h7⟩ h,
      fun h => absurd ⟨h1, h2, h3, h4, h5, h6, h7⟩ h⟩
    exact lt_of_lt_of_le (by norm_num) h6
  · refine ⟨timeTick, ht, le_refl _, ?_, ?_, ?_, ?_, ?_, fun h => absurd h hS, fun _ => rfl,
      ?_⟩
    all_goals
      by_cases hA : c.ForceJumpPeakSubstep ≠ 0 ∧ UpVelocity c > 0 ∧
          UpVelocity c + c.GravityZ * timeTick ≤ 0 ∧
          c.NumJumpApexAttempts < c.MaxJumpApexAttemptsPerSimulation
      · rw [if_pos hA]
        by_cases hB : ¬ (|c.GravityZ| ≤ SMALL_NUMBER)
        · rw [if_pos hB]
          by_cases hC : -(UpVelocity c) / c.GravityZ ≥ 1 / 10000 ∧
              -(UpVelocity c) / c.GravityZ < timeTick
          · exact absurd ⟨hA.1, hA.2.1, hA.2.2.1, hA.2.2.2, hB, hC.1, hC.2⟩ hS
          · rw [if_neg hC] <;> first
              | exact hV
              | exact ⟨rfl, rfl, rfl, rfl, rfl, rfl, rfl, rfl, rfl, rfl⟩
              | exact fun _ => hN
              | simp
        · rw [if_neg hB] <;> first
            | exact hV
            | exact ⟨rfl, rfl, rfl, rfl, rfl, rfl, rfl, rfl, rfl, rfl⟩
            | exact fun _ => hN
            | simp
      · rw [if_neg hA] <;> first
          | exact hV
          | exact ⟨rfl, rfl, rfl, rfl, rfl, rfl, rfl, rfl, rfl, rfl⟩
          | exact fun _ => hN
          | simp

theorem SizeSquared_between (V w : FVector F) (t r B : F) (h0 : SizeSquared V ≤ B)
    (h1 : SizeSquared (add V (scale w r)) ≤ B) (ht0 : 0 ≤ t) (ht : t ≤ r) :
    SizeSquared (add V (scale w t)) ≤ B := by
  simp only [SizeSquared, FVector.add, FVector.scale] at h0 h1 ⊢
  rcases eq_or_lt_of_le (le_trans ht0 ht) with hr | hr
  · have ht1 : t = 0 := le_antisymm (hr ▸ ht) ht0
    subst ht1
    simpa using h0
  · have hw : 0 ≤ w.X * w.X + w.Y * w.Y + w.Z * w.Z :=
      add_nonneg (add_nonneg (mul_self_nonneg _) (mul_self_nonneg _)) (mul_self_nonneg _)
    have key : r * ((V.X + w.X * t) * (V.X + w.X * t) + (V.Y + w.Y * t) * (V.Y + w.Y * t) +
        (V.Z + w.Z * t) * (V.Z + w.Z * t)) =
        (r - t) * (V.X * V.X + V.Y * V.Y + V.Z * V.Z) +
        t * ((V.X + w.X * r) * (V.X + w.X * r) + (V.Y + w.Y * r) * (V.Y + w.Y * r) +
          (V.Z + w.Z * r) * (V.Z + w.Z * r)) -
        t * (r - t) * r * (w.X * w.X + w.Y * w.Y + w.Z * w.Z) := by ring
    have h2 : r * ((V.X + w.X * t) * (V.X + w.X * t) + (V.Y + w.Y * t) * (V.Y + w.Y * t) +
        (V.Z + w.Z * t) * (V.Z + w.Z * t)) ≤ r * B := by
      rw [key]
      have a1 := mul_le_mul_of_nonneg_left h0 (sub_nonneg.mpr ht)
      have a2 := mul_le_mul_of_nonneg_left h1 ht0
      have a3 : 0 ≤ t * (r - t) * r * (w.X * w.X + w.Y * w.Y + w.Z * w.Z) :=
        mul_nonneg (mul_nonneg (mul_nonneg ht0 (sub_nonneg.mpr ht)) (le_of_lt hr)) hw
      linarith
    exact le_of_mul_le_mul_left h2 hr

theorem GetSimulationTimeStep_bounds (c : UGravityMovementcomponent F) (r : F) (i : Int)
    (hr : MIN_TICK_TIME ≤ r) :
    0 < GetSimulationTimeStep c r i ∧ GetSimulationTimeStep c r i ≤ r := by
  have hm : (0 : F) < MIN_TICK_TIME := by norm_num [MIN_TICK_TIME]
  unfold GetSimulationTimeStep
  dsimp only
  refine ⟨lt_of_lt_of_le hm (le_max_left _ _), max_le hr ?_⟩
  apply ite_pred (fun x => x ≤ r)
  · intro _
    have h2 : r * (1 / 2) ≤ r := by linarith [lt_of_lt_of_le hm hr]
    exact le_trans (min_le_right _ _) h2
  · intro _; exact le_refl r

theorem PhysFalling_NotifyApex_of_nonneg (Sqrt : F → F) (W : World F)
    (c : UGravityMovementcomponent F) (hSqrt : ∀ x, 0 ≤ Sqrt x) :
    PhysFalling_NotifyApex Sqrt W c = c := by
  unfold PhysFalling_NotifyApex
  rw [if_neg]
  intro h
  exact absurd h.2 (not_lt.mpr (hSqrt _))

theorem SafeMoveUpdatedComponent_freeFall (W : World F) (hW : FreeFallWorld W)
    (Location Delta : FVector F) :
    (SafeMoveUpdatedComponent W Location Delta).1 = add Location Delta ∧
      (SafeMoveUpdatedComponent W Location Delta).2.bBlockingHit = false := by
  unfold SafeMoveUpdatedComponent
  by_cases h : IsZero Delta = true
  · rw [if_pos h]
    refine ⟨?_, rfl⟩
    simp only [IsZero, Bool.and_eq_true, decide_eq_true_eq] at h
    apply FVector_eq <;> simp [FVector.add, h.1.1, h.1.2, h.2]
  · rw [if_neg h]
    exact hW.1 Location Delta

theorem PhysFalling_AfterMove_unobstructed (Sqrt : F → F) (W : World F)
    (c : UGravityMovementcomponent F) (L : FallingLocals F) (Hit : FHitResult F)
    (hMode : c.MovementMode = EMovementMode.MOVE_Falling) (hHit : Hit.bBlockingHit = false) :
    PhysFalling_AfterMove Sqrt W c L Hit = .continueLoop c L.remainingTime L.Iterations := by
  unfold PhysFalling_AfterMove
  simp only [IsSwimming, hMode, hHit]
  simp

theorem PhysFalling_Iteration_freeFall (Sqrt : F → F) (W : World F)
    (c : UGravityMovementcomponent F) (FallAcceleration : FVector F)
    (bHasLimitedAirControl : Bool) (remainingTime : F) (Iterations : Int)
    (hSqrt : ∀ x, 0 ≤ Sqrt x) (hW : FreeFallWorld W) (hc : FreeFallComponent c)
    (hr : MIN_TICK_TIME ≤ remainingTime) (hT : WithinTerminalVelocity c remainingTime) :
    ∃ c1 tt i1,
      PhysFalling_Iteration Sqrt W c FallAcceleration bHasLimitedAirControl remainingTime
        Iterations = .continueLoop c1 (remainingTime - tt) i1 ∧
      0 < tt ∧ tt ≤ remainingTime ∧
      c1.Velocity = add c.Velocity (scale (scale c.GravityDirection (-c.GravityZ)) tt) ∧
      c1.Location = add c.Location (scale (scale (add c.Velocity c1.Velocity) (1 / 2)) tt) ∧
      FallFrame c1 c ∧
      (ApexSplitTaken c (GetSimulationTimeStep c remainingTime (Iterations + 1)) →
        tt = -(UpVelocity c) / c.GravityZ) ∧
      (¬ ApexSplitTaken c (GetSimulationTimeStep c remainingTime (Iterations + 1)) →
        tt = GetSimulationTimeStep c remainingTime (Iterations + 1)) ∧
      (¬ ApexSplitTaken c (GetSimulationTimeStep c remainingTime (Iterations + 1)) →
        c1.NumJumpApexAttempts = c.NumJumpApexAttempts) := by
  obtain ⟨ht0, htr⟩ := GetSimulationTimeStep_bounds c remainingTime (Iterations + 1) hr
  have hT1 := SizeSquared_between c.Velocity (scale c.GravityDirection (-c.GravityZ))
    (GetSimulationTimeStep c remainingTime (Iterations + 1)) remainingTime _ hT.1 hT.2
    (le_of_lt ht0) htr
  obtain ⟨hv1, hv2, hv3, hv4, hv5, hv6, hv7, hv8⟩ := PhysFalling_Velocity_freeFall Sqrt W c
    FallAcceleration (GetSimulationTimeStep c remainingTime (Iterations + 1)) hW hc ht0 hT1
  unfold PhysFalling_Iteration
  dsimp only
  generalize GetSimulationTimeStep c remainingTime (Iterations + 1) = timeTick at *
  generalize PhysFalling_Velocity Sqrt W c FallAcceleration timeTick = r at *
  rw [hv5]
  obtain ⟨tt, ha1, ha2, ha3, ha4, ha5, ha6, ha7, ha8, ha9, ha10⟩ :=
    PhysFalling_Apex_freeFall r.c c
    timeTick (remainingTime - timeTick) (Iterations + 1) hv1 hv3 hv4 hc.1 ht0
  generalize PhysFalling_Apex r.c c.Velocity timeTick (remainingTime - timeTick)
    (Iterations + 1) = a at *
  rw [PhysFalling_NotifyApex_of_nonneg Sqrt W a.c hSqrt]
  have hAdj : PhysFalling_Adjusted a.c c.Velocity a.timeTick r.GravityTime r.bEndingJumpForce =
      scale (scale (add c.Velocity a.c.Velocity) (1 / 2)) a.timeTick := by
    unfold PhysFalling_Adjusted
    rw [hv8]
    simp
  rw [hAdj]
  obtain ⟨hm1, hm2⟩ := SafeMoveUpdatedComponent_freeFall W hW a.c.Location
    (scale (scale (add c.Velocity a.c.Velocity) (1 / 2)) a.timeTick)
  generalize SafeMoveUpdatedComponent W a.c.Location
    (scale (scale (add c.Velocity a.c.Velocity) (1 / 2)) a.timeTick) = m at *
  have hOwner : (a.c.setLocation m.1).bHasCharacterOwner = true :=
    (ha7.2.2.2.2.2.1.trans hv3.2.2.2.2.2.1).trans hc.2.2.2.2.1
  have hMode : (a.c.setLocation m.1).MovementMode = EMovementMode.MOVE_Falling :=
    (ha7.2.2.2.2.2.2.1.trans hv3.2.2.2.2.2.2.1).trans hc.2.2.2.2.2
  rw [if_neg (by rw [hOwner]; exact Bool.noConfusion)]
  rw [PhysFalling_AfterMove_unobstructed Sqrt W _ _ m.2 hMode hm2]
  refine ⟨a.c.setLocation m.1, tt, a.Iterations, ?_, ha1, le_trans ha2 htr, ha5, ?_, ?_, ha8,
    ha9, ha10⟩
  · dsimp only
    rw [ha4]
    congr 1
    ring
  · show m.1 = _
    rw [hm1, ha6, hv2, ha3]
    rfl
  · obtain ⟨f1, f2, f3, f4, f5, f6, f7, f8, f9, f10⟩ := ha7
    obtain ⟨g1, g2, g3, g4, g5, g6, g7, g8, g9, g10⟩ := hv3
    exact ⟨f1.trans g1, f2.trans g2, f3.trans g3, f4.trans g4, f5.trans g5, f6.trans g6,
      f7.trans g7, f8.trans g8, f9.trans g9, f10.trans g10⟩

theorem PhysFalling_Loop_stop (Sqrt : F → F) (W : World F) (FallAcceleration : FVector F)
    (b : Bool) (fuel : Nat) (c : UGravityMovementcomponent F) (remainingTime : F)
    (Iterations : Int)
    (hg : ¬ (remainingTime ≥ MIN_TICK_TIME ∧ Iterations < c.MaxSimulationIterations)) :
    PhysFalling_Loop Sqrt W FallAcceleration b fuel c remainingTime Iterations = ([], c) := by
  cases fuel with
  | zero => rfl
  | succ n => rw [PhysFalling_Loop, if_neg hg]

theorem PhysFalling_Loop_continue (Sqrt : F → F) (W : World F) (FallAcceleration : FVector F)
    (b : Bool) (fuel : Nat) (c c1 : UGravityMovementcomponent F) (remainingTime r : F)
    (Iterations i : Int)
    (hg : remainingTime ≥ MIN_TICK_TIME ∧ Iterations < c.MaxSimulationIterations)
    (hs : PhysFalling_Iteration Sqrt W c FallAcceleration b remainingTime Iterations =
      .continueLoop c1 r i) :
    PhysFalling_Loop Sqrt W FallAcceleration b (fuel + 1) c remainingTime Iterations =
      (.continueLoop c1 r i :: (PhysFalling_Loop Sqrt W FallAcceleration b fuel c1 r i).1,
        (PhysFalling_Loop Sqrt W FallAcceleration b fuel c1 r i).2) := by
  rw [PhysFalling_Loop, if_pos hg]
  simp only [hs]

theorem FreeFallComponent_of_frame {a b : UGravityMovementcomponent F} (h : FallFrame a b)
    (hb : FreeFallComponent b) : FreeFallComponent a := by
  obtain ⟨f1, f2, f3, f4, f5, f6, f7, f8, f9, f10⟩ := h
  obtain ⟨g1, g2, g3, g4, g5, g6⟩ := hb
  exact ⟨by rw [f1]; exact g1, by rw [f2]; exact g2, by rw [f4]; exact g3, f5.trans g4,
    f6.trans g5, f7.trans g6⟩

theorem WithinTerminalVelocity_step (c c1 : UGravityMovementcomponent F) (r tt : F)
    (hT : WithinTerminalVelocity c r) (h0 : 0 < tt) (h1 : tt ≤ r)
    (hV : c1.Velocity = add c.Velocity (scale (scale c.GravityDirection (-c.GravityZ)) tt))
    (hF : FallFrame c1 c) : WithinTerminalVelocity c1 (r - tt) := by
  obtain ⟨f1, f2, f3, _⟩ := hF
  unfold WithinTerminalVelocity
  rw [hV, f1, f2, f3]
  refine ⟨SizeSquared_between _ _ tt r _ hT.1 hT.2 (le_of_lt h0) h1, ?_⟩
  have : add (add c.Velocity (scale (scale c.GravityDirection (-c.GravityZ)) tt))
      (scale (scale c.GravityDirection (-c.GravityZ)) (r - tt)) =
      add c.Velocity (scale (scale c.GravityDirection (-c.GravityZ)) r) := by
    apply FVector_eq <;> simp only [FVector.add, FVector.scale] <;> ring
  rw [this]
  exact hT.2

theorem free_fall_energy (c c1 : UGravityMovementcomponent F) (tt : F)
    (hG : DotProduct c.GravityDirection c.GravityDirection = 1)
    (hV : c1.Velocity = add c.Velocity (scale (scale c.GravityDirection (-c.GravityZ)) tt))
    (hL : c1.Location = add c.Location (scale (scale (add c.Velocity c1.Velocity) (1 / 2)) tt))
    (hF : FallFrame c1 c) :
    UpVelocity c1 = UpVelocity c + c.GravityZ * tt ∧
      2 * (-c.GravityZ) * (Height c1 - Height c) = UpVelocity c ^ 2 - UpVelocity c1 ^ 2 ∧
      Height c1 - Height c = (UpVelocity c + UpVelocity c1) * (1 / 2) * tt := by
  have hU : UpVelocity c1 = UpVelocity c + c.GravityZ * tt := by
    unfold UpVelocity
    rw [hV, hF.1]
    exact UpVelocity_after c.Velocity c.GravityDirection c.GravityZ tt hG
  refine ⟨hU, ?_⟩
  have hH : Height c1 - Height c = (UpVelocity c + UpVelocity c1) * (1 / 2) * tt := by
    unfold Height UpVelocity
    rw [hL, hF.1]
    simp only [DotProduct, FVector.add, FVector.scale, FVector.neg]
    ring
  refine ⟨?_, hH⟩
  rw [hH, hU]
  ring

theorem PhysFalling_Loop_freeFall (Sqrt : F → F) (W : World F) (FallAcceleration : FVector F)
    (b : Bool) (hSqrt : ∀ x, 0 ≤ Sqrt x) (hW : FreeFallWorld W) :
    ∀ (fuel : Nat) (c : UGravityMovementcomponent F) (remainingTime : F) (Iterations : Int),
      FreeFallComponent c → WithinTerminalVelocity c remainingTime →
      (∀ s ∈ (PhysFalling_Loop Sqrt W FallAcceleration b fuel c remainingTime Iterations).1,
        (∃ c1 r i, s = .continueLoop c1 r i) ∧
          2 * (-c.GravityZ) * (Height s.Component - Height c) =
            UpVelocity c ^ 2 - UpVelocity s.Component ^ 2) ∧
      (∀ s, (PhysFalling_Loop Sqrt W FallAcceleration b fuel c remainingTime Iterations).1[0]? =
          some s →
        ApexSplitTaken c (GetSimulationTimeStep c remainingTime (Iterations + 1)) →
        UpVelocity s.Component = 0) ∧
      (∀ k c1 r1 i1 s,
        (PhysFalling_Loop Sqrt W FallAcceleration b fuel c remainingTime Iterations).1[k]? =
          some (.continueLoop c1 r1 i1) →
        (PhysFalling_Loop Sqrt W FallAcceleration b fuel c remainingTime Iterations).1[k + 1]? =
          some s →
        ApexSplitTaken c1 (GetSimulationTimeStep c1 r1 (i1 + 1)) →
        UpVelocity s.Component = 0) := by
  intro fuel
  induction fuel with
  | zero =>
    intro c remainingTime Iterations _ _
    refine ⟨?_, ?_, ?_⟩
    · intro s hs
      exact absurd hs (List.not_mem_nil s)
    · intro s hs
      exact absurd hs (by simp [PhysFalling_Loop])
    · intro k c1 r1 i1 s hs
      exact absurd hs (by simp [PhysFalling_Loop])
  | succ n ih =>
    intro c remainingTime Iterations hc hT
    by_cases hg : remainingTime ≥ MIN_TICK_TIME ∧ Iterations < c.MaxSimulationIterations
    · obtain ⟨c1, tt, i1, hstep, h0, h1, hV, hL, hF, hA, _, _⟩ :=
        PhysFalling_Iteration_freeFall Sqrt W c FallAcceleration b remainingTime Iterations
          hSqrt hW hc hg.1 hT
      rw [PhysFalling_Loop_continue Sqrt W FallAcceleration b n c c1 remainingTime
        (remainingTime - tt) Iterations i1 hg hstep]
      obtain ⟨hU, hE, _⟩ := free_fall_energy c c1 tt hc.1 hV hL hF
      obtain ⟨ih1, ih2, ih3⟩ := ih c1 (remainingTime - tt) i1 (FreeFallComponent_of_frame hF hc)
        (WithinTerminalVelocity_step c c1 remainingTime tt hT h0 h1 hV hF)
      refine ⟨?_, ?_, ?_⟩
      · intro s hs
        rcases List.mem_cons.mp hs with hs | hs
        · subst hs
          exact ⟨⟨c1, _, _, rfl⟩, hE⟩
        · obtain ⟨e1, e2⟩ := ih1 s hs
          refine ⟨e1, ?_⟩
          have hgz : c1.GravityZ = c.GravityZ := hF.2.1
          rw [hgz] at e2
          linear_combination e2 + hE
      · intro s hs hSplit
        rw [List.getElem?_cons_zero] at hs
        have hs1 : s = .continueLoop c1 (remainingTime - tt) i1 := (Option.some.inj hs).symm
        subst hs1
        show UpVelocity c1 = 0
        rw [hU, hA hSplit]
        have hgz : c.GravityZ ≠ 0 := ne_of_lt hc.2.1
        have hm : c.GravityZ * (-(UpVelocity c) / c.GravityZ) = -(UpVelocity c) :=
          mul_div_cancel₀ _ hgz
        rw [hm]
        ring
      · intro k c2 r2 i2 s hk hk1 hSplit
        cases k with
        | zero =>
          rw [List.getElem?_cons_zero] at hk
          rw [List.getElem?_cons_succ] at hk1
          have e := Option.some.inj hk
          injection e with e1 e2 e3
          subst e1 e2 e3
          exact ih2 s hk1 hSplit
        | succ k =>
          rw [List.getElem?_cons_succ] at hk hk1
          exact ih3 k c2 r2 i2 s hk hk1 hSplit
    · rw [PhysFalling_Loop_stop Sqrt W FallAcceleration b (n + 1) c remainingTime Iterations hg]
      refine ⟨?_, ?_, ?_⟩
      · intro s hs
        exact absurd hs (List.not_mem_nil s)
      · intro s hs
        exact absurd hs (by simp)
      · intro k c1 r1 i1 s hs
        exact absurd hs (by simp)

theorem PhysFalling_Loop_nearApex (Sqrt : F → F) (W : World F) (FallAcceleration : FVector F)
    (b : Bool) (hSqrt : ∀ x, 0 ≤ Sqrt x) (hW : FreeFallWorld W) :
    ∀ (fuel : Nat) (c : UGravityMovementcomponent F) (remainingTime : F) (Iterations : Int),
      FreeFallComponent c → WithinTerminalVelocity c remainingTime →
      SMALL_NUMBER < -c.GravityZ → c.ForceJumpPeakSubstep ≠ 0 →
      c.NumJumpApexAttempts < c.MaxJumpApexAttemptsPerSimulation → 0 < UpVelocity c →
      (∃ s ∈ (PhysFalling_Loop Sqrt W FallAcceleration b fuel c remainingTime Iterations).1,
        UpVelocity s.Component ≤ 0) →
      UpVelocity c < -c.GravityZ * (1 / 10000) ∨
      ∃ s ∈ (PhysFalling_Loop Sqrt W FallAcceleration b fuel c remainingTime Iterations).1,
        0 ≤ UpVelocity s.Component ∧ UpVelocity s.Component < -c.GravityZ * (1 / 10000) := by
  intro fuel
  induction fuel with
  | zero =>
    intro c remainingTime Iterations _ _ _ _ _ _ hex
    obtain ⟨s, hs, _⟩ := hex
    exact absurd hs (List.not_mem_nil s)
  | succ n ih =>
    intro c remainingTime Iterations hc hT hSmall hFJ hNum hUp hex
    by_cases hg : remainingTime ≥ MIN_TICK_TIME ∧ Iterations < c.MaxSimulationIterations
    · obtain ⟨c1, tt, i1, hstep, h0, h1, hV, hL, hF, hA, hB, hC⟩ :=
        PhysFalling_Iteration_freeFall Sqrt W c FallAcceleration b remainingTime Iterations
          hSqrt hW hc hg.1 hT
      rw [PhysFalling_Loop_continue Sqrt W FallAcceleration b n c c1 remainingTime
        (remainingTime - tt) Iterations i1 hg hstep] at hex ⊢
      obtain ⟨hU, hE, _⟩ := free_fall_energy c c1 tt hc.1 hV hL hF
      have hgpos : 0 < -c.GravityZ := neg_pos.mpr hc.2.1
      have hgz : c.GravityZ ≠ 0 := ne_of_lt hc.2.1
      have hq : -(UpVelocity c) / c.GravityZ * c.GravityZ = -(UpVelocity c) :=
        div_mul_cancel₀ _ hgz
      have hbound : (0 : F) < -c.GravityZ * (1 / 10000) := by positivity
      by_cases hS : ApexSplitTaken c (GetSimulationTimeStep c remainingTime (Iterations + 1))
      · right
        refine ⟨_, List.mem_cons_self _ _, ?_⟩
        have h0 : UpVelocity c1 = 0 := by
          rw [hU, hA hS, mul_comm, hq]; ring
        show 0 ≤ UpVelocity c1 ∧ UpVelocity c1 < _
        rw [h0]
        exact ⟨le_refl _, hbound⟩
      · by_cases hpos : 0 < UpVelocity c1
        · obtain ⟨s, hs, hs0⟩ := hex
          have hrest : ∃ s ∈ (PhysFalling_Loop Sqrt W FallAcceleration b n c1
              (remainingTime - tt) i1).1, UpVelocity s.Component ≤ 0 := by
            rcases List.mem_cons.mp hs with h | h
            · subst h
              exact absurd hs0 (not_le.mpr hpos)
            · exact ⟨s, h, hs0⟩
          have hgz1 : c1.GravityZ = c.GravityZ := hF.2.1
          have hFJ1 : c1.ForceJumpPeakSubstep ≠ 0 := by
            rw [hF.2.2.2.2.2.2.2.2.1]; exact hFJ
          have hNum1 : c1.NumJumpApexAttempts < c1.MaxJumpApexAttemptsPerSimulation := by
            rw [hC hS, hF.2.2.2.2.2.2.2.2.2]; exact hNum
          rcases ih c1 (remainingTime - tt) i1 (FreeFallComponent_of_frame hF hc)
            (WithinTerminalVelocity_step c c1 remainingTime tt hT h0 h1 hV hF)
            (by rw [hgz1]; exact hSmall) hFJ1 hNum1 hpos hrest with h | ⟨s1, hs1, hs2⟩
          · right
            rw [hgz1] at h
            exact ⟨_, List.mem_cons_self _ _, le_of_lt hpos, h⟩
          · right
            rw [hgz1] at hs2
            exact ⟨s1, List.mem_cons_of_mem _ hs1, hs2⟩
        · have hle : UpVelocity c1 ≤ 0 := not_lt.mp hpos
          have htt := hB hS
          rw [hU, htt] at hle
          have habs : ¬ (|c.GravityZ| ≤ SMALL_NUMBER) := by
            rw [abs_of_neg hc.2.1]; exact not_le.mpr hSmall
          by_cases h6 : -(UpVelocity c) / c.GravityZ ≥ 1 / 10000
          · have h7 : ¬ (-(UpVelocity c) / c.GravityZ <
                GetSimulationTimeStep c remainingTime (Iterations + 1)) :=
              fun h7 => hS ⟨hFJ, hUp, hle, hNum, habs, h6, h7⟩
            have h8 := not_lt.mp h7
            have h9 : 0 ≤ UpVelocity c +
                c.GravityZ * GetSimulationTimeStep c remainingTime (Iterations + 1) := by
              nlinarith
            right
            refine ⟨_, List.mem_cons_self _ _, ?_⟩
            show 0 ≤ UpVelocity c1 ∧ UpVelocity c1 < _
            rw [hU, htt]
            exact ⟨h9, lt_of_le_of_lt hle hbound⟩
          · left
            have h6 := not_le.mp h6
            nlinarith
    · rw [PhysFalling_Loop_stop Sqrt W FallAcceleration b (n + 1) c remainingTime Iterations hg]
        at hex
      obtain ⟨s, hs, _⟩ := hex
      exact absurd hs (List.not_mem_nil s)

theorem PhysFalling_Loop_nonempty (Sqrt : F → F) (W : World F) (FallAcceleration : FVector F)
    (b : Bool) (hSqrt : ∀ x, 0 ≤ Sqrt x) (hW : FreeFallWorld W) (fuel : Nat)
    (c : UGravityMovementcomponent F) (remainingTime : F) (Iterations : Int)
    (hc : FreeFallComponent c) (hT : WithinTerminalVelocity c remainingTime)
    (hr : MIN_TICK_TIME ≤ remainingTime) (hfuel : 0 < fuel)
    (hi : Iterations < c.MaxSimulationIterations) :
    (PhysFalling_Loop Sqrt W FallAcceleration b fuel c remainingTime Iterations).1 ≠ [] := by
  obtain ⟨n, rfl⟩ := Nat.exists_eq_succ_of_ne_zero (Nat.pos_iff_ne_zero.mp hfuel)
  obtain ⟨c1, tt, i1, hstep, _⟩ :=
    PhysFalling_Iteration_freeFall Sqrt W c FallAcceleration b remainingTime Iterations
      hSqrt hW hc hr hT
  rw [PhysFalling_Loop_continue Sqrt W FallAcceleration b n c c1 remainingTime
    (remainingTime - tt) Iterations i1 ⟨hr, hi⟩ hstep]
  exact List.cons_ne_nil _ _

theorem FreeFallWorld_sampleWorld : FreeFallWorld sampleWorld :=
  ⟨fun _ _ => ⟨rfl, rfl⟩, fun _ => rfl, fun _ => rfl, fun _ => rfl, fun _ _ => rfl,
    fun _ _ => rfl⟩

theorem FreeFallComponent_risingComponent : FreeFallComponent risingComponent := by
  refine ⟨?_, ?_, ?_, rfl, rfl, rfl⟩ <;>
    norm_num [risingComponent, sampleComponent, DotProduct]

theorem FreeFallComponent_hopComponent : FreeFallComponent hopComponent := by
  refine ⟨?_, ?_, ?_, rfl, rfl, rfl⟩ <;>
    norm_num [hopComponent, sampleComponent, DotProduct]

theorem WithinTerminalVelocity_risingComponent :
    WithinTerminalVelocity risingComponent (1 / 60) := by
  constructor <;>
    norm_num [risingComponent, sampleComponent, SizeSquared, FVector.add, FVector.scale]

theorem WithinTerminalVelocity_hopComponent :
    WithinTerminalVelocity hopComponent (1 / 60) := by
  constructor <;>
    norm_num [hopComponent, sampleComponent, SizeSquared, FVector.add, FVector.scale]

theorem GetSimulationTimeStep_risingComponent :
    GetSimulationTimeStep risingComponent (1 / 60) (0 + 1) = 1 / 60 := by
  norm_num [GetSimulationTimeStep, risingComponent, sampleComponent, MIN_TICK_TIME]

theorem GetSimulationTimeStep_hopComponent :
    GetSimulationTimeStep hopComponent (1 / 60) (0 + 1) = 1 / 60 := by
  norm_num [GetSimulationTimeStep, hopComponent, sampleComponent, MIN_TICK_TIME]

theorem ApexSplitTaken_risingComponent : ¬ ApexSplitTaken risingComponent (1 / 60) := by
  intro h
  have h6 := h.2.2.2.2.2.1
  norm_num [UpVelocity, DotProduct, FVector.neg, risingComponent, sampleComponent] at h6

theorem ApexSplitTaken_hopComponent : ApexSplitTaken hopComponent (1 / 60) := by
  refine ⟨?_, ?_, ?_, ?_, ?_, ?_, ?_⟩ <;>
    norm_num [UpVelocity, DotProduct, FVector.neg, hopComponent, sampleComponent, SMALL_NUMBER]

theorem PhysFalling_Loop_progress (Sqrt : F → F) (W : World F) (FallAcceleration : FVector F)
    (b : Bool) (hSqrt : ∀ x, 0 ≤ Sqrt x) (hW : FreeFallWorld W) :
    ∀ (fuel : Nat) (c : UGravityMovementcomponent F) (remainingTime : F) (Iterations : Int),
      FreeFallComponent c → WithinTerminalVelocity c remainingTime →
      ∀ k c1 r1 i1,
        (PhysFalling_Loop Sqrt W FallAcceleration b fuel c remainingTime Iterations).1[k]? =
          some (.continueLoop c1 r1 i1) →
        k + 1 < fuel → MIN_TICK_TIME ≤ r1 → i1 < c1.MaxSimulationIterations →
        ∃ s, (PhysFalling_Loop Sqrt W FallAcceleration b fuel c remainingTime
          Iterations).1[k + 1]? = some s := by
  intro fuel
  induction fuel with
  | zero =>
    intro c remainingTime Iterations _ _ k c1 r1 i1 _ hk
    exact absurd hk (Nat.not_lt_zero _)
  | succ n ih =>
    intro c remainingTime Iterations hc hT k c1 r1 i1 hs hk hr hi
    by_cases hg : remainingTime ≥ MIN_TICK_TIME ∧ Iterations < c.MaxSimulationIterations
    · obtain ⟨c2, tt, i2, hstep, h0, h1, hV, hL, hF, _, _, _⟩ :=
        PhysFalling_Iteration_freeFall Sqrt W c FallAcceleration b remainingTime Iterations
          hSqrt hW hc hg.1 hT
      rw [PhysFalling_Loop_continue Sqrt W FallAcceleration b n c c2 remainingTime
        (remainingTime - tt) Iterations i2 hg hstep] at hs ⊢
      have hc2 := FreeFallComponent_of_frame hF hc
      have hT2 := WithinTerminalVelocity_step c c2 remainingTime tt hT h0 h1 hV hF
      cases k with
      | zero =>
        rw [List.getElem?_cons_zero] at hs
        have e := Option.some.inj hs
        injection e with e1 e2 e3
        subst e1 e2 e3
        rw [List.getElem?_cons_succ]
        have hne := PhysFalling_Loop_nonempty Sqrt W FallAcceleration b hSqrt hW n c2
          (remainingTime - tt) i2 hc2 hT2 hr (Nat.lt_of_succ_lt_succ hk) hi
        obtain ⟨s, rest, hsr⟩ := List.exists_cons_of_ne_nil hne
        exact ⟨s, by rw [hsr, List.getElem?_cons_zero]⟩
      | succ k =>
        rw [List.getElem?_cons_succ] at hs ⊢
        exact ih c2 (remainingTime - tt) i2 hc2 hT2 k c1 r1 i1 hs (Nat.lt_of_succ_lt_succ hk)
          hr hi
    · rw [PhysFalling_Loop_stop Sqrt W FallAcceleration b (n + 1) c remainingTime Iterations hg]
        at hs
      exact absurd hs (by simp)

/-- C6 (counterexample): gravity of magnitude 980 along (0, 0, -1), no collisions, no root
motion, no jump force; the actor starts with the upward velocity V0 = 49/1000 and
`PhysFalling` simulates 1/60 s.  The apex is 1/20000 s away, less than `ApexTimeMinimum`, so
the tick is not split: the one position produced is 24353/180000 below the start, and no
position of the trajectory is V0^2 / (2 g) = 49/40000000 above the start. -/
theorem PhysFalling_apex_cut_off :
    FreeFallWorld sampleWorld ∧ FreeFallComponent risingComponent ∧
    UpVelocity risingComponent = 49 / 1000 ∧ -risingComponent.GravityZ = 980 ∧
    (PhysFalling Rat.sqrt sampleWorld 3 risingComponent (1 / 60) 0).1.map
      (fun s => Height s.Component - Height risingComponent) = [-(24353 / 180000)] ∧
    (49 / 1000 : ℚ) ^ 2 / (2 * 980) = 49 / 40000000 := by
  refine ⟨FreeFallWorld_sampleWorld, FreeFallComponent_risingComponent, ?_, ?_, ?_, ?_⟩
  · norm_num [UpVelocity, DotProduct, FVector.neg, risingComponent, sampleComponent]
  · norm_num [risingComponent, sampleComponent]
  · obtain ⟨c1, tt, i1, hstep, h0, h1, hV, hL, hF, hA, hB, hC⟩ :=
      PhysFalling_Iteration_freeFall Rat.sqrt sampleWorld risingComponent
        (GetFallingLateralAcceleration Rat.sqrt sampleWorld risingComponent)
        (ShouldLimitAirControl risingComponent) (1 / 60) 0
        Rat.sqrt_nonneg FreeFallWorld_sampleWorld FreeFallComponent_risingComponent
        (by norm_num [MIN_TICK_TIME]) WithinTerminalVelocity_risingComponent
    rw [GetSimulationTimeStep_risingComponent] at hB
    have htt : tt = 1 / 60 := hB ApexSplitTaken_risingComponent
    subst htt
    obtain ⟨hU, _, hH⟩ := free_fall_energy risingComponent c1 (1 / 60)
      FreeFallComponent_risingComponent.1 hV hL hF
    have hstop : ¬ ((1 / 60 - 1 / 60 : ℚ) ≥ MIN_TICK_TIME ∧ i1 < c1.MaxSimulationIterations) := by
      norm_num [MIN_TICK_TIME]
    unfold PhysFalling
    rw [if_neg (by norm_num [MIN_TICK_TIME])]
    dsimp only
    rw [PhysFalling_Loop_continue Rat.sqrt sampleWorld _ _ 2 risingComponent c1 (1 / 60)
      (1 / 60 - 1 / 60) 0 i1 (by norm_num [MIN_TICK_TIME, risingComponent, sampleComponent])
      hstep]
    rw [PhysFalling_Loop_stop Rat.sqrt sampleWorld _ _ 2 c1 (1 / 60 - 1 / 60) i1 hstop]
    simp only [List.map, FallingStep.Component]
    rw [hH, hU]
    norm_num [UpVelocity, DotProduct, FVector.neg, risingComponent, sampleComponent]
  · norm_num

/-- C6 (amended): for a fall with no collisions, no root motion, no jump force, no avoidance
and a constant gravity of magnitude g = -GravityZ > 0 along a unit GravityDirection, whose
velocity stays within the terminal velocity over the simulated time, write V0 for the upward
velocity component (along -GravityDirection) at the start. Every iteration of PhysFalling
goes on with the loop, and the position it produces has gained exactly (V0^2 - v^2) / (2 g)
of height along -GravityDirection, v being the upward velocity component there: the height
gained never exceeds V0^2 / (2 g) and equals it at the positions produced with v = 0. An
iteration that takes the apex sub-step (sub-stepping enabled, the upward velocity positive
before the tick and not after it, an attempt left, ApexTimeMinimum <= TimeToApex < timeTick)
produces a position that has gained exactly V0^2 / (2 g), whatever the tick durations: the
first iteration, and every iteration the loop runs after one that went on. A tick that
passes the apex less than ApexTimeMinimum = 1/10000 s after its start is not split: when
sub-stepping is enabled with an attempt left, g > SMALL_NUMBER, V0 > 0 and some produced
position has v <= 0, either V0 < g / 10000 or some produced position has gained more than
(V0^2 - (g / 10000)^2) / (2 g). The loop is run for at most `fuel` iterations, and it does
run the iterations spoken of when the fuel, the remaining time and the iteration count
allow them. -/
theorem PhysFalling_apex_height (Sqrt : F → F) (W : World F) (fuel : Nat)
    (c : UGravityMovementcomponent F) (deltaTime : F) (Iterations : Int)
    (hSqrt : ∀ x, 0 ≤ Sqrt x) (hW : FreeFallWorld W) (hc : FreeFallComponent c)
    (hd : MIN_TICK_TIME ≤ deltaTime) (hT : WithinTerminalVelocity c deltaTime) :
    (∀ s ∈ (PhysFalling Sqrt W fuel c deltaTime Iterations).1,
      (∃ c1 r i, s = .continueLoop c1 r i) ∧
        2 * (-c.GravityZ) * (Height s.Component - Height c) =
          UpVelocity c ^ 2 - UpVelocity s.Component ^ 2) ∧
    (0 < fuel → Iterations < c.MaxSimulationIterations →
      (PhysFalling Sqrt W fuel c deltaTime Iterations).1 ≠ []) ∧
    (0 < fuel → Iterations < c.MaxSimulationIterations →
      ApexSplitTaken c (GetSimulationTimeStep c deltaTime (Iterations + 1)) →
      ∃ s, (PhysFalling Sqrt W fuel c deltaTime Iterations).1[0]? = some s ∧
        2 * (-c.GravityZ) * (Height s.Component - Height c) = UpVelocity c ^ 2) ∧
    (∀ k c1 r1 i1,
      (PhysFalling Sqrt W fuel c deltaTime Iterations).1[k]? = some (.continueLoop c1 r1 i1) →
      k + 1 < fuel → MIN_TICK_TIME ≤ r1 → i1 < c1.MaxSimulationIterations →
      ApexSplitTaken c1 (GetSimulationTimeStep c1 r1 (i1 + 1)) →
      ∃ s, (PhysFalling Sqrt W fuel c deltaTime Iterations).1[k + 1]? = some s ∧
        2 * (-c.GravityZ) * (Height s.Component - Height c) = UpVelocity c ^ 2) ∧
    (SMALL_NUMBER < -c.GravityZ → c.ForceJumpPeakSubstep ≠ 0 →
      c.NumJumpApexAttempts < c.MaxJumpApexAttemptsPerSimulation → 0 < UpVelocity c →
      (∃ s ∈ (PhysFalling Sqrt W fuel c deltaTime Iterations).1, UpVelocity s.Component ≤ 0) →
      UpVelocity c < -c.GravityZ * (1 / 10000) ∨
      ∃ s ∈ (PhysFalling Sqrt W fuel c deltaTime Iterations).1,
        UpVelocity c ^ 2 - (-c.GravityZ * (1 / 10000)) ^ 2 <
          2 * (-c.GravityZ) * (Height s.Component - Height c)) := by
  have hP : PhysFalling Sqrt W fuel c deltaTime Iterations =
      PhysFalling_Loop Sqrt W (GetFallingLateralAcceleration Sqrt W c) (ShouldLimitAirControl c)
        fuel c deltaTime Iterations := by
    unfold PhysFalling
    rw [if_neg (not_lt.mpr hd)]
  rw [hP]
  obtain ⟨h1, h2, h3⟩ := PhysFalling_Loop_freeFall Sqrt W (GetFallingLateralAcceleration Sqrt W c)
    (ShouldLimitAirControl c) hSqrt hW fuel c deltaTime Iterations hc hT
  have hne := PhysFalling_Loop_nonempty Sqrt W (GetFallingLateralAcceleration Sqrt W c)
    (ShouldLimitAirControl c) hSqrt hW fuel c deltaTime Iterations hc hT hd
  refine ⟨h1, hne, ?_, ?_, ?_⟩
  · intro hfuel hi hSplit
    obtain ⟨s, rest, hsr⟩ := List.exists_cons_of_ne_nil (hne hfuel hi)
    have hs : (PhysFalling_Loop Sqrt W (GetFallingLateralAcceleration Sqrt W c)
        (ShouldLimitAirControl c) fuel c deltaTime Iterations).1[0]? = some s := by
      rw [hsr, List.getElem?_cons_zero]
    refine ⟨s, hs, ?_⟩
    have e := (h1 s (List.getElem?_mem hs)).2
    rw [h2 s hs hSplit] at e
    rw [e]; ring
  · intro k c1 r1 i1 hk hfuel hr hi hSplit
    obtain ⟨s, hs⟩ := PhysFalling_Loop_progress Sqrt W (GetFallingLateralAcceleration Sqrt W c)
      (ShouldLimitAirControl c) hSqrt hW fuel c deltaTime Iterations hc hT k c1 r1 i1 hk hfuel
      hr hi
    refine ⟨s, hs, ?_⟩
    have e := (h1 s (List.getElem?_mem hs)).2
    rw [h3 k c1 r1 i1 s hk hs hSplit] at e
    rw [e]; ring
  · intro hSmall hFJ hNum hUp hex
    rcases PhysFalling_Loop_nearApex Sqrt W (GetFallingLateralAcceleration Sqrt W c)
      (ShouldLimitAirControl c) hSqrt hW fuel c deltaTime Iterations hc hT hSmall hFJ hNum hUp
      hex with h | ⟨s, hs, hs0, hs1⟩
    · exact Or.inl h
    · refine Or.inr ⟨s, hs, ?_⟩
      rw [(h1 s hs).2]
      have : UpVelocity s.Component ^ 2 < (-c.GravityZ * (1 / 10000)) ^ 2 :=
        pow_lt_pow_left₀ hs1 hs0 (by norm_num)
      linarith

theorem PhysFalling_apex_height_witness :
    FreeFallWorld sampleWorld ∧ FreeFallComponent hopComponent ∧
    WithinTerminalVelocity hopComponent (1 / 60) ∧ UpVelocity hopComponent = 49 / 5 ∧
    ApexSplitTaken hopComponent (GetSimulationTimeStep hopComponent (1 / 60) (0 + 1)) ∧
    ∃ s, (PhysFalling Rat.sqrt sampleWorld 3 hopComponent (1 / 60) 0).1[0]? = some s ∧
      2 * (-hopComponent.GravityZ) * (Height s.Component - Height hopComponent) =
        UpVelocity hopComponent ^ 2 :=
  ⟨FreeFallWorld_sampleWorld, FreeFallComponent_hopComponent,
    WithinTerminalVelocity_hopComponent,
    by norm_num [UpVelocity, DotProduct, FVector.neg, hopComponent, sampleComponent],
    by rw [GetSimulationTimeStep_hopComponent]; exact ApexSplitTaken_hopComponent,
    (PhysFalling_apex_height Rat.sqrt sampleWorld 3 hopComponent (1 / 60) 0 Rat.sqrt_nonneg
      FreeFallWorld_sampleWorld FreeFallComponent_hopComponent (by norm_num [MIN_TICK_TIME])
      WithinTerminalVelocity_hopComponent).2.2.1 (by decide)
      (by norm_num [hopComponent, sampleComponent])
      (by rw [GetSimulationTimeStep_hopComponent]; exact ApexSplitTaken_hopComponent)⟩

/-! ## Walking at rest -/

theorem IsExceedingMaxSpeed_zero (c : UGravityMovementcomponent F) (MaxSpeed : F)
    (hV : c.Velocity = ZeroVector) : IsExceedingMaxSpeed c MaxSpeed = false := by
  unfold IsExceedingMaxSpeed
  rw [hV]
  simp only [SizeSquared, ZeroVector, mul_zero, add_zero, gt_iff_lt, decide_eq_false_iff_not,
    not_lt]
  have h := mul_self_nonneg (max 0 MaxSpeed)
  have h2 : (0 : F) ≤ 101 / 100 := by norm_num
  exact mul_nonneg h h2

theorem CalcVelocity_resting (Sqrt : F → F) (W : World F) (c : UGravityMovementcomponent F)
    (DeltaTime Friction BrakingDeceleration : F) (L : FVector F) (h : RestingAt c L) :
    CalcVelocity Sqrt W c DeltaTime Friction false BrakingDeceleration = c := by
  obtain ⟨_, _, hV, hA, hForce, hReq, hRVO⟩ := h
  have hZV : IsZero c.Velocity = true := by rw [hV]; simp [IsZero, ZeroVector]
  have hZA : IsZero c.Acceleration = true := by rw [hA]; simp [IsZero, ZeroVector]
  have hrq : ∀ a b d e f, ApplyRequestedMove W c a b d e f = (false, ZeroVector, 0, c) := by
    intro a b d e f
    unfold ApplyRequestedMove
    rw [hReq]
    simp
  have hfm : ∀ m, CalcVelocity_ForceMaxAccel Sqrt W c m = c := by
    intro m
    unfold CalcVelocity_ForceMaxAccel
    rw [hForce]
    simp
  have hbr : ∀ a b d e, CalcVelocity_Brake Sqrt W c a b d e true = c := by
    intro a b d e
    unfold CalcVelocity_Brake
    have hb : ∀ x y z, ApplyVelocityBraking W c x y z = c := by
      intro x y z
      unfold ApplyVelocityBraking
      rw [if_pos (Or.inl hZV)]
    simp only [hZA, IsExceedingMaxSpeed_zero c e hV, hb]
    simp
  have hac : ∀ a b d, CalcVelocity_Accelerate Sqrt c a b false d = c := by
    intro a b d
    unfold CalcVelocity_Accelerate
    simp only [hZA]
    simp
  have hre : ∀ a b d, CalcVelocity_Requested Sqrt c a true b d = c := by
    intro a b d
    unfold CalcVelocity_Requested
    simp
  unfold CalcVelocity
  apply ite_pred (fun x => x = c)
  · intro _; rfl
  · intro _
    simp only [hrq, hfm, Bool.not_false, hbr, hac, hre, hRVO]
    simp

theorem SafeMoveUpdatedComponent_zero (W : World F) (Location G : FVector F) :
    SafeMoveUpdatedComponent W Location (neg (scale G 0)) = (Location, FHitResult.init 1) := by
  unfold SafeMoveUpdatedComponent
  rw [if_pos]
  simp [IsZero, FVector.neg, FVector.scale]

theorem AdjustFloorHeight_resting (W : World F) (c : UGravityMovementcomponent F)
    (L : FVector F) (h : RestingAt c L) (hFloor : c.CurrentFloor.IsWalkableFloor = true) :
    RestingAt (AdjustFloorHeight W c) L ∧
      (AdjustFloorHeight W c).CurrentFloor.IsWalkableFloor = true := by
  unfold AdjustFloorHeight
  simp only [SafeMoveUpdatedComponent_zero]
  have hI : (FHitResult.init (1 : F)).IsValidBlockingHit = false := rfl
  simp only [hI, if_true]
  repeat' (first
    | exact ⟨h, hFloor⟩
    | (apply ite_pred (fun x : UGravityMovementcomponent F =>
        RestingAt x L ∧ x.CurrentFloor.IsWalkableFloor = true) <;> intro _))

theorem RestingAt_IsMovingOnGround {c : UGravityMovementcomponent F} {L : FVector F}
    (h : RestingAt c L) : IsMovingOnGround c = true := by
  simp [IsMovingOnGround, h.1]

theorem PhysWalking_End_resting (W : World F) (c : UGravityMovementcomponent F)
    (L : WalkingLocals F) (b : Bool) (h : RestingAt c L.OldLocation) :
    ∃ c1, PhysWalking_End W c L b = .breakLoop c1 ∧ RestingAt c1 L.OldLocation := by
  unfold PhysWalking_End
  obtain ⟨h1, h2, h3, h4, h5, h6, h7⟩ := h
  by_cases hc : IsMovingOnGround c = true ∧ c.bJustTeleported = false ∧
      W.HasAnimRootMotion c = false ∧ W.HasOverrideVelocity c = false ∧
      L.timeTick ≥ MIN_TICK_TIME
  · simp only [if_pos hc]
    have hL : (MaintainHorizontalGroundVelocity
        (c.setVelocity (div (sub c.Location L.OldLocation) L.timeTick))).Location =
        L.OldLocation := h2
    rw [if_pos hL]
    refine ⟨_, rfl, h1, h2, ?_, h4, h5, h6, h7⟩
    show div (sub c.Location L.OldLocation) L.timeTick = ZeroVector
    rw [h2]
    apply FVector_eq <;> simp [FVector.div, FVector.sub, ZeroVector]
  · simp only [if_neg hc]
    rw [if_pos h2]
    exact ⟨_, rfl, h1, h2, h3, h4, h5, h6, h7⟩

theorem PhysWalking_CheckFall_resting (W : World F) (c : UGravityMovementcomponent F)
    (L : WalkingLocals F) (h : RestingAt c L.OldLocation)
    (hFloor : c.CurrentFloor.IsWalkableFloor = true) :
    ∃ c1, PhysWalking_CheckFall W c L = .breakLoop c1 ∧ RestingAt c1 L.OldLocation := by
  unfold PhysWalking_CheckFall
  have hS : IsSwimming c = false := by simp [IsSwimming, h.1]
  simp only [hS, hFloor, Bool.false_eq_true, if_false, Bool.true_eq_false, false_and]
  exact PhysWalking_End_resting W c L L.bCheckedFall h

theorem PhysWalking_ValidateFloor_resting (Sqrt : F → F) (W : World F)
    (c : UGravityMovementcomponent F) (L : WalkingLocals F) (h : RestingAt c L.OldLocation)
    (hFloor : c.CurrentFloor.IsWalkableFloor = true) :
    ∃ c1, PhysWalking_ValidateFloor Sqrt W c L = .breakLoop c1 ∧
      RestingAt c1 L.OldLocation := by
  unfold PhysWalking_ValidateFloor
  simp only [hFloor, if_true, ShouldCatchAir, Bool.false_eq_true, if_false]
  obtain ⟨ha, hb⟩ := AdjustFloorHeight_resting W c L.OldLocation h hFloor
  exact PhysWalking_CheckFall_resting W _ L ha hb

theorem PhysWalking_UpdateFloor_resting (Sqrt : F → F) (W : World F)
    (c : UGravityMovementcomponent F) (L : WalkingLocals F) (h : RestingAt c L.OldLocation)
    (hFloor : WalkableFloorAt W L.OldLocation) :
    ∃ c1, PhysWalking_UpdateFloor Sqrt W c L FStepDownResult.init = .breakLoop c1 ∧
      RestingAt c1 L.OldLocation := by
  unfold PhysWalking_UpdateFloor
  have hi : (FStepDownResult.init : FStepDownResult F).bComputedFloor = false := rfl
  simp only [hi, Bool.false_eq_true, if_false]
  have hw : ((c.setCurrentFloor (W.FindFloor c c.Location L.bZeroDelta none).1).setForceNextFloorCheck
      (W.FindFloor c c.Location L.bZeroDelta none).2).CurrentFloor.IsWalkableFloor = true := by
    show (W.FindFloor c c.Location L.bZeroDelta none).1.IsWalkableFloor = true
    rw [h.2.1]
    exact hFloor c L.bZeroDelta none
  rw [if_neg (by rw [hw]; simp)]
  exact PhysWalking_ValidateFloor_resting Sqrt W _ L h hw

theorem PhysWalking_Move_resting (Sqrt : F → F) (W : World F)
    (c : UGravityMovementcomponent F) (L : WalkingLocals F) (h : RestingAt c L.OldLocation)
    (hFloor : WalkableFloorAt W L.OldLocation) :
    ∃ c1, PhysWalking_Move Sqrt W c L = .breakLoop c1 ∧ RestingAt c1 L.OldLocation := by
  unfold PhysWalking_Move
  have hz : IsNearlyZero (scale c.Velocity L.timeTick) KINDA_SMALL_NUMBER = true := by
    rw [h.2.2.1]
    simp [IsNearlyZero, FVector.scale, ZeroVector, KINDA_SMALL_NUMBER]
  simp only [hz, if_true]
  exact PhysWalking_UpdateFloor_resting Sqrt W c _ h hFloor

theorem PhysWalking_Iteration_resting (Sqrt : F → F) (W : World F)
    (c : UGravityMovementcomponent F) (remainingTime : F) (Iterations : Int) (b1 b2 : Bool)
    (L : FVector F) (hW : NoRootMotionWorld W) (h : RestingAt c L)
    (hFloor : WalkableFloorAt W L) :
    ∃ c1, PhysWalking_Iteration Sqrt W c remainingTime Iterations b1 b2 = .breakLoop c1 ∧
      RestingAt c1 L := by
  obtain ⟨hAnim, hOver, hRestore, hApply⟩ := hW
  have h0 : RestingAt (c.setJustTeleported false) L := h
  unfold PhysWalking_Iteration
  simp only [hRestore, hAnim, hOver, and_self, if_true, MaintainHorizontalGroundVelocity,
    CalcVelocity_resting Sqrt W _ _ _ _ L h0, hApply]
  have hF : IsFalling (c.setJustTeleported false) = false := by
    simp [IsFalling, h0.1]
  simp only [hF, Bool.false_eq_true, if_false]
  have hL : (c.setJustTeleported false).Location = L := h.2.1
  have := PhysWalking_Move_resting Sqrt W (c.setJustTeleported false)
    { timeTick := GetSimulationTimeStep (c.setJustTeleported false) remainingTime (Iterations + 1),
      remainingTime := remainingTime -
        GetSimulationTimeStep (c.setJustTeleported false) remainingTime (Iterations + 1),
      Iterations := Iterations + 1,
      OldBase := (c.setJustTeleported false).MovementBase,
      OldLocation := (c.setJustTeleported false).Location,
      OldFloor := (c.setJustTeleported false).CurrentFloor,
      OldVelocity := (c.setJustTeleported false).Velocity, Delta := ZeroVector,
      bZeroDelta := false, bCheckedFall := b1, bTriedLedgeMove := b2 }
    (by show RestingAt _ (c.setJustTeleported false).Location; rw [hL]; exact h0)
    (by show WalkableFloorAt W (c.setJustTeleported false).Location; rw [hL]; exact hFloor)
  obtain ⟨c1, e, r⟩ := this
  refine ⟨c1, e, ?_⟩
  have r1 : RestingAt c1 (c.setJustTeleported false).Location := r
  rw [hL] at r1
  exact r1

theorem PhysWalking_Loop_resting (Sqrt : F → F) (W : World F) (fuel : Nat)
    (c : UGravityMovementcomponent F) (remainingTime : F) (Iterations : Int) (b1 b2 : Bool)
    (L : FVector F) (hW : NoRootMotionWorld W) (h : RestingAt c L)
    (hFloor : WalkableFloorAt W L) :
    ∃ c1, PhysWalking_Loop Sqrt W (fuel + 1) c remainingTime Iterations b1 b2 = some c1 ∧
      RestingAt c1 L := by
  rw [PhysWalking_Loop]
  by_cases hg : PhysWalking_Guard W c remainingTime Iterations = true
  · rw [if_pos hg]
    obtain ⟨c1, e, r⟩ := PhysWalking_Iteration_resting Sqrt W c remainingTime Iterations b1 b2
      L hW h hFloor
    simp only [e]
    exact ⟨_, rfl, by rw [RestingAt_IsMovingOnGround r]; exact r⟩
  · rw [if_neg hg]
    exact ⟨_, rfl, by rw [RestingAt_IsMovingOnGround h]; exact h⟩

theorem SetMovementMode_same (W : World F) (c : UGravityMovementcomponent F)
    (h : c.MovementMode = EMovementMode.MOVE_Walking) :
    SetMovementMode W c .MOVE_Walking 0 = c := by
  unfold SetMovementMode
  simp [h]

theorem PhysWalking_call_resting (Sqrt : F → F) (W : World F) (fuel : Nat)
    (c : UGravityMovementcomponent F) (deltaTime : F) (Iterations : Int)
    (L : FVector F) (hW : NoRootMotionWorld W) (h : RestingAt c L)
    (hFloor : WalkableFloorAt W L) :
    ∃ c1, PhysWalking Sqrt W (fuel + 1) c deltaTime Iterations = some c1 ∧ RestingAt c1 L := by
  unfold PhysWalking
  by_cases h1 : deltaTime < MIN_TICK_TIME
  · rw [if_pos h1]
    exact ⟨c, rfl, h⟩
  · rw [if_neg h1]
    by_cases h2 : c.bHasCharacterOwner = false ∨
        (c.bHasController = false ∧ c.bRunPhysicsWithNoController = false ∧
          W.HasAnimRootMotion c = false ∧ W.HasOverrideVelocity c = false ∧
          c.LocalRole ≠ ENetRole.ROLE_SimulatedProxy)
    · rw [if_pos h2]
      obtain ⟨r1, r2, _, _, r5, r6, r7⟩ := h
      exact ⟨_, rfl, r1, r2, rfl, rfl, r5, r6, r7⟩
    · rw [if_neg h2]
      by_cases h3 : c.bQueryCollisionEnabled = false
      · rw [if_pos h3, SetMovementMode_same W c h.1]
        exact ⟨c, rfl, h⟩
      · rw [if_neg h3]
        exact PhysWalking_Loop_resting Sqrt W fuel (c.setJustTeleported false) deltaTime
          Iterations false false L hW h hFloor

theorem PhysWalking_Calls_resting (Sqrt : F → F) (W : World F) (fuel : Nat) (L : FVector F)
    (hW : NoRootMotionWorld W) (hFloor : WalkableFloorAt W L) :
    ∀ (calls : List (F × Int)) (c : UGravityMovementcomponent F), RestingAt c L →
      ∃ c1, PhysWalking_Calls Sqrt W (fuel + 1) calls c = some c1 ∧ RestingAt c1 L := by
  intro calls
  induction calls with
  | nil =>
    intro c h
    exact ⟨c, rfl, h⟩
  | cons call rest ih =>
    intro c h
    obtain ⟨c1, e, r⟩ := PhysWalking_call_resting Sqrt W fuel c call.1 call.2 L hW h hFloor
    obtain ⟨c2, e2, r2⟩ := ih c1 r
    refine ⟨c2, ?_, r2⟩
    rw [PhysWalking_Calls, e]
    exact e2

theorem Rat_sqrt_2048 : Rat.sqrt 4194304 = 2048 := by
  rw [show (4194304 : ℚ) = 2048 * 2048 by norm_num, Rat.sqrt_eq]
  norm_num

theorem Rat_sqrt_zero : Rat.sqrt 0 = 0 := by
  rw [show (0 : ℚ) = 0 * 0 by norm_num, Rat.sqrt_eq]
  norm_num

theorem forced_ForceMaxAccel :
    CalcVelocity_ForceMaxAccel Rat.sqrt floorWorld (forcedComponent.setJustTeleported false) 2048
      = ((forcedComponent.setJustTeleported false).setAcceleration
          ⟨2048, 0, 0⟩).setAnalogInputModifier 1 := by
  have h1 : (forcedComponent.setJustTeleported false).bForceMaxAccel = true := rfl
  have h2 : (forcedComponent.setJustTeleported false).Acceleration = ⟨0, 0, 0⟩ := rfl
  have h3 : (forcedComponent.setJustTeleported false).Velocity = ⟨0, 0, 0⟩ := rfl
  have h4 : floorWorld.GetForwardVector (forcedComponent.setJustTeleported false) = ⟨1, 0, 0⟩ :=
    rfl
  unfold CalcVelocity_ForceMaxAccel
  rw [if_pos h1, h2, h3, h4]
  norm_num [SizeSquared, SMALL_NUMBER, FVector.scale]

theorem forced_Brake :
    CalcVelocity_Brake Rat.sqrt floorWorld
      (((forcedComponent.setJustTeleported false).setAcceleration
          ⟨2048, 0, 0⟩).setAnalogInputModifier 1) (1 / 60) 8 0 600 true
      = (((forcedComponent.setJustTeleported false).setAcceleration
          ⟨2048, 0, 0⟩).setAnalogInputModifier 1).setVelocity ⟨0, 0, 0⟩ := by
  have hA : (((forcedComponent.setJustTeleported false).setAcceleration
      ⟨2048, 0, 0⟩).setAnalogInputModifier 1).Acceleration = ⟨2048, 0, 0⟩ := rfl
  have hV : (((forcedComponent.setJustTeleported false).setAcceleration
      ⟨2048, 0, 0⟩).setAnalogInputModifier 1).Velocity = ZeroVector := rfl
  unfold CalcVelocity_Brake
  simp only [IsExceedingMaxSpeed_zero _ _ hV, hA]
  rw [hV]
  norm_num [IsZero, GetSafeNormal, Size, ZeroVector, FVector.sub, FVector.scale, SMALL_NUMBER,
    Rat_sqrt_2048, Rat_sqrt_zero]

theorem forced_Accelerate :
    CalcVelocity_Accelerate Rat.sqrt
      ((((forcedComponent.setJustTeleported false).setAcceleration
          ⟨2048, 0, 0⟩).setAnalogInputModifier 1).setVelocity ⟨0, 0, 0⟩) (1 / 60) 8 false 600
      = (((forcedComponent.setJustTeleported false).setAcceleration
          ⟨2048, 0, 0⟩).setAnalogInputModifier 1).setVelocity ⟨512 / 15, 0, 0⟩ := by
  have hA : ((((forcedComponent.setJustTeleported false).setAcceleration
      ⟨2048, 0, 0⟩).setAnalogInputModifier 1).setVelocity ⟨0, 0, 0⟩).Acceleration =
      ⟨2048, 0, 0⟩ := rfl
  have hV : ((((forcedComponent.setJustTeleported false).setAcceleration
      ⟨2048, 0, 0⟩).setAnalogInputModifier 1).setVelocity ⟨0, 0, 0⟩).Velocity = ZeroVector := rfl
  unfold CalcVelocity_Accelerate
  simp only [Bool.false_eq_true, if_false, IsExceedingMaxSpeed_zero _ _ hV, hA]
  rw [hV]
  have hc : GetClampedToMaxSize Rat.sqrt (add ZeroVector (scale ⟨2048, 0, 0⟩ (1 / 60))) 600 =
      (⟨512 / 15, 0, 0⟩ : FVector ℚ) := by
    norm_num [GetClampedToMaxSize, SizeSquared, ZeroVector, FVector.add, FVector.scale,
      KINDA_SMALL_NUMBER]
  rw [hc]
  norm_num [IsZero]
  rfl

theorem forced_CalcVelocity :
    CalcVelocity Rat.sqrt floorWorld (forcedComponent.setJustTeleported false) (1 / 60) 8 false 0
      = (((forcedComponent.setJustTeleported false).setAcceleration
          ⟨2048, 0, 0⟩).setAnalogInputModifier 1).setVelocity ⟨512 / 15, 0, 0⟩ := by
  have hrq : ∀ a b d e f, ApplyRequestedMove floorWorld
      (forcedComponent.setJustTeleported false) a b d e f =
      (false, ZeroVector, 0, forcedComponent.setJustTeleported false) := by
    intro a b d e f
    rfl
  have hexit : ¬ ((forcedComponent.setJustTeleported false).bHasCharacterOwner = false ∨
      floorWorld.HasAnimRootMotion (forcedComponent.setJustTeleported false) = true ∨
      (1 / 60 : ℚ) < MIN_TICK_TIME ∨
      ((forcedComponent.setJustTeleported false).bHasCharacterOwner = true ∧
        (forcedComponent.setJustTeleported false).LocalRole = .ROLE_SimulatedProxy ∧
        (forcedComponent.setJustTeleported false).bWasSimulatingRootMotion = false)) := by
    intro h
    rcases h with h | h | h | h
    · exact Bool.noConfusion h
    · exact Bool.noConfusion h
    · norm_num [MIN_TICK_TIME] at h
    · exact ENetRole.noConfusion h.2.1
  have hMA : (forcedComponent.setJustTeleported false).MaxAcceleration = 2048 := rfl
  have hMS : floorWorld.GetMaxSpeed (forcedComponent.setJustTeleported false) = 600 := rfl
  have hAIM : (((forcedComponent.setJustTeleported false).setAcceleration
      ⟨2048, 0, 0⟩).setAnalogInputModifier 1).AnalogInputModifier = 1 := rfl
  have hMin : floorWorld.GetMinAnalogSpeed (((forcedComponent.setJustTeleported false).setAcceleration
      ⟨2048, 0, 0⟩).setAnalogInputModifier 1) = 0 := rfl
  have hm1 : max (600 * (1 : ℚ)) 0 = 600 := by norm_num
  have hm2 : max (0 : ℚ) 600 = 600 := by norm_num
  have hm3 : max (0 : ℚ) 8 = 8 := by norm_num
  unfold CalcVelocity
  rw [if_neg hexit]
  simp only [hrq, hMA, hMS, forced_ForceMaxAccel, hAIM, hMin, hm1, hm2, hm3, Bool.not_false,
    forced_Brake, forced_Accelerate]
  rfl

theorem forced_timeTick :
    GetSimulationTimeStep (forcedComponent.setJustTeleported false) (1 / 60) (0 + 1) = 1 / 60 := by
  have h : (forcedComponent.setJustTeleported false).MaxSimulationTimeStep = 1 / 20 := rfl
  unfold GetSimulationTimeStep
  rw [h]
  norm_num [MIN_TICK_TIME]

theorem forced_MoveAlongFloor :
    MoveAlongFloor Rat.sqrt floorWorld forcedAccelerated ⟨512 / 15, 0, 0⟩ (1 / 60) =
      (forcedAccelerated.setLocation ⟨128 / 225, 0, 0⟩, none) := by
  have hF : forcedAccelerated.CurrentFloor = flatFloor := rfl
  have hL : forcedAccelerated.Location = ⟨0, 0, 0⟩ := rfl
  have hD : scale (⟨512 / 15, 0, 0⟩ : FVector ℚ) (1 / 60) = ⟨128 / 225, 0, 0⟩ := by
    norm_num [FVector.scale]
  have hR : ComputeGroundMovementDelta Rat.sqrt forcedAccelerated ⟨128 / 225, 0, 0⟩
      flatFloor.HitResult flatFloor.bLineTrace = ⟨128 / 225, 0, 0⟩ := by
    have hG : forcedAccelerated.GravityDirection = ⟨0, 0, -1⟩ := rfl
    unfold ComputeGroundMovementDelta
    rw [hG]
    norm_num [flatFloor, sampleHit, DotProduct, FVector.neg, KINDA_SMALL_NUMBER]
  have hM : SafeMoveUpdatedComponent floorWorld ⟨0, 0, 0⟩ ⟨128 / 225, 0, 0⟩ =
      (⟨128 / 225, 0, 0⟩, FHitResult.init 1) := by
    unfold SafeMoveUpdatedComponent
    norm_num [IsZero, floorWorld, sampleWorld, FVector.add]
  unfold MoveAlongFloor
  simp only [hF, hD, hR, hL, hM]
  simp [flatFloor, FFindFloorResult.IsWalkableFloor, FHitResult.init,
    FHitResult.IsValidBlockingHit]

theorem PhysWalking_End_moved (W : World ℚ) (c : UGravityMovementcomponent ℚ)
    (L : WalkingLocals ℚ) (b : Bool) (h1 : IsMovingOnGround c = true)
    (h2 : c.bJustTeleported = false) (h3 : W.HasAnimRootMotion c = false)
    (h4 : W.HasOverrideVelocity c = false) (h5 : L.timeTick ≥ MIN_TICK_TIME)
    (h6 : c.Location ≠ L.OldLocation) :
    PhysWalking_End W c L b =
      .continueLoop (c.setVelocity (div (sub c.Location L.OldLocation) L.timeTick))
        L.remainingTime L.Iterations b L.bTriedLedgeMove := by
  unfold PhysWalking_End
  simp only [if_pos (And.intro h1 (And.intro h2 (And.intro h3 (And.intro h4 h5))))]
  have hL : (MaintainHorizontalGroundVelocity
      (c.setVelocity (div (sub c.Location L.OldLocation) L.timeTick))).Location ≠
      L.OldLocation := h6
  rw [if_neg hL]
  rfl

theorem forced_UpdateFloor (L : WalkingLocals ℚ) (hT : L.timeTick = 1 / 60)
    (hO : L.OldLocation = ⟨0, 0, 0⟩) :
    ∃ c1, PhysWalking_UpdateFloor Rat.sqrt floorWorld
        (forcedAccelerated.setLocation ⟨128 / 225, 0, 0⟩) L FStepDownResult.init =
        .continueLoop c1 L.remainingTime L.Iterations L.bCheckedFall L.bTriedLedgeMove ∧
      c1.Location = ⟨128 / 225, 0, 0⟩ ∧ c1.MovementMode = .MOVE_Walking := by
  have hi : (FStepDownResult.init : FStepDownResult ℚ).bComputedFloor = false := rfl
  have hff : ∀ c l b h, floorWorld.FindFloor c l b h = (flatFloor, false) := fun _ _ _ _ => rfl
  have hcw : ∀ c, floorWorld.CanWalkOffLedges c = true := fun _ => rfl
  have hwalk : flatFloor.IsWalkableFloor = true := rfl
  have hadj : AdjustFloorHeight floorWorld
      (((forcedAccelerated.setLocation ⟨128 / 225, 0, 0⟩).setCurrentFloor
        flatFloor).setForceNextFloorCheck false) =
      (((forcedAccelerated.setLocation ⟨128 / 225, 0, 0⟩).setCurrentFloor
        flatFloor).setForceNextFloorCheck false) := by
    have hc : (((forcedAccelerated.setLocation ⟨128 / 225, 0, 0⟩).setCurrentFloor
        flatFloor).setForceNextFloorCheck false).CurrentFloor = flatFloor := rfl
    unfold AdjustFloorHeight
    simp only [hc]
    norm_num [flatFloor, FFindFloorResult.IsWalkableFloor, MIN_FLOOR_DIST, MAX_FLOOR_DIST]
  unfold PhysWalking_UpdateFloor
  simp only [hi, hff, hcw, Bool.false_eq_true, if_false, Bool.not_true, false_and]
  unfold PhysWalking_ValidateFloor
  have hc2 : (((forcedAccelerated.setLocation ⟨128 / 225, 0, 0⟩).setCurrentFloor
      flatFloor).setForceNextFloorCheck false).CurrentFloor = flatFloor := rfl
  simp only [hc2, hwalk, if_true, ShouldCatchAir, Bool.false_eq_true, if_false, hadj]
  unfold PhysWalking_CheckFall
  have hsw : IsSwimming ((((forcedAccelerated.setLocation ⟨128 / 225, 0, 0⟩).setCurrentFloor
      flatFloor).setForceNextFloorCheck false).setMovementBase flatFloor.HitResult.Component) =
      false := rfl
  have hc3 : ((((forcedAccelerated.setLocation ⟨128 / 225, 0, 0⟩).setCurrentFloor
      flatFloor).setForceNextFloorCheck false).setMovementBase
      flatFloor.HitResult.Component).CurrentFloor = flatFloor := rfl
  simp only [hsw, hc3, hwalk, Bool.false_eq_true, if_false, Bool.true_eq_false, false_and]
  rw [PhysWalking_End_moved floorWorld
    ((((forcedAccelerated.setLocation ⟨128 / 225, 0, 0⟩).setCurrentFloor
      flatFloor).setForceNextFloorCheck false).setMovementBase flatFloor.HitResult.Component)
    L L.bCheckedFall rfl rfl rfl rfl
    (by rw [hT]; norm_num [MIN_TICK_TIME])
    (by
      rw [hO]
      show (⟨128 / 225, 0, 0⟩ : FVector ℚ) ≠ ⟨0, 0, 0⟩
      intro h
      have := congrArg FVector.X h
      norm_num at this)]
  exact ⟨_, rfl, rfl, rfl⟩

theorem forced_Move (L : WalkingLocals ℚ) (hT : L.timeTick = 1 / 60)
    (hO : L.OldLocation = ⟨0, 0, 0⟩) :
    ∃ c1, PhysWalking_Move Rat.sqrt floorWorld forcedAccelerated L =
        .continueLoop c1 L.remainingTime L.Iterations L.bCheckedFall L.bTriedLedgeMove ∧
      c1.Location = ⟨128 / 225, 0, 0⟩ ∧ c1.MovementMode = .MOVE_Walking := by
  have hV : forcedAccelerated.Velocity = ⟨512 / 15, 0, 0⟩ := rfl
  have hz : IsNearlyZero (scale (⟨512 / 15, 0, 0⟩ : FVector ℚ) (1 / 60)) KINDA_SMALL_NUMBER =
      false := by
    norm_num [IsNearlyZero, FVector.scale, KINDA_SMALL_NUMBER, abs_of_pos]
  have hF : IsFalling (forcedAccelerated.setLocation ⟨128 / 225, 0, 0⟩) = false := rfl
  have hS : IsSwimming (forcedAccelerated.setLocation ⟨128 / 225, 0, 0⟩) = false := rfl
  unfold PhysWalking_Move
  simp only [hV, hT, hz, forced_MoveAlongFloor, hF, hS, Bool.false_eq_true, if_false,
    Option.getD_none]
  exact forced_UpdateFloor _ rfl hO

theorem forced_Iteration :
    ∃ c1, PhysWalking_Iteration Rat.sqrt floorWorld (forcedComponent.setJustTeleported false)
        (1 / 60) 0 false false = .continueLoop c1 0 1 false false ∧
      c1.Location = ⟨128 / 225, 0, 0⟩ ∧ c1.MovementMode = .MOVE_Walking := by
  have e : (forcedComponent.setJustTeleported false).setJustTeleported false =
      forcedComponent.setJustTeleported false := rfl
  have hR : ∀ c, floorWorld.RestorePreAdditiveRootMotionVelocity c = c := fun _ => rfl
  have hA : ∀ c, floorWorld.HasAnimRootMotion c = false := fun _ => rfl
  have hO : ∀ c, floorWorld.HasOverrideVelocity c = false := fun _ => rfl
  have hP : ∀ c t, floorWorld.ApplyRootMotionToVelocity c t = c := fun _ _ => rfl
  have hB : ∀ c, floorWorld.GetMaxBrakingDeceleration c = 0 := fun _ => rfl
  have hG : (forcedComponent.setJustTeleported false).GroundFriction = 8 := rfl
  have hC : CalcVelocity Rat.sqrt floorWorld (forcedComponent.setJustTeleported false) (1 / 60) 8
      false 0 = forcedAccelerated := forced_CalcVelocity
  have hF : IsFalling forcedAccelerated = false := rfl
  unfold PhysWalking_Iteration
  simp only [e, hR, hA, hO, hP, hB, hG, MaintainHorizontalGroundVelocity, forced_timeTick, hC,
    hF, and_self, if_true, Bool.false_eq_true, if_false]
  obtain ⟨c1, h1, h2, h3⟩ := forced_Move
    { timeTick := 1 / 60, remainingTime := 1 / 60 - 1 / 60, Iterations := 0 + 1,
      OldBase := (forcedComponent.setJustTeleported false).MovementBase,
      OldLocation := (forcedComponent.setJustTeleported false).Location,
      OldFloor := (forcedComponent.setJustTeleported false).CurrentFloor,
      OldVelocity := (forcedComponent.setJustTeleported false).Velocity,
      Delta := ZeroVector, bZeroDelta := false, bCheckedFall := false,
      bTriedLedgeMove := false } rfl rfl
  refine ⟨c1, ?_, h2, h3⟩
  rw [h1]
  norm_num

/-- C10 (counterexample): gravity along (0, 0, -1); the actor walks, at rest (zero velocity,
zero acceleration) on a flat floor whose normal is (0, 0, 1), in a world without root motion
in which every floor probe reports that walkable floor, and `bForceMaxAccel` is set.  One
call of `PhysWalking` for 1/60 s forces the acceleration to `MaxAcceleration` along the
forward vector and leaves the actor at (128/225, 0, 0): its location has changed. -/
theorem PhysWalking_forced_acceleration_moves :
    forcedComponent.MovementMode = .MOVE_Walking ∧ forcedComponent.Velocity = ZeroVector ∧
    forcedComponent.Acceleration = ZeroVector ∧ forcedComponent.Location = ⟨0, 0, 0⟩ ∧
    NoRootMotionWorld floorWorld ∧ WalkableFloorAt floorWorld forcedComponent.Location ∧
    flatFloor.HitResult.ImpactNormal = neg forcedComponent.GravityDirection ∧
    (PhysWalking Rat.sqrt floorWorld 2 forcedComponent (1 / 60) 0).map
      (fun c => c.Location) = some ⟨128 / 225, 0, 0⟩ := by
  refine ⟨rfl, rfl, rfl, rfl, ⟨fun _ => rfl, fun _ => rfl, fun _ => rfl, fun _ _ => rfl⟩,
    fun _ _ _ => rfl, ?_, ?_⟩
  · simp [flatFloor, sampleHit, forcedComponent, walkingComponent, sampleComponent,
      FVector.neg]
  · obtain ⟨c1, h1, h2, _⟩ := forced_Iteration
    have hg1 : PhysWalking_Guard floorWorld (forcedComponent.setJustTeleported false) (1 / 60) 0
        = true := by
      have hm : (forcedComponent.setJustTeleported false).MaxSimulationIterations = 8 := rfl
      have ho : (forcedComponent.setJustTeleported false).bHasCharacterOwner = true := rfl
      have hc : (forcedComponent.setJustTeleported false).bHasController = true := rfl
      unfold PhysWalking_Guard
      rw [hm, ho, hc]
      norm_num [MIN_TICK_TIME]
    have hg2 : PhysWalking_Guard floorWorld c1 0 1 = false := by
      unfold PhysWalking_Guard
      norm_num [MIN_TICK_TIME]
    have h0 : ¬ ((1 / 60 : ℚ) < MIN_TICK_TIME) := by norm_num [MIN_TICK_TIME]
    have hexit : ¬ (forcedComponent.bHasCharacterOwner = false ∨
        (forcedComponent.bHasController = false ∧
          forcedComponent.bRunPhysicsWithNoController = false ∧
          floorWorld.HasAnimRootMotion forcedComponent = false ∧
          floorWorld.HasOverrideVelocity forcedComponent = false ∧
          forcedComponent.LocalRole ≠ ENetRole.ROLE_SimulatedProxy)) := by
      intro h
      rcases h with h | h
      · exact Bool.noConfusion h
      · exact Bool.noConfusion h.1
    have hq : ¬ (forcedComponent.bQueryCollisionEnabled = false) := fun h => Bool.noConfusion h
    unfold PhysWalking
    rw [if_neg h0, if_neg hexit, if_neg hq]
    rw [PhysWalking_Loop, if_pos hg1]
    simp only [h1]
    rw [PhysWalking_Loop, hg2]
    simp only [Bool.false_eq_true, if_false, Option.map_some', MaintainHorizontalGroundVelocity,
      ite_self, h2]

/-- C10 (amended): for every GravityDirection, if the actor is in Walking mode with zero
Velocity and zero Acceleration, nothing in the component drives it (bForceMaxAccel is off,
path following has requested no velocity, RVO avoidance is off), there is no root motion,
and every floor probe at its location reports a walkable floor, then every sequence of
PhysWalking calls, of any tick durations and iteration counts, runs to its end (one
iteration of fuel is enough for each call) and leaves the movement mode Walking, the
location unchanged and the velocity zero. -/
theorem PhysWalking_resting (Sqrt : F → F) (W : World F) (fuel : Nat)
    (c : UGravityMovementcomponent F) (calls : List (F × Int))
    (hW : NoRootMotionWorld W) (hFloor : WalkableFloorAt W c.Location)
    (hMode : c.MovementMode = .MOVE_Walking) (hV : c.Velocity = ZeroVector)
    (hA : c.Acceleration = ZeroVector) (hForce : c.bForceMaxAccel = false)
    (hReq : c.bHasRequestedVelocity = false) (hRVO : c.bUseRVOAvoidance = false) :
    ∃ c1, PhysWalking_Calls Sqrt W (fuel + 1) calls c = some c1 ∧
      c1.MovementMode = .MOVE_Walking ∧ c1.Location = c.Location ∧
      c1.Velocity = ZeroVector := by
  obtain ⟨c1, e, r⟩ := PhysWalking_Calls_resting Sqrt W fuel c.Location hW hFloor calls c
    ⟨hMode, rfl, hV, hA, hForce, hReq, hRVO⟩
  exact ⟨c1, e, r.1, r.2.1, r.2.2.1⟩

theorem PhysWalking_resting_witness :
    NoRootMotionWorld floorWorld ∧ WalkableFloorAt floorWorld walkingComponent.Location ∧
    walkingComponent.GravityDirection = ⟨0, 0, -1⟩ ∧
    flatFloor.HitResult.ImpactNormal = neg walkingComponent.GravityDirection ∧
    ∃ c1, PhysWalking_Calls Rat.sqrt floorWorld 1 [(1 / 60, 0), (1 / 30, 0), (1 / 60, 0)]
        walkingComponent = some c1 ∧
      c1.MovementMode = .MOVE_Walking ∧ c1.Location = walkingComponent.Location ∧
      c1.Velocity = ZeroVector :=
  ⟨⟨fun _ => rfl, fun _ => rfl, fun _ => rfl, fun _ _ => rfl⟩, fun _ _ _ => rfl, rfl,
    by simp [flatFloor, sampleHit, walkingComponent, sampleComponent, FVector.neg],
    PhysWalking_resting Rat.sqrt floorWorld 0 walkingComponent
      [(1 / 60, 0), (1 / 30, 0), (1 / 60, 0)]
      ⟨fun _ => rfl, fun _ => rfl, fun _ => rfl, fun _ _ => rfl⟩ (fun _ _ _ => rfl) rfl rfl rfl
      rfl rfl rfl⟩

theorem DotProduct_add_scale (a b n : FVector F) (t : F) :
    DotProduct (add a (scale b t)) n = DotProduct a n + DotProduct b n * t := by
  simp only [DotProduct, FVector.add, FVector.scale]
  ring

/-- C20: whenever an iteration of PhysFalling performs the apex split (sub-stepping enabled,
old velocity component along -GravityDirection > 0, new component <= 0, an apex attempt
left, derived acceleration along that axis not nearly zero, and
0.0001 <= TimeToApex < timeTick with TimeToApex = -(old component) / (derived acceleration
component)), the velocity assigned for the sub-step is the old velocity plus the derived
acceleration times TimeToApex, its component along -GravityDirection is zero, and the tick
of the sub-step is TimeToApex. -/
theorem PhysFalling_Apex_lands_on_crossing (c : UGravityMovementcomponent F)
    (OldVelocityWithRootMotion : FVector F) (timeTick remainingTime : F) (Iterations : Int)
    (hSub : c.ForceJumpPeakSubstep ≠ 0)
    (hOld : DotProduct OldVelocityWithRootMotion (neg c.GravityDirection) > 0)
    (hNew : DotProduct c.Velocity (neg c.GravityDirection) ≤ 0)
    (hNum : c.NumJumpApexAttempts < c.MaxJumpApexAttemptsPerSimulation)
    (hAcc : ¬ (|DotProduct (div (sub c.Velocity OldVelocityWithRootMotion) timeTick)
      (neg c.GravityDirection)| ≤ SMALL_NUMBER))
    (hMin : -(DotProduct OldVelocityWithRootMotion (neg c.GravityDirection)) /
      DotProduct (div (sub c.Velocity OldVelocityWithRootMotion) timeTick)
        (neg c.GravityDirection) ≥ 1 / 10000)
    (hMax : -(DotProduct OldVelocityWithRootMotion (neg c.GravityDirection)) /
      DotProduct (div (sub c.Velocity OldVelocityWithRootMotion) timeTick)
        (neg c.GravityDirection) < timeTick) :
    (PhysFalling_Apex c OldVelocityWithRootMotion timeTick remainingTime Iterations).c.Velocity =
      add OldVelocityWithRootMotion
        (scale (div (sub c.Velocity OldVelocityWithRootMotion) timeTick)
          (-(DotProduct OldVelocityWithRootMotion (neg c.GravityDirection)) /
            DotProduct (div (sub c.Velocity OldVelocityWithRootMotion) timeTick)
              (neg c.GravityDirection))) ∧
    DotProduct
      (PhysFalling_Apex c OldVelocityWithRootMotion timeTick remainingTime Iterations).c.Velocity
      (neg (PhysFalling_Apex c OldVelocityWithRootMotion timeTick remainingTime
        Iterations).c.GravityDirection) = 0 ∧
    (PhysFalling_Apex c OldVelocityWithRootMotion timeTick remainingTime Iterations).timeTick =
      -(DotProduct OldVelocityWithRootMotion (neg c.GravityDirection)) /
        DotProduct (div (sub c.Velocity OldVelocityWithRootMotion) timeTick)
          (neg c.GravityDirection) := by
  have hz : DotProduct (div (sub c.Velocity OldVelocityWithRootMotion) timeTick)
      (neg c.GravityDirection) ≠ 0 := by
    intro h
    apply hAcc
    rw [h, abs_zero]
    norm_num [SMALL_NUMBER]
  have hA : PhysFalling_Apex c OldVelocityWithRootMotion timeTick remainingTime Iterations =
      ⟨(c.setVelocity (add OldVelocityWithRootMotion
        (scale (div (sub c.Velocity OldVelocityWithRootMotion) timeTick)
          (-(DotProduct OldVelocityWithRootMotion (neg c.GravityDirection)) /
            DotProduct (div (sub c.Velocity OldVelocityWithRootMotion) timeTick)
              (neg c.GravityDirection))))).setNumJumpApexAttempts (c.NumJumpApexAttempts + 1),
        -(DotProduct OldVelocityWithRootMotion (neg c.GravityDirection)) /
          DotProduct (div (sub c.Velocity OldVelocityWithRootMotion) timeTick)
            (neg c.GravityDirection),
        remainingTime + (timeTick -
          -(DotProduct OldVelocityWithRootMotion (neg c.GravityDirection)) /
            DotProduct (div (sub c.Velocity OldVelocityWithRootMotion) timeTick)
              (neg c.GravityDirection)),
        Iterations - 1⟩ := by
    unfold PhysFalling_Apex
    simp only []
    rw [if_pos ⟨hSub, hOld, hNew, hNum⟩, if_pos hAcc, if_pos ⟨hMin, hMax⟩]
    rfl
  rw [hA]
  refine ⟨rfl, ?_, rfl⟩
  show DotProduct (add OldVelocityWithRootMotion _) (neg c.GravityDirection) = 0
  rw [DotProduct_add_scale, mul_div_cancel₀ _ hz]
  ring

theorem PhysFalling_Apex_lands_on_crossing_witness :
    DotProduct (⟨0, 0, 49 / 5⟩ : FVector ℚ) (neg hopAfterGravity.GravityDirection) = 49 / 5 ∧
    DotProduct hopAfterGravity.Velocity (neg hopAfterGravity.GravityDirection) = -98 / 15 ∧
    (PhysFalling_Apex hopAfterGravity ⟨0, 0, 49 / 5⟩ (1 / 60) 0 1).timeTick = 1 / 100 ∧
    DotProduct (PhysFalling_Apex hopAfterGravity ⟨0, 0, 49 / 5⟩ (1 / 60) 0 1).c.Velocity
      (neg (PhysFalling_Apex hopAfterGravity ⟨0, 0, 49 / 5⟩ (1 / 60) 0
        1).c.GravityDirection) = 0 := by
  have hG : hopAfterGravity.GravityDirection = ⟨0, 0, -1⟩ := rfl
  have hV : hopAfterGravity.Velocity = ⟨0, 0, -98 / 15⟩ := rfl
  have hD : DotProduct (div (sub hopAfterGravity.Velocity ⟨0, 0, 49 / 5⟩) (1 / 60))
      (neg hopAfterGravity.GravityDirection) = -980 := by
    rw [hG, hV]
    norm_num [DotProduct, FVector.neg, FVector.div, FVector.sub]
  have hO : DotProduct (⟨0, 0, 49 / 5⟩ : FVector ℚ) (neg hopAfterGravity.GravityDirection) =
      49 / 5 := by
    rw [hG]
    norm_num [DotProduct, FVector.neg]
  have hN : DotProduct hopAfterGravity.Velocity (neg hopAfterGravity.GravityDirection) =
      -98 / 15 := by
    rw [hG, hV]
    norm_num [DotProduct, FVector.neg]
  have h := PhysFalling_Apex_lands_on_crossing hopAfterGravity ⟨0, 0, 49 / 5⟩ (1 / 60) 0 1
    (by decide) (by rw [hO]; norm_num) (by rw [hN]; norm_num) (by decide)
    (by rw [hD]; norm_num [SMALL_NUMBER]) (by rw [hD, hO]; norm_num)
    (by rw [hD, hO]; norm_num)
  refine ⟨hO, hN, ?_, h.2.1⟩
  rw [h.2.2, hD, hO]
  norm_num

theorem GetSafeNormal_unit (Sqrt : F → F) (G : FVector F) (hG : DotProduct G G = 1) :
    GetSafeNormal Sqrt G = G := by
  unfold GetSafeNormal
  simp only [DotProduct] at hG
  simp only [hG, if_true]

theorem Distance_to_closest_point (Sqrt : F → F) (P C G : FVector F)
    (hG : DotProduct G G = 1) :
    Distance Sqrt P (FindClosestPointOnLine Sqrt P C G) = PerpendicularDistance Sqrt P C G := by
  unfold Distance FindClosestPointOnLine PerpendicularDistance Size
  simp only [GetSafeNormal_unit Sqrt G hG]
  congr 1
  simp only [DotProduct, SizeSquared, FVector.sub, FVector.add, FVector.scale] at hG ⊢
  linear_combination (((P.X - C.X) * G.X + (P.Y - C.Y) * G.Y + (P.Z - C.Z) * G.Z) *
    ((P.X - C.X) * G.X + (P.Y - C.Y) * G.Y + (P.Z - C.Z) * G.Z)) * hG

theorem PerpendicularDistance_translate_point (Sqrt : F → F) (P C G : FVector F) (t : F)
    (hG : DotProduct G G = 1) :
    PerpendicularDistance Sqrt (add P (scale G t)) C G = PerpendicularDistance Sqrt P C G := by
  unfold PerpendicularDistance
  congr 1
  simp only [DotProduct, SizeSquared, FVector.sub, FVector.add, FVector.scale] at hG ⊢
  linear_combination (-(2 * t * ((P.X - C.X) * G.X + (P.Y - C.Y) * G.Y + (P.Z - C.Z) * G.Z) +
    t * t * (G.X * G.X + G.Y * G.Y + G.Z * G.Z))) * hG

theorem PerpendicularDistance_translate_line (Sqrt : F → F) (P C G : FVector F) (t : F)
    (hG : DotProduct G G = 1) :
    PerpendicularDistance Sqrt P (add C (scale G t)) G = PerpendicularDistance Sqrt P C G := by
  unfold PerpendicularDistance
  congr 1
  simp only [DotProduct, SizeSquared, FVector.sub, FVector.add, FVector.scale] at hG ⊢
  linear_combination (-(-(2 * t * ((P.X - C.X) * G.X + (P.Y - C.Y) * G.Y + (P.Z - C.Z) * G.Z)) +
    t * t * (G.X * G.X + G.Y * G.Y + G.Z * G.Z))) * hG

theorem IsWithinEdgeTolerance_eq (Sqrt : F → F) (c : UGravityMovementcomponent F)
    (C P : FVector F) (r : F) (hG : DotProduct c.GravityDirection c.GravityDirection = 1) :
    IsWithinEdgeTolerance Sqrt c C P r =
      decide (PerpendicularDistance Sqrt P C c.GravityDirection <
        max (SWEEP_EDGE_REJECT_DISTANCE + KINDA_SMALL_NUMBER) (r - SWEEP_EDGE_REJECT_DISTANCE)) := by
  unfold IsWithinEdgeTolerance
  simp only [Distance_to_closest_point Sqrt P C c.GravityDirection hG]

/-- C13: for every capsule location C, impact point P, capsule radius r and unit
GravityDirection, IsWithinEdgeTolerance(C, P, r) is true exactly when the perpendicular
distance from P to the line through C along the gravity axis is strictly less than
max(SWEEP_EDGE_REJECT_DISTANCE + KINDA_SMALL_NUMBER, r - SWEEP_EDGE_REJECT_DISTANCE); and
the result does not change when P or C is translated along GravityDirection. -/
theorem IsWithinEdgeTolerance_iff_perpendicular (Sqrt : F → F)
    (c : UGravityMovementcomponent F) (C P : FVector F) (r : F)
    (hG : DotProduct c.GravityDirection c.GravityDirection = 1) :
    (IsWithinEdgeTolerance Sqrt c C P r = true ↔
      PerpendicularDistance Sqrt P C c.GravityDirection <
        max (SWEEP_EDGE_REJECT_DISTANCE + KINDA_SMALL_NUMBER)
          (r - SWEEP_EDGE_REJECT_DISTANCE)) ∧
    (∀ t, IsWithinEdgeTolerance Sqrt c C (add P (scale c.GravityDirection t)) r =
      IsWithinEdgeTolerance Sqrt c C P r) ∧
    (∀ t, IsWithinEdgeTolerance Sqrt c (add C (scale c.GravityDirection t)) P r =
      IsWithinEdgeTolerance Sqrt c C P r) := by
  refine ⟨?_, ?_, ?_⟩
  · rw [IsWithinEdgeTolerance_eq Sqrt c C P r hG, decide_eq_true_iff]
  · intro t
    rw [IsWithinEdgeTolerance_eq Sqrt c C _ r hG, IsWithinEdgeTolerance_eq Sqrt c C P r hG,
      PerpendicularDistance_translate_point Sqrt P C c.GravityDirection t hG]
  · intro t
    rw [IsWithinEdgeTolerance_eq Sqrt c _ P r hG, IsWithinEdgeTolerance_eq Sqrt c C P r hG,
      PerpendicularDistance_translate_line Sqrt P C c.GravityDirection t hG]

theorem IsWithinEdgeTolerance_iff_perpendicular_witness :
    DotProduct sampleComponent.GravityDirection sampleComponent.GravityDirection = 1 ∧
    PerpendicularDistance Rat.sqrt ⟨3, 4, -88⟩ ⟨0, 0, 0⟩ sampleComponent.GravityDirection = 5 ∧
    IsWithinEdgeTolerance Rat.sqrt sampleComponent ⟨0, 0, 0⟩ ⟨3, 4, -88⟩ 34 = true ∧
    IsWithinEdgeTolerance Rat.sqrt sampleComponent ⟨0, 0, 0⟩
      (add ⟨3, 4, -88⟩ (scale sampleComponent.GravityDirection 7)) 34 = true := by
  have hG : DotProduct sampleComponent.GravityDirection sampleComponent.GravityDirection = 1 := by
    norm_num [DotProduct, sampleComponent]
  have hd : PerpendicularDistance Rat.sqrt ⟨3, 4, -88⟩ ⟨0, 0, 0⟩
      sampleComponent.GravityDirection = 5 := by
    have h25 : Rat.sqrt 25 = 5 := by
      rw [show (25 : ℚ) = 5 * 5 by norm_num, Rat.sqrt_eq]
      norm_num
    norm_num [PerpendicularDistance, SizeSquared, DotProduct, FVector.sub, sampleComponent, h25]
  have h := IsWithinEdgeTolerance_iff_perpendicular Rat.sqrt sampleComponent ⟨0, 0, 0⟩
    ⟨3, 4, -88⟩ 34 hG
  have h1 : IsWithinEdgeTolerance Rat.sqrt sampleComponent ⟨0, 0, 0⟩ ⟨3, 4, -88⟩ 34 = true := by
    rw [h.1, hd]
    norm_num [SWEEP_EDGE_REJECT_DISTANCE, KINDA_SMALL_NUMBER]
  exact ⟨hG, hd, h1, by rw [h.2.1 7]; exact h1⟩

theorem Rat_sqrt_1300 : Rat.sqrt 1690000 = 1300 := by
  rw [show (1690000 : ℚ) = 1300 * 1300 by norm_num, Rat.sqrt_eq]
  norm_num

theorem Rat_sqrt_1001 : Rat.sqrt 1002001 = 1001 := by
  rw [show (1002001 : ℚ) = 1001 * 1001 by norm_num, Rat.sqrt_eq]
  norm_num

theorem SizeSquared_GetSafeNormal (Sqrt : F → F) (v : FVector F)
    (hS : SMALL_NUMBER ≤ SizeSquared v)
    (hSqrt : Sqrt (SizeSquared v) * Sqrt (SizeSquared v) = SizeSquared v) :
    SizeSquared (GetSafeNormal Sqrt v) = 1 := by
  have hpos : (0 : F) < SizeSquared v := lt_of_lt_of_le (by norm_num [SMALL_NUMBER]) hS
  have hne : Sqrt (SizeSquared v) ≠ 0 := by
    intro h0
    rw [h0, mul_zero] at hSqrt
    exact absurd hSqrt.symm (ne_of_gt hpos)
  unfold GetSafeNormal
  simp only [SizeSquared] at hS hSqrt hne ⊢
  by_cases h1 : v.X * v.X + v.Y * v.Y + v.Z * v.Z = 1
  · rw [if_pos h1]
    exact h1
  · rw [if_neg h1, if_neg (not_lt.mpr hS)]
    simp only []
    generalize Sqrt (v.X * v.X + v.Y * v.Y + v.Z * v.Z) = q at hSqrt hne
    field_simp
    linear_combination (-1 : F) * hSqrt

theorem SizeSquared_scale (v : FVector F) (s : F) :
    SizeSquared (scale v s) = SizeSquared v * (s * s) := by
  simp only [SizeSquared, FVector.scale]
  ring

theorem CalcVelocity_Brake_over (Sqrt : F → F) (W : World F) (c : UGravityMovementcomponent F)
    (DeltaTime Friction BrakingDeceleration MaxSpeed : F) (b : Bool)
    (hOver : IsExceedingMaxSpeed c MaxSpeed = true)
    (hDot : DotProduct c.Acceleration c.Velocity > 0) :
    CalcVelocity_Brake Sqrt W c DeltaTime Friction BrakingDeceleration MaxSpeed b =
      if SizeSquared (ApplyVelocityBraking W c DeltaTime
          (if c.bUseSeparateBrakingFriction then c.BrakingFriction else Friction)
          BrakingDeceleration).Velocity < MaxSpeed * MaxSpeed then
        (ApplyVelocityBraking W c DeltaTime
          (if c.bUseSeparateBrakingFriction then c.BrakingFriction else Friction)
          BrakingDeceleration).setVelocity (scale (GetSafeNormal Sqrt c.Velocity) MaxSpeed)
      else
        ApplyVelocityBraking W c DeltaTime
          (if c.bUseSeparateBrakingFriction then c.BrakingFriction else Friction)
          BrakingDeceleration := by
  have hA : (ApplyVelocityBraking W c DeltaTime
      (if c.bUseSeparateBrakingFriction then c.BrakingFriction else Friction)
      BrakingDeceleration).Acceleration = c.Acceleration := by
    unfold ApplyVelocityBraking
    apply ite_pred (fun x : UGravityMovementcomponent F => x.Acceleration = c.Acceleration)
      <;> intro _ <;> rfl
  unfold CalcVelocity_Brake
  simp only [hOver, Bool.or_true, if_true, true_and, hA, hDot, and_true]

/-- C14 (amended): in CalcVelocity, whenever the velocity exceeds the effective max speed
MaxSpeed by the engine's test IsExceedingMaxSpeed (speed squared above 1.01 times MaxSpeed
squared), dot(Acceleration, old Velocity) > 0, and the old velocity can be normalised (its
squared size is at least SMALL_NUMBER, the square root being exact there), the velocity after
the braking step has squared magnitude at least MaxSpeed squared; and if ApplyVelocityBraking
brought the squared speed below MaxSpeed squared, Velocity is the old velocity's direction
scaled by MaxSpeed, of squared magnitude exactly MaxSpeed squared. -/
theorem CalcVelocity_Brake_keeps_max_speed (Sqrt : F → F) (W : World F)
    (c : UGravityMovementcomponent F)
    (DeltaTime Friction BrakingDeceleration MaxSpeed : F) (bZeroRequestedAcceleration : Bool)
    (hOver : IsExceedingMaxSpeed c MaxSpeed = true)
    (hDot : DotProduct c.Acceleration c.Velocity > 0)
    (hS : SMALL_NUMBER ≤ SizeSquared c.Velocity)
    (hSqrt : Sqrt (SizeSquared c.Velocity) * Sqrt (SizeSquared c.Velocity) =
      SizeSquared c.Velocity) :
    MaxSpeed * MaxSpeed ≤ SizeSquared (CalcVelocity_Brake Sqrt W c DeltaTime Friction
      BrakingDeceleration MaxSpeed bZeroRequestedAcceleration).Velocity ∧
    (SizeSquared (ApplyVelocityBraking W c DeltaTime
        (if c.bUseSeparateBrakingFriction then c.BrakingFriction else Friction)
        BrakingDeceleration).Velocity < MaxSpeed * MaxSpeed →
      (CalcVelocity_Brake Sqrt W c DeltaTime Friction BrakingDeceleration MaxSpeed
        bZeroRequestedAcceleration).Velocity = scale (GetSafeNormal Sqrt c.Velocity) MaxSpeed ∧
      SizeSquared (CalcVelocity_Brake Sqrt W c DeltaTime Friction BrakingDeceleration MaxSpeed
        bZeroRequestedAcceleration).Velocity = MaxSpeed * MaxSpeed) := by
  have hN : SizeSquared (scale (GetSafeNormal Sqrt c.Velocity) MaxSpeed) =
      MaxSpeed * MaxSpeed := by
    rw [SizeSquared_scale, SizeSquared_GetSafeNormal Sqrt c.Velocity hS hSqrt, one_mul]
  rw [CalcVelocity_Brake_over Sqrt W c DeltaTime Friction BrakingDeceleration MaxSpeed
    bZeroRequestedAcceleration hOver hDot]
  by_cases h : SizeSquared (ApplyVelocityBraking W c DeltaTime
      (if c.bUseSeparateBrakingFriction then c.BrakingFriction else Friction)
      BrakingDeceleration).Velocity < MaxSpeed * MaxSpeed
  · rw [if_pos h]
    refine ⟨?_, fun _ => ⟨rfl, ?_⟩⟩
    · show MaxSpeed * MaxSpeed ≤ SizeSquared (scale (GetSafeNormal Sqrt c.Velocity) MaxSpeed)
      rw [hN]
    · show SizeSquared (scale (GetSafeNormal Sqrt c.Velocity) MaxSpeed) = MaxSpeed * MaxSpeed
      exact hN
  · rw [if_neg h]
    exact ⟨not_lt.mp h, fun h2 => absurd h2 h⟩

theorem CalcVelocity_Brake_keeps_max_speed_witness :
    IsExceedingMaxSpeed fastComponent 1000 = true ∧
    DotProduct fastComponent.Acceleration fastComponent.Velocity = 1300 ∧
    SizeSquared (ApplyVelocityBraking sampleWorld fastComponent (1 / 60) 8 0).Velocity = 0 ∧
    (CalcVelocity_Brake Rat.sqrt sampleWorld fastComponent (1 / 60) 8 0 1000 true).Velocity =
      ⟨1000, 0, 0⟩ := by
  have hV : fastComponent.Velocity = ⟨1300, 0, 0⟩ := rfl
  have hA : fastComponent.Acceleration = ⟨1, 0, 0⟩ := rfl
  have hF : fastComponent.bUseSeparateBrakingFriction = false := rfl
  have hO : IsExceedingMaxSpeed fastComponent 1000 = true := by
    simp only [IsExceedingMaxSpeed, hV, SizeSquared]
    norm_num
  have hD : DotProduct fastComponent.Acceleration fastComponent.Velocity = 1300 := by
    rw [hV, hA]
    norm_num [DotProduct]
  have hB : (ApplyVelocityBraking sampleWorld fastComponent (1 / 60) 8 0).Velocity =
      ⟨0, 0, 0⟩ := by
    unfold ApplyVelocityBraking
    rw [if_neg (by
      rw [hV]
      norm_num [IsZero, MIN_TICK_TIME]
      exact ⟨rfl, rfl⟩)]
    rfl
  have hB0 : SizeSquared (ApplyVelocityBraking sampleWorld fastComponent (1 / 60) 8 0).Velocity
      = 0 := by
    rw [hB]
    norm_num [SizeSquared]
  have hS : SizeSquared fastComponent.Velocity = 1690000 := by
    rw [hV]
    norm_num [SizeSquared]
  have h := CalcVelocity_Brake_keeps_max_speed Rat.sqrt sampleWorld fastComponent (1 / 60) 8 0
    1000 true hO (by rw [hD]; norm_num) (by rw [hS]; norm_num [SMALL_NUMBER])
    (by rw [hS, Rat_sqrt_1300]; norm_num)
  refine ⟨hO, hD, hB0, ?_⟩
  have h2 := (h.2 (by
    rw [hF]
    simp only [Bool.false_eq_true, if_false]
    rw [hB0]
    norm_num)).1
  rw [h2, hV]
  simp only [GetSafeNormal, FVector.scale]
  norm_num [SMALL_NUMBER, Rat_sqrt_1300]

/-- C14 (counterexample): two calls in which the speed exceeds MaxSpeed and
dot(Acceleration, old Velocity) > 0, and the velocity after the braking step is below
MaxSpeed.  With a speed of 9/100000 above MaxSpeed = 1/20000, braking stops the actor and the
reset yields the zero vector, the old velocity being too small for GetSafeNormal.  With a
speed of 1001 above MaxSpeed = 1000, within the 1 % tolerance of IsExceedingMaxSpeed, no
braking is done and the turn of the velocity towards the acceleration leaves a squared speed
of 801600.8, below 1000 squared. -/
theorem CalcVelocity_Brake_undershoots :
    (IsExceedingMaxSpeed creepComponent (1 / 20000) = true ∧
      (1 / 20000 : ℚ) * (1 / 20000) < SizeSquared creepComponent.Velocity ∧
      DotProduct creepComponent.Acceleration creepComponent.Velocity > 0 ∧
      (CalcVelocity_Brake Rat.sqrt sampleWorld creepComponent (1 / 60) 8 0 (1 / 20000)
        true).Velocity = ⟨0, 0, 0⟩) ∧
    ((1000 : ℚ) * 1000 < SizeSquared overSpeedComponent.Velocity ∧
      DotProduct overSpeedComponent.Acceleration overSpeedComponent.Velocity > 0 ∧
      (CalcVelocity_Brake Rat.sqrt sampleWorld overSpeedComponent (1 / 16) 8 0 1000
        true).Velocity = ⟨4004 / 5, 2002 / 5, 0⟩ ∧
      SizeSquared (CalcVelocity_Brake Rat.sqrt sampleWorld overSpeedComponent (1 / 16) 8 0 1000
        true).Velocity < 1000 * 1000) := by
  have hV : creepComponent.Velocity = ⟨9 / 100000, 0, 0⟩ := rfl
  have hA : creepComponent.Acceleration = ⟨1, 0, 0⟩ := rfl
  have hF : creepComponent.bUseSeparateBrakingFriction = false := rfl
  have hO : IsExceedingMaxSpeed creepComponent (1 / 20000) = true := by
    simp only [IsExceedingMaxSpeed, hV, SizeSquared]
    norm_num
  have hD : DotProduct creepComponent.Acceleration creepComponent.Velocity > 0 := by
    rw [hV, hA]
    norm_num [DotProduct]
  have hB : (ApplyVelocityBraking sampleWorld creepComponent (1 / 60) 8 0).Velocity =
      ⟨0, 0, 0⟩ := by
    unfold ApplyVelocityBraking
    rw [if_neg (by
      rw [hV]
      norm_num [IsZero, MIN_TICK_TIME]
      exact ⟨rfl, rfl⟩)]
    rfl
  have hV2 : overSpeedComponent.Velocity = ⟨1001, 0, 0⟩ := rfl
  have hA2 : overSpeedComponent.Acceleration = ⟨3 / 5, 4 / 5, 0⟩ := rfl
  have hO2 : IsExceedingMaxSpeed overSpeedComponent 1000 = false := by
    simp only [IsExceedingMaxSpeed, hV2, SizeSquared]
    norm_num
  have hR2 : (CalcVelocity_Brake Rat.sqrt sampleWorld overSpeedComponent (1 / 16) 8 0 1000
      true).Velocity = ⟨4004 / 5, 2002 / 5, 0⟩ := by
    unfold CalcVelocity_Brake
    simp only [hO2, hA2]
    have hZ : IsZero (⟨3 / 5, 4 / 5, 0⟩ : FVector ℚ) = false := by
      norm_num [IsZero]
    simp only [hZ, Bool.false_and, Bool.or_false, Bool.false_eq_true, if_false, if_true]
    show sub overSpeedComponent.Velocity _ = _
    rw [hV2]
    simp only [GetSafeNormal, Size, FVector.scale, FVector.sub]
    norm_num [SMALL_NUMBER, Rat_sqrt_1001]
  refine ⟨⟨hO, ?_, hD, ?_⟩, ?_, ?_, hR2, ?_⟩
  · rw [hV]
    norm_num [SizeSquared]
  · rw [CalcVelocity_Brake_over Rat.sqrt sampleWorld creepComponent (1 / 60) 8 0 (1 / 20000)
      true hO hD, hF]
    simp only [Bool.false_eq_true, if_false]
    rw [if_pos (by rw [hB]; norm_num [SizeSquared])]
    show scale (GetSafeNormal Rat.sqrt creepComponent.Velocity) (1 / 20000) = _
    rw [hV]
    simp only [GetSafeNormal, FVector.scale]
    norm_num [SMALL_NUMBER, ZeroVector]
  · rw [hV2]
    norm_num [SizeSquared]
  · rw [hV2, hA2]
    norm_num [DotProduct]
  · rw [hR2]
    norm_num [SizeSquared]

/-- C18: the cached navigation location is reused for feet that are 1000 units above it.
With gravity pulling along -Z, the cached location at the origin and the feet at (0, 0, 1000),
the lateral distance is 0 and the height difference along the gravity axis is 1000, above the
threshold TotalCapsuleHeight x max(0, scale) = 176 x 0.67 = 117.92; the code compares the
signed value dot(feet - cached, GravityDirection) = -1000 with the threshold, so
bSameNavLocation is true and, the move being zero, the destination is taken from the cache
without a call of FindNavFloor. -/
theorem PhysNavWalking_cache_reused_far_above :
    |DotProduct (sub (⟨0, 0, 1000⟩ : FVector ℚ) projectingNavComponent.CachedNavLocation.Location)
      projectingNavComponent.GravityDirection| = 1000 ∧
    projectingNavComponent.PawnHalfHeight * 2 *
      max 0 projectingNavComponent.NavMeshProjectionHeightScaleUp = 2948 / 25 ∧
    projectingNavComponent.PawnHalfHeight * 2 *
      max 0 projectingNavComponent.NavMeshProjectionHeightScaleDown = 176 ∧
    PhysNavWalking_bSameNavLocation Rat.sqrt projectingNavComponent ⟨0, 0, 1000⟩ = true ∧
    (PhysNavWalking_Destination Rat.sqrt sampleWorld.NavData projectingNavComponent (1 / 60)
      ⟨0, 0, 1000⟩).1 = .fromCache projectingNavComponent.CachedNavLocation := by
  have hC : projectingNavComponent.CachedNavLocation = ⟨⟨0, 0, 0⟩, some 3⟩ := rfl
  have hG : projectingNavComponent.GravityDirection = ⟨0, 0, -1⟩ := rfl
  have hX : projectingNavComponent.AxisX = ⟨1, 0, 0⟩ := rfl
  have hY : projectingNavComponent.AxisY = ⟨0, 1, 0⟩ := rfl
  have hH : projectingNavComponent.PawnHalfHeight = 88 := rfl
  have hU : projectingNavComponent.NavMeshProjectionHeightScaleUp = 67 / 100 := rfl
  have hD : projectingNavComponent.NavMeshProjectionHeightScaleDown = 1 := rfl
  have hP : projectingNavComponent.bProjectNavMeshWalking = true := rfl
  have hV : projectingNavComponent.Velocity = ⟨0, 0, 0⟩ := rfl
  have hS : PhysNavWalking_bSameNavLocation Rat.sqrt projectingNavComponent ⟨0, 0, 1000⟩ =
      true := by
    unfold PhysNavWalking_bSameNavLocation
    simp only [hC, hG, hX, hY, hH, hU, hD, hP, if_true, DotProduct, FVector.sub, FVector.neg]
    norm_num [KINDA_SMALL_NUMBER]
  refine ⟨?_, ?_, ?_, hS, ?_⟩
  · rw [hC, hG]
    norm_num [DotProduct, FVector.sub]
  · rw [hH, hU]
    norm_num
  · rw [hH, hD]
    norm_num
  · have hN : sampleWorld.NavData = none := rfl
    have hZ : IsNearlyZero (scale projectingNavComponent.Velocity (1 / 60 : ℚ))
        KINDA_SMALL_NUMBER = true := by
      rw [hV]
      norm_num [IsNearlyZero, FVector.scale, KINDA_SMALL_NUMBER]
    unfold PhysNavWalking_Destination PhysNavWalking_CheckCache
    simp only [hZ, hS, hN, hC, Bool.and_self, if_true]
    unfold PhysNavWalking_Resolve
    simp only [Bool.and_self, if_true]
    rw [hC]

theorem OnMovementModeChanged_OwnerCalls_eq (W : World F) (c : UGravityMovementcomponent F)
    (PreviousMovementMode : EMovementMode) (PreviousCustomMode : Nat)
    (hValid : c.bHasCharacterOwner = true) :
    OnMovementModeChanged_OwnerCalls W c PreviousMovementMode PreviousCustomMode =
      if c.MovementMode ≠ EMovementMode.MOVE_NavWalking ∧
          PreviousMovementMode = EMovementMode.MOVE_NavWalking ∧
          (c.MovementMode = c.DefaultLandMovementMode ∨ IsMovingOnGround c = true) ∧
          (W.TryToLeaveNavWalking c).1 = false then []
      else [(PreviousMovementMode, PreviousCustomMode)] := by
  unfold OnMovementModeChanged_OwnerCalls
  rw [if_neg (by rw [hValid]; decide)]
  by_cases h1 : c.MovementMode = EMovementMode.MOVE_NavWalking
  · simp [h1]
  · by_cases h2 : PreviousMovementMode = EMovementMode.MOVE_NavWalking
    · by_cases h3 : c.MovementMode = c.DefaultLandMovementMode ∨ IsMovingOnGround c = true
      · by_cases h4 : (W.TryToLeaveNavWalking c).1 = false
        · simp only [h1, h2, h3, h4, if_true, if_false, ne_eq, not_false_eq_true, and_self]
        · simp [h1, h2, h3, h4]
      · simp [h1, h2, h3]
    · simp [h1, h2]

theorem OnMovementModeChanged_of_no_call (W : World F) (c : UGravityMovementcomponent F)
    (PreviousMovementMode : EMovementMode) (PreviousCustomMode : Nat)
    (hValid : c.bHasCharacterOwner = true)
    (h : OnMovementModeChanged_OwnerCalls W c PreviousMovementMode PreviousCustomMode = []) :
    OnMovementModeChanged W c PreviousMovementMode PreviousCustomMode =
      (W.TryToLeaveNavWalking c).2 := by
  rw [OnMovementModeChanged_OwnerCalls_eq W c _ _ hValid] at h
  by_cases hc : c.MovementMode ≠ EMovementMode.MOVE_NavWalking ∧
      PreviousMovementMode = EMovementMode.MOVE_NavWalking ∧
      (c.MovementMode = c.DefaultLandMovementMode ∨ IsMovingOnGround c = true) ∧
      (W.TryToLeaveNavWalking c).1 = false
  · obtain ⟨h1, h2, h3, h4⟩ := hc
    unfold OnMovementModeChanged
    rw [if_neg (by rw [hValid]; decide)]
    simp only [if_neg h1, if_pos h2, if_pos h3, h4, if_true]
  · rw [if_neg hc] at h
    exact absurd h (by simp)

theorem OnMovementModeChanged_of_call (W : World F) (c : UGravityMovementcomponent F)
    (PreviousMovementMode : EMovementMode) (PreviousCustomMode : Nat)
    (h : OnMovementModeChanged_OwnerCalls W c PreviousMovementMode PreviousCustomMode ≠ []) :
    ∃ c1, OnMovementModeChanged W c PreviousMovementMode PreviousCustomMode =
      W.OwnerOnMovementModeChanged c1 PreviousMovementMode PreviousCustomMode := by
  unfold OnMovementModeChanged_OwnerCalls at h
  unfold OnMovementModeChanged
  by_cases hV : c.bHasCharacterOwner = false
  · rw [if_pos hV] at h
    exact absurd rfl h
  · rw [if_neg hV] at h ⊢
    by_cases h1 : c.MovementMode = EMovementMode.MOVE_NavWalking
    · simp only [if_pos h1, Bool.true_eq_false, if_false]
      exact ⟨_, rfl⟩
    · by_cases h2 : PreviousMovementMode = EMovementMode.MOVE_NavWalking
      · by_cases h3 : c.MovementMode = c.DefaultLandMovementMode ∨ IsMovingOnGround c = true
        · simp only [if_neg h1, if_pos h2, if_pos h3] at h ⊢
          by_cases h4 : (W.TryToLeaveNavWalking c).1 = false
          · rw [if_pos h4] at h
            exact absurd rfl h
          · rw [if_neg h4]
            exact ⟨_, rfl⟩
        · simp only [if_neg h1, if_pos h2, if_neg h3, Bool.true_eq_false, if_false]
          exact ⟨_, rfl⟩
      · simp only [if_neg h1, if_neg h2, Bool.true_eq_false, if_false]
        exact ⟨_, rfl⟩

/-- C16 (counterexample): an invocation with valid data that does not notify the owner.  The
mode has been set from NavWalking to Walking and the capsule cannot leave the nav mesh
(TryToLeaveNavWalking returns false): OnMovementModeChanged(MOVE_NavWalking, 0) returns at
once, makes no call of the owner's OnMovementModeChanged, and the component is as
TryToLeaveNavWalking left it (the owner of this world would have set the velocity to
(0, 0, 420)). -/
theorem OnMovementModeChanged_skips_owner :
    sampleComponent.bHasCharacterOwner = true ∧
    sampleComponent.MovementMode = .MOVE_Walking ∧
    OnMovementModeChanged_OwnerCalls stuckNavWorld sampleComponent .MOVE_NavWalking 0 = [] ∧
    OnMovementModeChanged stuckNavWorld sampleComponent .MOVE_NavWalking 0 = sampleComponent ∧
    (OnMovementModeChanged stuckNavWorld sampleComponent .MOVE_NavWalking 0).Velocity ≠
      ⟨0, 0, 420⟩ := by
  have h1 : OnMovementModeChanged_OwnerCalls stuckNavWorld sampleComponent .MOVE_NavWalking 0
      = [] := by
    rw [OnMovementModeChanged_OwnerCalls_eq _ _ _ _ rfl]
    rw [if_pos ⟨by decide, rfl, Or.inl rfl, rfl⟩]
  have h2 : OnMovementModeChanged stuckNavWorld sampleComponent .MOVE_NavWalking 0 =
      sampleComponent := by
    rw [OnMovementModeChanged_of_no_call _ _ _ _ rfl h1]
    rfl
  refine ⟨rfl, rfl, h1, h2, ?_⟩
  rw [h2]
  intro h
  have h3 : (sampleComponent.Velocity).Z = 420 := by rw [h]
  norm_num [sampleComponent] at h3

/-- C16 (amended): for every invocation of OnMovementModeChanged(PreviousMovementMode,
PreviousCustomMode) made with valid data, the invocation calls the owning character's
OnMovementModeChanged exactly once, as its last step and with the same
(PreviousMovementMode, PreviousCustomMode), unless the previous mode is NavWalking, the new
mode is not NavWalking and is the default land mode or a ground mode, and
TryToLeaveNavWalking fails: then the invocation returns without calling it, leaving the
component as TryToLeaveNavWalking left it. -/
theorem OnMovementModeChanged_notifies_once (W : World F) (c : UGravityMovementcomponent F)
    (PreviousMovementMode : EMovementMode) (PreviousCustomMode : Nat)
    (hValid : c.bHasCharacterOwner = true) :
    (OnMovementModeChanged_OwnerCalls W c PreviousMovementMode PreviousCustomMode =
      if c.MovementMode ≠ EMovementMode.MOVE_NavWalking ∧
          PreviousMovementMode = EMovementMode.MOVE_NavWalking ∧
          (c.MovementMode = c.DefaultLandMovementMode ∨ IsMovingOnGround c = true) ∧
          (W.TryToLeaveNavWalking c).1 = false then []
      else [(PreviousMovementMode, PreviousCustomMode)]) ∧
    (OnMovementModeChanged_OwnerCalls W c PreviousMovementMode PreviousCustomMode = [] →
      OnMovementModeChanged W c PreviousMovementMode PreviousCustomMode =
        (W.TryToLeaveNavWalking c).2) ∧
    (OnMovementModeChanged_OwnerCalls W c PreviousMovementMode PreviousCustomMode ≠ [] →
      ∃ c1, OnMovementModeChanged W c PreviousMovementMode PreviousCustomMode =
        W.OwnerOnMovementModeChanged c1 PreviousMovementMode PreviousCustomMode) :=
  ⟨OnMovementModeChanged_OwnerCalls_eq W c _ _ hValid,
    OnMovementModeChanged_of_no_call W c _ _ hValid,
    OnMovementModeChanged_of_call W c _ _⟩

theorem OnMovementModeChanged_notifies_once_witness :
    sampleComponent.bHasCharacterOwner = true ∧
    OnMovementModeChanged_OwnerCalls sampleWorld sampleComponent .MOVE_NavWalking 0 =
      [(.MOVE_NavWalking, 0)] ∧
    OnMovementModeChanged_OwnerCalls sampleWorld sampleComponent .MOVE_Falling 0 =
      [(.MOVE_Falling, 0)] := by
  refine ⟨rfl, ?_, ?_⟩
  · rw [(OnMovementModeChanged_notifies_once sampleWorld sampleComponent .MOVE_NavWalking 0
      rfl).1]
    rw [if_neg (by
      rintro ⟨_, _, _, h⟩
      exact absurd h (by decide))]
  · rw [(OnMovementModeChanged_notifies_once sampleWorld sampleComponent .MOVE_Falling 0
      rfl).1]
    rw [if_neg (by
      rintro ⟨_, h, _⟩
      exact absurd h (by decide))]

theorem GetSafeNormal_small (Sqrt : F → F) (v : FVector F)
    (h : SizeSquared v < SMALL_NUMBER) : GetSafeNormal Sqrt v = ZeroVector := by
  unfold GetSafeNormal
  simp only [SizeSquared] at h
  have h1 : ¬ (v.X * v.X + v.Y * v.Y + v.Z * v.Z = 1) := by
    intro h1
    rw [h1] at h
    norm_num [SMALL_NUMBER] at h
  simp only [if_neg h1, if_pos h]

theorem GetSafeNormal_unit_or_zero (Sqrt : F → F)
    (hSqrt : ∀ s : F, 0 < s → Sqrt s * Sqrt s = s) (v : FVector F) :
    SizeSquared (GetSafeNormal Sqrt v) = 1 ∨ GetSafeNormal Sqrt v = ZeroVector := by
  by_cases h : SizeSquared v < SMALL_NUMBER
  · exact Or.inr (GetSafeNormal_small Sqrt v h)
  · have hS : SMALL_NUMBER ≤ SizeSquared v := not_lt.mp h
    have hpos : (0 : F) < SizeSquared v := lt_of_lt_of_le (by norm_num [SMALL_NUMBER]) hS
    exact Or.inl (SizeSquared_GetSafeNormal Sqrt v hS (hSqrt _ hpos))

theorem TickComponent_GravityDirection (Sqrt : F → F) (W : World F)
    (c : UGravityMovementcomponent F) (DeltaTime : F) :
    (TickComponent Sqrt W c DeltaTime).GravityDirection =
      GetSafeNormal Sqrt (sub (TickComponent Sqrt W c DeltaTime).GravityOrigin
        (TickComponent Sqrt W c DeltaTime).Location) := rfl

theorem Reachable_unit_or_zero (Sqrt : F → F)
    (hSqrt : ∀ s : F, 0 < s → Sqrt s * Sqrt s = s) (c : UGravityMovementcomponent F)
    (h : Reachable Sqrt c) :
    SizeSquared c.GravityDirection = 1 ∨ c.GravityDirection = ZeroVector := by
  induction h with
  | constructed c h0 => exact Or.inr h0
  | tick W c DeltaTime _ _ =>
    rw [TickComponent_GravityDirection]
    exact GetSafeNormal_unit_or_zero Sqrt hSqrt _
  | other c c1 _ he ih =>
    rw [he]
    exact ih

/-- C11: with an exact square root, after every call of TickComponent, in any world and from
any state, GravityDirection equals the safe normal of GravityOrigin minus the actor
location, which is the zero vector when the squared length of that difference is below
SMALL_NUMBER; and in every reachable state (the constructed component, whose GravityDirection
is zero, followed by ticks and by code that does not assign GravityDirection) the squared
length of GravityDirection is exactly 1 or GravityDirection is the zero vector. -/
theorem TickComponent_gravity_frame (Sqrt : F → F)
    (hSqrt : ∀ s : F, 0 < s → Sqrt s * Sqrt s = s) :
    (∀ (W : World F) (c : UGravityMovementcomponent F) (DeltaTime : F),
      (TickComponent Sqrt W c DeltaTime).GravityDirection =
        GetSafeNormal Sqrt (sub (TickComponent Sqrt W c DeltaTime).GravityOrigin
          (TickComponent Sqrt W c DeltaTime).Location) ∧
      (SizeSquared (sub (TickComponent Sqrt W c DeltaTime).GravityOrigin
          (TickComponent Sqrt W c DeltaTime).Location) < SMALL_NUMBER →
        (TickComponent Sqrt W c DeltaTime).GravityDirection = ZeroVector)) ∧
    (∀ c : UGravityMovementcomponent F, Reachable Sqrt c →
      SizeSquared c.GravityDirection = 1 ∨ c.GravityDirection = ZeroVector) := by
  refine ⟨fun W c DeltaTime => ⟨TickComponent_GravityDirection Sqrt W c DeltaTime, fun h => ?_⟩,
    fun c h => Reachable_unit_or_zero Sqrt hSqrt c h⟩
  rw [TickComponent_GravityDirection]
  exact GetSafeNormal_small Sqrt _ h

theorem TickComponent_gravity_frame_witness :
    (∀ s : ℝ, 0 < s → Real.sqrt s * Real.sqrt s = s) ∧
    (TickComponent Real.sqrt quietWorld (constructedComponent ⟨0, 0, 0⟩ ⟨0, 0, 1000⟩)
      (1 / 60)).GravityDirection = ⟨0, 0, -1⟩ ∧
    SizeSquared (TickComponent Real.sqrt quietWorld
      (constructedComponent ⟨0, 0, 0⟩ ⟨0, 0, 1000⟩) (1 / 60)).GravityDirection = 1 ∧
    (TickComponent Real.sqrt quietWorld (constructedComponent ⟨0, 0, 0⟩ ⟨0, 0, 0⟩)
      (1 / 60)).GravityDirection = ZeroVector := by
  have hS : ∀ s : ℝ, 0 < s → Real.sqrt s * Real.sqrt s = s :=
    fun s hs => Real.mul_self_sqrt hs.le
  have h := TickComponent_gravity_frame Real.sqrt hS
  have hq : Real.sqrt 1000000 = 1000 := by
    rw [show (1000000 : ℝ) = 1000 * 1000 by norm_num]
    exact Real.sqrt_mul_self (by norm_num)
  have hO : ∀ L : FVector ℝ, (TickComponent Real.sqrt quietWorld
      (constructedComponent ⟨0, 0, 0⟩ L) (1 / 60)).GravityOrigin = ⟨0, 0, 0⟩ := fun _ => rfl
  have hL : ∀ L : FVector ℝ, (TickComponent Real.sqrt quietWorld
      (constructedComponent ⟨0, 0, 0⟩ L) (1 / 60)).Location = L := fun _ => rfl
  have h1 : (TickComponent Real.sqrt quietWorld (constructedComponent ⟨0, 0, 0⟩ ⟨0, 0, 1000⟩)
      (1 / 60)).GravityDirection = ⟨0, 0, -1⟩ := by
    rw [(h.1 _ _ _).1, hO, hL]
    simp only [GetSafeNormal, FVector.sub]
    norm_num [SMALL_NUMBER, hq]
  refine ⟨hS, h1, ?_, ?_⟩
  · rw [h1]
    norm_num [SizeSquared]
  · apply (h.1 _ _ _).2
    rw [hO, hL]
    norm_num [SizeSquared, FVector.sub, SMALL_NUMBER]

theorem Rat_sqrt_1000 : Rat.sqrt 1000000 = 1000 := by
  rw [show (1000000 : ℚ) = 1000 * 1000 by norm_num, Rat.sqrt_eq]
  norm_num

theorem planetNav_Trace (c : UGravityMovementcomponent ℚ)
    (hT : c.NavMeshProjectionTimer = 1 / 10) (A B C D : FVector ℚ) (b : Bool) :
    ProjectLocationFromNavMesh_Trace sampleWorld c (1 / 60) A B C D b =
      c.setNavMeshProjectionTimer (1 / 12) := by
  unfold ProjectLocationFromNavMesh_Trace
  have h1 : (c.setNavMeshProjectionTimer (c.NavMeshProjectionTimer - 1 / 60)).NavMeshProjectionTimer
      = 1 / 12 := by
    show c.NavMeshProjectionTimer - 1 / 60 = 1 / 12
    rw [hT]
    norm_num
  simp only [h1]
  rw [if_neg (by norm_num)]
  rw [hT]
  norm_num

theorem planetNav_ProjectedZ :
    ProjectLocationFromNavMesh_ProjectedZ (planetNavComponent.setNavMeshProjectionTimer (1 / 12))
      (1 / 60) ⟨0, 0, 1005⟩ ⟨0, 0, 1010⟩ ⟨0, 0, 990⟩ (-20) = 1004 := by
  have hG : (planetNavComponent.setNavMeshProjectionTimer (1 / 12)).GravityDirection =
      ⟨0, 0, -1⟩ := rfl
  have hH : (planetNavComponent.setNavMeshProjectionTimer
      (1 / 12)).CachedProjectedNavMeshHitResult = groundHit := rfl
  have hI : (planetNavComponent.setNavMeshProjectionTimer
      (1 / 12)).NavMeshProjectionInterpSpeed = 12 := rfl
  have hP : groundHit.ImpactPoint = ⟨0, 0, 1000⟩ := rfl
  have hN : groundHit.Normal = ⟨0, 0, 1⟩ := rfl
  unfold ProjectLocationFromNavMesh_ProjectedZ
  simp only [hG, hH, hI, hP, hN, DotProduct, FVector.sub, FVector.neg]
  norm_num [Clamp, FInterpTo, SMALL_NUMBER]

theorem planetNav_ProjectedZ_narrow :
    ProjectLocationFromNavMesh_ProjectedZ (planetNavComponent.setNavMeshProjectionTimer (1 / 12))
      (1 / 60) ⟨0, 0, 1005⟩ ⟨0, 0, 100000000001 / 100000000⟩ ⟨0, 0, 1000⟩ (-(1 / 100000000))
      = 100000000001 / 100000000 := by
  have hG : (planetNavComponent.setNavMeshProjectionTimer (1 / 12)).GravityDirection =
      ⟨0, 0, -1⟩ := rfl
  have hH : (planetNavComponent.setNavMeshProjectionTimer
      (1 / 12)).CachedProjectedNavMeshHitResult = groundHit := rfl
  have hI : (planetNavComponent.setNavMeshProjectionTimer
      (1 / 12)).NavMeshProjectionInterpSpeed = 12 := rfl
  have hP : groundHit.ImpactPoint = ⟨0, 0, 1000⟩ := rfl
  have hN : groundHit.Normal = ⟨0, 0, 1⟩ := rfl
  unfold ProjectLocationFromNavMesh_ProjectedZ
  simp only [hG, hH, hI, hP, hN, DotProduct, FVector.sub, FVector.neg]
  norm_num [Clamp, FInterpTo, SMALL_NUMBER]

/-- C17: a projection onto the cached blocking hit plane that leaves the search window.  On a
planet centred at the origin, with gravity pulling along -Z, the target nav location 1000
units up, UpOffset = DownOffset = 10 and the cached plane through the target, the window
runs from height 990 (TraceEnd) to height 1010 (TraceStart) and the code computes the clamped
height 1004 inside it; the location it returns is (GravityOrigin - TargetNavLocation)
normalised times 1004, that is (0, 0, -1004), of height -1004 along -GravityDirection, 1994
units below the window.  And with UpOffset + DownOffset equal to SMALL_NUMBER the function
does not return TargetNavLocation. -/
theorem ProjectLocationFromNavMesh_leaves_window :
    planetNavComponent.GravityDirection = ⟨0, 0, -1⟩ ∧
    (10 + 10 : ℚ) > SMALL_NUMBER ∧
    planetNavComponent.CachedProjectedNavMeshHitResult.bBlockingHit = true ∧
    DotProduct (add (⟨0, 0, 1000⟩ : FVector ℚ) (scale planetNavComponent.GravityDirection 10))
      (neg planetNavComponent.GravityDirection) = 990 ∧
    DotProduct (sub (⟨0, 0, 1000⟩ : FVector ℚ) (scale planetNavComponent.GravityDirection 10))
      (neg planetNavComponent.GravityDirection) = 1010 ∧
    (ProjectLocationFromNavMesh Rat.sqrt sampleWorld planetNavComponent (1 / 60) ⟨0, 0, 1005⟩
      ⟨0, 0, 1000⟩ 10 10).NewLocation = ⟨0, 0, -1004⟩ ∧
    DotProduct (ProjectLocationFromNavMesh Rat.sqrt sampleWorld planetNavComponent (1 / 60)
      ⟨0, 0, 1005⟩ ⟨0, 0, 1000⟩ 10 10).NewLocation (neg planetNavComponent.GravityDirection)
      = -1004 ∧
    (ProjectLocationFromNavMesh Rat.sqrt sampleWorld planetNavComponent (1 / 60) ⟨0, 0, 1005⟩
      ⟨0, 0, 1000⟩ SMALL_NUMBER 0).NewLocation ≠ ⟨0, 0, 1000⟩ := by
  have hG : planetNavComponent.GravityDirection = ⟨0, 0, -1⟩ := rfl
  have hO : planetNavComponent.GravityOrigin = ⟨0, 0, 0⟩ := rfl
  have hH : planetNavComponent.CachedProjectedNavMeshHitResult = groundHit := rfl
  have hT : planetNavComponent.NavMeshProjectionTimer = 1 / 10 := rfl
  have hB : groundHit.bBlockingHit = true := rfl
  have hP : groundHit.ImpactPoint = ⟨0, 0, 1000⟩ := rfl
  have hTS : groundHit.TraceStart = ⟨0, 0, 1010⟩ := rfl
  have hTE : groundHit.TraceEnd = ⟨0, 0, 990⟩ := rfl
  have hG1 : (planetNavComponent.setNavMeshProjectionTimer (1 / 12)).GravityDirection =
      ⟨0, 0, -1⟩ := rfl
  have hO1 : (planetNavComponent.setNavMeshProjectionTimer (1 / 12)).GravityOrigin =
      ⟨0, 0, 0⟩ := rfl
  have hH1 : (planetNavComponent.setNavMeshProjectionTimer
      (1 / 12)).CachedProjectedNavMeshHitResult = groundHit := rfl
  have hS : sub (⟨0, 0, 1000⟩ : FVector ℚ) (scale ⟨0, 0, -1⟩ 10) = ⟨0, 0, 1010⟩ := by
    norm_num [FVector.sub, FVector.scale]
  have hE : add (⟨0, 0, 1000⟩ : FVector ℚ) (scale ⟨0, 0, -1⟩ 10) = ⟨0, 0, 990⟩ := by
    norm_num [FVector.add, FVector.scale]
  have hR : (ProjectLocationFromNavMesh Rat.sqrt sampleWorld planetNavComponent (1 / 60)
      ⟨0, 0, 1005⟩ ⟨0, 0, 1000⟩ 10 10).NewLocation = ⟨0, 0, -1004⟩ := by
    unfold ProjectLocationFromNavMesh
    simp only []
    rw [if_neg (by norm_num [SMALL_NUMBER])]
    rw [planetNav_Trace planetNavComponent hT]
    simp only [hH1, hB, if_true, hG, hS, hE, hH, hTS, hTE, hG1, hO1, hP]
    rw [if_neg (by norm_num [IsNearlyEqual, DotProduct, FVector.neg])]
    simp only []
    rw [show (-(10 + 10) : ℚ) = -20 by norm_num, planetNav_ProjectedZ]
    simp only [GetSafeNormal, FVector.sub, FVector.scale]
    norm_num [SMALL_NUMBER, Rat_sqrt_1000]
  refine ⟨hG, by norm_num [SMALL_NUMBER], by rw [hH, hB], ?_, ?_, hR, ?_, ?_⟩
  · rw [hG, hE]
    norm_num [DotProduct, FVector.neg]
  · rw [hG, hS]
    norm_num [DotProduct, FVector.neg]
  · rw [hR, hG]
    norm_num [DotProduct, FVector.neg]
  · have hS2 : sub (⟨0, 0, 1000⟩ : FVector ℚ) (scale ⟨0, 0, -1⟩ SMALL_NUMBER) =
        ⟨0, 0, 100000000001 / 100000000⟩ := by
      norm_num [FVector.sub, FVector.scale, SMALL_NUMBER]
    have hE2 : add (⟨0, 0, 1000⟩ : FVector ℚ) (scale ⟨0, 0, -1⟩ 0) = ⟨0, 0, 1000⟩ := by
      norm_num [FVector.add, FVector.scale]
    have hR2 : (ProjectLocationFromNavMesh Rat.sqrt sampleWorld planetNavComponent (1 / 60)
        ⟨0, 0, 1005⟩ ⟨0, 0, 1000⟩ SMALL_NUMBER 0).NewLocation =
        ⟨0, 0, -(100000000001 / 100000000)⟩ := by
      unfold ProjectLocationFromNavMesh
      simp only []
      rw [if_neg (by norm_num [SMALL_NUMBER])]
      rw [planetNav_Trace planetNavComponent hT]
      simp only [hH1, hB, if_true, hG, hS2, hE2, hH, hTS, hTE, hG1, hO1, hP]
      rw [if_neg (by norm_num [IsNearlyEqual, DotProduct, FVector.neg])]
      simp only []
      rw [show (-(0 + SMALL_NUMBER) : ℚ) = -(1 / 100000000) by norm_num [SMALL_NUMBER],
        planetNav_ProjectedZ_narrow]
      simp only [GetSafeNormal, FVector.sub, FVector.scale]
      norm_num [SMALL_NUMBER, Rat_sqrt_1000]
    rw [hR2]
    intro h
    have h3 := congrArg FVector.Z h
    norm_num at h3

/-- C19: two calls of ProjectLocationFromNavMesh that divide by zero.  The function guards
ZOffset (UpOffset + DownOffset = 20 here) and not the other factor of the divisor
ZOffset x dot(PlaneNormal, -GravityDirection) of the plane-intersection quotient.  With a
gravity direction of zero (the state before the first tick, or an actor at the gravity
origin) and a cached blocking hit, the quotient is computed with the divisor -20 x 0 = 0; so
it is with gravity along -Z when the cached hit is on a vertical wall, of normal
(1, 0, 0). -/
theorem ProjectLocationFromNavMesh_divides_by_zero :
    (10 + 10 : ℚ) > SMALL_NUMBER ∧
    weightlessNavComponent.GravityDirection = ZeroVector ∧
    weightlessNavComponent.CachedProjectedNavMeshHitResult.bBlockingHit = true ∧
    (ProjectLocationFromNavMesh Rat.sqrt sampleWorld weightlessNavComponent (1 / 60)
      ⟨0, 0, 1005⟩ ⟨0, 0, 1000⟩ 10 10).Divisors = [0] ∧
    wallNavComponent.GravityDirection = ⟨0, 0, -1⟩ ∧
    wallNavComponent.CachedProjectedNavMeshHitResult.bBlockingHit = true ∧
    wallNavComponent.CachedProjectedNavMeshHitResult.Normal = ⟨1, 0, 0⟩ ∧
    (ProjectLocationFromNavMesh Rat.sqrt sampleWorld wallNavComponent (1 / 60)
      ⟨0, 0, 1005⟩ ⟨0, 0, 1000⟩ 10 10).Divisors = [0] := by
  have hG : weightlessNavComponent.GravityDirection = ⟨0, 0, 0⟩ := rfl
  have hH : weightlessNavComponent.CachedProjectedNavMeshHitResult = groundHit := rfl
  have hT : weightlessNavComponent.NavMeshProjectionTimer = 1 / 10 := rfl
  have hG1 : (weightlessNavComponent.setNavMeshProjectionTimer (1 / 12)).GravityDirection =
      ⟨0, 0, 0⟩ := rfl
  have hH1 : (weightlessNavComponent.setNavMeshProjectionTimer
      (1 / 12)).CachedProjectedNavMeshHitResult = groundHit := rfl
  have hB : groundHit.bBlockingHit = true := rfl
  have hP : groundHit.ImpactPoint = ⟨0, 0, 1000⟩ := rfl
  have hN : groundHit.Normal = ⟨0, 0, 1⟩ := rfl
  have hTS : groundHit.TraceStart = ⟨0, 0, 1010⟩ := rfl
  have hTE : groundHit.TraceEnd = ⟨0, 0, 990⟩ := rfl
  have hG2 : wallNavComponent.GravityDirection = ⟨0, 0, -1⟩ := rfl
  have hH2 : wallNavComponent.CachedProjectedNavMeshHitResult =
      { groundHit with Normal := ⟨1, 0, 0⟩ } := rfl
  have hT2 : wallNavComponent.NavMeshProjectionTimer = 1 / 10 := rfl
  have hG3 : (wallNavComponent.setNavMeshProjectionTimer (1 / 12)).GravityDirection =
      ⟨0, 0, -1⟩ := rfl
  have hH3 : (wallNavComponent.setNavMeshProjectionTimer
      (1 / 12)).CachedProjectedNavMeshHitResult = { groundHit with Normal := ⟨1, 0, 0⟩ } := rfl
  have hB3 : ({ groundHit with Normal := ⟨1, 0, 0⟩ } : FHitResult ℚ).bBlockingHit = true := rfl
  have hP3 : ({ groundHit with Normal := ⟨1, 0, 0⟩ } : FHitResult ℚ).ImpactPoint =
      ⟨0, 0, 1000⟩ := rfl
  have hN3 : ({ groundHit with Normal := ⟨1, 0, 0⟩ } : FHitResult ℚ).Normal = ⟨1, 0, 0⟩ := rfl
  refine ⟨by norm_num [SMALL_NUMBER], rfl, by rw [hH, hB], ?_, hG2, by rw [hH2, hB3],
    by rw [hH2], ?_⟩
  · unfold ProjectLocationFromNavMesh
    simp only []
    rw [if_neg (by norm_num [SMALL_NUMBER])]
    rw [planetNav_Trace weightlessNavComponent hT]
    simp only [hH1, hB, if_true, hG, hH, hTS, hTE, hG1, hP, hN]
    rw [if_neg (by norm_num [FVector.sub, FVector.scale])]
    norm_num [DotProduct, FVector.neg]
  · unfold ProjectLocationFromNavMesh
    simp only []
    rw [if_neg (by norm_num [SMALL_NUMBER])]
    rw [planetNav_Trace wallNavComponent hT2]
    simp only [hH3, hB3, if_true, hG2, hH2, hG3, hP3, hN3]
    rw [if_neg (by norm_num [IsNearlyEqual, DotProduct, FVector.neg])]
    norm_num [DotProduct, FVector.neg]

theorem ComputeFloorDist_events (Sqrt : F → F) (W : World F) (c : UGravityMovementcomponent F)
    (CapsuleLocation : FVector F) (LineDistance SweepDistance SweepRadius : F)
    (DownwardSweepResult : Option (FHitResult F)) :
    ∃ rest, (ComputeFloorDist Sqrt W c CapsuleLocation LineDistance SweepDistance SweepRadius
      DownwardSweepResult).2 =
      FloorEvent.ComputeFloorDist CapsuleLocation LineDistance SweepDistance SweepRadius
        :: rest := by
  unfold ComputeFloorDist
  simp only []
  repeat' (first | exact ⟨_, rfl⟩ | (apply ite_pred (fun x : FFindFloorResult F ×
    List (FloorEvent F) => ∃ rest, x.2 = FloorEvent.ComputeFloorDist CapsuleLocation
      LineDistance SweepDistance SweepRadius :: rest) <;> intro _))

theorem FindFloor_Sweep_cached (Sqrt : F → F) (W : World F) (c : UGravityMovementcomponent F)
    (CapsuleLocation : FVector F) (bCanUseCachedLocation : Bool)
    (DownwardSweepResult : Option (FHitResult F)) (L S : F)
    (h : FloorCacheUsable W c bCanUseCachedLocation) :
    FindFloor_Sweep Sqrt W c CapsuleLocation bCanUseCachedLocation DownwardSweepResult L S =
      (c.CurrentFloor, false, false, []) := by
  obtain ⟨h1, h2, h3, h4, b, hb, h5, h6, h7, h8⟩ := h
  unfold FindFloor_Sweep
  rw [if_neg (by simp [h1, h2, h3, h4])]
  simp only [hb, h5, h6, h7, h8, Option.isSome_some, Bool.not_true, Bool.or_self, and_self,
    if_true]

theorem FindFloor_Sweep_fresh (Sqrt : F → F) (W : World F) (c : UGravityMovementcomponent F)
    (CapsuleLocation : FVector F) (bCanUseCachedLocation : Bool)
    (DownwardSweepResult : Option (FHitResult F)) (L S : F)
    (h : ¬ FloorCacheUsable W c bCanUseCachedLocation) :
    FindFloor_Sweep Sqrt W c CapsuleLocation bCanUseCachedLocation DownwardSweepResult L S =
      ((ComputeFloorDist Sqrt W c CapsuleLocation L S c.PawnRadius DownwardSweepResult).1,
        false, true,
        (ComputeFloorDist Sqrt W c CapsuleLocation L S c.PawnRadius DownwardSweepResult).2) := by
  unfold FindFloor_Sweep
  by_cases h0 : c.bAlwaysCheckFloor = true ∨ bCanUseCachedLocation = false ∨
      c.bForceNextFloorCheck = true ∨ c.bJustTeleported = true
  · rw [if_pos h0]
  · rw [if_neg h0]
    have h1 : c.bAlwaysCheckFloor = false := by
      cases hx : c.bAlwaysCheckFloor
      · rfl
      · exact absurd (Or.inl hx) h0
    have h3 : bCanUseCachedLocation = true := by
      cases hx : bCanUseCachedLocation
      · exact absurd (Or.inr (Or.inl hx)) h0
      · rfl
    have h2 : c.bForceNextFloorCheck = false := by
      cases hx : c.bForceNextFloorCheck
      · rfl
      · exact absurd (Or.inr (Or.inr (Or.inl hx))) h0
    have h4 : c.bJustTeleported = false := by
      cases hx : c.bJustTeleported
      · rfl
      · exact absurd (Or.inr (Or.inr (Or.inr hx))) h0
    cases hb : c.MovementBase with
    | none => simp [h2]
    | some b =>
      simp only [Option.isSome_some, and_true]
      by_cases hc : (!W.BaseIsQueryCollisionEnabled b || !W.BaseBlocksChannel b ||
          W.IsDynamicBase b) = false ∧ W.BaseOwnerPendingKill b = false
      · exfalso
        apply h
        obtain ⟨hc1, hc2⟩ := hc
        simp only [Bool.or_eq_false_iff, Bool.not_eq_false'] at hc1
        exact ⟨h1, h2, h3, h4, b, hb, hc1.1.1, hc1.1.2, hc1.2, hc2⟩
      · rw [if_neg hc]

theorem FloorSweepTraceDist_pos (c : UGravityMovementcomponent F) :
    0 < FloorSweepTraceDist c :=
  lt_of_lt_of_le (by norm_num [MAX_FLOOR_DIST]) (le_max_left _ _)

theorem FindFloor_cached (Sqrt : F → F) (W : World F) (c : UGravityMovementcomponent F)
    (CapsuleLocation : FVector F) (OutFloorResult : FFindFloorResult F)
    (bCanUseCachedLocation : Bool) (DownwardSweepResult : Option (FHitResult F))
    (hValid : c.bHasCharacterOwner = true) (hQuery : c.bQueryCollisionEnabled = true)
    (h : FloorCacheUsable W c bCanUseCachedLocation) :
    (FindFloor Sqrt W c CapsuleLocation OutFloorResult bCanUseCachedLocation
      DownwardSweepResult).Events = [] ∧
    (FindFloor Sqrt W c CapsuleLocation OutFloorResult bCanUseCachedLocation
      DownwardSweepResult).OutFloorResult = c.CurrentFloor := by
  have hp := FloorSweepTraceDist_pos c
  unfold FloorSweepTraceDist at hp
  unfold FindFloor
  rw [if_neg (by simp [hValid, hQuery])]
  simp only []
  rw [if_pos (Or.inl hp), FindFloor_Sweep_cached Sqrt W c _ _ _ _ _ h]
  simp

theorem FindFloor_fresh (Sqrt : F → F) (W : World F) (c : UGravityMovementcomponent F)
    (CapsuleLocation : FVector F) (OutFloorResult : FFindFloorResult F)
    (bCanUseCachedLocation : Bool) (DownwardSweepResult : Option (FHitResult F))
    (hValid : c.bHasCharacterOwner = true) (hQuery : c.bQueryCollisionEnabled = true)
    (h : ¬ FloorCacheUsable W c bCanUseCachedLocation) :
    ∃ rest, (FindFloor Sqrt W c CapsuleLocation OutFloorResult bCanUseCachedLocation
      DownwardSweepResult).Events =
      FloorEvent.ComputeFloorDist CapsuleLocation (FloorSweepTraceDist c)
        (FloorSweepTraceDist c) c.PawnRadius :: rest := by
  have hp := FloorSweepTraceDist_pos c
  obtain ⟨rest, hr⟩ := ComputeFloorDist_events Sqrt W c CapsuleLocation (FloorSweepTraceDist c)
    (FloorSweepTraceDist c) c.PawnRadius DownwardSweepResult
  unfold FloorSweepTraceDist at hp hr ⊢
  unfold FindFloor
  rw [if_neg (by simp [hValid, hQuery])]
  simp only []
  rw [if_pos (Or.inl hp), FindFloor_Sweep_fresh Sqrt W c _ _ _ _ _ h]
  simp only [hr]
  apply ite_pred (fun x : FFindFloorOutcome F => ∃ rest1, x.Events = _ :: rest1) <;> intro _
  · exact ⟨_, List.cons_append _ _ _⟩
  · exact ⟨_, rfl⟩

/-- C12: with valid data and query collision enabled, FindFloor returns the cached
CurrentFloor without any sweep, line trace, perch test or call of ComputeFloorDist if and
only if the floor check is not forced (bAlwaysCheckFloor and bForceNextFloorCheck are both
false), bCanUseCachedLocation is true, the actor was not just teleported, and a movement base
exists that has query collision enabled, blocks the actor's collision channel, is not a
dynamic base and whose owner is not pending kill; in every other case the first thing the
probe does is a call of ComputeFloorDist at the capsule location, with the floor sweep
distance and the capsule radius. -/
theorem FindFloor_cache_reuse (Sqrt : F → F) (W : World F) (c : UGravityMovementcomponent F)
    (CapsuleLocation : FVector F) (OutFloorResult : FFindFloorResult F)
    (bCanUseCachedLocation : Bool) (DownwardSweepResult : Option (FHitResult F))
    (hValid : c.bHasCharacterOwner = true) (hQuery : c.bQueryCollisionEnabled = true) :
    (((FindFloor Sqrt W c CapsuleLocation OutFloorResult bCanUseCachedLocation
        DownwardSweepResult).Events = [] ∧
      (FindFloor Sqrt W c CapsuleLocation OutFloorResult bCanUseCachedLocation
        DownwardSweepResult).OutFloorResult = c.CurrentFloor) ↔
      FloorCacheUsable W c bCanUseCachedLocation) ∧
    (¬ FloorCacheUsable W c bCanUseCachedLocation →
      ∃ rest, (FindFloor Sqrt W c CapsuleLocation OutFloorResult bCanUseCachedLocation
        DownwardSweepResult).Events =
        FloorEvent.ComputeFloorDist CapsuleLocation (FloorSweepTraceDist c)
          (FloorSweepTraceDist c) c.PawnRadius :: rest) := by
  refine ⟨⟨fun h => ?_, fun h => FindFloor_cached Sqrt W c _ _ _ _ hValid hQuery h⟩,
    fun h => FindFloor_fresh Sqrt W c _ _ _ _ hValid hQuery h⟩
  by_contra hn
  obtain ⟨rest, hr⟩ := FindFloor_fresh Sqrt W c CapsuleLocation OutFloorResult
    bCanUseCachedLocation DownwardSweepResult hValid hQuery hn
  rw [h.1] at hr
  exact absurd hr (by simp)

theorem FindFloor_cache_reuse_witness :
    basedComponent.bHasCharacterOwner = true ∧ basedComponent.bQueryCollisionEnabled = true ∧
    FloorCacheUsable sampleWorld basedComponent true ∧
    (FindFloor Rat.sqrt sampleWorld basedComponent ⟨0, 0, 0⟩ FFindFloorResult.Clear true
      none).Events = [] ∧
    (FindFloor Rat.sqrt sampleWorld basedComponent ⟨0, 0, 0⟩ FFindFloorResult.Clear true
      none).OutFloorResult = flatFloor ∧
    ¬ FloorCacheUsable sampleWorld basedComponent false ∧
    (FindFloor Rat.sqrt sampleWorld basedComponent ⟨0, 0, 0⟩ FFindFloorResult.Clear false
      none).Events ≠ [] := by
  have hU : FloorCacheUsable sampleWorld basedComponent true :=
    ⟨rfl, rfl, rfl, rfl, floorMesh, rfl, rfl, rfl, rfl, rfl⟩
  have hN : ¬ FloorCacheUsable sampleWorld basedComponent false := by
    rintro ⟨_, _, h, _⟩
    exact absurd h (by decide)
  have h1 := (FindFloor_cache_reuse Rat.sqrt sampleWorld basedComponent ⟨0, 0, 0⟩
    FFindFloorResult.Clear true none rfl rfl).1.2 hU
  obtain ⟨rest, h2⟩ := (FindFloor_cache_reuse Rat.sqrt sampleWorld basedComponent ⟨0, 0, 0⟩
    FFindFloorResult.Clear false none rfl rfl).2 hN
  refine ⟨rfl, rfl, hU, h1.1, h1.2, hN, ?_⟩
  rw [h2]
  simp

theorem Budget_setters :
    (∀ (c : UGravityMovementcomponent F) v, Budget (c.setLocation v) = Budget c) ∧
    (∀ (c : UGravityMovementcomponent F) v, Budget (c.setVelocity v) = Budget c) ∧
    (∀ (c : UGravityMovementcomponent F) v, Budget (c.setAcceleration v) = Budget c) ∧
    (∀ (c : UGravityMovementcomponent F) m k, Budget (c.setMovementMode m k) = Budget c) ∧
    (∀ (c : UGravityMovementcomponent F) m, Budget (c.setGroundMovementMode m) = Budget c) ∧
    (∀ (c : UGravityMovementcomponent F) r, Budget (c.setCurrentFloor r) = Budget c) ∧
    (∀ (c : UGravityMovementcomponent F) b, Budget (c.setJustTeleported b) = Budget c) ∧
    (∀ (c : UGravityMovementcomponent F) b, Budget (c.setForceNextFloorCheck b) = Budget c) ∧
    (∀ (c : UGravityMovementcomponent F) n, Budget (c.setCachedNavLocation n) = Budget c) ∧
    (∀ (c : UGravityMovementcomponent F) b, Budget (c.setMovementBase b) = Budget c) ∧
    (∀ (c : UGravityMovementcomponent F) t,
      Budget (c.setJumpForceTimeRemaining t) = Budget c) ∧
    (∀ (c : UGravityMovementcomponent F) a, Budget (c.setAnalogInputModifier a) = Budget c) ∧
    (∀ (c : UGravityMovementcomponent F) b, Budget (c.setNotifyApex b) = Budget c) :=
  ⟨fun _ _ => rfl, fun _ _ => rfl, fun _ _ => rfl, fun _ _ _ => rfl, fun _ _ => rfl,
    fun _ _ => rfl, fun _ _ => rfl, fun _ _ => rfl, fun _ _ => rfl, fun _ _ => rfl,
    fun _ _ => rfl, fun _ _ => rfl, fun _ _ => rfl⟩

theorem SolverFrame_Budget {a b : UGravityMovementcomponent F} (h : SolverFrame a b) :
    Budget a = Budget b := by
  obtain ⟨v, acc, m, rfl⟩ := h
  rfl

theorem CalcVelocity_Budget (Sqrt : F → F) (W : World F) (hW : KeepsBudget W)
    (c : UGravityMovementcomponent F) (DeltaTime Friction : F) (bFluid : Bool)
    (BrakingDeceleration : F) :
    Budget (CalcVelocity Sqrt W c DeltaTime Friction bFluid BrakingDeceleration) = Budget c := by
  unfold CalcVelocity
  apply ite_pred (fun x => Budget x = Budget c)
  · intro _; rfl
  · intro _
    dsimp only
    have h0 := ApplyRequestedMove_frame W c DeltaTime c.MaxAcceleration (W.GetMaxSpeed c)
      (max 0 Friction) BrakingDeceleration
    generalize ApplyRequestedMove W c DeltaTime c.MaxAcceleration (W.GetMaxSpeed c)
      (max 0 Friction) BrakingDeceleration = rq at h0 ⊢
    have h1 := SolverFrame_trans
      (CalcVelocity_ForceMaxAccel_frame Sqrt W rq.2.2.2 c.MaxAcceleration) h0
    generalize CalcVelocity_ForceMaxAccel Sqrt W rq.2.2.2 c.MaxAcceleration = c1 at h1 ⊢
    generalize max (W.GetMaxSpeed c * c1.AnalogInputModifier) (W.GetMinAnalogSpeed c1) = MIS
    have h2 := SolverFrame_trans
      (CalcVelocity_Brake_frame Sqrt W c1 DeltaTime (max 0 Friction) BrakingDeceleration
        (max rq.2.2.1 MIS) (!rq.1)) h1
    generalize CalcVelocity_Brake Sqrt W c1 DeltaTime (max 0 Friction) BrakingDeceleration
        (max rq.2.2.1 MIS) (!rq.1) = c2 at h2 ⊢
    have h3 := SolverFrame_trans
      (CalcVelocity_Accelerate_frame Sqrt c2 DeltaTime (max 0 Friction) bFluid MIS) h2
    generalize CalcVelocity_Accelerate Sqrt c2 DeltaTime (max 0 Friction) bFluid MIS = c3
      at h3 ⊢
    have h4 := SolverFrame_trans
      (CalcVelocity_Requested_frame Sqrt c3 DeltaTime (!rq.1) rq.2.1 rq.2.2.1) h3
    generalize CalcVelocity_Requested Sqrt c3 DeltaTime (!rq.1) rq.2.1 rq.2.2.1 = c4 at h4 ⊢
    apply ite_pred (fun x => Budget x = Budget c) <;> intro _
    · rw [hW.2.2.2.2.2.1]
      exact SolverFrame_Budget h4
    · exact SolverFrame_Budget h4

theorem HandleImpact_Budget (W : World F) (hW : KeepsBudget W)
    (c : UGravityMovementcomponent F) (Impact : FHitResult F) :
    Budget (HandleImpact W c Impact) = Budget c :=
  hW.1 c Impact

theorem IsValidLandingSpot_Budget (Sqrt : F → F) (W : World F)
    (c : UGravityMovementcomponent F) (CapsuleLocation : FVector F) (Hit : FHitResult F) :
    Budget (IsValidLandingSpot Sqrt W c CapsuleLocation Hit).2 = Budget c := by
  unfold IsValidLandingSpot
  dsimp only
  repeat' (first
    | rfl
    | (apply ite_pred (fun x : Bool × UGravityMovementcomponent F => Budget x.2 = Budget c)
        <;> intro _))

theorem PhysFalling_Velocity_Budget (Sqrt : F → F) (W : World F) (hW : KeepsBudget W)
    (c : UGravityMovementcomponent F) (FallAcceleration : FVector F) (timeTick : F) :
    Budget (PhysFalling_Velocity Sqrt W c FallAcceleration timeTick).c = Budget c := by
  have hW1 := hW
  unfold KeepsBudget at hW1
  unfold PhysFalling_Velocity
  dsimp only
  simp only [hW1, Budget_setters]
  have h1 : Budget (if W.HasAnimRootMotion (W.RestorePreAdditiveRootMotionVelocity
      (c.setJustTeleported false)) = false ∧
      W.HasOverrideVelocity (W.RestorePreAdditiveRootMotionVelocity
        (c.setJustTeleported false)) = false then
      ((CalcVelocity Sqrt W ((W.RestorePreAdditiveRootMotionVelocity
        (c.setJustTeleported false)).setAcceleration FallAcceleration) timeTick
        (W.RestorePreAdditiveRootMotionVelocity
          (c.setJustTeleported false)).FallingLateralFriction false
        (W.GetMaxBrakingDeceleration (W.RestorePreAdditiveRootMotionVelocity
          (c.setJustTeleported false)))).setVelocity
        (W.RestorePreAdditiveRootMotionVelocity (c.setJustTeleported false)).Velocity).setAcceleration
        (W.RestorePreAdditiveRootMotionVelocity (c.setJustTeleported false)).Acceleration
      else W.RestorePreAdditiveRootMotionVelocity (c.setJustTeleported false)) = Budget c := by
    apply ite_pred (fun x => Budget x = Budget c) <;> intro _
    · simp only [hW1, Budget_setters, CalcVelocity_Budget Sqrt W hW]
    · simp only [hW1, Budget_setters]
  generalize (if W.HasAnimRootMotion (W.RestorePreAdditiveRootMotionVelocity
      (c.setJustTeleported false)) = false ∧
      W.HasOverrideVelocity (W.RestorePreAdditiveRootMotionVelocity
        (c.setJustTeleported false)) = false then
      ((CalcVelocity Sqrt W ((W.RestorePreAdditiveRootMotionVelocity
        (c.setJustTeleported false)).setAcceleration FallAcceleration) timeTick
        (W.RestorePreAdditiveRootMotionVelocity
          (c.setJustTeleported false)).FallingLateralFriction false
        (W.GetMaxBrakingDeceleration (W.RestorePreAdditiveRootMotionVelocity
          (c.setJustTeleported false)))).setVelocity
        (W.RestorePreAdditiveRootMotionVelocity (c.setJustTeleported false)).Velocity).setAcceleration
        (W.RestorePreAdditiveRootMotionVelocity (c.setJustTeleported false)).Acceleration
      else W.RestorePreAdditiveRootMotionVelocity (c.setJustTeleported false)) = c1 at h1 ⊢
  rw [← h1]
  repeat' (first
    | rfl
    | (apply ite_pred (fun x : UGravityMovementcomponent F × F × Bool =>
        Budget x.1 = Budget c1) <;> intro _)
    | simp only [hW1, Budget_setters])

theorem Budget_ite (p : Prop) [Decidable p] (a b : UGravityMovementcomponent F) :
    Budget (if p then a else b) = if p then Budget a else Budget b := by
  by_cases h : p
  · rw [if_pos h, if_pos h]
  · rw [if_neg h, if_neg h]

theorem ite_fst {α β : Type} (p : Prop) [Decidable p] (u v : α × β) :
    (if p then u else v).1 = if p then u.1 else v.1 := by
  by_cases h : p
  · rw [if_pos h, if_pos h]
  · rw [if_neg h, if_neg h]

theorem FallingStep_GoesOnWith_budget {s : FallingStep F} {B B1 : Int × Int × Int} {i : Int}
    (h : s.GoesOnWith B i) (hB : B = B1) : s.GoesOnWith B1 i := by
  rw [← hB]
  exact h

theorem PhysFalling_Ditch_goesOn (Sqrt : F → F) (W : World F)
    (c : UGravityMovementcomponent F) (L : FallingLocals F)
    (Delta OldHitNormal OldHitImpactNormal : FVector F) (Hit : FHitResult F) :
    (PhysFalling_Ditch Sqrt W c L Delta OldHitNormal OldHitImpactNormal Hit).GoesOnWith
      (Budget c) L.Iterations := by
  unfold PhysFalling_Ditch
  dsimp only
  repeat' (first
    | exact trivial
    | exact ⟨by simp only [Budget_setters, IsValidLandingSpot_Budget], rfl⟩
    | (apply ite_pred (fun s : FallingStep F => s.GoesOnWith (Budget c) L.Iterations)
        <;> intro _))

theorem PhysFalling_SecondWall_goesOn (Sqrt : F → F) (W : World F) (hW : KeepsBudget W)
    (c : UGravityMovementcomponent F) (L : FallingLocals F)
    (Delta OldHitNormal OldHitImpactNormal VelocityNoAirControl AirControlAccel : FVector F)
    (subTimeTickRemaining : F) (Hit : FHitResult F) :
    (PhysFalling_SecondWall Sqrt W c L Delta OldHitNormal OldHitImpactNormal
      VelocityNoAirControl AirControlAccel subTimeTickRemaining Hit).GoesOnWith
      (Budget c) L.Iterations := by
  unfold PhysFalling_SecondWall
  dsimp only
  repeat' (first
    | exact trivial
    | exact FallingStep_GoesOnWith_budget (PhysFalling_Ditch_goesOn Sqrt W _ L _ _ _ _)
        (by simp only [Budget_setters, IsValidLandingSpot_Budget, HandleImpact_Budget W hW,
          Budget_ite, ite_self])
    | (apply ite_pred (fun s : FallingStep F => s.GoesOnWith (Budget c) L.Iterations)
        <;> intro _))

theorem PhysFalling_Deflect_goesOn (Sqrt : F → F) (W : World F) (hW : KeepsBudget W)
    (c : UGravityMovementcomponent F) (L : FallingLocals F) (Adjusted : FVector F)
    (subTimeTickRemaining : F) (Hit : FHitResult F) :
    (PhysFalling_Deflect Sqrt W c L Adjusted subTimeTickRemaining Hit).GoesOnWith
      (Budget c) L.Iterations := by
  unfold PhysFalling_Deflect
  dsimp only
  repeat' (first
    | exact trivial
    | exact ⟨by simp only [Budget_setters, HandleImpact_Budget W hW,
        CalcVelocity_Budget Sqrt W hW, Budget_ite, ite_fst, ite_self], rfl⟩
    | exact FallingStep_GoesOnWith_budget (PhysFalling_SecondWall_goesOn Sqrt W hW _ L _ _ _
        _ _ _ _)
        (by simp only [Budget_setters, HandleImpact_Budget W hW,
          CalcVelocity_Budget Sqrt W hW, Budget_ite, ite_fst, ite_self])
    | (apply ite_pred (fun s : FallingStep F => s.GoesOnWith (Budget c) L.Iterations)
        <;> intro _))

theorem PhysFalling_AfterMove_goesOn (Sqrt : F → F) (W : World F) (hW : KeepsBudget W)
    (c : UGravityMovementcomponent F) (L : FallingLocals F) (Hit : FHitResult F) :
    (PhysFalling_AfterMove Sqrt W c L Hit).GoesOnWith (Budget c) L.Iterations := by
  unfold PhysFalling_AfterMove
  dsimp only
  repeat' (first
    | exact trivial
    | exact ⟨rfl, rfl⟩
    | exact FallingStep_GoesOnWith_budget (PhysFalling_Deflect_goesOn Sqrt W hW _ L _ _ _)
        (by simp only [Budget_setters, IsValidLandingSpot_Budget])
    | (apply ite_pred (fun s : FallingStep F => s.GoesOnWith (Budget c) L.Iterations)
        <;> intro _))

theorem PhysFalling_NotifyApex_Budget (Sqrt : F → F) (W : World F) (hW : KeepsBudget W)
    (c : UGravityMovementcomponent F) :
    Budget (PhysFalling_NotifyApex Sqrt W c) = Budget c := by
  unfold PhysFalling_NotifyApex
  apply ite_pred (fun x => Budget x = Budget c) <;> intro _
  · rw [hW.2.2.2.2.2.2.2.1]
    rfl
  · rfl

/-- The apex sub-step: either it is not taken, and the component and `Iterations` are as
they were, or it is taken, an apex attempt was left, `NumJumpApexAttempts` goes up by one
and `Iterations` down by one. -/
theorem PhysFalling_Apex_budget (c : UGravityMovementcomponent F)
    (OldVelocityWithRootMotion : FVector F) (timeTick remainingTime : F) (Iterations : Int) :
    ((PhysFalling_Apex c OldVelocityWithRootMotion timeTick remainingTime Iterations).Iterations
        = Iterations ∧
      Budget (PhysFalling_Apex c OldVelocityWithRootMotion timeTick remainingTime
        Iterations).c = Budget c) ∨
    ((PhysFalling_Apex c OldVelocityWithRootMotion timeTick remainingTime Iterations).Iterations
        = Iterations - 1 ∧
      c.NumJumpApexAttempts < c.MaxJumpApexAttemptsPerSimulation ∧
      Budget (PhysFalling_Apex c OldVelocityWithRootMotion timeTick remainingTime
        Iterations).c = (c.MaxSimulationIterations, c.MaxJumpApexAttemptsPerSimulation,
          c.NumJumpApexAttempts + 1)) := by
  unfold PhysFalling_Apex
  dsimp only
  by_cases h1 : c.ForceJumpPeakSubstep ≠ 0 ∧
      DotProduct OldVelocityWithRootMotion (neg c.GravityDirection) > 0 ∧
      DotProduct c.Velocity (neg c.GravityDirection) ≤ 0 ∧
      c.NumJumpApexAttempts < c.MaxJumpApexAttemptsPerSimulation
  · rw [if_pos h1]
    repeat' (first
      | exact Or.inl ⟨rfl, rfl⟩
      | exact Or.inr ⟨rfl, h1.2.2.2, rfl⟩
      | (apply ite_pred (fun a : FallingApex F =>
          (a.Iterations = Iterations ∧ Budget a.c = Budget c) ∨
          (a.Iterations = Iterations - 1 ∧
            c.NumJumpApexAttempts < c.MaxJumpApexAttemptsPerSimulation ∧
            Budget a.c = (c.MaxSimulationIterations, c.MaxJumpApexAttemptsPerSimulation,
              c.NumJumpApexAttempts + 1))) <;> intro _))
  · rw [if_neg h1]
    exact Or.inl ⟨rfl, rfl⟩

theorem PhysFalling_Iteration_budget (Sqrt : F → F) (W : World F) (hW : KeepsBudget W)
    (c : UGravityMovementcomponent F) (FallAcceleration : FVector F)
    (bHasLimitedAirControl : Bool) (remainingTime : F) (Iterations : Int)
    (c1 : UGravityMovementcomponent F) (r1 : F) (i1 : Int)
    (h : PhysFalling_Iteration Sqrt W c FallAcceleration bHasLimitedAirControl remainingTime
      Iterations = .continueLoop c1 r1 i1) :
    (i1 = Iterations + 1 ∧ Budget c1 = Budget c) ∨
    (i1 = Iterations ∧ c.NumJumpApexAttempts < c.MaxJumpApexAttemptsPerSimulation ∧
      Budget c1 = (c.MaxSimulationIterations, c.MaxJumpApexAttemptsPerSimulation,
        c.NumJumpApexAttempts + 1)) := by
  unfold PhysFalling_Iteration at h
  dsimp only at h
  have hv := PhysFalling_Velocity_Budget Sqrt W hW c FallAcceleration
    (GetSimulationTimeStep c remainingTime (Iterations + 1))
  generalize PhysFalling_Velocity Sqrt W c FallAcceleration
    (GetSimulationTimeStep c remainingTime (Iterations + 1)) = v at h hv
  have ha := PhysFalling_Apex_budget v.c v.OldVelocityWithRootMotion
    (GetSimulationTimeStep c remainingTime (Iterations + 1))
    (remainingTime - GetSimulationTimeStep c remainingTime (Iterations + 1)) (Iterations + 1)
  generalize PhysFalling_Apex v.c v.OldVelocityWithRootMotion
    (GetSimulationTimeStep c remainingTime (Iterations + 1))
    (remainingTime - GetSimulationTimeStep c remainingTime (Iterations + 1)) (Iterations + 1)
    = a at h ha
  have hn := PhysFalling_NotifyApex_Budget Sqrt W hW a.c
  generalize PhysFalling_NotifyApex Sqrt W a.c = cn at h hn
  by_cases ho : (cn.setLocation (SafeMoveUpdatedComponent W cn.Location
      (PhysFalling_Adjusted cn v.OldVelocityWithRootMotion a.timeTick v.GravityTime
        v.bEndingJumpForce)).1).bHasCharacterOwner = false
  · rw [if_pos ho] at h
    exact absurd h (by simp)
  · rw [if_neg ho] at h
    have hs := PhysFalling_AfterMove_goesOn Sqrt W hW
      (cn.setLocation (SafeMoveUpdatedComponent W cn.Location
        (PhysFalling_Adjusted cn v.OldVelocityWithRootMotion a.timeTick v.GravityTime
          v.bEndingJumpForce)).1)
      ⟨a.timeTick, a.remainingTime, a.Iterations, c.Location, v.OldVelocity, v.Gravity,
        v.GravityTime, v.MaxDecel, bHasLimitedAirControl⟩
      (SafeMoveUpdatedComponent W cn.Location
        (PhysFalling_Adjusted cn v.OldVelocityWithRootMotion a.timeTick v.GravityTime
          v.bEndingJumpForce)).2
    rw [h] at hs
    obtain ⟨hB, hi⟩ := hs
    have hB1 : Budget c1 = Budget a.c := by
      rw [hB, ← hn]
      rfl
    have hi1 : i1 = a.Iterations := hi
    have hvM : v.c.MaxSimulationIterations = c.MaxSimulationIterations :=
      congrArg (fun x => x.1) hv
    have hvA : v.c.MaxJumpApexAttemptsPerSimulation = c.MaxJumpApexAttemptsPerSimulation :=
      congrArg (fun x => x.2.1) hv
    have hvN : v.c.NumJumpApexAttempts = c.NumJumpApexAttempts :=
      congrArg (fun x => x.2.2) hv
    rcases ha with ⟨e1, e2⟩ | ⟨e1, e2, e3⟩
    · left
      exact ⟨hi1.trans e1, hB1.trans (e2.trans hv)⟩
    · right
      refine ⟨hi1.trans (e1.trans (by ring)), ?_, ?_⟩
      · rw [← hvN, ← hvA]
        exact e2
      · rw [hB1, e3, hvM, hvA, hvN]

theorem PhysFalling_Loop_length (Sqrt : F → F) (W : World F) (hW : KeepsBudget W)
    (FallAcceleration : FVector F) (bHasLimitedAirControl : Bool) :
    ∀ (fuel : Nat) (c : UGravityMovementcomponent F) (remainingTime : F) (Iterations : Int),
      (PhysFalling_Loop Sqrt W FallAcceleration bHasLimitedAirControl fuel c remainingTime
        Iterations).1.length ≤
      (c.MaxSimulationIterations - Iterations).toNat +
        (c.MaxJumpApexAttemptsPerSimulation - c.NumJumpApexAttempts).toNat := by
  intro fuel
  induction fuel with
  | zero =>
    intro c r i
    simp [PhysFalling_Loop]
  | succ n ih =>
    intro c r i
    unfold PhysFalling_Loop
    by_cases hg : r ≥ MIN_TICK_TIME ∧ i < c.MaxSimulationIterations
    · rw [if_pos hg]
      have hpos : 1 ≤ (c.MaxSimulationIterations - i).toNat := by
        have := hg.2
        omega
      cases hs : PhysFalling_Iteration Sqrt W c FallAcceleration bHasLimitedAirControl r i with
      | continueLoop c1 r1 i1 =>
        simp only [List.length_cons]
        have h1 := ih c1 r1 i1
        generalize (PhysFalling_Loop Sqrt W FallAcceleration bHasLimitedAirControl n c1 r1
          i1).1.length = len at h1 ⊢
        rcases PhysFalling_Iteration_budget Sqrt W hW c FallAcceleration bHasLimitedAirControl
          r i c1 r1 i1 hs with ⟨e1, e2⟩ | ⟨e1, e2, e3⟩
        · have hM : c1.MaxSimulationIterations = c.MaxSimulationIterations :=
            congrArg (fun x => x.1) e2
          have hA : c1.MaxJumpApexAttemptsPerSimulation = c.MaxJumpApexAttemptsPerSimulation :=
            congrArg (fun x => x.2.1) e2
          have hN : c1.NumJumpApexAttempts = c.NumJumpApexAttempts :=
            congrArg (fun x => x.2.2) e2
          rw [hM, hA, hN, e1] at h1
          have := hg.2
          omega
        · have hM : c1.MaxSimulationIterations = c.MaxSimulationIterations :=
            congrArg (fun x => x.1) e3
          have hA : c1.MaxJumpApexAttemptsPerSimulation = c.MaxJumpApexAttemptsPerSimulation :=
            congrArg (fun x => x.2.1) e3
          have hN : c1.NumJumpApexAttempts = c.NumJumpApexAttempts + 1 :=
            congrArg (fun x => x.2.2) e3
          rw [hM, hA, hN, e1] at h1
          omega
      | returned c1 =>
        simp only [List.length_cons, List.length_nil]
        omega
      | processLanded c1 Hit r1 i1 =>
        simp only [List.length_cons, List.length_nil]
        omega
      | startSwimming c1 a b t r1 i1 =>
        simp only [List.length_cons, List.length_nil]
        omega
    · rw [if_neg hg]
      simp

theorem PhysFalling_Loop_stable (Sqrt : F → F) (W : World F) (hW : KeepsBudget W)
    (FallAcceleration : FVector F) (bHasLimitedAirControl : Bool) :
    ∀ (n fuel : Nat) (c : UGravityMovementcomponent F) (remainingTime : F) (Iterations : Int),
      (c.MaxSimulationIterations - Iterations).toNat +
        (c.MaxJumpApexAttemptsPerSimulation - c.NumJumpApexAttempts).toNat ≤ n → n ≤ fuel →
      PhysFalling_Loop Sqrt W FallAcceleration bHasLimitedAirControl fuel c remainingTime
        Iterations =
      PhysFalling_Loop Sqrt W FallAcceleration bHasLimitedAirControl n c remainingTime
        Iterations := by
  intro n
  induction n with
  | zero =>
    intro fuel c r i hb _
    have hng : ¬ (r ≥ MIN_TICK_TIME ∧ i < c.MaxSimulationIterations) := by
      rintro ⟨_, h2⟩
      omega
    cases fuel with
    | zero => rfl
    | succ k =>
      unfold PhysFalling_Loop
      rw [if_neg hng]
  | succ n ih =>
    intro fuel c r i hb hf
    cases fuel with
    | zero => omega
    | succ k =>
      unfold PhysFalling_Loop
      by_cases hg : r ≥ MIN_TICK_TIME ∧ i < c.MaxSimulationIterations
      · rw [if_pos hg, if_pos hg]
        cases hs : PhysFalling_Iteration Sqrt W c FallAcceleration bHasLimitedAirControl r i with
        | continueLoop c1 r1 i1 =>
          have hk : n ≤ k := by omega
          have hb1 : (c1.MaxSimulationIterations - i1).toNat +
              (c1.MaxJumpApexAttemptsPerSimulation - c1.NumJumpApexAttempts).toNat ≤ n := by
            rcases PhysFalling_Iteration_budget Sqrt W hW c FallAcceleration
              bHasLimitedAirControl r i c1 r1 i1 hs with ⟨e1, e2⟩ | ⟨e1, e2, e3⟩
            · have hM : c1.MaxSimulationIterations = c.MaxSimulationIterations :=
                congrArg (fun x => x.1) e2
              have hA : c1.MaxJumpApexAttemptsPerSimulation =
                  c.MaxJumpApexAttemptsPerSimulation := congrArg (fun x => x.2.1) e2
              have hN : c1.NumJumpApexAttempts = c.NumJumpApexAttempts :=
                congrArg (fun x => x.2.2) e2
              rw [hM, hA, hN, e1]
              have := hg.2
              omega
            · have hM : c1.MaxSimulationIterations = c.MaxSimulationIterations :=
                congrArg (fun x => x.1) e3
              have hA : c1.MaxJumpApexAttemptsPerSimulation =
                  c.MaxJumpApexAttemptsPerSimulation := congrArg (fun x => x.2.1) e3
              have hN : c1.NumJumpApexAttempts = c.NumJumpApexAttempts + 1 :=
                congrArg (fun x => x.2.2) e3
              rw [hM, hA, hN, e1]
              omega
          simp only [ih k c1 r1 i1 hb1 hk]
        | returned c1 => rfl
        | processLanded c1 Hit r1 i1 => rfl
        | startSwimming c1 a b t r1 i1 => rfl
      · rw [if_neg hg, if_neg hg]

theorem AdjustFloorHeight_Budget (W : World F) (c : UGravityMovementcomponent F) :
    Budget (AdjustFloorHeight W c) = Budget c := by
  unfold AdjustFloorHeight
  dsimp only
  repeat' (first
    | rfl
    | (apply ite_pred (fun x => Budget x = Budget c) <;> intro _))

theorem StepUp_StepDown_Budget (Sqrt : F → F) (W : World F) (c : UGravityMovementcomponent F)
    (GravDir Delta OldLocation : FVector F) (OldLocationZ StepTravelDownHeight PawnFloorPointZ
    StepSideZ : F) (bOutStepDownResult : Bool) :
    Budget (StepUp_StepDown Sqrt W c GravDir Delta OldLocation OldLocationZ
      StepTravelDownHeight PawnFloorPointZ StepSideZ bOutStepDownResult).Component =
      Budget c := by
  unfold StepUp_StepDown
  dsimp only
  repeat' (first
    | rfl
    | (apply ite_pred (fun x : StepUpResult F => Budget x.Component = Budget c) <;> intro _))

theorem StepUp_StepForward_Budget (Sqrt : F → F) (W : World F) (hW : KeepsBudget W)
    (c : UGravityMovementcomponent F) (GravDir Delta OldLocation : FVector F)
    (SweepUpHit : FHitResult F) (OldLocationZ StepTravelDownHeight PawnFloorPointZ
    StepSideZ : F) (bOutStepDownResult : Bool) :
    Budget (StepUp_StepForward Sqrt W c GravDir Delta OldLocation SweepUpHit OldLocationZ
      StepTravelDownHeight PawnFloorPointZ StepSideZ bOutStepDownResult).Component =
      Budget c := by
  have hW1 := hW
  unfold KeepsBudget at hW1
  unfold StepUp_StepForward
  dsimp only
  repeat' (first
    | rfl
    | (simp only [Budget_setters, HandleImpact_Budget W hW, hW1, Budget_ite,
        ite_self, StepUp_StepDown_Budget, RevertMove]
       done)
    | (apply ite_pred (fun x : StepUpResult F => Budget x.Component = Budget c) <;> intro _))

theorem StepUp_Budget (Sqrt : F → F) (W : World F) (hW : KeepsBudget W)
    (c : UGravityMovementcomponent F) (GravDir Delta : FVector F) (InHit : FHitResult F)
    (bOutStepDownResult : Bool) :
    Budget (StepUp Sqrt W c GravDir Delta InHit bOutStepDownResult).Component = Budget c := by
  unfold StepUp
  dsimp only
  repeat' (first
    | rfl
    | exact (StepUp_StepForward_Budget Sqrt W hW _ _ _ _ _ _ _ _ _ _).trans rfl
    | (apply ite_pred (fun x : StepUpResult F => Budget x.Component = Budget c) <;> intro _))

theorem MoveAlongFloor_Barrier_Budget (Sqrt : F → F) (W : World F) (hW : KeepsBudget W)
    (c : UGravityMovementcomponent F) (Delta : FVector F)
    (DeltaSeconds PercentTimeApplied : F) (Hit : FHitResult F) :
    Budget (MoveAlongFloor_Barrier Sqrt W c Delta DeltaSeconds PercentTimeApplied Hit).1 =
      Budget c := by
  have hW1 := hW
  unfold KeepsBudget at hW1
  unfold MoveAlongFloor_Barrier
  dsimp only
  repeat' (first
    | rfl
    | (apply ite_pred (fun x : UGravityMovementcomponent F × Option (FStepDownResult F) =>
        Budget x.1 = Budget c) <;> intro _)
    | simp only [Budget_setters, HandleImpact_Budget W hW, hW1, StepUp_Budget Sqrt W hW])

theorem MoveAlongFloor_Budget (Sqrt : F → F) (W : World F) (hW : KeepsBudget W)
    (c : UGravityMovementcomponent F) (InVelocity : FVector F) (DeltaSeconds : F) :
    Budget (MoveAlongFloor Sqrt W c InVelocity DeltaSeconds).1 = Budget c := by
  have hW1 := hW
  unfold KeepsBudget at hW1
  unfold MoveAlongFloor
  dsimp only
  repeat' (first
    | rfl
    | (simp only [Budget_setters, HandleImpact_Budget W hW, hW1,
        OnCharacterStuckInGeometry, MoveAlongFloor_Barrier_Budget Sqrt W hW]
       done)
    | (apply ite_pred (fun x : UGravityMovementcomponent F × Option (FStepDownResult F) =>
        Budget x.1 = Budget c) <;> intro _))

theorem CharacterRevertMove_Budget (W : World F) (c : UGravityMovementcomponent F)
    (OldLocation : FVector F) (OldBase : Option (UPrimitiveComponent F))
    (OldFloor : FFindFloorResult F) (bFailMove : Bool) :
    Budget (CharacterRevertMove W c OldLocation OldBase OldFloor bFailMove) = Budget c := by
  unfold CharacterRevertMove
  dsimp only
  simp only [Budget_setters, Budget_ite, ite_self]

theorem WalkingStep_GoesOnWith_budget {s : WalkingStep F} {B B1 : Int × Int × Int} {i : Int}
    (h : s.GoesOnWith B i) (hB : B = B1) : s.GoesOnWith B1 i := by
  rw [← hB]
  exact h

theorem PhysWalking_End_goesOn (W : World F) (c : UGravityMovementcomponent F)
    (L : WalkingLocals F) (bCheckedFall : Bool) :
    (PhysWalking_End W c L bCheckedFall).GoesOnWith (Budget c) L.Iterations := by
  unfold PhysWalking_End
  dsimp only
  repeat' (first
    | exact trivial
    | exact ⟨by simp only [Budget_setters, Budget_ite, ite_self,
        MaintainHorizontalGroundVelocity], rfl⟩
    | (apply ite_pred (fun s : WalkingStep F => s.GoesOnWith (Budget c) L.Iterations)
        <;> intro _))

theorem PhysWalking_CheckFall_goesOn (W : World F) (hW : KeepsBudget W)
    (c : UGravityMovementcomponent F) (L : WalkingLocals F) :
    (PhysWalking_CheckFall W c L).GoesOnWith (Budget c) L.Iterations := by
  have hW1 := hW
  unfold KeepsBudget at hW1
  unfold PhysWalking_CheckFall
  dsimp only
  repeat' (first
    | exact trivial
    | exact PhysWalking_End_goesOn W c L _
    | exact WalkingStep_GoesOnWith_budget (PhysWalking_End_goesOn W _ L _)
        (by simp only [hW1])
    | (apply ite_pred (fun s : WalkingStep F => s.GoesOnWith (Budget c) L.Iterations)
        <;> intro _))

theorem PhysWalking_ValidateFloor_goesOn (Sqrt : F → F) (W : World F) (hW : KeepsBudget W)
    (c : UGravityMovementcomponent F) (L : WalkingLocals F) :
    (PhysWalking_ValidateFloor Sqrt W c L).GoesOnWith (Budget c) L.Iterations := by
  have hW1 := hW
  unfold KeepsBudget at hW1
  unfold PhysWalking_ValidateFloor
  dsimp only
  repeat' (first
    | exact trivial
    | exact PhysWalking_CheckFall_goesOn W hW c L
    | exact WalkingStep_GoesOnWith_budget (PhysWalking_CheckFall_goesOn W hW _ L)
        (by simp only [Budget_setters, AdjustFloorHeight_Budget, hW1])
    | (apply ite_pred (fun s : WalkingStep F => s.GoesOnWith (Budget c) L.Iterations)
        <;> intro _))

theorem PhysWalking_Ledge_goesOn (W : World F) (c : UGravityMovementcomponent F)
    (L : WalkingLocals F) :
    (PhysWalking_Ledge W c L).GoesOnWith (Budget c) L.Iterations := by
  unfold PhysWalking_Ledge
  dsimp only
  repeat' (first
    | exact trivial
    | exact ⟨by simp only [Budget_setters, CharacterRevertMove_Budget], rfl⟩
    | (apply ite_pred (fun s : WalkingStep F => s.GoesOnWith (Budget c) L.Iterations)
        <;> intro _))

theorem PhysWalking_UpdateFloor_goesOn (Sqrt : F → F) (W : World F) (hW : KeepsBudget W)
    (c : UGravityMovementcomponent F) (L : WalkingLocals F)
    (StepDownResult : FStepDownResult F) :
    (PhysWalking_UpdateFloor Sqrt W c L StepDownResult).GoesOnWith (Budget c)
      L.Iterations := by
  unfold PhysWalking_UpdateFloor
  dsimp only
  repeat' (first
    | exact WalkingStep_GoesOnWith_budget (PhysWalking_Ledge_goesOn W _ L)
        (by simp only [Budget_setters, Budget_ite, ite_self])
    | exact WalkingStep_GoesOnWith_budget (PhysWalking_ValidateFloor_goesOn Sqrt W hW _ L)
        (by simp only [Budget_setters, Budget_ite, ite_self])
    | (apply ite_pred (fun s : WalkingStep F => s.GoesOnWith (Budget c) L.Iterations)
        <;> intro _))

theorem PhysWalking_Move_goesOn (Sqrt : F → F) (W : World F) (hW : KeepsBudget W)
    (c : UGravityMovementcomponent F) (L : WalkingLocals F) :
    (PhysWalking_Move Sqrt W c L).GoesOnWith (Budget c) L.Iterations := by
  unfold PhysWalking_Move
  dsimp only
  repeat' (first
    | exact trivial
    | exact PhysWalking_UpdateFloor_goesOn Sqrt W hW c
        { L with Delta := scale c.Velocity L.timeTick,
                 bZeroDelta := IsNearlyZero (scale c.Velocity L.timeTick) KINDA_SMALL_NUMBER,
                 remainingTime := 0 } FStepDownResult.init
    | exact WalkingStep_GoesOnWith_budget (PhysWalking_UpdateFloor_goesOn Sqrt W hW
        (MoveAlongFloor Sqrt W c c.Velocity L.timeTick).1
        { L with Delta := scale c.Velocity L.timeTick,
                 bZeroDelta := IsNearlyZero (scale c.Velocity L.timeTick) KINDA_SMALL_NUMBER }
        _) (MoveAlongFloor_Budget Sqrt W hW c c.Velocity L.timeTick)
    | (apply ite_pred (fun s : WalkingStep F => s.GoesOnWith (Budget c) L.Iterations)
        <;> intro _))

theorem PhysWalking_Iteration_goesOn (Sqrt : F → F) (W : World F) (hW : KeepsBudget W)
    (c : UGravityMovementcomponent F) (remainingTime : F) (Iterations : Int)
    (bCheckedFall bTriedLedgeMove : Bool) :
    (PhysWalking_Iteration Sqrt W c remainingTime Iterations bCheckedFall
      bTriedLedgeMove).GoesOnWith (Budget c) (Iterations + 1) := by
  have hW1 := hW
  unfold KeepsBudget at hW1
  unfold PhysWalking_Iteration
  dsimp only
  apply ite_pred (fun s : WalkingStep F => s.GoesOnWith (Budget c) (Iterations + 1))
    <;> intro _
  · exact trivial
  · refine WalkingStep_GoesOnWith_budget (PhysWalking_Move_goesOn Sqrt W hW _ _) ?_
    simp only [hW1, Budget_ite, CalcVelocity_Budget Sqrt W hW, Budget_setters, ite_self,
      MaintainHorizontalGroundVelocity]

theorem PhysWalking_Guard_lt (W : World F) (c : UGravityMovementcomponent F)
    (remainingTime : F) (Iterations : Int)
    (h : PhysWalking_Guard W c remainingTime Iterations = true) :
    Iterations < c.MaxSimulationIterations := by
  unfold PhysWalking_Guard at h
  simp only [Bool.and_eq_true, decide_eq_true_eq] at h
  exact h.1.1.2

theorem PhysWalking_Trace_length (Sqrt : F → F) (W : World F) (hW : KeepsBudget W) :
    ∀ (fuel : Nat) (c : UGravityMovementcomponent F) (remainingTime : F) (Iterations : Int)
      (bCheckedFall bTriedLedgeMove : Bool),
      (PhysWalking_Trace Sqrt W fuel c remainingTime Iterations bCheckedFall
        bTriedLedgeMove).length ≤ (c.MaxSimulationIterations - Iterations).toNat := by
  intro fuel
  induction fuel with
  | zero =>
    intro c r i b1 b2
    simp [PhysWalking_Trace]
  | succ n ih =>
    intro c r i b1 b2
    unfold PhysWalking_Trace
    by_cases hg : PhysWalking_Guard W c r i = true
    · rw [if_pos hg]
      have hlt := PhysWalking_Guard_lt W c r i hg
      have hs := PhysWalking_Iteration_goesOn Sqrt W hW c r i b1 b2
      cases hst : PhysWalking_Iteration Sqrt W c r i b1 b2 with
      | continueLoop c1 r1 i1 d1 d2 =>
        rw [hst] at hs
        obtain ⟨hB, hi⟩ := hs
        have hM : c1.MaxSimulationIterations = c.MaxSimulationIterations :=
          congrArg (fun x => x.1) hB
        have h1 := ih c1 r1 i1 d1 d2
        simp only [List.length_cons]
        generalize (PhysWalking_Trace Sqrt W n c1 r1 i1 d1 d2).length = len at h1 ⊢
        have hi1 : i1 = i + 1 := hi
        rw [hM, hi1] at h1
        omega
      | breakLoop c1 =>
        simp only [List.length_cons, List.length_nil]
        omega
      | returned c1 =>
        simp only [List.length_cons, List.length_nil]
        omega
    · rw [if_neg hg]
      simp

theorem PhysWalking_Loop_isSome (Sqrt : F → F) (W : World F) (hW : KeepsBudget W) :
    ∀ (fuel : Nat) (c : UGravityMovementcomponent F) (remainingTime : F) (Iterations : Int)
      (bCheckedFall bTriedLedgeMove : Bool),
      (c.MaxSimulationIterations - Iterations).toNat < fuel →
      (PhysWalking_Loop Sqrt W fuel c remainingTime Iterations bCheckedFall
        bTriedLedgeMove).isSome = true := by
  intro fuel
  induction fuel with
  | zero =>
    intro c r i b1 b2 h
    omega
  | succ n ih =>
    intro c r i b1 b2 h
    unfold PhysWalking_Loop
    by_cases hg : PhysWalking_Guard W c r i = true
    · rw [if_pos hg]
      have hlt := PhysWalking_Guard_lt W c r i hg
      have hs := PhysWalking_Iteration_goesOn Sqrt W hW c r i b1 b2
      cases hst : PhysWalking_Iteration Sqrt W c r i b1 b2 with
      | continueLoop c1 r1 i1 d1 d2 =>
        rw [hst] at hs
        obtain ⟨hB, hi⟩ := hs
        have hM : c1.MaxSimulationIterations = c.MaxSimulationIterations :=
          congrArg (fun x => x.1) hB
        have hi1 : i1 = i + 1 := hi
        apply ih c1 r1 i1 d1 d2
        rw [hM, hi1]
        omega
      | breakLoop c1 => rfl
      | returned c1 => rfl
    · rw [if_neg hg]
      rfl

theorem PhysWalking_isSome (Sqrt : F → F) (W : World F) (hW : KeepsBudget W) (fuel : Nat)
    (c : UGravityMovementcomponent F) (deltaTime : F) (Iterations : Int)
    (h : (c.MaxSimulationIterations - Iterations).toNat < fuel) :
    (PhysWalking Sqrt W fuel c deltaTime Iterations).isSome = true := by
  unfold PhysWalking
  repeat' (first
    | rfl
    | exact PhysWalking_Loop_isSome Sqrt W hW fuel _ _ _ _ _ h
    | (apply ite_pred (fun x : Option (UGravityMovementcomponent F) => x.isSome = true)
        <;> intro _))

theorem KeepsBudget_sampleWorld : KeepsBudget sampleWorld :=
  ⟨fun _ _ => rfl, fun _ _ _ _ _ _ => rfl, fun _ => rfl, fun _ _ => rfl, fun _ _ => rfl,
    fun _ _ => rfl, fun _ => rfl, fun _ => rfl, fun _ _ _ _ _ _ _ _ _ => rfl, fun _ _ => rfl⟩

/-- C15: in a world whose notifications keep the iteration budget
(MaxSimulationIterations, MaxJumpApexAttemptsPerSimulation, NumJumpApexAttempts), for every
state, remaining time and starting Iterations, whatever the collision results are: the body
of the PhysWalking loop executes at most max(0, MaxSimulationIterations - Iterations) times
and the loop ends (PhysWalking returns as soon as it is given more iterations than that);
the body of the PhysFalling loop executes at most max(0, MaxSimulationIterations -
Iterations) + max(0, MaxJumpApexAttemptsPerSimulation - NumJumpApexAttempts) times and the
loop ends (its run is the same for every number of iterations allowed from that bound
on). -/
theorem PhysWalking_PhysFalling_bounded (Sqrt : F → F) (W : World F) (hW : KeepsBudget W)
    (c : UGravityMovementcomponent F) (remainingTime : F) (Iterations : Int) :
    (∀ (fuel : Nat) (bCheckedFall bTriedLedgeMove : Bool),
      ((PhysWalking_Trace Sqrt W fuel c remainingTime Iterations bCheckedFall
        bTriedLedgeMove).length : Int) ≤ max 0 (c.MaxSimulationIterations - Iterations)) ∧
    (∀ (fuel : Nat) (bCheckedFall bTriedLedgeMove : Bool),
      max 0 (c.MaxSimulationIterations - Iterations) < (fuel : Int) →
      (PhysWalking_Loop Sqrt W fuel c remainingTime Iterations bCheckedFall
        bTriedLedgeMove).isSome = true) ∧
    (∀ (fuel : Nat), max 0 (c.MaxSimulationIterations - Iterations) < (fuel : Int) →
      (PhysWalking Sqrt W fuel c remainingTime Iterations).isSome = true) ∧
    (∀ (fuel : Nat) (FallAcceleration : FVector F) (bHasLimitedAirControl : Bool),
      ((PhysFalling_Loop Sqrt W FallAcceleration bHasLimitedAirControl fuel c remainingTime
        Iterations).1.length : Int) ≤
        max 0 (c.MaxSimulationIterations - Iterations) +
          max 0 (c.MaxJumpApexAttemptsPerSimulation - c.NumJumpApexAttempts)) ∧
    (∀ (fuel : Nat), ((PhysFalling Sqrt W fuel c remainingTime Iterations).1.length : Int) ≤
        max 0 (c.MaxSimulationIterations - Iterations) +
          max 0 (c.MaxJumpApexAttemptsPerSimulation - c.NumJumpApexAttempts)) ∧
    (∀ (n fuel : Nat) (FallAcceleration : FVector F) (bHasLimitedAirControl : Bool),
      max 0 (c.MaxSimulationIterations - Iterations) +
        max 0 (c.MaxJumpApexAttemptsPerSimulation - c.NumJumpApexAttempts) ≤ (n : Int) →
      n ≤ fuel →
      PhysFalling_Loop Sqrt W FallAcceleration bHasLimitedAirControl fuel c remainingTime
        Iterations =
      PhysFalling_Loop Sqrt W FallAcceleration bHasLimitedAirControl n c remainingTime
        Iterations) := by
  refine ⟨?_, ?_, ?_, ?_, ?_, ?_⟩
  · intro fuel b1 b2
    have h := PhysWalking_Trace_length Sqrt W hW fuel c remainingTime Iterations b1 b2
    omega
  · intro fuel b1 b2 h
    exact PhysWalking_Loop_isSome Sqrt W hW fuel c remainingTime Iterations b1 b2 (by omega)
  · intro fuel h
    exact PhysWalking_isSome Sqrt W hW fuel c remainingTime Iterations (by omega)
  · intro fuel FA b
    have h := PhysFalling_Loop_length Sqrt W hW FA b fuel c remainingTime Iterations
    omega
  · intro fuel
    unfold PhysFalling
    by_cases hd : remainingTime < MIN_TICK_TIME
    · rw [if_pos hd]
      simp only [List.length_nil, Nat.cast_zero]
      omega
    · rw [if_neg hd]
      have h := PhysFalling_Loop_length Sqrt W hW (GetFallingLateralAcceleration Sqrt W c)
        (ShouldLimitAirControl c) fuel c remainingTime Iterations
      dsimp only
      omega
  · intro n fuel FA b h hf
    exact PhysFalling_Loop_stable Sqrt W hW FA b n fuel c remainingTime Iterations (by omega)
      hf

theorem PhysWalking_PhysFalling_bounded_witness :
    KeepsBudget sampleWorld ∧
    (∀ fuel : Nat, ((PhysFalling Rat.sqrt sampleWorld fuel hopComponent (1 / 60) 0).1.length
      : Int) ≤ 10) ∧
    (∀ fuel : Nat, ((PhysWalking_Trace Rat.sqrt sampleWorld fuel forcedComponent (1 / 60) 0
      false false).length : Int) ≤ 8) ∧
    (PhysWalking Rat.sqrt sampleWorld 9 forcedComponent (1 / 60) 0).isSome = true := by
  have hF := PhysWalking_PhysFalling_bounded Rat.sqrt sampleWorld KeepsBudget_sampleWorld
    hopComponent (1 / 60) 0
  have hWk := PhysWalking_PhysFalling_bounded Rat.sqrt sampleWorld KeepsBudget_sampleWorld
    forcedComponent (1 / 60) 0
  have hM : hopComponent.MaxSimulationIterations = 8 := rfl
  have hA : hopComponent.MaxJumpApexAttemptsPerSimulation = 2 := rfl
  have hN : hopComponent.NumJumpApexAttempts = 0 := rfl
  have hM2 : forcedComponent.MaxSimulationIterations = 8 := rfl
  refine ⟨KeepsBudget_sampleWorld, fun fuel => ?_, fun fuel => ?_, ?_⟩
  · have h := hF.2.2.2.2.1 fuel
    rw [hM, hA, hN] at h
    exact h
  · have h := hWk.1 fuel false false
    rw [hM2] at h
    exact h
  · apply hWk.2.2.1 9
    rw [hM2]
    decide

theorem PhysFalling_Apex_split_iff (c : UGravityMovementcomponent F)
    (OldVelocityWithRootMotion : FVector F) (timeTick remainingTime : F) (Iterations : Int)
    (h : (PhysFalling_Apex c OldVelocityWithRootMotion timeTick remainingTime
      Iterations).Iterations ≠ Iterations) :
    (c.ForceJumpPeakSubstep ≠ 0 ∧
      DotProduct OldVelocityWithRootMotion (neg c.GravityDirection) > 0 ∧
      DotProduct c.Velocity (neg c.GravityDirection) ≤ 0 ∧
      c.NumJumpApexAttempts < c.MaxJumpApexAttemptsPerSimulation) ∧
    ¬ (|DotProduct (div (sub c.Velocity OldVelocityWithRootMotion) timeTick)
      (neg c.GravityDirection)| ≤ SMALL_NUMBER) ∧
    (-(DotProduct OldVelocityWithRootMotion (neg c.GravityDirection)) /
      DotProduct (div (sub c.Velocity OldVelocityWithRootMotion) timeTick)
        (neg c.GravityDirection) ≥ 1 / 10000 ∧
     -(DotProduct OldVelocityWithRootMotion (neg c.GravityDirection)) /
      DotProduct (div (sub c.Velocity OldVelocityWithRootMotion) timeTick)
        (neg c.GravityDirection) < timeTick) := by
  unfold PhysFalling_Apex at h
  simp only [] at h
  by_cases h1 : c.ForceJumpPeakSubstep ≠ 0 ∧
      DotProduct OldVelocityWithRootMotion (neg c.GravityDirection) > 0 ∧
      DotProduct c.Velocity (neg c.GravityDirection) ≤ 0 ∧
      c.NumJumpApexAttempts < c.MaxJumpApexAttemptsPerSimulation
  · rw [if_pos h1] at h
    by_cases h2 : ¬ (|DotProduct (div (sub c.Velocity OldVelocityWithRootMotion) timeTick)
        (neg c.GravityDirection)| ≤ SMALL_NUMBER)
    · rw [if_pos h2] at h
      by_cases h3 : -(DotProduct OldVelocityWithRootMotion (neg c.GravityDirection)) /
          DotProduct (div (sub c.Velocity OldVelocityWithRootMotion) timeTick)
            (neg c.GravityDirection) ≥ 1 / 10000 ∧
          -(DotProduct OldVelocityWithRootMotion (neg c.GravityDirection)) /
          DotProduct (div (sub c.Velocity OldVelocityWithRootMotion) timeTick)
            (neg c.GravityDirection) < timeTick
      · exact ⟨h1, h2, h3⟩
      · rw [if_neg h3] at h
        exact absurd rfl h
    · rw [if_neg h2] at h
      exact absurd rfl h
  · rw [if_neg h1] at h
    exact absurd rfl h

theorem PhysFalling_Apex_taken (c : UGravityMovementcomponent F)
    (OldVelocityWithRootMotion : FVector F) (timeTick remainingTime : F) (Iterations : Int)
    (h1 : c.ForceJumpPeakSubstep ≠ 0 ∧
      DotProduct OldVelocityWithRootMotion (neg c.GravityDirection) > 0 ∧
      DotProduct c.Velocity (neg c.GravityDirection) ≤ 0 ∧
      c.NumJumpApexAttempts < c.MaxJumpApexAttemptsPerSimulation)
    (h2 : ¬ (|DotProduct (div (sub c.Velocity OldVelocityWithRootMotion) timeTick)
      (neg c.GravityDirection)| ≤ SMALL_NUMBER))
    (h3 : -(DotProduct OldVelocityWithRootMotion (neg c.GravityDirection)) /
      DotProduct (div (sub c.Velocity OldVelocityWithRootMotion) timeTick)
        (neg c.GravityDirection) ≥ 1 / 10000 ∧
     -(DotProduct OldVelocityWithRootMotion (neg c.GravityDirection)) /
      DotProduct (div (sub c.Velocity OldVelocityWithRootMotion) timeTick)
        (neg c.GravityDirection) < timeTick) :
    PhysFalling_Apex c OldVelocityWithRootMotion timeTick remainingTime Iterations =
      ⟨(c.setVelocity (add OldVelocityWithRootMotion
        (scale (div (sub c.Velocity OldVelocityWithRootMotion) timeTick)
          (-(DotProduct OldVelocityWithRootMotion (neg c.GravityDirection)) /
            DotProduct (div (sub c.Velocity OldVelocityWithRootMotion) timeTick)
              (neg c.GravityDirection))))).setNumJumpApexAttempts (c.NumJumpApexAttempts + 1),
        -(DotProduct OldVelocityWithRootMotion (neg c.GravityDirection)) /
          DotProduct (div (sub c.Velocity OldVelocityWithRootMotion) timeTick)
            (neg c.GravityDirection),
        remainingTime + (timeTick -
          -(DotProduct OldVelocityWithRootMotion (neg c.GravityDirection)) /
            DotProduct (div (sub c.Velocity OldVelocityWithRootMotion) timeTick)
              (neg c.GravityDirection)),
        Iterations - 1⟩ := by
  unfold PhysFalling_Apex
  simp only []
  rw [if_pos h1, if_pos h2, if_pos h3]
  rfl

/-- C21: whenever an iteration of PhysFalling performs the apex split (the only step that
changes Iterations after the increment at the top of the body), the sum
timeTick + remainingTime is the same after the split as before it, the new timeTick is
TimeToApex = -(old velocity component along -GravityDirection) / (derived acceleration
component), with 0.0001 <= TimeToApex < old timeTick, the time refunded to remainingTime is
old timeTick - TimeToApex, and it is strictly positive. -/
theorem PhysFalling_Apex_conserves_time (c : UGravityMovementcomponent F)
    (OldVelocityWithRootMotion : FVector F) (timeTick remainingTime : F) (Iterations : Int)
    (hSplit : (PhysFalling_Apex c OldVelocityWithRootMotion timeTick remainingTime
      Iterations).Iterations ≠ Iterations) :
    (PhysFalling_Apex c OldVelocityWithRootMotion timeTick remainingTime Iterations).timeTick +
      (PhysFalling_Apex c OldVelocityWithRootMotion timeTick remainingTime
        Iterations).remainingTime = timeTick + remainingTime ∧
    (PhysFalling_Apex c OldVelocityWithRootMotion timeTick remainingTime Iterations).timeTick =
      -(DotProduct OldVelocityWithRootMotion (neg c.GravityDirection)) /
        DotProduct (div (sub c.Velocity OldVelocityWithRootMotion) timeTick)
          (neg c.GravityDirection) ∧
    1 / 10000 ≤ (PhysFalling_Apex c OldVelocityWithRootMotion timeTick remainingTime
      Iterations).timeTick ∧
    (PhysFalling_Apex c OldVelocityWithRootMotion timeTick remainingTime Iterations).timeTick
      < timeTick ∧
    (PhysFalling_Apex c OldVelocityWithRootMotion timeTick remainingTime
      Iterations).remainingTime - remainingTime =
      timeTick - (PhysFalling_Apex c OldVelocityWithRootMotion timeTick remainingTime
        Iterations).timeTick ∧
    0 < timeTick - (PhysFalling_Apex c OldVelocityWithRootMotion timeTick remainingTime
      Iterations).timeTick := by
  obtain ⟨h1, h2, h3⟩ := PhysFalling_Apex_split_iff c OldVelocityWithRootMotion timeTick
    remainingTime Iterations hSplit
  rw [PhysFalling_Apex_taken c OldVelocityWithRootMotion timeTick remainingTime Iterations
    h1 h2 h3]
  refine ⟨?_, rfl, h3.1, h3.2, ?_, ?_⟩
  · show _ + (remainingTime + (timeTick - _)) = _
    ring
  · show (remainingTime + (timeTick - _)) - remainingTime = _
    ring
  · exact sub_pos.mpr h3.2

theorem hopAfterGravity_Apex :
    PhysFalling_Apex hopAfterGravity ⟨0, 0, 49 / 5⟩ (1 / 60) 0 1 =
      ⟨(hopAfterGravity.setVelocity (add ⟨0, 0, 49 / 5⟩
        (scale (div (sub hopAfterGravity.Velocity ⟨0, 0, 49 / 5⟩) (1 / 60))
          (-(DotProduct (⟨0, 0, 49 / 5⟩ : FVector ℚ) (neg hopAfterGravity.GravityDirection)) /
            DotProduct (div (sub hopAfterGravity.Velocity ⟨0, 0, 49 / 5⟩) (1 / 60))
              (neg hopAfterGravity.GravityDirection))))).setNumJumpApexAttempts
                (hopAfterGravity.NumJumpApexAttempts + 1),
        1 / 100, 0 + (1 / 60 - 1 / 100), 1 - 1⟩ := by
  have hG : hopAfterGravity.GravityDirection = ⟨0, 0, -1⟩ := rfl
  have hV : hopAfterGravity.Velocity = ⟨0, 0, -98 / 15⟩ := rfl
  have hD : DotProduct (div (sub hopAfterGravity.Velocity ⟨0, 0, 49 / 5⟩) (1 / 60))
      (neg hopAfterGravity.GravityDirection) = -980 := by
    rw [hG, hV]
    norm_num [DotProduct, FVector.neg, FVector.div, FVector.sub]
  have hO : DotProduct (⟨0, 0, 49 / 5⟩ : FVector ℚ) (neg hopAfterGravity.GravityDirection) =
      49 / 5 := by
    rw [hG]
    norm_num [DotProduct, FVector.neg]
  have hN : DotProduct hopAfterGravity.Velocity (neg hopAfterGravity.GravityDirection) =
      -98 / 15 := by
    rw [hG, hV]
    norm_num [DotProduct, FVector.neg]
  have hT : -(DotProduct (⟨0, 0, 49 / 5⟩ : FVector ℚ) (neg hopAfterGravity.GravityDirection)) /
      DotProduct (div (sub hopAfterGravity.Velocity ⟨0, 0, 49 / 5⟩) (1 / 60))
        (neg hopAfterGravity.GravityDirection) = 1 / 100 := by
    rw [hD, hO]
    norm_num
  have h := PhysFalling_Apex_taken hopAfterGravity ⟨0, 0, 49 / 5⟩ (1 / 60) 0 1
    ⟨by decide, by rw [hO]; norm_num, by rw [hN]; norm_num, by decide⟩
    (by rw [hD]; norm_num [SMALL_NUMBER]) ⟨by rw [hT]; norm_num, by rw [hT]; norm_num⟩
  rw [h, hT]

theorem PhysFalling_Apex_conserves_time_witness :
    (PhysFalling_Apex hopAfterGravity ⟨0, 0, 49 / 5⟩ (1 / 60) 0 1).Iterations = 0 ∧
    (PhysFalling_Apex hopAfterGravity ⟨0, 0, 49 / 5⟩ (1 / 60) 0 1).timeTick = 1 / 100 ∧
    (PhysFalling_Apex hopAfterGravity ⟨0, 0, 49 / 5⟩ (1 / 60) 0 1).remainingTime = 1 / 150 ∧
    (PhysFalling_Apex hopAfterGravity ⟨0, 0, 49 / 5⟩ (1 / 60) 0 1).timeTick +
      (PhysFalling_Apex hopAfterGravity ⟨0, 0, 49 / 5⟩ (1 / 60) 0 1).remainingTime =
      1 / 60 + 0 := by
  have hI : (PhysFalling_Apex hopAfterGravity ⟨0, 0, 49 / 5⟩ (1 / 60) 0 1).Iterations = 0 := by
    rw [hopAfterGravity_Apex]
    rfl
  have h := PhysFalling_Apex_conserves_time hopAfterGravity ⟨0, 0, 49 / 5⟩ (1 / 60) 0 1
    (by rw [hI]; decide)
  refine ⟨hI, ?_, ?_, h.1⟩
  · rw [hopAfterGravity_Apex]
  · rw [hopAfterGravity_Apex]
    norm_num

theorem PhysFalling_Iteration_NotifyJumpApex (Sqrt : F → F) (hSqrt : ∀ s : F, 0 ≤ Sqrt s)
    (W : World F) (f : UGravityMovementcomponent F → UGravityMovementcomponent F)
    (c : UGravityMovementcomponent F) (FallAcceleration : FVector F)
    (bHasLimitedAirControl : Bool) (remainingTime : F) (Iterations : Int) :
    PhysFalling_Iteration Sqrt { W with NotifyJumpApex := f } c FallAcceleration
      bHasLimitedAirControl remainingTime Iterations =
    PhysFalling_Iteration Sqrt W c FallAcceleration bHasLimitedAirControl remainingTime
      Iterations := by
  unfold PhysFalling_Iteration
  simp only [fun W c => PhysFalling_NotifyApex_of_nonneg Sqrt W c hSqrt]
  rfl

theorem AdjustFloorHeight_NotifyJumpApex (W : World F)
    (f : UGravityMovementcomponent F → UGravityMovementcomponent F)
    (c : UGravityMovementcomponent F) :
    AdjustFloorHeight { W with NotifyJumpApex := f } c = AdjustFloorHeight W c := rfl

theorem OnMovementModeChanged_NotifyJumpApex (W : World F)
    (f : UGravityMovementcomponent F → UGravityMovementcomponent F)
    (c : UGravityMovementcomponent F) (PreviousMovementMode : EMovementMode)
    (PreviousCustomMode : Nat) :
    OnMovementModeChanged { W with NotifyJumpApex := f } c PreviousMovementMode
      PreviousCustomMode =
      OnMovementModeChanged W c PreviousMovementMode PreviousCustomMode := by
  unfold OnMovementModeChanged
  simp only [AdjustFloorHeight_NotifyJumpApex]

theorem SetMovementMode_NotifyJumpApex (W : World F)
    (f : UGravityMovementcomponent F → UGravityMovementcomponent F)
    (c : UGravityMovementcomponent F) (NewMovementMode : EMovementMode) (NewCustomMode : Nat) :
    SetMovementMode { W with NotifyJumpApex := f } c NewMovementMode NewCustomMode =
      SetMovementMode W c NewMovementMode NewCustomMode := by
  unfold SetMovementMode
  simp only [OnMovementModeChanged_NotifyJumpApex]

theorem SetDefaultMovementMode_NotifyJumpApex (W : World F)
    (f : UGravityMovementcomponent F → UGravityMovementcomponent F)
    (c : UGravityMovementcomponent F) :
    SetDefaultMovementMode { W with NotifyJumpApex := f } c = SetDefaultMovementMode W c := by
  unfold SetDefaultMovementMode
  simp only [SetMovementMode_NotifyJumpApex]

theorem SetPostLandedPhysics_NotifyJumpApex (W : World F)
    (f : UGravityMovementcomponent F → UGravityMovementcomponent F)
    (c : UGravityMovementcomponent F) (Hit : FHitResult F) :
    SetPostLandedPhysics { W with NotifyJumpApex := f } c Hit =
      SetPostLandedPhysics W c Hit := by
  unfold SetPostLandedPhysics
  simp only [SetMovementMode_NotifyJumpApex, SetDefaultMovementMode_NotifyJumpApex]

theorem ProcessLanded_NotifyJumpApex (W : World F)
    (f : UGravityMovementcomponent F → UGravityMovementcomponent F)
    (c : UGravityMovementcomponent F) (Hit : FHitResult F) (remainingTime : F)
    (Iterations : Int) :
    ProcessLanded { W with NotifyJumpApex := f } c Hit remainingTime Iterations =
      ProcessLanded W c Hit remainingTime Iterations := by
  unfold ProcessLanded ProcessLanded_SetMode
  simp only [SetPostLandedPhysics_NotifyJumpApex]

theorem PhysFalling_Loop_NotifyJumpApex (Sqrt : F → F) (hSqrt : ∀ s : F, 0 ≤ Sqrt s)
    (W : World F) (f : UGravityMovementcomponent F → UGravityMovementcomponent F)
    (FallAcceleration : FVector F) (bHasLimitedAirControl : Bool) (fuel : Nat) :
    ∀ (c : UGravityMovementcomponent F) (remainingTime : F) (Iterations : Int),
    PhysFalling_Loop Sqrt { W with NotifyJumpApex := f } FallAcceleration
      bHasLimitedAirControl fuel c remainingTime Iterations =
    PhysFalling_Loop Sqrt W FallAcceleration bHasLimitedAirControl fuel c remainingTime
      Iterations := by
  induction fuel with
  | zero => intro c r i; rfl
  | succ n ih =>
    intro c r i
    unfold PhysFalling_Loop
    rw [PhysFalling_Iteration_NotifyJumpApex Sqrt hSqrt]
    cases PhysFalling_Iteration Sqrt W c FallAcceleration bHasLimitedAirControl r i with
    | continueLoop c1 r1 i1 =>
      dsimp only
      rw [ih]
    | returned c1 => dsimp only
    | processLanded c1 Hit r1 i1 =>
      dsimp only
      rw [ProcessLanded_NotifyJumpApex]
    | startSwimming c1 a b t r1 i1 => dsimp only

/-- C30: when the square root never returns a negative number, the guard of the apex
notification of PhysFalling (bNotifyApex and Velocity.Size() < 0) is false in every state, so
the step leaves the component as it is: NotifyJumpApex is not applied and bNotifyApex is not
cleared; and a whole call of PhysFalling (any input, any number of iterations) gives the same
outcomes whatever NotifyJumpApex would do, that is, it never calls it. -/
theorem PhysFalling_never_notifies_apex (Sqrt : F → F) (hSqrt : ∀ s : F, 0 ≤ Sqrt s)
    (W : World F) (c : UGravityMovementcomponent F) :
    PhysFalling_NotifyApex Sqrt W c = c ∧
    (PhysFalling_NotifyApex Sqrt W c).bNotifyApex = c.bNotifyApex ∧
    ∀ (f : UGravityMovementcomponent F → UGravityMovementcomponent F) (fuel : Nat)
      (deltaTime : F) (Iterations : Int),
      PhysFalling Sqrt { W with NotifyJumpApex := f } fuel c deltaTime Iterations =
        PhysFalling Sqrt W fuel c deltaTime Iterations := by
  refine ⟨PhysFalling_NotifyApex_of_nonneg Sqrt W c hSqrt, ?_, ?_⟩
  · rw [PhysFalling_NotifyApex_of_nonneg Sqrt W c hSqrt]
  · intro f fuel deltaTime Iterations
    unfold PhysFalling
    simp only [PhysFalling_Loop_NotifyJumpApex Sqrt hSqrt]
    rfl

theorem PhysFalling_never_notifies_apex_witness :
    (landingComponent.setNotifyApex true).bNotifyApex = true ∧
    PhysFalling_NotifyApex Rat.sqrt sampleWorld (landingComponent.setNotifyApex true) =
      landingComponent.setNotifyApex true ∧
    PhysFalling Rat.sqrt { sampleWorld with NotifyJumpApex := fun c => c.setNotifyApex false }
      2 (landingComponent.setNotifyApex true) (1 / 60) 0 =
      PhysFalling Rat.sqrt sampleWorld 2 (landingComponent.setNotifyApex true) (1 / 60) 0 :=
  ⟨rfl,
    (PhysFalling_never_notifies_apex Rat.sqrt Rat.sqrt_nonneg sampleWorld
      (landingComponent.setNotifyApex true)).1,
    (PhysFalling_never_notifies_apex Rat.sqrt Rat.sqrt_nonneg sampleWorld
      (landingComponent.setNotifyApex true)).2.2 _ 2 (1 / 60) 0⟩

theorem AdjustFloorHeight_stays (W : World F) (c : UGravityMovementcomponent F) :
    (AdjustFloorHeight W c).Location = c.Location ∧
    (AdjustFloorHeight W c).CurrentFloor.FloorDist = c.CurrentFloor.FloorDist := by
  unfold AdjustFloorHeight
  simp only [SafeMoveUpdatedComponent_zero]
  have hI : (FHitResult.init (1 : F)).IsValidBlockingHit = false := rfl
  simp only [hI, if_true]
  repeat' (first
    | exact ⟨rfl, rfl⟩
    | exact ⟨rfl, add_zero _⟩
    | (apply ite_pred (fun x : UGravityMovementcomponent F =>
        x.Location = c.Location ∧ x.CurrentFloor.FloorDist = c.CurrentFloor.FloorDist)
          <;> intro _))

/-- C24: AdjustFloorHeight does not restore the hover distance.  The distance it moves by is
the constant 0 (the average of the two bounds is computed and not used), so for every world
and every state the location and CurrentFloor.FloorDist are the same after the call as
before.  On a walkable sweep floor 1 unit under the capsule (below MIN_FLOOR_DIST = 1.9), in
a world where no move is blocked, FloorDist is still 1 afterwards, and on one 3 units under
the capsule (above MAX_FLOOR_DIST = 2.4) it is still 3: neither lies within
[MIN_FLOOR_DIST, MAX_FLOOR_DIST], and neither is the average 2.15. -/
theorem AdjustFloorHeight_moves_by_zero :
    (∀ (W : World ℚ) (c : UGravityMovementcomponent ℚ),
      (AdjustFloorHeight W c).Location = c.Location ∧
      (AdjustFloorHeight W c).CurrentFloor.FloorDist = c.CurrentFloor.FloorDist) ∧
    sunkenComponent.CurrentFloor.IsWalkableFloor = true ∧
    sunkenComponent.CurrentFloor.bLineTrace = false ∧
    sunkenComponent.CurrentFloor.FloorDist < MIN_FLOOR_DIST ∧
    (∀ Delta : FVector ℚ, (SafeMoveUpdatedComponent sampleWorld sunkenComponent.Location
      Delta).2.IsValidBlockingHit = false) ∧
    (AdjustFloorHeight sampleWorld sunkenComponent).Location = sunkenComponent.Location ∧
    (AdjustFloorHeight sampleWorld sunkenComponent).CurrentFloor.FloorDist = 1 ∧
    ¬ (MIN_FLOOR_DIST ≤ (AdjustFloorHeight sampleWorld sunkenComponent).CurrentFloor.FloorDist) ∧
    hoveringComponent.CurrentFloor.IsWalkableFloor = true ∧
    hoveringComponent.CurrentFloor.bLineTrace = false ∧
    hoveringComponent.CurrentFloor.FloorDist > MAX_FLOOR_DIST ∧
    (AdjustFloorHeight sampleWorld hoveringComponent).Location = hoveringComponent.Location ∧
    (AdjustFloorHeight sampleWorld hoveringComponent).CurrentFloor.FloorDist = 3 ∧
    ¬ ((AdjustFloorHeight sampleWorld hoveringComponent).CurrentFloor.FloorDist
      ≤ MAX_FLOOR_DIST) ∧
    (MIN_FLOOR_DIST + MAX_FLOOR_DIST) * (1 / 2) = (43 / 20 : ℚ) := by
  have h1 := AdjustFloorHeight_stays sampleWorld sunkenComponent
  have h2 := AdjustFloorHeight_stays sampleWorld hoveringComponent
  have e1 : sunkenComponent.CurrentFloor.FloorDist = 1 := rfl
  have e2 : hoveringComponent.CurrentFloor.FloorDist = 3 := rfl
  refine ⟨fun W c => AdjustFloorHeight_stays W c, rfl, rfl, ?_, ?_, h1.1, h1.2.trans e1, ?_,
    rfl, rfl, ?_, h2.1, h2.2.trans e2, ?_, ?_⟩
  · rw [e1]; norm_num [MIN_FLOOR_DIST]
  · intro Delta
    unfold SafeMoveUpdatedComponent
    by_cases h : IsZero Delta = true
    · rw [if_pos h]; rfl
    · rw [if_neg h]; rfl
  · rw [h1.2, e1]; norm_num [MIN_FLOOR_DIST]
  · rw [e2]; norm_num [MAX_FLOOR_DIST]
  · rw [h2.2, e2]; norm_num [MAX_FLOOR_DIST]
  · norm_num [MIN_FLOOR_DIST, MAX_FLOOR_DIST]

theorem PhysFalling_Velocity_ignores_solver (Sqrt : F → F) (W : World F)
    (c : UGravityMovementcomponent F) (FallAcceleration : FVector F) (timeTick : F)
    (hW : FreeFallWorld W) (hc : FreeFallComponent c) :
    (PhysFalling_Velocity Sqrt W c FallAcceleration timeTick).c.Velocity =
      NewFallVelocity Sqrt c c.Velocity (scale c.GravityDirection (-c.GravityZ)) timeTick ∧
    (PhysFalling_Velocity Sqrt W c FallAcceleration timeTick).Gravity =
      scale c.GravityDirection (-c.GravityZ) ∧
    (PhysFalling_Velocity Sqrt W c FallAcceleration timeTick).GravityTime = timeTick := by
  obtain ⟨hMove, hAnim, hOver, hRestore, hApply, hDecay⟩ := hW
  obtain ⟨hG, hgz, hJump, hRVO, hOwner, hMode⟩ := hc
  obtain ⟨v, acc, m, hcv⟩ := CalcVelocity_frame Sqrt W
    ((c.setJustTeleported false).setAcceleration FallAcceleration) timeTick
    (c.setJustTeleported false).FallingLateralFriction false
    (W.GetMaxBrakingDeceleration (c.setJustTeleported false)) hRVO
  have hJ : ¬ ((((((((c.setJustTeleported false).setAcceleration FallAcceleration).setVelocity
      v).setAcceleration acc).setAnalogInputModifier m).setVelocity
      (c.setJustTeleported false).Velocity).setAcceleration
      (c.setJustTeleported false).Acceleration).JumpForceTimeRemaining > 0) :=
    not_lt.mpr hJump
  unfold PhysFalling_Velocity
  simp only [hRestore, hAnim, hOver, hApply, hDecay, and_self, if_true, hcv]
  rw [if_neg hJ]
  exact ⟨rfl, rfl, rfl⟩

theorem Rat_sqrt_250000 : Rat.sqrt 250000 = 500 := by
  rw [show (250000 : ℚ) = 500 * 500 by norm_num, Rat.sqrt_eq]
  norm_num

theorem lateral_Brake :
    CalcVelocity_Brake Rat.sqrt sampleWorld
      ((landingComponent.setJustTeleported false).setAcceleration ⟨2048, 0, 0⟩)
      (1 / 60) 0 0 600 true
      = ((landingComponent.setJustTeleported false).setAcceleration
          ⟨2048, 0, 0⟩).setVelocity ⟨0, 0, -500⟩ := by
  have hA : ((landingComponent.setJustTeleported false).setAcceleration
      ⟨2048, 0, 0⟩).Acceleration = ⟨2048, 0, 0⟩ := rfl
  have hV : ((landingComponent.setJustTeleported false).setAcceleration
      ⟨2048, 0, 0⟩).Velocity = ⟨0, 0, -500⟩ := rfl
  have hE : IsExceedingMaxSpeed ((landingComponent.setJustTeleported false).setAcceleration
      ⟨2048, 0, 0⟩) 600 = false := by
    unfold IsExceedingMaxSpeed
    rw [hV]
    norm_num [SizeSquared]
  unfold CalcVelocity_Brake
  simp only [hE, hA]
  rw [hV]
  norm_num [IsZero, GetSafeNormal, Size, FVector.sub, FVector.scale, SMALL_NUMBER,
    Rat_sqrt_2048, Rat_sqrt_250000]

theorem lateral_Accelerate :
    CalcVelocity_Accelerate Rat.sqrt
      (((landingComponent.setJustTeleported false).setAcceleration
          ⟨2048, 0, 0⟩).setVelocity ⟨0, 0, -500⟩) (1 / 60) 0 false 600
      = ((landingComponent.setJustTeleported false).setAcceleration
          ⟨2048, 0, 0⟩).setVelocity ⟨512 / 15, 0, -500⟩ := by
  have hA : (((landingComponent.setJustTeleported false).setAcceleration
      ⟨2048, 0, 0⟩).setVelocity ⟨0, 0, -500⟩).Acceleration = ⟨2048, 0, 0⟩ := rfl
  have hV : (((landingComponent.setJustTeleported false).setAcceleration
      ⟨2048, 0, 0⟩).setVelocity ⟨0, 0, -500⟩).Velocity = ⟨0, 0, -500⟩ := rfl
  have hE : IsExceedingMaxSpeed (((landingComponent.setJustTeleported false).setAcceleration
      ⟨2048, 0, 0⟩).setVelocity ⟨0, 0, -500⟩) 600 = false := by
    unfold IsExceedingMaxSpeed
    rw [hV]
    norm_num [SizeSquared]
  unfold CalcVelocity_Accelerate
  simp only [Bool.false_eq_true, if_false, hE, hA]
  rw [hV]
  have hc : GetClampedToMaxSize Rat.sqrt (add ⟨0, 0, -500⟩ (scale ⟨2048, 0, 0⟩ (1 / 60))) 600 =
      (⟨512 / 15, 0, -500⟩ : FVector ℚ) := by
    norm_num [GetClampedToMaxSize, SizeSquared, FVector.add, FVector.scale,
      KINDA_SMALL_NUMBER]
  rw [hc]
  norm_num [IsZero]
  rfl

theorem lateral_CalcVelocity :
    CalcVelocity Rat.sqrt sampleWorld
      ((landingComponent.setJustTeleported false).setAcceleration ⟨2048, 0, 0⟩) (1 / 60) 0
      false 0
      = ((landingComponent.setJustTeleported false).setAcceleration
          ⟨2048, 0, 0⟩).setVelocity ⟨512 / 15, 0, -500⟩ := by
  have hrq : ∀ a b d e f, ApplyRequestedMove sampleWorld
      ((landingComponent.setJustTeleported false).setAcceleration ⟨2048, 0, 0⟩) a b d e f =
      (false, ZeroVector, 0,
        (landingComponent.setJustTeleported false).setAcceleration ⟨2048, 0, 0⟩) := by
    intro a b d e f
    rfl
  have hexit : ¬ (((landingComponent.setJustTeleported false).setAcceleration
        ⟨2048, 0, 0⟩).bHasCharacterOwner = false ∨
      sampleWorld.HasAnimRootMotion ((landingComponent.setJustTeleported false).setAcceleration
        ⟨2048, 0, 0⟩) = true ∨
      (1 / 60 : ℚ) < MIN_TICK_TIME ∨
      (((landingComponent.setJustTeleported false).setAcceleration
          ⟨2048, 0, 0⟩).bHasCharacterOwner = true ∧
        ((landingComponent.setJustTeleported false).setAcceleration
          ⟨2048, 0, 0⟩).LocalRole = .ROLE_SimulatedProxy ∧
        ((landingComponent.setJustTeleported false).setAcceleration
          ⟨2048, 0, 0⟩).bWasSimulatingRootMotion = false)) := by
    intro h
    rcases h with h | h | h | h
    · exact Bool.noConfusion h
    · exact Bool.noConfusion h
    · norm_num [MIN_TICK_TIME] at h
    · exact ENetRole.noConfusion h.2.1
  have hMA : ((landingComponent.setJustTeleported false).setAcceleration
      ⟨2048, 0, 0⟩).MaxAcceleration = 2048 := rfl
  have hMS : sampleWorld.GetMaxSpeed ((landingComponent.setJustTeleported false).setAcceleration
      ⟨2048, 0, 0⟩) = 600 := rfl
  have hFM : CalcVelocity_ForceMaxAccel Rat.sqrt sampleWorld
      ((landingComponent.setJustTeleported false).setAcceleration ⟨2048, 0, 0⟩) 2048 =
      (landingComponent.setJustTeleported false).setAcceleration ⟨2048, 0, 0⟩ := rfl
  have hAIM : ((landingComponent.setJustTeleported false).setAcceleration
      ⟨2048, 0, 0⟩).AnalogInputModifier = 1 := rfl
  have hMin : sampleWorld.GetMinAnalogSpeed ((landingComponent.setJustTeleported false).setAcceleration
      ⟨2048, 0, 0⟩) = 0 := rfl
  have hm1 : max (600 * (1 : ℚ)) 0 = 600 := by norm_num
  have hm2 : max (0 : ℚ) 600 = 600 := by norm_num
  have hm3 : max (0 : ℚ) 0 = 0 := by norm_num
  unfold CalcVelocity
  rw [if_neg hexit]
  simp only [hrq, hMA, hMS, hFM, hAIM, hMin, hm1, hm2, hm3, Bool.not_false,
    lateral_Brake, lateral_Accelerate]
  rfl

theorem FreeFallComponent_landingComponent : FreeFallComponent landingComponent := by
  refine ⟨?_, ?_, ?_, rfl, rfl, rfl⟩
  · norm_num [landingComponent, sampleComponent, DotProduct]
  · norm_num [landingComponent, sampleComponent]
  · norm_num [landingComponent, sampleComponent]

theorem landing_NewFallVelocity (V : FVector ℚ) (h : SizeSquared (add V (scale
    (scale landingComponent.GravityDirection (-landingComponent.GravityZ)) (1 / 60)))
      ≤ 16000000) :
    NewFallVelocity Rat.sqrt landingComponent V
      (scale landingComponent.GravityDirection (-landingComponent.GravityZ)) (1 / 60) =
      ⟨V.X, V.Y, V.Z - 49 / 3⟩ := by
  have hT : landingComponent.TerminalVelocity = 4000 := rfl
  rw [NewFallVelocity_unclamped Rat.sqrt landingComponent V _ (1 / 60)
    (by rw [hT]; norm_num; exact h) (by norm_num)]
  have hG : landingComponent.GravityDirection = ⟨0, 0, -1⟩ := rfl
  have hZ : landingComponent.GravityZ = -980 := rfl
  rw [hG, hZ]
  apply FVector_eq <;> norm_num [FVector.add, FVector.scale]
  ring

/-- C25: the velocity the solver produces is thrown away.  Gravity pulls along (0, 0, -1)
with GravityZ = -980; the actor falls at (0, 0, -500) in a world without root motion or
override velocity; the tick is 1/60 s and there is no apex split (the actor moves down).
Whatever the lateral fall acceleration, the velocity after the gravity step is
(0, 0, -1549/3): the pre-step velocity plus gravity.  With the lateral fall acceleration
(2048, 0, 0), CalcVelocity turns the pre-step velocity into V' = (512/15, 0, -500), and
NewFallVelocity(V', Gravity, GravityTime) is (512/15, 0, -1549/3), which is not the velocity
PhysFalling leaves: it assigns the old velocity back to Velocity right after CalcVelocity. -/
theorem PhysFalling_discards_lateral_velocity :
    (∀ c, sampleWorld.HasAnimRootMotion c = false) ∧
    (∀ c, sampleWorld.HasOverrideVelocity c = false) ∧
    landingComponent.Velocity = ⟨0, 0, -500⟩ ∧
    (∀ A : FVector ℚ,
      (PhysFalling_Velocity Rat.sqrt sampleWorld landingComponent A (1 / 60)).c.Velocity =
        ⟨0, 0, -1549 / 3⟩) ∧
    (∀ (A : FVector ℚ) (bHasLimitedAirControl : Bool), ∃ c1 r i,
      PhysFalling_Iteration Rat.sqrt sampleWorld landingComponent A bHasLimitedAirControl
        (1 / 60) 0 = .continueLoop c1 r i ∧ c1.Velocity = ⟨0, 0, -1549 / 3⟩) ∧
    (PhysFalling_Apex
      (PhysFalling_Velocity Rat.sqrt sampleWorld landingComponent ⟨2048, 0, 0⟩ (1 / 60)).c
      (PhysFalling_Velocity Rat.sqrt sampleWorld landingComponent ⟨2048, 0, 0⟩
        (1 / 60)).OldVelocityWithRootMotion (1 / 60) 0 1).Iterations = 1 ∧
    (CalcVelocity Rat.sqrt sampleWorld
      ((landingComponent.setJustTeleported false).setAcceleration ⟨2048, 0, 0⟩) (1 / 60)
      landingComponent.FallingLateralFriction false
      (sampleWorld.GetMaxBrakingDeceleration landingComponent)).Velocity =
        ⟨512 / 15, 0, -500⟩ ∧
    NewFallVelocity Rat.sqrt landingComponent ⟨512 / 15, 0, -500⟩
      (PhysFalling_Velocity Rat.sqrt sampleWorld landingComponent ⟨2048, 0, 0⟩ (1 / 60)).Gravity
      (PhysFalling_Velocity Rat.sqrt sampleWorld landingComponent ⟨2048, 0, 0⟩
        (1 / 60)).GravityTime = ⟨512 / 15, 0, -1549 / 3⟩ ∧
    (PhysFalling_Velocity Rat.sqrt sampleWorld landingComponent ⟨2048, 0, 0⟩ (1 / 60)).c.Velocity
      ≠ NewFallVelocity Rat.sqrt landingComponent ⟨512 / 15, 0, -500⟩
        (PhysFalling_Velocity Rat.sqrt sampleWorld landingComponent ⟨2048, 0, 0⟩
          (1 / 60)).Gravity
        (PhysFalling_Velocity Rat.sqrt sampleWorld landingComponent ⟨2048, 0, 0⟩
          (1 / 60)).GravityTime := by
  have hV : ∀ A : FVector ℚ,
      (PhysFalling_Velocity Rat.sqrt sampleWorld landingComponent A (1 / 60)).c.Velocity =
        ⟨0, 0, -1549 / 3⟩ := by
    intro A
    rw [(PhysFalling_Velocity_ignores_solver Rat.sqrt sampleWorld landingComponent A (1 / 60)
      FreeFallWorld_sampleWorld FreeFallComponent_landingComponent).1]
    rw [landing_NewFallVelocity]
    · apply FVector_eq <;> norm_num [landingComponent, sampleComponent]
    · norm_num [landingComponent, sampleComponent, SizeSquared, FVector.add, FVector.scale]
  have hS := PhysFalling_Velocity_ignores_solver Rat.sqrt sampleWorld landingComponent
    ⟨2048, 0, 0⟩ (1 / 60) FreeFallWorld_sampleWorld FreeFallComponent_landingComponent
  have hFF := PhysFalling_Velocity_freeFall Rat.sqrt sampleWorld landingComponent
    ⟨2048, 0, 0⟩ (1 / 60) FreeFallWorld_sampleWorld FreeFallComponent_landingComponent
    (by norm_num)
    (by norm_num [landingComponent, sampleComponent, SizeSquared, FVector.add,
      FVector.scale])
  have hO := hFF.2.2.2.2.1
  have hGD := hFF.2.2.1.1
  have hN : NewFallVelocity Rat.sqrt landingComponent ⟨512 / 15, 0, -500⟩
      (PhysFalling_Velocity Rat.sqrt sampleWorld landingComponent ⟨2048, 0, 0⟩
        (1 / 60)).Gravity
      (PhysFalling_Velocity Rat.sqrt sampleWorld landingComponent ⟨2048, 0, 0⟩
        (1 / 60)).GravityTime = ⟨512 / 15, 0, -1549 / 3⟩ := by
    rw [hS.2.1, hS.2.2, landing_NewFallVelocity]
    · apply FVector_eq <;> norm_num
    · norm_num [landingComponent, sampleComponent, SizeSquared, FVector.add, FVector.scale]
  refine ⟨fun _ => rfl, fun _ => rfl, rfl, hV, ?_, ?_, ?_, hN, ?_⟩
  · intro A b
    have hNo : ¬ ApexSplitTaken landingComponent
        (GetSimulationTimeStep landingComponent (1 / 60) (0 + 1)) := by
      intro h
      have h2 := h.2.1
      norm_num [UpVelocity, landingComponent, sampleComponent, DotProduct, FVector.neg] at h2
    have hTS : GetSimulationTimeStep landingComponent (1 / 60) (0 + 1) = 1 / 60 := by
      norm_num [GetSimulationTimeStep, landingComponent, sampleComponent, MIN_TICK_TIME]
    obtain ⟨c1, tt, i1, h1, _, _, h4, _, _, _, h8, _⟩ :=
      PhysFalling_Iteration_freeFall Rat.sqrt sampleWorld landingComponent A b (1 / 60) 0
        Rat.sqrt_nonneg FreeFallWorld_sampleWorld FreeFallComponent_landingComponent
        (by norm_num [MIN_TICK_TIME])
        ⟨by norm_num [landingComponent, sampleComponent, SizeSquared],
          by norm_num [landingComponent, sampleComponent, SizeSquared, FVector.add,
            FVector.scale]⟩
    refine ⟨c1, _, i1, h1, ?_⟩
    rw [h4, h8 hNo, hTS]
    apply FVector_eq <;>
      norm_num [landingComponent, sampleComponent, FVector.add, FVector.scale]
  · rw [hO]
    generalize (PhysFalling_Velocity Rat.sqrt sampleWorld landingComponent ⟨2048, 0, 0⟩
      (1 / 60)).c = c1 at hGD ⊢
    unfold PhysFalling_Apex
    simp only []
    rw [if_neg]
    rintro ⟨_, h, _⟩
    rw [hGD] at h
    norm_num [landingComponent, sampleComponent, DotProduct, FVector.neg] at h
  · have e : CalcVelocity Rat.sqrt sampleWorld
        ((landingComponent.setJustTeleported false).setAcceleration ⟨2048, 0, 0⟩) (1 / 60)
        landingComponent.FallingLateralFriction false
        (sampleWorld.GetMaxBrakingDeceleration landingComponent) =
        ((landingComponent.setJustTeleported false).setAcceleration
          ⟨2048, 0, 0⟩).setVelocity ⟨512 / 15, 0, -500⟩ := lateral_CalcVelocity
    rw [e]
    rfl
  · rw [hV, hN]
    intro h
    have := congrArg FVector.X h
    norm_num at this

theorem ComputeFloorDist_Line_events (W : World F) (c : UGravityMovementcomponent F)
    (CapsuleLocation : FVector F) (LineDistance SweepDistance : F)
    (OutFloorResult : FFindFloorResult F) :
    (ComputeFloorDist_Line W c CapsuleLocation LineDistance SweepDistance
      OutFloorResult).2 = [] ∨
    (ComputeFloorDist_Line W c CapsuleLocation LineDistance SweepDistance
      OutFloorResult).2 = [.LineTrace CapsuleLocation (add CapsuleLocation
        (scale c.GravityDirection (-(LineDistance + c.PawnHalfHeight))))] := by
  unfold ComputeFloorDist_Line
  simp only []
  repeat' (first
    | exact Or.inl rfl
    | exact Or.inr rfl
    | (apply ite_pred (fun x : FFindFloorResult F × List (FloorEvent F) => x.2 = [] ∨
        x.2 = [.LineTrace CapsuleLocation (add CapsuleLocation
          (scale c.GravityDirection (-(LineDistance + c.PawnHalfHeight))))]) <;> intro _))

theorem steep_IsWithinEdgeTolerance :
    IsWithinEdgeTolerance Rat.sqrt sampleComponent ⟨0, 0, 0⟩ ⟨0, 0, -88⟩ 34 = true := by
  have hG : sampleComponent.GravityDirection = ⟨0, 0, -1⟩ := rfl
  unfold IsWithinEdgeTolerance FindClosestPointOnLine
  rw [hG]
  norm_num [GetSafeNormal, Distance, Size, DotProduct, FVector.sub, FVector.add, FVector.scale,
    SWEEP_EDGE_REJECT_DISTANCE, KINDA_SMALL_NUMBER, Rat_sqrt_zero]

theorem steep_Sweep :
    ComputeFloorDist_Sweep Rat.sqrt steepWorld sampleComponent ⟨0, 0, 0⟩ 45 34
      FFindFloorResult.Clear =
      (FFindFloorResult.SetFromSweep
        steepHit (99 / 5) false,
        false,
        [.Sweep ⟨0, 0, 0⟩ ⟨0, 0, -252 / 5⟩ (.CapsuleQuat ⟨1, 0, 0⟩ ⟨0, 1, 0⟩)
          (.Capsule 34 (413 / 5))]) := by
  have hG : sampleComponent.GravityDirection = ⟨0, 0, -1⟩ := rfl
  have hH : sampleComponent.PawnHalfHeight = 88 := rfl
  have hR : sampleComponent.PawnRadius = 34 := rfl
  have hE : add (⟨0, 0, 0⟩ : FVector ℚ) (scale ⟨0, 0, -1⟩ (45 + (88 - 34) * (1 - 9 / 10))) =
      ⟨0, 0, -252 / 5⟩ := by
    apply FVector_eq <;> norm_num [FVector.add, FVector.scale]
  have hS : FloorSweepTest steepWorld sampleComponent ⟨0, 0, 0⟩ ⟨0, 0, -252 / 5⟩ 34
      (88 - (88 - 34) * (1 - 9 / 10)) =
      (true, steepHit,
        [.Sweep ⟨0, 0, 0⟩ ⟨0, 0, -252 / 5⟩ (.CapsuleQuat ⟨1, 0, 0⟩ ⟨0, 1, 0⟩)
          (.Capsule 34 (413 / 5))]) := by
    have hB : sampleComponent.bUseFlatBaseForFloorChecks = false := rfl
    unfold FloorSweepTest
    rw [if_pos hB]
    have e : (88 - (88 - 34) * (1 - 9 / 10) : ℚ) = 413 / 5 := by norm_num
    rw [e]
    rfl
  have hW : IsWalkable sampleComponent steepHit = false := by
    unfold IsWalkable
    rw [hG]
    norm_num [steepHit, sampleHit, FHitResult.IsValidBlockingHit, DotProduct, FVector.neg,
      KINDA_SMALL_NUMBER]
  unfold ComputeFloorDist_Sweep
  simp only [hG, hH, hR, hE, hS, if_true]
  have hP : steepHit.bStartPenetrating
      = false := rfl
  have hI : steepHit.ImpactPoint
      = ⟨0, 0, -88⟩ := rfl
  have hT : steepHit.Time
      = 1 / 2 := rfl
  simp only [hP, hI, steep_IsWithinEdgeTolerance, Bool.false_eq_true, Bool.true_eq_false,
    or_self, if_false, hW, hT, and_false, false_and]
  norm_num [MAX_FLOOR_DIST]

/-- C28: the fallback line trace of ComputeFloorDist points away from the sweep.  The line
trace part of ComputeFloorDist traces no line or one line, and that line ends at
CapsuleLocation + GravityDirection * -(LineDistance + PawnHalfHeight).  With gravity along
(0, 0, -1), a capsule 34 x 88 at the origin and a sweep stopped by an unwalkable face,
ComputeFloorDist(line 45, sweep 45, radius 34) sweeps from the origin to (0, 0, -252/5),
which is GravityDirection * (SweepDistance + ShrinkHeight) = GravityDirection * 50.4, and
then traces a line from the origin to (0, 0, 133), which is GravityDirection * -133: above
the capsule, and not a non-negative multiple of GravityDirection. -/
theorem ComputeFloorDist_line_trace_points_up :
    (∀ (W : World ℚ) (c : UGravityMovementcomponent ℚ) (CapsuleLocation : FVector ℚ)
      (LineDistance SweepDistance : ℚ) (OutFloorResult : FFindFloorResult ℚ),
      (ComputeFloorDist_Line W c CapsuleLocation LineDistance SweepDistance
        OutFloorResult).2 = [] ∨
      (ComputeFloorDist_Line W c CapsuleLocation LineDistance SweepDistance
        OutFloorResult).2 = [.LineTrace CapsuleLocation (add CapsuleLocation
          (scale c.GravityDirection (-(LineDistance + c.PawnHalfHeight))))]) ∧
    (ComputeFloorDist Rat.sqrt steepWorld sampleComponent ⟨0, 0, 0⟩ 45 45 34 none).2 =
      [.ComputeFloorDist ⟨0, 0, 0⟩ 45 45 34,
       .Sweep ⟨0, 0, 0⟩ ⟨0, 0, -252 / 5⟩ (.CapsuleQuat ⟨1, 0, 0⟩ ⟨0, 1, 0⟩)
         (.Capsule 34 (413 / 5)),
       .LineTrace ⟨0, 0, 0⟩ ⟨0, 0, 133⟩] ∧
    sub (⟨0, 0, -252 / 5⟩ : FVector ℚ) ⟨0, 0, 0⟩ =
      scale sampleComponent.GravityDirection
        (45 + (sampleComponent.PawnHalfHeight - sampleComponent.PawnRadius) * (1 - 9 / 10)) ∧
    sub (⟨0, 0, 133⟩ : FVector ℚ) ⟨0, 0, 0⟩ =
      scale sampleComponent.GravityDirection (-(45 + sampleComponent.PawnHalfHeight)) ∧
    DotProduct (sub (⟨0, 0, 133⟩ : FVector ℚ) ⟨0, 0, 0⟩) sampleComponent.GravityDirection < 0 ∧
    ¬ ∃ k : ℚ, 0 ≤ k ∧
      sub (⟨0, 0, 133⟩ : FVector ℚ) ⟨0, 0, 0⟩ = scale sampleComponent.GravityDirection k := by
  have hG : sampleComponent.GravityDirection = ⟨0, 0, -1⟩ := rfl
  have hH : sampleComponent.PawnHalfHeight = 88 := rfl
  have hR : sampleComponent.PawnRadius = 34 := rfl
  refine ⟨fun W c L a b o => ComputeFloorDist_Line_events W c L a b o, ?_, ?_, ?_, ?_, ?_⟩
  · have hL : ComputeFloorDist_Line steepWorld sampleComponent ⟨0, 0, 0⟩ 45 45
        (FFindFloorResult.SetFromSweep
          steepHit (99 / 5) false) =
        ({ FFindFloorResult.SetFromSweep
          steepHit (99 / 5) false with
            bWalkableFloor := false },
          [.LineTrace ⟨0, 0, 0⟩ ⟨0, 0, 133⟩]) := by
      have hB : (FFindFloorResult.SetFromSweep
          steepHit (99 / 5)
            false : FFindFloorResult ℚ).bBlockingHit = true := rfl
      have hE : add (⟨0, 0, 0⟩ : FVector ℚ) (scale ⟨0, 0, -1⟩ (-(45 + 88))) = ⟨0, 0, 133⟩ := by
        apply FVector_eq <;> norm_num [FVector.add, FVector.scale]
      have hLT : steepWorld.LineTraceSingleByChannel ⟨0, 0, 0⟩ ⟨0, 0, 133⟩ =
          (false, { FHitResult.init 1 with
            TraceStart := ⟨0, 0, 0⟩, TraceEnd := ⟨0, 0, 133⟩ }) := rfl
      unfold ComputeFloorDist_Line
      simp only [hB, hG, hH, hE, hLT]
      norm_num
    have hD : ComputeFloorDist_Supplied Rat.sqrt sampleComponent ⟨0, 0, 0⟩ none =
        (false, FFindFloorResult.Clear, false) := rfl
    unfold ComputeFloorDist
    simp only [hD, steep_Sweep, hL]
    norm_num
  · rw [hG, hH, hR]
    apply FVector_eq <;> norm_num [FVector.sub, FVector.scale]
  · rw [hG, hH]
    apply FVector_eq <;> norm_num [FVector.sub, FVector.scale]
  · rw [hG]
    norm_num [DotProduct, FVector.sub]
  · rintro ⟨k, hk, h⟩
    rw [hG] at h
    have h3 := congrArg FVector.Z h
    norm_num [FVector.sub, FVector.scale] at h3
    linarith

theorem PhysFalling_Velocity_Gravity (Sqrt : F → F) (W : World F)
    (c : UGravityMovementcomponent F) (FallAcceleration : FVector F) (timeTick : F)
    (hW : FreeFallWorld W) (hRVO : c.bUseRVOAvoidance = false) :
    (PhysFalling_Velocity Sqrt W c FallAcceleration timeTick).Gravity =
      scale c.GravityDirection (-c.GravityZ) := by
  obtain ⟨hMove, hAnim, hOver, hRestore, hApply, hDecay⟩ := hW
  obtain ⟨v, acc, m, hcv⟩ := CalcVelocity_frame Sqrt W
    ((c.setJustTeleported false).setAcceleration FallAcceleration) timeTick
    (c.setJustTeleported false).FallingLateralFriction false
    (W.GetMaxBrakingDeceleration (c.setJustTeleported false)) hRVO
  unfold PhysFalling_Velocity
  simp only [hRestore, hAnim, hOver, hApply, hDecay, and_self, if_true, hcv]
  rfl

theorem ApplyDownwardForce_applied (W : World F) (c : UGravityMovementcomponent F)
    (DeltaSeconds : F) (BaseComp : UPrimitiveComponent F)
    (h1 : c.StandingDownwardForceScale ≠ 0)
    (h2 : c.CurrentFloor.HitResult.IsValidBlockingHit = true)
    (h3 : c.CurrentFloor.HitResult.Component = some BaseComp)
    (h4 : W.IsAnySimulatingPhysics BaseComp = true)
    (h5 : IsZero (scale c.GravityDirection c.GravityZ) = false) :
    ApplyDownwardForce W c DeltaSeconds =
      some (scale (scale (scale c.GravityDirection c.GravityZ) c.Mass)
        c.StandingDownwardForceScale, c.CurrentFloor.HitResult.ImpactPoint) := by
  unfold ApplyDownwardForce
  rw [if_pos ⟨h1, h2⟩]
  simp only [h3]
  rw [if_pos ⟨h4, h5⟩]

/-- C29: ApplyDownwardForce and PhysFalling do not use the same gravity vector.  Gravity pulls
along (0, 0, -1) with GetGravityZ() = -980 < 0, Mass = 100 > 0,
StandingDownwardForceScale = 1 > 0, and the actor stands on a body that simulates physics.
PhysFalling integrates the gravity vector GravityDirection * -GetGravityZ() = (0, 0, -980)
into Velocity; ApplyDownwardForce uses GravityDirection * GetGravityZ() = (0, 0, 980) and
applies the force (0, 0, 98000) at the impact point: its component along GravityDirection
is -98000, negative, so the force pushes the supporting body up, against gravity. -/
theorem ApplyDownwardForce_pushes_up :
    standingComponent.GravityZ < 0 ∧ 0 < standingComponent.Mass ∧
    0 < standingComponent.StandingDownwardForceScale ∧
    standingComponent.CurrentFloor.HitResult.Component = some physicsCrate ∧
    sampleWorld.IsAnySimulatingPhysics physicsCrate = true ∧
    (∀ (FallAcceleration : FVector ℚ) (timeTick : ℚ),
      (PhysFalling_Velocity Rat.sqrt sampleWorld standingComponent FallAcceleration
        timeTick).Gravity = ⟨0, 0, -980⟩) ∧
    scale standingComponent.GravityDirection (-standingComponent.GravityZ) = ⟨0, 0, -980⟩ ∧
    ApplyDownwardForce sampleWorld standingComponent (1 / 60) =
      some (⟨0, 0, 98000⟩, ⟨0, 0, -90⟩) ∧
    (⟨0, 0, 98000⟩ : FVector ℚ) =
      scale (scale (⟨0, 0, 980⟩ : FVector ℚ) standingComponent.Mass)
        standingComponent.StandingDownwardForceScale ∧
    (⟨0, 0, 98000⟩ : FVector ℚ) ≠
      scale (scale (scale standingComponent.GravityDirection (-standingComponent.GravityZ))
        standingComponent.Mass) standingComponent.StandingDownwardForceScale ∧
    DotProduct (⟨0, 0, 98000⟩ : FVector ℚ) standingComponent.GravityDirection = -98000 ∧
    ¬ (0 < DotProduct (⟨0, 0, 98000⟩ : FVector ℚ) standingComponent.GravityDirection) := by
  have hG : standingComponent.GravityDirection = ⟨0, 0, -1⟩ := rfl
  have hZ : standingComponent.GravityZ = -980 := rfl
  have hM : standingComponent.Mass = 100 := rfl
  have hS : standingComponent.StandingDownwardForceScale = 1 := rfl
  have hP : standingComponent.CurrentFloor.HitResult.ImpactPoint = ⟨0, 0, -90⟩ := rfl
  have hGr : scale standingComponent.GravityDirection (-standingComponent.GravityZ) =
      ⟨0, 0, -980⟩ := by
    rw [hG, hZ]
    apply FVector_eq <;> norm_num [FVector.scale]
  refine ⟨?_, ?_, ?_, rfl, rfl, ?_, hGr, ?_, ?_, ?_, ?_, ?_⟩
  · rw [hZ]; norm_num
  · rw [hM]; norm_num
  · rw [hS]; norm_num
  · intro A t
    rw [PhysFalling_Velocity_Gravity Rat.sqrt sampleWorld standingComponent A t
      FreeFallWorld_sampleWorld rfl, hGr]
  · rw [ApplyDownwardForce_applied sampleWorld standingComponent (1 / 60) physicsCrate
      (by rw [hS]; norm_num) rfl rfl rfl
      (by rw [hG, hZ]; norm_num [IsZero, FVector.scale]), hG, hZ, hM, hS, hP]
    congr 2
    apply FVector_eq <;> norm_num [FVector.scale]
  · rw [hM, hS]
    apply FVector_eq <;> norm_num [FVector.scale]
  · rw [hGr, hM, hS]
    intro h
    have h3 := congrArg FVector.Z h
    norm_num [FVector.scale] at h3
  · rw [hG]
    norm_num [DotProduct]
  · rw [hG]
    norm_num [DotProduct]

theorem lifted_Brake :
    CalcVelocity_Brake Rat.sqrt floorWorld (liftedComponent.setJustTeleported false)
      (1 / 60) 8 0 600 true
      = (liftedComponent.setJustTeleported false).setVelocity ⟨0, 0, 0⟩ := by
  have hA : (liftedComponent.setJustTeleported false).Acceleration = ⟨0, 0, 2048⟩ := rfl
  have hV : (liftedComponent.setJustTeleported false).Velocity = ZeroVector := rfl
  unfold CalcVelocity_Brake
  simp only [IsExceedingMaxSpeed_zero _ _ hV, hA]
  rw [hV]
  norm_num [IsZero, GetSafeNormal, Size, ZeroVector, FVector.sub, FVector.scale, SMALL_NUMBER,
    Rat_sqrt_2048, Rat_sqrt_zero]

theorem lifted_Accelerate :
    CalcVelocity_Accelerate Rat.sqrt
      ((liftedComponent.setJustTeleported false).setVelocity ⟨0, 0, 0⟩) (1 / 60) 8 false 600
      = liftedAccelerated := by
  have hA : ((liftedComponent.setJustTeleported false).setVelocity ⟨0, 0, 0⟩).Acceleration =
      ⟨0, 0, 2048⟩ := rfl
  have hV : ((liftedComponent.setJustTeleported false).setVelocity ⟨0, 0, 0⟩).Velocity =
      ZeroVector := rfl
  unfold CalcVelocity_Accelerate
  simp only [Bool.false_eq_true, if_false, IsExceedingMaxSpeed_zero _ _ hV, hA]
  rw [hV]
  have hc : GetClampedToMaxSize Rat.sqrt (add ZeroVector (scale ⟨0, 0, 2048⟩ (1 / 60))) 600 =
      (⟨0, 0, 512 / 15⟩ : FVector ℚ) := by
    norm_num [GetClampedToMaxSize, SizeSquared, ZeroVector, FVector.add, FVector.scale,
      KINDA_SMALL_NUMBER]
  rw [hc]
  norm_num [IsZero]
  rfl

theorem lifted_CalcVelocity :
    CalcVelocity Rat.sqrt floorWorld (liftedComponent.setJustTeleported false) (1 / 60) 8
      false 0 = liftedAccelerated := by
  have hrq : ∀ a b d e f, ApplyRequestedMove floorWorld
      (liftedComponent.setJustTeleported false) a b d e f =
      (false, ZeroVector, 0, liftedComponent.setJustTeleported false) := by
    intro a b d e f
    rfl
  have hexit : ¬ ((liftedComponent.setJustTeleported false).bHasCharacterOwner = false ∨
      floorWorld.HasAnimRootMotion (liftedComponent.setJustTeleported false) = true ∨
      (1 / 60 : ℚ) < MIN_TICK_TIME ∨
      ((liftedComponent.setJustTeleported false).bHasCharacterOwner = true ∧
        (liftedComponent.setJustTeleported false).LocalRole = .ROLE_SimulatedProxy ∧
        (liftedComponent.setJustTeleported false).bWasSimulatingRootMotion = false)) := by
    intro h
    rcases h with h | h | h | h
    · exact Bool.noConfusion h
    · exact Bool.noConfusion h
    · norm_num [MIN_TICK_TIME] at h
    · exact ENetRole.noConfusion h.2.1
  have hMA : (liftedComponent.setJustTeleported false).MaxAcceleration = 2048 := rfl
  have hMS : floorWorld.GetMaxSpeed (liftedComponent.setJustTeleported false) = 600 := rfl
  have hFM : CalcVelocity_ForceMaxAccel Rat.sqrt floorWorld
      (liftedComponent.setJustTeleported false) 2048 =
      liftedComponent.setJustTeleported false := rfl
  have hAIM : (liftedComponent.setJustTeleported false).AnalogInputModifier = 1 := rfl
  have hMin : floorWorld.GetMinAnalogSpeed (liftedComponent.setJustTeleported false) = 0 := rfl
  have hm1 : max (600 * (1 : ℚ)) 0 = 600 := by norm_num
  have hm2 : max (0 : ℚ) 600 = 600 := by norm_num
  have hm3 : max (0 : ℚ) 8 = 8 := by norm_num
  unfold CalcVelocity
  rw [if_neg hexit]
  simp only [hrq, hMA, hMS, hFM, hAIM, hMin, hm1, hm2, hm3, Bool.not_false,
    lifted_Brake, lifted_Accelerate]
  rfl

theorem lifted_timeTick :
    GetSimulationTimeStep (liftedComponent.setJustTeleported false) (1 / 60) (0 + 1) = 1 / 60 := by
  have h : (liftedComponent.setJustTeleported false).MaxSimulationTimeStep = 1 / 20 := rfl
  unfold GetSimulationTimeStep
  rw [h]
  norm_num [MIN_TICK_TIME]

theorem lifted_MoveAlongFloor :
    MoveAlongFloor Rat.sqrt floorWorld liftedAccelerated ⟨0, 0, 512 / 15⟩ (1 / 60) =
      (liftedAccelerated.setLocation ⟨0, 0, 128 / 225⟩, none) := by
  have hF : liftedAccelerated.CurrentFloor = flatFloor := rfl
  have hL : liftedAccelerated.Location = ⟨0, 0, 0⟩ := rfl
  have hD : scale (⟨0, 0, 512 / 15⟩ : FVector ℚ) (1 / 60) = ⟨0, 0, 128 / 225⟩ := by
    norm_num [FVector.scale]
  have hR : ComputeGroundMovementDelta Rat.sqrt liftedAccelerated ⟨0, 0, 128 / 225⟩
      flatFloor.HitResult flatFloor.bLineTrace = ⟨0, 0, 128 / 225⟩ := by
    have hG : liftedAccelerated.GravityDirection = ⟨0, 0, -1⟩ := rfl
    unfold ComputeGroundMovementDelta
    rw [hG]
    norm_num [flatFloor, sampleHit, DotProduct, FVector.neg, KINDA_SMALL_NUMBER]
  have hM : SafeMoveUpdatedComponent floorWorld ⟨0, 0, 0⟩ ⟨0, 0, 128 / 225⟩ =
      (⟨0, 0, 128 / 225⟩, FHitResult.init 1) := by
    unfold SafeMoveUpdatedComponent
    norm_num [IsZero, floorWorld, sampleWorld, FVector.add]
  unfold MoveAlongFloor
  simp only [hF, hD, hR, hL, hM]
  simp [flatFloor, FFindFloorResult.IsWalkableFloor, FHitResult.init,
    FHitResult.IsValidBlockingHit]

theorem lifted_UpdateFloor (L : WalkingLocals ℚ) (hT : L.timeTick = 1 / 60)
    (hO : L.OldLocation = ⟨0, 0, 0⟩) :
    ∃ c1, PhysWalking_UpdateFloor Rat.sqrt floorWorld
        (liftedAccelerated.setLocation ⟨0, 0, 128 / 225⟩) L FStepDownResult.init =
        .continueLoop c1 L.remainingTime L.Iterations L.bCheckedFall L.bTriedLedgeMove ∧
      c1.Location = ⟨0, 0, 128 / 225⟩ ∧ c1.MovementMode = .MOVE_Walking ∧
      c1.Velocity = ⟨0, 0, 512 / 15⟩ ∧ c1.GravityDirection = ⟨0, 0, -1⟩ := by
  have hi : (FStepDownResult.init : FStepDownResult ℚ).bComputedFloor = false := rfl
  have hff : ∀ c l b h, floorWorld.FindFloor c l b h = (flatFloor, false) := fun _ _ _ _ => rfl
  have hcw : ∀ c, floorWorld.CanWalkOffLedges c = true := fun _ => rfl
  have hwalk : flatFloor.IsWalkableFloor = true := rfl
  have hadj : AdjustFloorHeight floorWorld
      (((liftedAccelerated.setLocation ⟨0, 0, 128 / 225⟩).setCurrentFloor
        flatFloor).setForceNextFloorCheck false) =
      (((liftedAccelerated.setLocation ⟨0, 0, 128 / 225⟩).setCurrentFloor
        flatFloor).setForceNextFloorCheck false) := by
    have hc : (((liftedAccelerated.setLocation ⟨0, 0, 128 / 225⟩).setCurrentFloor
        flatFloor).setForceNextFloorCheck false).CurrentFloor = flatFloor := rfl
    unfold AdjustFloorHeight
    simp only [hc]
    norm_num [flatFloor, FFindFloorResult.IsWalkableFloor, MIN_FLOOR_DIST, MAX_FLOOR_DIST]
  unfold PhysWalking_UpdateFloor
  simp only [hi, hff, hcw, Bool.false_eq_true, if_false, Bool.not_true, false_and]
  unfold PhysWalking_ValidateFloor
  have hc2 : (((liftedAccelerated.setLocation ⟨0, 0, 128 / 225⟩).setCurrentFloor
      flatFloor).setForceNextFloorCheck false).CurrentFloor = flatFloor := rfl
  simp only [hc2, hwalk, if_true, ShouldCatchAir, Bool.false_eq_true, if_false, hadj]
  unfold PhysWalking_CheckFall
  have hsw : IsSwimming ((((liftedAccelerated.setLocation ⟨0, 0, 128 / 225⟩).setCurrentFloor
      flatFloor).setForceNextFloorCheck false).setMovementBase flatFloor.HitResult.Component) =
      false := rfl
  have hc3 : ((((liftedAccelerated.setLocation ⟨0, 0, 128 / 225⟩).setCurrentFloor
      flatFloor).setForceNextFloorCheck false).setMovementBase
      flatFloor.HitResult.Component).CurrentFloor = flatFloor := rfl
  simp only [hsw, hc3, hwalk, Bool.false_eq_true, if_false, Bool.true_eq_false, false_and]
  rw [PhysWalking_End_moved floorWorld
    ((((liftedAccelerated.setLocation ⟨0, 0, 128 / 225⟩).setCurrentFloor
      flatFloor).setForceNextFloorCheck false).setMovementBase flatFloor.HitResult.Component)
    L L.bCheckedFall rfl rfl rfl rfl
    (by rw [hT]; norm_num [MIN_TICK_TIME])
    (by
      rw [hO]
      show (⟨0, 0, 128 / 225⟩ : FVector ℚ) ≠ ⟨0, 0, 0⟩
      intro h
      have := congrArg FVector.Z h
      norm_num at this)]
  refine ⟨_, rfl, rfl, rfl, ?_, rfl⟩
  show div (sub (⟨0, 0, 128 / 225⟩ : FVector ℚ) L.OldLocation) L.timeTick = _
  rw [hO, hT]
  apply FVector_eq <;> norm_num [FVector.div, FVector.sub]

theorem lifted_Move (L : WalkingLocals ℚ) (hT : L.timeTick = 1 / 60)
    (hO : L.OldLocation = ⟨0, 0, 0⟩) :
    ∃ c1, PhysWalking_Move Rat.sqrt floorWorld liftedAccelerated L =
        .continueLoop c1 L.remainingTime L.Iterations L.bCheckedFall L.bTriedLedgeMove ∧
      c1.Location = ⟨0, 0, 128 / 225⟩ ∧ c1.MovementMode = .MOVE_Walking ∧
      c1.Velocity = ⟨0, 0, 512 / 15⟩ ∧ c1.GravityDirection = ⟨0, 0, -1⟩ := by
  have hV : liftedAccelerated.Velocity = ⟨0, 0, 512 / 15⟩ := rfl
  have hz : IsNearlyZero (scale (⟨0, 0, 512 / 15⟩ : FVector ℚ) (1 / 60)) KINDA_SMALL_NUMBER =
      false := by
    norm_num [IsNearlyZero, FVector.scale, KINDA_SMALL_NUMBER, abs_of_pos]
  have hF : IsFalling (liftedAccelerated.setLocation ⟨0, 0, 128 / 225⟩) = false := rfl
  have hS : IsSwimming (liftedAccelerated.setLocation ⟨0, 0, 128 / 225⟩) = false := rfl
  unfold PhysWalking_Move
  simp only [hV, hT, hz, lifted_MoveAlongFloor, hF, hS, Bool.false_eq_true, if_false,
    Option.getD_none]
  exact lifted_UpdateFloor _ rfl hO

theorem lifted_Iteration :
    ∃ c1, PhysWalking_Iteration Rat.sqrt floorWorld (liftedComponent.setJustTeleported false)
        (1 / 60) 0 false false = .continueLoop c1 0 1 false false ∧
      c1.Location = ⟨0, 0, 128 / 225⟩ ∧ c1.MovementMode = .MOVE_Walking ∧
      c1.Velocity = ⟨0, 0, 512 / 15⟩ ∧ c1.GravityDirection = ⟨0, 0, -1⟩ := by
  have e : (liftedComponent.setJustTeleported false).setJustTeleported false =
      liftedComponent.setJustTeleported false := rfl
  have hR : ∀ c, floorWorld.RestorePreAdditiveRootMotionVelocity c = c := fun _ => rfl
  have hA : ∀ c, floorWorld.HasAnimRootMotion c = false := fun _ => rfl
  have hO : ∀ c, floorWorld.HasOverrideVelocity c = false := fun _ => rfl
  have hP : ∀ c t, floorWorld.ApplyRootMotionToVelocity c t = c := fun _ _ => rfl
  have hB : ∀ c, floorWorld.GetMaxBrakingDeceleration c = 0 := fun _ => rfl
  have hG : (liftedComponent.setJustTeleported false).GroundFriction = 8 := rfl
  have hC : CalcVelocity Rat.sqrt floorWorld (liftedComponent.setJustTeleported false) (1 / 60) 8
      false 0 = liftedAccelerated := lifted_CalcVelocity
  have hF : IsFalling liftedAccelerated = false := rfl
  unfold PhysWalking_Iteration
  simp only [e, hR, hA, hO, hP, hB, hG, MaintainHorizontalGroundVelocity, lifted_timeTick, hC,
    hF, and_self, if_true, Bool.false_eq_true, if_false]
  obtain ⟨c1, h1, h2, h3, h4, h5⟩ := lifted_Move
    { timeTick := 1 / 60, remainingTime := 1 / 60 - 1 / 60, Iterations := 0 + 1,
      OldBase := (liftedComponent.setJustTeleported false).MovementBase,
      OldLocation := (liftedComponent.setJustTeleported false).Location,
      OldFloor := (liftedComponent.setJustTeleported false).CurrentFloor,
      OldVelocity := (liftedComponent.setJustTeleported false).Velocity,
      Delta := ZeroVector, bZeroDelta := false, bCheckedFall := false,
      bTriedLedgeMove := false } rfl rfl
  refine ⟨c1, ?_, h2, h3, h4, h5⟩
  rw [h1]
  norm_num

theorem lifted_PhysWalking :
    ∃ c1, PhysWalking Rat.sqrt floorWorld 2 liftedComponent (1 / 60) 0 = some c1 ∧
      c1.Location = ⟨0, 0, 128 / 225⟩ ∧ c1.MovementMode = .MOVE_Walking ∧
      c1.Velocity = ⟨0, 0, 512 / 15⟩ ∧ c1.GravityDirection = ⟨0, 0, -1⟩ := by
  obtain ⟨c1, h1, h2, h3, h4, h5⟩ := lifted_Iteration
  have hg1 : PhysWalking_Guard floorWorld (liftedComponent.setJustTeleported false) (1 / 60) 0
      = true := by
    have hm : (liftedComponent.setJustTeleported false).MaxSimulationIterations = 8 := rfl
    have ho : (liftedComponent.setJustTeleported false).bHasCharacterOwner = true := rfl
    have hc : (liftedComponent.setJustTeleported false).bHasController = true := rfl
    unfold PhysWalking_Guard
    rw [hm, ho, hc]
    norm_num [MIN_TICK_TIME]
  have hg2 : PhysWalking_Guard floorWorld c1 0 1 = false := by
    unfold PhysWalking_Guard
    norm_num [MIN_TICK_TIME]
  have h0 : ¬ ((1 / 60 : ℚ) < MIN_TICK_TIME) := by norm_num [MIN_TICK_TIME]
  have hexit : ¬ (liftedComponent.bHasCharacterOwner = false ∨
      (liftedComponent.bHasController = false ∧
        liftedComponent.bRunPhysicsWithNoController = false ∧
        floorWorld.HasAnimRootMotion liftedComponent = false ∧
        floorWorld.HasOverrideVelocity liftedComponent = false ∧
        liftedComponent.LocalRole ≠ ENetRole.ROLE_SimulatedProxy)) := by
    intro h
    rcases h with h | h
    · exact Bool.noConfusion h
    · exact Bool.noConfusion h.1
  have hq : ¬ (liftedComponent.bQueryCollisionEnabled = false) := fun h => Bool.noConfusion h
  have hM : IsMovingOnGround c1 = true := by simp [IsMovingOnGround, h3]
  refine ⟨c1, ?_, h2, h3, h4, h5⟩
  unfold PhysWalking
  rw [if_neg h0, if_neg hexit, if_neg hq]
  rw [PhysWalking_Loop, if_pos hg1]
  simp only [h1]
  rw [PhysWalking_Loop, hg2]
  simp only [Bool.false_eq_true, if_false, hM, if_true, MaintainHorizontalGroundVelocity]

/-- C26: MaintainHorizontalGroundVelocity has an empty body, so it leaves every component as
it is and the ground velocity is not kept horizontal.  Gravity pulls along (0, 0, -1).  A
walking actor with velocity (0, 0, 5) still has it after MaintainHorizontalGroundVelocity:
dot(Velocity, GravityDirection) = -5.  A walking actor at rest on a flat floor, with an
input acceleration (0, 0, 2048) along the gravity axis, in a world without root motion where
every floor probe reports that floor, ends a call of PhysWalking for 1/60 s still in Walking
mode, at (0, 0, 128/225), with Velocity (0, 0, 512/15): dot(Velocity, GravityDirection) =
-512/15, not 0. -/
theorem MaintainHorizontalGroundVelocity_does_nothing :
    (∀ c : UGravityMovementcomponent ℚ, MaintainHorizontalGroundVelocity c = c) ∧
    IsMovingOnGround climbingComponent = true ∧
    DotProduct (MaintainHorizontalGroundVelocity climbingComponent).Velocity
      (MaintainHorizontalGroundVelocity climbingComponent).GravityDirection = -5 ∧
    liftedComponent.MovementMode = .MOVE_Walking ∧ liftedComponent.Velocity = ZeroVector ∧
    liftedComponent.CurrentFloor = flatFloor ∧
    NoRootMotionWorld floorWorld ∧ WalkableFloorAt floorWorld liftedComponent.Location ∧
    ∃ c1, PhysWalking Rat.sqrt floorWorld 2 liftedComponent (1 / 60) 0 = some c1 ∧
      IsMovingOnGround c1 = true ∧ c1.Location = ⟨0, 0, 128 / 225⟩ ∧
      c1.Velocity = ⟨0, 0, 512 / 15⟩ ∧
      DotProduct c1.Velocity c1.GravityDirection = -512 / 15 ∧
      DotProduct c1.Velocity c1.GravityDirection ≠ 0 := by
  have hD : DotProduct (⟨0, 0, 512 / 15⟩ : FVector ℚ) ⟨0, 0, -1⟩ = -512 / 15 := by
    norm_num [DotProduct]
  refine ⟨fun _ => rfl, rfl, ?_, rfl, rfl, rfl,
    ⟨fun _ => rfl, fun _ => rfl, fun _ => rfl, fun _ _ => rfl⟩, fun _ _ _ => rfl, ?_⟩
  · have hV : (MaintainHorizontalGroundVelocity climbingComponent).Velocity = ⟨0, 0, 5⟩ := rfl
    have hG : (MaintainHorizontalGroundVelocity climbingComponent).GravityDirection =
        ⟨0, 0, -1⟩ := rfl
    rw [hV, hG]
    norm_num [DotProduct]
  · obtain ⟨c1, h1, h2, h3, h4, h5⟩ := lifted_PhysWalking
    refine ⟨c1, h1, ?_, h2, h4, ?_, ?_⟩
    · simp [IsMovingOnGround, h3]
    · rw [h4, h5, hD]
    · rw [h4, h5, hD]
      norm_num

theorem RotateAngleAxis_cross (D n : FVector F) (u : F) :
    RotateAngleAxis SinNeg90 CosNeg90 n (CrossProduct (scale D u) n) =
      scale (sub (scale D (DotProduct n n)) (scale n (DotProduct D n))) u := by
  apply FVector_eq <;>
    simp only [RotateAngleAxis, CrossProduct, SinNeg90, CosNeg90, DotProduct, FVector.scale,
      FVector.sub] <;> ring

theorem scale_one_eq (D : FVector F) : scale D 1 = D := by
  apply FVector_eq <;> simp [FVector.scale]

theorem ComputeGroundMovementDelta_ramp_projection (Sqrt : F → F)
    (c : UGravityMovementcomponent F) (Delta : FVector F) (RampHit : FHitResult F)
    (hRamp : DotProduct RampHit.ImpactNormal (neg c.GravityDirection) < 1 - KINDA_SMALL_NUMBER ∧
      DotProduct RampHit.ImpactNormal (neg c.GravityDirection) > KINDA_SMALL_NUMBER ∧
      DotProduct RampHit.Normal (neg c.GravityDirection) > KINDA_SMALL_NUMBER ∧
      IsWalkable c RampHit = true)
    (hN : DotProduct RampHit.ImpactNormal RampHit.ImpactNormal = 1)
    (hS : SMALL_NUMBER ≤ SizeSquared Delta)
    (hSqrt0 : 0 ≤ Sqrt (SizeSquared Delta))
    (hSqrt : Sqrt (SizeSquared Delta) * Sqrt (SizeSquared Delta) = SizeSquared Delta) :
    ComputeGroundMovementDelta Sqrt c Delta RampHit false =
      sub Delta (scale RampHit.ImpactNormal (DotProduct Delta RampHit.ImpactNormal)) := by
  have hpos : (0 : F) < SizeSquared Delta := lt_of_lt_of_le (by norm_num [SMALL_NUMBER]) hS
  have hne : Sqrt (SizeSquared Delta) ≠ 0 := by
    intro h0
    rw [h0, mul_zero] at hSqrt
    exact absurd hSqrt.symm (ne_of_gt hpos)
  unfold ComputeGroundMovementDelta
  simp only []
  rw [if_pos ⟨hRamp.1, hRamp.2.1, hRamp.2.2.1, trivial, hRamp.2.2.2⟩]
  have hSize : Size Sqrt Delta = Sqrt (SizeSquared Delta) := rfl
  rw [hSize]
  generalize RampHit.ImpactNormal = n at hN ⊢
  by_cases h1 : SizeSquared Delta = 1
  · have hG : GetSafeNormal Sqrt Delta = scale Delta 1 := by
      rw [scale_one_eq]
      unfold GetSafeNormal
      simp only [SizeSquared] at h1
      simp only [h1, if_true]
    have hσ : Sqrt (SizeSquared Delta) = 1 := by
      rw [h1] at hSqrt hSqrt0 ⊢
      nlinarith
    rw [hG, RotateAngleAxis_cross, hσ, hN, scale_one_eq, scale_one_eq, scale_one_eq]
  · have hG : GetSafeNormal Sqrt Delta = scale Delta (1 / Sqrt (SizeSquared Delta)) := by
      unfold GetSafeNormal
      simp only [SizeSquared] at h1 hS ⊢
      simp only [h1, if_false, not_lt.mpr hS]
      rfl
    rw [hG, RotateAngleAxis_cross, hN, scale_one_eq]
    generalize Sqrt (SizeSquared Delta) = σ at hne
    apply FVector_eq <;> simp only [FVector.scale, FVector.sub] <;> field_simp

theorem projection_orthogonal (D n : FVector F) (hN : DotProduct n n = 1) :
    DotProduct (sub D (scale n (DotProduct D n))) n = 0 ∧
    SizeSquared (sub D (scale n (DotProduct D n))) =
      SizeSquared D - DotProduct D n * DotProduct D n := by
  simp only [DotProduct, SizeSquared, FVector.sub, FVector.scale] at hN ⊢
  constructor
  · linear_combination (-(D.X * n.X + D.Y * n.Y + D.Z * n.Z)) * hN
  · linear_combination ((D.X * n.X + D.Y * n.Y + D.Z * n.Z) ^ 2) * hN

/-- C27 (counterexample): a non-zero Delta shorter than 0.0001 is not projected onto the ramp
plane.  On a walkable ramp with unit normal n = (3/5, 0, 4/5) that is not a line-trace
result, the delta (1/100000, 0, 0) gives the zero vector, because the normalisation of Delta
in the ramp branch returns zero for a squared length below SMALL_NUMBER; Delta - dot(Delta, n) n
is (2/312500, 0, -3/625000). -/
theorem ComputeGroundMovementDelta_tiny_delta_is_zero :
    (⟨1 / 100000, 0, 0⟩ : FVector ℚ) ≠ ZeroVector ∧
    DotProduct rampHit.ImpactNormal rampHit.ImpactNormal = 1 ∧
    DotProduct rampHit.ImpactNormal (neg sampleComponent.GravityDirection)
      < 1 - KINDA_SMALL_NUMBER ∧
    DotProduct rampHit.ImpactNormal (neg sampleComponent.GravityDirection)
      > KINDA_SMALL_NUMBER ∧
    DotProduct rampHit.Normal (neg sampleComponent.GravityDirection) > KINDA_SMALL_NUMBER ∧
    IsWalkable sampleComponent rampHit = true ∧
    ComputeGroundMovementDelta Rat.sqrt sampleComponent ⟨1 / 100000, 0, 0⟩ rampHit false =
      ⟨0, 0, 0⟩ ∧
    sub (⟨1 / 100000, 0, 0⟩ : FVector ℚ) (scale rampHit.ImpactNormal
      (DotProduct ⟨1 / 100000, 0, 0⟩ rampHit.ImpactNormal)) = ⟨2 / 312500, 0, -3 / 625000⟩ ∧
    ComputeGroundMovementDelta Rat.sqrt sampleComponent ⟨1 / 100000, 0, 0⟩ rampHit false ≠
      sub (⟨1 / 100000, 0, 0⟩ : FVector ℚ) (scale rampHit.ImpactNormal
        (DotProduct ⟨1 / 100000, 0, 0⟩ rampHit.ImpactNormal)) := by
  have hw : IsWalkable sampleComponent rampHit = true := by
    norm_num [IsWalkable, rampHit, sampleHit, sampleComponent, TestWalkableZ,
      FHitResult.IsValidBlockingHit, DotProduct, neg, KINDA_SMALL_NUMBER]
  have hd : ComputeGroundMovementDelta Rat.sqrt sampleComponent ⟨1 / 100000, 0, 0⟩ rampHit false
      = ⟨0, 0, 0⟩ := by
    unfold ComputeGroundMovementDelta
    rw [hw]
    norm_num [rampHit, sampleHit, sampleComponent, DotProduct, neg, KINDA_SMALL_NUMBER,
      GetSafeNormal, CrossProduct, RotateAngleAxis, SinNeg90, CosNeg90, scale, SMALL_NUMBER,
      ZeroVector]
  have hp : sub (⟨1 / 100000, 0, 0⟩ : FVector ℚ) (scale rampHit.ImpactNormal
      (DotProduct ⟨1 / 100000, 0, 0⟩ rampHit.ImpactNormal)) = ⟨2 / 312500, 0, -3 / 625000⟩ := by
    apply FVector_eq <;>
      norm_num [rampHit, sampleHit, DotProduct, FVector.sub, FVector.scale]
  refine ⟨?_, ?_, ?_, ?_, ?_, hw, hd, hp, ?_⟩
  · intro h
    have := congrArg FVector.X h
    norm_num [ZeroVector] at this
  · norm_num [rampHit, sampleHit, DotProduct]
  · norm_num [rampHit, sampleHit, sampleComponent, DotProduct, neg, KINDA_SMALL_NUMBER]
  · norm_num [rampHit, sampleHit, sampleComponent, DotProduct, neg, KINDA_SMALL_NUMBER]
  · norm_num [rampHit, sampleHit, sampleComponent, DotProduct, neg, KINDA_SMALL_NUMBER]
  · rw [hd, hp]
    intro h
    have := congrArg FVector.X h
    norm_num at this

theorem ComputeGroundMovementDelta_ramp_small (Sqrt : F → F)
    (c : UGravityMovementcomponent F) (Delta : FVector F) (RampHit : FHitResult F)
    (hRamp : DotProduct RampHit.ImpactNormal (neg c.GravityDirection) < 1 - KINDA_SMALL_NUMBER ∧
      DotProduct RampHit.ImpactNormal (neg c.GravityDirection) > KINDA_SMALL_NUMBER ∧
      DotProduct RampHit.Normal (neg c.GravityDirection) > KINDA_SMALL_NUMBER ∧
      IsWalkable c RampHit = true)
    (hS : SizeSquared Delta < SMALL_NUMBER) :
    ComputeGroundMovementDelta Sqrt c Delta RampHit false = ZeroVector := by
  unfold ComputeGroundMovementDelta
  simp only []
  rw [if_pos ⟨hRamp.1, hRamp.2.1, hRamp.2.2.1, trivial, hRamp.2.2.2⟩,
    GetSafeNormal_small Sqrt Delta hS]
  apply FVector_eq <;>
    simp [RotateAngleAxis, CrossProduct, SinNeg90, CosNeg90, ZeroVector, FVector.scale]

/-- C27 (amended): in the ramp branch of ComputeGroundMovementDelta (the hit is walkable, not
from a line trace, and angled): for every Delta whose squared length is below SMALL_NUMBER
(1e-8), zero or not, the returned vector is the zero vector; and for a unit ImpactNormal n and
every Delta whose squared length is at least SMALL_NUMBER, with the square root exact at that
squared length, the returned vector equals Delta - dot(Delta, n) n, it is orthogonal to n,
and its squared length is |Delta|^2 - dot(Delta, n)^2 (that is,
(|Delta| sin(angle between Delta and n))^2), which is at most |Delta|^2. -/
theorem ComputeGroundMovementDelta_ramp_is_projection (Sqrt : F → F)
    (c : UGravityMovementcomponent F) (Delta : FVector F) (RampHit : FHitResult F)
    (hRamp : DotProduct RampHit.ImpactNormal (neg c.GravityDirection) < 1 - KINDA_SMALL_NUMBER ∧
      DotProduct RampHit.ImpactNormal (neg c.GravityDirection) > KINDA_SMALL_NUMBER ∧
      DotProduct RampHit.Normal (neg c.GravityDirection) > KINDA_SMALL_NUMBER ∧
      IsWalkable c RampHit = true) :
    (SizeSquared Delta < SMALL_NUMBER →
      ComputeGroundMovementDelta Sqrt c Delta RampHit false = ZeroVector) ∧
    (SMALL_NUMBER ≤ SizeSquared Delta →
      DotProduct RampHit.ImpactNormal RampHit.ImpactNormal = 1 →
      0 ≤ Sqrt (SizeSquared Delta) →
      Sqrt (SizeSquared Delta) * Sqrt (SizeSquared Delta) = SizeSquared Delta →
      ComputeGroundMovementDelta Sqrt c Delta RampHit false =
        sub Delta (scale RampHit.ImpactNormal (DotProduct Delta RampHit.ImpactNormal)) ∧
      DotProduct (ComputeGroundMovementDelta Sqrt c Delta RampHit false) RampHit.ImpactNormal
        = 0 ∧
      SizeSquared (ComputeGroundMovementDelta Sqrt c Delta RampHit false) =
        SizeSquared Delta - DotProduct Delta RampHit.ImpactNormal *
          DotProduct Delta RampHit.ImpactNormal ∧
      SizeSquared (ComputeGroundMovementDelta Sqrt c Delta RampHit false)
        ≤ SizeSquared Delta) := by
  refine ⟨ComputeGroundMovementDelta_ramp_small Sqrt c Delta RampHit hRamp, ?_⟩
  intro hS hN hSqrt0 hSqrt
  have h := ComputeGroundMovementDelta_ramp_projection Sqrt c Delta RampHit hRamp hN hS hSqrt0
    hSqrt
  have hp := projection_orthogonal Delta RampHit.ImpactNormal hN
  rw [h]
  refine ⟨rfl, hp.1, hp.2, ?_⟩
  rw [hp.2]
  have := mul_self_nonneg (DotProduct Delta RampHit.ImpactNormal)
  linarith

theorem Rat_sqrt_25 : Rat.sqrt 25 = 5 := by
  rw [show (25 : ℚ) = 5 * 5 by norm_num, Rat.sqrt_eq]
  norm_num

theorem rampHit_is_ramp :
    DotProduct rampHit.ImpactNormal (neg sampleComponent.GravityDirection)
      < 1 - KINDA_SMALL_NUMBER ∧
    DotProduct rampHit.ImpactNormal (neg sampleComponent.GravityDirection)
      > KINDA_SMALL_NUMBER ∧
    DotProduct rampHit.Normal (neg sampleComponent.GravityDirection) > KINDA_SMALL_NUMBER ∧
    IsWalkable sampleComponent rampHit = true :=
  ⟨by norm_num [rampHit, sampleHit, sampleComponent, DotProduct, neg, KINDA_SMALL_NUMBER],
   by norm_num [rampHit, sampleHit, sampleComponent, DotProduct, neg, KINDA_SMALL_NUMBER],
   by norm_num [rampHit, sampleHit, sampleComponent, DotProduct, neg, KINDA_SMALL_NUMBER],
   by norm_num [IsWalkable, rampHit, sampleHit, sampleComponent, TestWalkableZ,
    FHitResult.IsValidBlockingHit, DotProduct, neg, KINDA_SMALL_NUMBER]⟩

theorem ComputeGroundMovementDelta_ramp_is_projection_witness :
    ComputeGroundMovementDelta Rat.sqrt sampleComponent ⟨3, 4, 0⟩ rampHit false =
      ⟨48 / 25, 4, -36 / 25⟩ ∧
    DotProduct (ComputeGroundMovementDelta Rat.sqrt sampleComponent ⟨3, 4, 0⟩ rampHit false)
      rampHit.ImpactNormal = 0 ∧
    SizeSquared (ComputeGroundMovementDelta Rat.sqrt sampleComponent ⟨3, 4, 0⟩ rampHit false)
      = 544 / 25 ∧
    SizeSquared (⟨0, 3 / 100000, 4 / 100000⟩ : FVector ℚ) < SMALL_NUMBER ∧
    ComputeGroundMovementDelta Rat.sqrt sampleComponent ⟨0, 3 / 100000, 4 / 100000⟩ rampHit
      false = ZeroVector := by
  have hS : SizeSquared (⟨3, 4, 0⟩ : FVector ℚ) = 25 := by norm_num [SizeSquared]
  have hT : SizeSquared (⟨0, 3 / 100000, 4 / 100000⟩ : FVector ℚ) < SMALL_NUMBER := by
    norm_num [SizeSquared, SMALL_NUMBER]
  have h := (ComputeGroundMovementDelta_ramp_is_projection Rat.sqrt sampleComponent
    ⟨3, 4, 0⟩ rampHit rampHit_is_ramp).2
    (by rw [hS]; norm_num [SMALL_NUMBER])
    (by norm_num [rampHit, sampleHit, DotProduct])
    (by rw [hS, Rat_sqrt_25]; norm_num)
    (by rw [hS, Rat_sqrt_25]; norm_num)
  refine ⟨?_, h.2.1, ?_, hT,
    (ComputeGroundMovementDelta_ramp_is_projection Rat.sqrt sampleComponent
      ⟨0, 3 / 100000, 4 / 100000⟩ rampHit rampHit_is_ramp).1 hT⟩
  · rw [h.1]
    apply FVector_eq <;> norm_num [rampHit, sampleHit, DotProduct, FVector.sub, FVector.scale]
  · rw [h.2.2.1, hS]
    norm_num [rampHit, sampleHit, DotProduct]

theorem StartFalling_hands_on (Sqrt : F → F) (W : World F) (c : UGravityMovementcomponent F)
    (Iterations : Int) (remainingTime timeTick : F) (Delta subLoc : FVector F) :
    StartFalling Sqrt W c Iterations remainingTime timeTick Delta subLoc =
      W.StartNewPhysics
        (if IsMovingOnGround c then
          if W.bDelayFallingInEditor = false then SetMovementMode W c .MOVE_Falling 0
          else c.setForceNextFloorCheck true
        else c)
        (StartFalling_RemainingTime Sqrt c remainingTime timeTick Delta subLoc) Iterations :=
  rfl

theorem StartFalling_RemainingTime_formula (Sqrt : F → F) (c : UGravityMovementcomponent F)
    (remainingTime timeTick : F) (Delta subLoc : FVector F)
    (hD : ¬ (Size Sqrt Delta < KINDA_SMALL_NUMBER)) :
    StartFalling_RemainingTime Sqrt c remainingTime timeTick Delta subLoc =
      remainingTime + timeTick *
        (1 - min 1 (LateralDistance Sqrt c c.Location subLoc / Size Sqrt Delta)) := by
  unfold StartFalling_RemainingTime
  simp only []
  rw [if_neg hD]
  rfl

theorem PhysWalking_Move_jump (Sqrt : F → F) (W : World F) (c : UGravityMovementcomponent F)
    (L : WalkingLocals F)
    (hZ : IsNearlyZero (scale c.Velocity L.timeTick) KINDA_SMALL_NUMBER = false)
    (hF : IsFalling (MoveAlongFloor Sqrt W c c.Velocity L.timeTick).1 = true) :
    PhysWalking_Move Sqrt W c L =
      .returned (W.StartNewPhysics (MoveAlongFloor Sqrt W c c.Velocity L.timeTick).1
        (PhysWalking_JumpRemainingTime Sqrt (MoveAlongFloor Sqrt W c c.Velocity L.timeTick).1
          L.remainingTime L.timeTick (scale c.Velocity L.timeTick) L.OldLocation)
        L.Iterations) := by
  unfold PhysWalking_Move
  simp only [hZ, hF, Bool.false_eq_true, if_false, if_true]
  rfl

/-- C22: StartFalling hands on to StartNewPhysics, with the iteration count it was given, a
remaining time that is 0 when |Delta| < KINDA_SMALL_NUMBER and otherwise
remainingTime + timeTick * (1 - min(1, ActualDist / |Delta|)), ActualDist being the distance
between the location and subLoc in the plane of the X and Y axes of the capsule.  In that
second case, for timeTick >= 0 and a square root that is never negative, the value lies in
[remainingTime, remainingTime + timeTick]; it is remainingTime + timeTick when the lateral
distance moved is zero (as when the actor did not move and the square root of 0 is 0), and
remainingTime when the lateral distance moved is at least the desired distance |Delta|. -/
theorem StartFalling_remaining_time (Sqrt : F → F) (hSqrt : ∀ s : F, 0 ≤ Sqrt s)
    (W : World F) (c : UGravityMovementcomponent F) (Iterations : Int)
    (remainingTime timeTick : F) (Delta subLoc : FVector F) (hT : 0 ≤ timeTick) :
    StartFalling Sqrt W c Iterations remainingTime timeTick Delta subLoc =
      W.StartNewPhysics
        (if IsMovingOnGround c then
          if W.bDelayFallingInEditor = false then SetMovementMode W c .MOVE_Falling 0
          else c.setForceNextFloorCheck true
        else c)
        (StartFalling_RemainingTime Sqrt c remainingTime timeTick Delta subLoc) Iterations ∧
    (Size Sqrt Delta < KINDA_SMALL_NUMBER →
      StartFalling_RemainingTime Sqrt c remainingTime timeTick Delta subLoc = 0) ∧
    (¬ (Size Sqrt Delta < KINDA_SMALL_NUMBER) →
      StartFalling_RemainingTime Sqrt c remainingTime timeTick Delta subLoc =
        remainingTime + timeTick *
          (1 - min 1 (LateralDistance Sqrt c c.Location subLoc / Size Sqrt Delta)) ∧
      remainingTime ≤ StartFalling_RemainingTime Sqrt c remainingTime timeTick Delta subLoc ∧
      StartFalling_RemainingTime Sqrt c remainingTime timeTick Delta subLoc
        ≤ remainingTime + timeTick ∧
      (LateralDistance Sqrt c c.Location subLoc = 0 →
        StartFalling_RemainingTime Sqrt c remainingTime timeTick Delta subLoc =
          remainingTime + timeTick) ∧
      (c.Location = subLoc → Sqrt 0 = 0 →
        StartFalling_RemainingTime Sqrt c remainingTime timeTick Delta subLoc =
          remainingTime + timeTick) ∧
      (Size Sqrt Delta ≤ LateralDistance Sqrt c c.Location subLoc →
        StartFalling_RemainingTime Sqrt c remainingTime timeTick Delta subLoc =
          remainingTime)) := by
  refine ⟨rfl, ?_, ?_⟩
  · intro hD
    unfold StartFalling_RemainingTime
    simp only []
    rw [if_pos hD]
  · intro hD
    have hK : (0 : F) < KINDA_SMALL_NUMBER := by norm_num [KINDA_SMALL_NUMBER]
    have hpos : 0 < Size Sqrt Delta := lt_of_lt_of_le hK (not_lt.mp hD)
    have hA : 0 ≤ LateralDistance Sqrt c c.Location subLoc := hSqrt _
    have hq : 0 ≤ LateralDistance Sqrt c c.Location subLoc / Size Sqrt Delta :=
      div_nonneg hA (le_of_lt hpos)
    have hm0 : 0 ≤ min 1 (LateralDistance Sqrt c c.Location subLoc / Size Sqrt Delta) :=
      le_min zero_le_one hq
    have hm1 : min 1 (LateralDistance Sqrt c c.Location subLoc / Size Sqrt Delta) ≤ 1 :=
      min_le_left _ _
    have hL0 : LateralDistance Sqrt c c.Location subLoc = 0 →
        StartFalling_RemainingTime Sqrt c remainingTime timeTick Delta subLoc =
          remainingTime + timeTick := by
      intro h0
      rw [StartFalling_RemainingTime_formula Sqrt c remainingTime timeTick Delta subLoc hD, h0,
        zero_div, min_eq_right zero_le_one, sub_zero, mul_one]
    rw [StartFalling_RemainingTime_formula Sqrt c remainingTime timeTick Delta subLoc hD]
    refine ⟨rfl, ?_, ?_, ?_, ?_, ?_⟩
    · have := mul_nonneg hT (sub_nonneg.mpr hm1)
      linarith
    · have := mul_le_mul_of_nonneg_left (sub_le_self 1 hm0) hT
      linarith
    · intro h0
      rw [← StartFalling_RemainingTime_formula Sqrt c remainingTime timeTick Delta subLoc hD]
      exact hL0 h0
    · intro hLoc hS0
      rw [← StartFalling_RemainingTime_formula Sqrt c remainingTime timeTick Delta subLoc hD]
      apply hL0
      unfold LateralDistance
      rw [hLoc]
      have e : DotProduct (sub subLoc subLoc) c.AxisX * DotProduct (sub subLoc subLoc) c.AxisX +
          DotProduct (sub subLoc subLoc) c.AxisY * DotProduct (sub subLoc subLoc) c.AxisY =
          0 := by
        simp only [DotProduct, FVector.sub]
        ring
      rw [e, hS0]
    · intro hge
      have h1 : 1 ≤ LateralDistance Sqrt c c.Location subLoc / Size Sqrt Delta :=
        (one_le_div hpos).mpr hge
      rw [min_eq_left h1, sub_self, mul_zero, add_zero]

theorem Rat_sqrt_9 : Rat.sqrt 9 = 3 := by
  rw [show (9 : ℚ) = 3 * 3 by norm_num, Rat.sqrt_eq]
  norm_num

theorem StartFalling_remaining_time_witness :
    ¬ (Size Rat.sqrt (⟨5, 0, 0⟩ : FVector ℚ) < KINDA_SMALL_NUMBER) ∧
    LateralDistance Rat.sqrt (sampleComponent.setLocation ⟨3, 0, 0⟩)
      (sampleComponent.setLocation ⟨3, 0, 0⟩).Location ⟨0, 0, 0⟩ = 3 ∧
    StartFalling_RemainingTime Rat.sqrt (sampleComponent.setLocation ⟨3, 0, 0⟩) (1 / 100)
      (1 / 60) ⟨5, 0, 0⟩ ⟨0, 0, 0⟩ = 1 / 60 ∧
    StartFalling Rat.sqrt
      { sampleWorld with StartNewPhysics := fun c r _ => c.setNavMeshProjectionTimer r } 
      (sampleComponent.setLocation ⟨3, 0, 0⟩) 1 (1 / 100) (1 / 60) ⟨5, 0, 0⟩ ⟨0, 0, 0⟩ =
      (SetMovementMode
        { sampleWorld with StartNewPhysics := fun c r _ => c.setNavMeshProjectionTimer r }
        (sampleComponent.setLocation ⟨3, 0, 0⟩) .MOVE_Falling 0).setNavMeshProjectionTimer
          (1 / 60) := by
  have hSz : Size Rat.sqrt (⟨5, 0, 0⟩ : FVector ℚ) = 5 := by
    have e : ((5 : ℚ) * 5 + 0 * 0 + 0 * 0) = 25 := by norm_num
    simp only [Size, e]
    rw [show (25 : ℚ) = 5 * 5 by norm_num, Rat.sqrt_eq]
    norm_num
  have hD : ¬ (Size Rat.sqrt (⟨5, 0, 0⟩ : FVector ℚ) < KINDA_SMALL_NUMBER) := by
    rw [hSz]
    norm_num [KINDA_SMALL_NUMBER]
  have hL : LateralDistance Rat.sqrt (sampleComponent.setLocation ⟨3, 0, 0⟩)
      (sampleComponent.setLocation ⟨3, 0, 0⟩).Location ⟨0, 0, 0⟩ = 3 := by
    have h1 : (sampleComponent.setLocation ⟨3, 0, 0⟩).Location = ⟨3, 0, 0⟩ := rfl
    have h2 : (sampleComponent.setLocation ⟨3, 0, 0⟩).AxisX = ⟨1, 0, 0⟩ := rfl
    have h3 : (sampleComponent.setLocation ⟨3, 0, 0⟩).AxisY = ⟨0, 1, 0⟩ := rfl
    unfold LateralDistance
    rw [h1, h2, h3]
    norm_num [DotProduct, FVector.sub, Rat_sqrt_9]
  have hV : StartFalling_RemainingTime Rat.sqrt (sampleComponent.setLocation ⟨3, 0, 0⟩)
      (1 / 100) (1 / 60) ⟨5, 0, 0⟩ ⟨0, 0, 0⟩ = 1 / 60 := by
    rw [((StartFalling_remaining_time Rat.sqrt Rat.sqrt_nonneg sampleWorld
      (sampleComponent.setLocation ⟨3, 0, 0⟩) 1 (1 / 100) (1 / 60) ⟨5, 0, 0⟩ ⟨0, 0, 0⟩
      (by norm_num)).2.2 hD).1, hL, hSz]
    norm_num
  refine ⟨hD, hL, hV, ?_⟩
  rw [(StartFalling_remaining_time Rat.sqrt Rat.sqrt_nonneg _
      (sampleComponent.setLocation ⟨3, 0, 0⟩) 1 (1 / 100) (1 / 60) ⟨5, 0, 0⟩ ⟨0, 0, 0⟩
      (by norm_num)).1, hV]
  rfl

theorem SetFromLineTrace_WalkableHasHit (r : FFindFloorResult F) (InHit : FHitResult F)
    (a b : F) (w : Bool) (h : WalkableHasHit r) :
    WalkableHasHit (r.SetFromLineTrace InHit a b w) := by
  unfold FFindFloorResult.SetFromLineTrace
  by_cases hc : r.HitResult.bBlockingHit = true ∧ InHit.bBlockingHit = true
  · rw [if_pos hc]
    intro _
    exact hc.2
  · rw [if_neg hc]
    exact h

theorem ComputeFloorDist_Supplied_WalkableHasHit (Sqrt : F → F)
    (c : UGravityMovementcomponent F) (CapsuleLocation : FVector F)
    (DownwardSweepResult : Option (FHitResult F)) :
    WalkableHasHit
      (ComputeFloorDist_Supplied Sqrt c CapsuleLocation DownwardSweepResult).2.1 := by
  unfold ComputeFloorDist_Supplied
  cases DownwardSweepResult with
  | none => exact fun h => Bool.noConfusion h
  | some Down =>
    simp only []
    by_cases hv : Down.IsValidBlockingHit = true
    · have hb : Down.bBlockingHit = true := by
        simp only [FHitResult.IsValidBlockingHit, Bool.and_eq_true] at hv
        exact hv.1
      rw [if_pos hv]
      repeat' (first
        | exact fun h => Bool.noConfusion h
        | exact fun _ => hb
        | (apply ite_pred (fun x : Bool × FFindFloorResult F × Bool => WalkableHasHit x.2.1)
            <;> intro _))
    · rw [if_neg hv]
      exact fun h => Bool.noConfusion h

theorem ComputeFloorDist_Sweep_WalkableHasHit (Sqrt : F → F) (W : World F)
    (c : UGravityMovementcomponent F) (CapsuleLocation : FVector F)
    (SweepDistance SweepRadius : F) (OutFloorResult : FFindFloorResult F)
    (h : WalkableHasHit OutFloorResult) :
    WalkableHasHit (ComputeFloorDist_Sweep Sqrt W c CapsuleLocation SweepDistance SweepRadius
      OutFloorResult).1 := by
  unfold ComputeFloorDist_Sweep
  simp only []
  apply ite_pred (fun x : FFindFloorResult F × Bool × List (FloorEvent F) =>
    WalkableHasHit x.1)
  · intro _
    apply ite_pred (fun x : FFindFloorResult F × Bool × List (FloorEvent F) =>
      WalkableHasHit x.1)
    · intro hc _
      have hv := hc.1
      simp only [FHitResult.IsValidBlockingHit, Bool.and_eq_true] at hv
      exact hv.1
    · intro _
      exact fun h => Bool.noConfusion h
  · intro _
    exact h

theorem ComputeFloorDist_Line_WalkableHasHit (W : World F) (c : UGravityMovementcomponent F)
    (CapsuleLocation : FVector F) (LineDistance SweepDistance : F)
    (OutFloorResult : FFindFloorResult F) (h : WalkableHasHit OutFloorResult) :
    WalkableHasHit (ComputeFloorDist_Line W c CapsuleLocation LineDistance SweepDistance
      OutFloorResult).1 := by
  unfold ComputeFloorDist_Line
  simp only []
  repeat' (first
    | exact h
    | exact fun h => Bool.noConfusion h
    | exact SetFromLineTrace_WalkableHasHit _ _ _ _ _ h
    | (apply ite_pred (fun x : FFindFloorResult F × List (FloorEvent F) => WalkableHasHit x.1)
        <;> intro _))

theorem ComputeFloorDist_WalkableHasHit (Sqrt : F → F) (W : World F)
    (c : UGravityMovementcomponent F) (CapsuleLocation : FVector F)
    (LineDistance SweepDistance SweepRadius : F)
    (DownwardSweepResult : Option (FHitResult F)) :
    WalkableHasHit (ComputeFloorDist Sqrt W c CapsuleLocation LineDistance SweepDistance
      SweepRadius DownwardSweepResult).1 := by
  have h0 := ComputeFloorDist_Supplied_WalkableHasHit Sqrt c CapsuleLocation DownwardSweepResult
  unfold ComputeFloorDist
  simp only []
  generalize ComputeFloorDist_Supplied Sqrt c CapsuleLocation DownwardSweepResult = d at h0 ⊢
  have h1 := ComputeFloorDist_Sweep_WalkableHasHit Sqrt W c CapsuleLocation SweepDistance
    SweepRadius d.2.1 h0
  generalize ComputeFloorDist_Sweep Sqrt W c CapsuleLocation SweepDistance SweepRadius d.2.1 = s
    at h1 ⊢
  repeat' (first
    | exact h0
    | exact h1
    | exact ComputeFloorDist_Line_WalkableHasHit W c _ _ _ _ h1
    | exact ComputeFloorDist_Line_WalkableHasHit W c _ _ _ _ h0
    | (apply ite_pred (fun x : FFindFloorResult F × List (FloorEvent F) => WalkableHasHit x.1)
        <;> intro _))

theorem ComputePerchResult_true (Sqrt : F → F) (W : World F) (c : UGravityMovementcomponent F)
    (TestRadius : F) (InHit : FHitResult F) (InMaxFloorDist : F)
    (OutPerchFloorResult : FFindFloorResult F)
    (h : (ComputePerchResult Sqrt W c TestRadius InHit InMaxFloorDist OutPerchFloorResult).1
      = true) :
    (ComputePerchResult Sqrt W c TestRadius InHit InMaxFloorDist
      OutPerchFloorResult).2.1.IsWalkableFloor = true ∧
    (ComputePerchResult Sqrt W c TestRadius InHit InMaxFloorDist
      OutPerchFloorResult).2.1.HitResult.bBlockingHit = true := by
  unfold ComputePerchResult at h ⊢
  by_cases h1 : InMaxFloorDist ≤ 0
  · rw [if_pos h1] at h
    exact Bool.noConfusion h
  · rw [if_neg h1] at h ⊢
    simp only [] at h ⊢
    have hI := ComputeFloorDist_WalkableHasHit Sqrt W c
      (if c.bUseFlatBaseForFloorChecks = true then InHit.TraceStart else InHit.Location)
      (max 0 (InMaxFloorDist - max 0
        (DotProduct InHit.ImpactPoint (neg c.GravityDirection) -
          (DotProduct (if c.bUseFlatBaseForFloorChecks = true then InHit.TraceStart
            else InHit.Location) (neg c.GravityDirection) - c.PawnHalfHeight))))
      (max 0 InMaxFloorDist + c.PawnRadius) TestRadius none
    generalize ComputeFloorDist Sqrt W c
      (if c.bUseFlatBaseForFloorChecks = true then InHit.TraceStart else InHit.Location)
      (max 0 (InMaxFloorDist - max 0
        (DotProduct InHit.ImpactPoint (neg c.GravityDirection) -
          (DotProduct (if c.bUseFlatBaseForFloorChecks = true then InHit.TraceStart
            else InHit.Location) (neg c.GravityDirection) - c.PawnHalfHeight))))
      (max 0 InMaxFloorDist + c.PawnRadius) TestRadius none = d at h hI ⊢
    by_cases h2 : d.1.IsWalkableFloor = false
    · rw [if_pos h2] at h
      exact Bool.noConfusion h
    · rw [if_neg h2] at h ⊢
      by_cases h3 : max 0
          (DotProduct InHit.ImpactPoint (neg c.GravityDirection) -
            (DotProduct (if c.bUseFlatBaseForFloorChecks = true then InHit.TraceStart
              else InHit.Location) (neg c.GravityDirection) - c.PawnHalfHeight)) +
          d.1.FloorDist > InMaxFloorDist
      · rw [if_pos h3] at h
        exact Bool.noConfusion h
      · rw [if_neg h3]
        have hw : d.1.IsWalkableFloor = true := by
          cases hx : d.1.IsWalkableFloor
          · exact absurd hx h2
          · rfl
        refine ⟨hw, hI ?_⟩
        simp only [FFindFloorResult.IsWalkableFloor, Bool.and_eq_true] at hw
        exact hw.2

theorem FindFloor_Perch_fails (Sqrt : F → F) (W : World F) (c : UGravityMovementcomponent F)
    (OutFloorResult : FFindFloorResult F)
    (hShould : ShouldComputePerchResult Sqrt c OutFloorResult.HitResult true = true)
    (hPerch : (ComputePerchResult Sqrt W c (GetValidPerchRadius c) OutFloorResult.HitResult
      (MaxPerchFloorDist c) FFindFloorResult.Clear).1 = false) :
    (FindFloor_Perch Sqrt W c
      (if IsMovingOnGround c then MAX_FLOOR_DIST + KINDA_SMALL_NUMBER else -MAX_FLOOR_DIST)
      OutFloorResult).1 = { OutFloorResult with bWalkableFloor := false } := by
  unfold MaxPerchFloorDist at hPerch
  unfold FindFloor_Perch
  simp only []
  rw [if_pos hShould, hPerch]
  rfl

theorem FindFloor_Perch_promotes (Sqrt : F → F) (W : World F)
    (c : UGravityMovementcomponent F) (OutFloorResult : FFindFloorResult F)
    (hShould : ShouldComputePerchResult Sqrt c OutFloorResult.HitResult true = true)
    (hPerch : (ComputePerchResult Sqrt W c (GetValidPerchRadius c) OutFloorResult.HitResult
      (MaxPerchFloorDist c) FFindFloorResult.Clear).1 = true)
    (hUnwalkable : OutFloorResult.bWalkableFloor = false) :
    (FindFloor_Perch Sqrt W c
      (if IsMovingOnGround c then MAX_FLOOR_DIST + KINDA_SMALL_NUMBER else -MAX_FLOOR_DIST)
      OutFloorResult).1.bWalkableFloor = true ∧
    (FindFloor_Perch Sqrt W c
      (if IsMovingOnGround c then MAX_FLOOR_DIST + KINDA_SMALL_NUMBER else -MAX_FLOOR_DIST)
      OutFloorResult).1.bBlockingHit = OutFloorResult.bBlockingHit ∧
    (FindFloor_Perch Sqrt W c
      (if IsMovingOnGround c then MAX_FLOOR_DIST + KINDA_SMALL_NUMBER else -MAX_FLOOR_DIST)
      OutFloorResult).1.HitResult =
      { (ComputePerchResult Sqrt W c (GetValidPerchRadius c) OutFloorResult.HitResult
          (MaxPerchFloorDist c) FFindFloorResult.Clear).2.1.HitResult with
        Time := OutFloorResult.HitResult.Time,
        ImpactPoint := OutFloorResult.HitResult.ImpactPoint,
        Location := OutFloorResult.HitResult.Location,
        TraceStart := OutFloorResult.HitResult.TraceStart,
        TraceEnd := OutFloorResult.HitResult.TraceEnd } := by
  have hT := ComputePerchResult_true Sqrt W c (GetValidPerchRadius c) OutFloorResult.HitResult
    (MaxPerchFloorDist c) FFindFloorResult.Clear hPerch
  have hB : OutFloorResult.HitResult.bBlockingHit = true := by
    unfold ShouldComputePerchResult at hShould
    by_cases hv : OutFloorResult.HitResult.IsValidBlockingHit = false
    · rw [if_pos hv] at hShould
      exact Bool.noConfusion hShould
    · have hv' : OutFloorResult.HitResult.IsValidBlockingHit = true := by
        cases hx : OutFloorResult.HitResult.IsValidBlockingHit
        · exact absurd hx hv
        · rfl
      simp only [FHitResult.IsValidBlockingHit, Bool.and_eq_true] at hv'
      exact hv'.1
  unfold MaxPerchFloorDist at hPerch hT ⊢
  unfold FindFloor_Perch
  simp only []
  rw [if_pos hShould, hPerch]
  simp only [if_true]
  generalize (ComputePerchResult Sqrt W c (GetValidPerchRadius c) OutFloorResult.HitResult
    _ FFindFloorResult.Clear).2.1 = P at hT ⊢
  by_cases hm : (MIN_FLOOR_DIST + MAX_FLOOR_DIST) * (1 / 2) - OutFloorResult.FloorDist +
      P.FloorDist ≥
      (if IsMovingOnGround c = true then
        max MAX_FLOOR_DIST (c.MaxStepHeight +
          (if IsMovingOnGround c = true then MAX_FLOOR_DIST + KINDA_SMALL_NUMBER
            else -MAX_FLOOR_DIST)) + max 0 c.PerchAdditionalHeight
      else max MAX_FLOOR_DIST (c.MaxStepHeight +
          (if IsMovingOnGround c = true then MAX_FLOOR_DIST + KINDA_SMALL_NUMBER
            else -MAX_FLOOR_DIST)))
  · rw [if_pos hm]
    simp only [hUnwalkable, if_true]
    unfold FFindFloorResult.SetFromLineTrace
    rw [if_pos ⟨hB, hT.2⟩]
    exact ⟨rfl, rfl, rfl⟩
  · rw [if_neg hm]
    simp only [hUnwalkable, if_true]
    unfold FFindFloorResult.SetFromLineTrace
    rw [if_pos ⟨hB, hT.2⟩]
    exact ⟨rfl, rfl, rfl⟩

theorem FindFloor_fresh_result (Sqrt : F → F) (W : World F) (c : UGravityMovementcomponent F)
    (CapsuleLocation : FVector F) (OutFloorResult : FFindFloorResult F)
    (bCanUseCachedLocation : Bool) (DownwardSweepResult : Option (FHitResult F))
    (hValid : c.bHasCharacterOwner = true) (hQuery : c.bQueryCollisionEnabled = true)
    (hFresh : ¬ FloorCacheUsable W c bCanUseCachedLocation)
    (hBlock : (ComputeFloorDist Sqrt W c CapsuleLocation (FloorSweepTraceDist c)
      (FloorSweepTraceDist c) c.PawnRadius DownwardSweepResult).1.bBlockingHit = true)
    (hLine : (ComputeFloorDist Sqrt W c CapsuleLocation (FloorSweepTraceDist c)
      (FloorSweepTraceDist c) c.PawnRadius DownwardSweepResult).1.bLineTrace = false) :
    (FindFloor Sqrt W c CapsuleLocation OutFloorResult bCanUseCachedLocation
      DownwardSweepResult).OutFloorResult =
      (FindFloor_Perch Sqrt W c
        (if IsMovingOnGround c then MAX_FLOOR_DIST + KINDA_SMALL_NUMBER else -MAX_FLOOR_DIST)
        (ComputeFloorDist Sqrt W c CapsuleLocation (FloorSweepTraceDist c)
          (FloorSweepTraceDist c) c.PawnRadius DownwardSweepResult).1).1 := by
  have hp := FloorSweepTraceDist_pos c
  unfold FloorSweepTraceDist at hp hBlock hLine ⊢
  unfold FindFloor
  rw [if_neg (by simp [hValid, hQuery])]
  simp only []
  rw [if_pos (Or.inl hp), FindFloor_Sweep_fresh Sqrt W c _ _ _ _ _ hFresh]
  simp only []
  rw [if_pos ⟨trivial, hBlock, hLine⟩]

theorem ComputeFloorDist_miss (Sqrt : F → F) (W : World F) (c : UGravityMovementcomponent F)
    (CapsuleLocation : FVector F) (LineDistance SweepDistance SweepRadius : F)
    (hMiss : ∀ Start End HalfHeight,
      (FloorSweepTest W c Start End SweepRadius HalfHeight).1 = false) :
    (ComputeFloorDist Sqrt W c CapsuleLocation LineDistance SweepDistance SweepRadius
      none).1.IsWalkableFloor = false := by
  have hS : (ComputeFloorDist_Sweep Sqrt W c CapsuleLocation SweepDistance SweepRadius
      FFindFloorResult.Clear).1 = FFindFloorResult.Clear ∧
      (ComputeFloorDist_Sweep Sqrt W c CapsuleLocation SweepDistance SweepRadius
      FFindFloorResult.Clear).2.1 = false := by
    unfold ComputeFloorDist_Sweep
    simp only [hMiss, Bool.false_eq_true, if_false, and_self]
  have hL : (ComputeFloorDist_Line W c CapsuleLocation LineDistance SweepDistance
      FFindFloorResult.Clear).1.IsWalkableFloor = false := by
    unfold ComputeFloorDist_Line
    have h1 : (FFindFloorResult.Clear : FFindFloorResult F).bBlockingHit = false := rfl
    have h2 : (FFindFloorResult.Clear : FFindFloorResult F).HitResult.bStartPenetrating =
        false := rfl
    rw [if_pos ⟨h1, h2⟩]
    rfl
  have hD : ComputeFloorDist_Supplied Sqrt c CapsuleLocation none =
      (false, FFindFloorResult.Clear, false) := rfl
  unfold ComputeFloorDist
  simp only [hD, hS.1, hS.2, Bool.false_eq_true, if_false]
  repeat' (first
    | exact hL
    | rfl
    | (apply ite_pred (fun x : FFindFloorResult F × List (FloorEvent F) =>
        x.1.IsWalkableFloor = false) <;> intro _))

theorem ComputePerchResult_miss (Sqrt : F → F) (W : World F) (c : UGravityMovementcomponent F)
    (TestRadius : F) (InHit : FHitResult F) (InMaxFloorDist : F)
    (OutPerchFloorResult : FFindFloorResult F)
    (hMiss : ∀ Start End HalfHeight,
      (FloorSweepTest W c Start End TestRadius HalfHeight).1 = false) :
    (ComputePerchResult Sqrt W c TestRadius InHit InMaxFloorDist OutPerchFloorResult).1
      = false := by
  unfold ComputePerchResult
  simp only [ComputeFloorDist_miss Sqrt W c _ _ _ TestRadius hMiss, if_true]
  apply ite_pred (fun x : Bool × FFindFloorResult F × List (FloorEvent F) => x.1 = false)
  · intro _; rfl
  · intro _; rfl

/-- C23: in FindFloor, with valid data and query collision enabled, when the probe is fresh
(the cached floor is not reused) and yields a blocking floor hit that is not a line trace and
for which ShouldComputePerchResult is true: if ComputePerchResult returns false, the returned
floor result has bWalkableFloor = false; if ComputePerchResult returns true while the main
probe was unwalkable, the returned floor result is walkable (IsWalkableFloor) and its hit is
the hit of the perch probe (its normal, impact normal and component, the surface), with the
time, impact point, location and trace ends of the main hit kept. -/
theorem FindFloor_perch_decides (Sqrt : F → F) (W : World F) (c : UGravityMovementcomponent F)
    (CapsuleLocation : FVector F) (OutFloorResult : FFindFloorResult F)
    (bCanUseCachedLocation : Bool) (DownwardSweepResult : Option (FHitResult F))
    (hValid : c.bHasCharacterOwner = true) (hQuery : c.bQueryCollisionEnabled = true)
    (hFresh : ¬ FloorCacheUsable W c bCanUseCachedLocation)
    (hBlock : (ComputeFloorDist Sqrt W c CapsuleLocation (FloorSweepTraceDist c)
      (FloorSweepTraceDist c) c.PawnRadius DownwardSweepResult).1.bBlockingHit = true)
    (hLine : (ComputeFloorDist Sqrt W c CapsuleLocation (FloorSweepTraceDist c)
      (FloorSweepTraceDist c) c.PawnRadius DownwardSweepResult).1.bLineTrace = false)
    (hShould : ShouldComputePerchResult Sqrt c
      (ComputeFloorDist Sqrt W c CapsuleLocation (FloorSweepTraceDist c)
        (FloorSweepTraceDist c) c.PawnRadius DownwardSweepResult).1.HitResult true = true) :
    ((ComputePerchResult Sqrt W c (GetValidPerchRadius c)
        (ComputeFloorDist Sqrt W c CapsuleLocation (FloorSweepTraceDist c)
          (FloorSweepTraceDist c) c.PawnRadius DownwardSweepResult).1.HitResult
        (MaxPerchFloorDist c) FFindFloorResult.Clear).1 = false →
      (FindFloor Sqrt W c CapsuleLocation OutFloorResult bCanUseCachedLocation
        DownwardSweepResult).OutFloorResult.bWalkableFloor = false) ∧
    ((ComputePerchResult Sqrt W c (GetValidPerchRadius c)
        (ComputeFloorDist Sqrt W c CapsuleLocation (FloorSweepTraceDist c)
          (FloorSweepTraceDist c) c.PawnRadius DownwardSweepResult).1.HitResult
        (MaxPerchFloorDist c) FFindFloorResult.Clear).1 = true →
      (ComputeFloorDist Sqrt W c CapsuleLocation (FloorSweepTraceDist c)
        (FloorSweepTraceDist c) c.PawnRadius DownwardSweepResult).1.bWalkableFloor = false →
      (FindFloor Sqrt W c CapsuleLocation OutFloorResult bCanUseCachedLocation
        DownwardSweepResult).OutFloorResult.IsWalkableFloor = true ∧
      (FindFloor Sqrt W c CapsuleLocation OutFloorResult bCanUseCachedLocation
        DownwardSweepResult).OutFloorResult.HitResult =
        { (ComputePerchResult Sqrt W c (GetValidPerchRadius c)
            (ComputeFloorDist Sqrt W c CapsuleLocation (FloorSweepTraceDist c)
              (FloorSweepTraceDist c) c.PawnRadius DownwardSweepResult).1.HitResult
            (MaxPerchFloorDist c) FFindFloorResult.Clear).2.1.HitResult with
          Time := (ComputeFloorDist Sqrt W c CapsuleLocation (FloorSweepTraceDist c)
            (FloorSweepTraceDist c) c.PawnRadius DownwardSweepResult).1.HitResult.Time,
          ImpactPoint := (ComputeFloorDist Sqrt W c CapsuleLocation (FloorSweepTraceDist c)
            (FloorSweepTraceDist c) c.PawnRadius DownwardSweepResult).1.HitResult.ImpactPoint,
          Location := (ComputeFloorDist Sqrt W c CapsuleLocation (FloorSweepTraceDist c)
            (FloorSweepTraceDist c) c.PawnRadius DownwardSweepResult).1.HitResult.Location,
          TraceStart := (ComputeFloorDist Sqrt W c CapsuleLocation (FloorSweepTraceDist c)
            (FloorSweepTraceDist c) c.PawnRadius DownwardSweepResult).1.HitResult.TraceStart,
          TraceEnd := (ComputeFloorDist Sqrt W c CapsuleLocation (FloorSweepTraceDist c)
            (FloorSweepTraceDist c) c.PawnRadius DownwardSweepResult).1.HitResult.TraceEnd } ∧
      (FindFloor Sqrt W c CapsuleLocation OutFloorResult bCanUseCachedLocation
        DownwardSweepResult).OutFloorResult.HitResult.ImpactNormal =
        (ComputePerchResult Sqrt W c (GetValidPerchRadius c)
          (ComputeFloorDist Sqrt W c CapsuleLocation (FloorSweepTraceDist c)
            (FloorSweepTraceDist c) c.PawnRadius DownwardSweepResult).1.HitResult
          (MaxPerchFloorDist c) FFindFloorResult.Clear).2.1.HitResult.ImpactNormal ∧
      (FindFloor Sqrt W c CapsuleLocation OutFloorResult bCanUseCachedLocation
        DownwardSweepResult).OutFloorResult.HitResult.Normal =
        (ComputePerchResult Sqrt W c (GetValidPerchRadius c)
          (ComputeFloorDist Sqrt W c CapsuleLocation (FloorSweepTraceDist c)
            (FloorSweepTraceDist c) c.PawnRadius DownwardSweepResult).1.HitResult
          (MaxPerchFloorDist c) FFindFloorResult.Clear).2.1.HitResult.Normal ∧
      (FindFloor Sqrt W c CapsuleLocation OutFloorResult bCanUseCachedLocation
        DownwardSweepResult).OutFloorResult.HitResult.Component =
        (ComputePerchResult Sqrt W c (GetValidPerchRadius c)
          (ComputeFloorDist Sqrt W c CapsuleLocation (FloorSweepTraceDist c)
            (FloorSweepTraceDist c) c.PawnRadius DownwardSweepResult).1.HitResult
          (MaxPerchFloorDist c) FFindFloorResult.Clear).2.1.HitResult.Component) := by
  have hR := FindFloor_fresh_result Sqrt W c CapsuleLocation OutFloorResult
    bCanUseCachedLocation DownwardSweepResult hValid hQuery hFresh hBlock hLine
  rw [hR]
  generalize (ComputeFloorDist Sqrt W c CapsuleLocation (FloorSweepTraceDist c)
    (FloorSweepTraceDist c) c.PawnRadius DownwardSweepResult).1 = probe at hBlock hShould ⊢
  constructor
  · intro hPerch
    rw [FindFloor_Perch_fails Sqrt W c probe hShould hPerch]
  · intro hPerch hUnwalkable
    obtain ⟨h1, h2, h3⟩ := FindFloor_Perch_promotes Sqrt W c probe hShould hPerch hUnwalkable
    refine ⟨?_, h3, ?_, ?_, ?_⟩
    · simp only [FFindFloorResult.IsWalkableFloor, h1, h2, hBlock, Bool.and_self]
    · rw [h3]
    · rw [h3]
    · rw [h3]

theorem Rat_sqrt_900 : Rat.sqrt 900 = 30 := by
  rw [show (900 : ℚ) = 30 * 30 by norm_num, Rat.sqrt_eq]
  norm_num

theorem ledge_FloorSweepTraceDist : FloorSweepTraceDist ledgeComponent = 474001 / 10000 := by
  have hM : IsMovingOnGround ledgeComponent = true := rfl
  have hS : ledgeComponent.MaxStepHeight = 45 := rfl
  unfold FloorSweepTraceDist
  rw [hM, hS]
  norm_num [MAX_FLOOR_DIST, KINDA_SMALL_NUMBER]

theorem ledge_Sweep :
    ComputeFloorDist_Sweep Rat.sqrt ledgeWorld ledgeComponent ⟨0, 0, 0⟩ (474001 / 10000) 34
      FFindFloorResult.Clear =
      ({ FFindFloorResult.SetFromSweep ledgeHit 2 false with bWalkableFloor := true }, true,
        [.Sweep ⟨0, 0, 0⟩ ⟨0, 0, -528001 / 10000⟩ (.CapsuleQuat ⟨1, 0, 0⟩ ⟨0, 1, 0⟩)
          (.Capsule 34 (413 / 5))]) := by
  have hG : ledgeComponent.GravityDirection = ⟨0, 0, -1⟩ := rfl
  have hH : ledgeComponent.PawnHalfHeight = 88 := rfl
  have hR : ledgeComponent.PawnRadius = 34 := rfl
  have hE : add (⟨0, 0, 0⟩ : FVector ℚ)
      (scale ⟨0, 0, -1⟩ (474001 / 10000 + (88 - 34) * (1 - 9 / 10))) =
      ⟨0, 0, -528001 / 10000⟩ := by
    apply FVector_eq <;> norm_num [FVector.add, FVector.scale]
  have hS : FloorSweepTest ledgeWorld ledgeComponent ⟨0, 0, 0⟩ ⟨0, 0, -528001 / 10000⟩ 34
      (88 - (88 - 34) * (1 - 9 / 10)) =
      (true, ledgeHit,
        [.Sweep ⟨0, 0, 0⟩ ⟨0, 0, -528001 / 10000⟩ (.CapsuleQuat ⟨1, 0, 0⟩ ⟨0, 1, 0⟩)
          (.Capsule 34 (413 / 5))]) := by
    have hB : ledgeComponent.bUseFlatBaseForFloorChecks = false := rfl
    have hX : ledgeComponent.AxisX = ⟨1, 0, 0⟩ := rfl
    have hY : ledgeComponent.AxisY = ⟨0, 1, 0⟩ := rfl
    unfold FloorSweepTest
    rw [if_pos hB, hX, hY]
    have e : (88 - (88 - 34) * (1 - 9 / 10) : ℚ) = 413 / 5 := by norm_num
    rw [e]
    have hW : ledgeWorld.SweepSingleByChannel ⟨0, 0, 0⟩ ⟨0, 0, -528001 / 10000⟩
        (.CapsuleQuat ⟨1, 0, 0⟩ ⟨0, 1, 0⟩) (.Capsule 34 (413 / 5)) = (true, ledgeHit) := by
      show (if (30 : ℚ) < 34 then (true, ledgeHit) else (false, FHitResult.init 1)) = _
      norm_num
    rw [hW]
  have hT : IsWithinEdgeTolerance Rat.sqrt ledgeComponent ⟨0, 0, 0⟩ ⟨30, 0, -72⟩ 34 = true := by
    unfold IsWithinEdgeTolerance FindClosestPointOnLine
    rw [hG]
    norm_num [GetSafeNormal, Distance, Size, DotProduct, FVector.sub, FVector.add,
      FVector.scale, SWEEP_EDGE_REJECT_DISTANCE, KINDA_SMALL_NUMBER, Rat_sqrt_900]
  have hW : IsWalkable ledgeComponent ledgeHit = true := by
    unfold IsWalkable
    rw [hG]
    norm_num [ledgeHit, sampleHit, FHitResult.IsValidBlockingHit, DotProduct, FVector.neg,
      KINDA_SMALL_NUMBER, TestWalkableZ, ledgeComponent, walkingComponent, sampleComponent]
  have hP : ledgeHit.bStartPenetrating = false := rfl
  have hI : ledgeHit.ImpactPoint = ⟨30, 0, -72⟩ := rfl
  have hTi : ledgeHit.Time = 74000 / 528001 := rfl
  have hV : ledgeHit.IsValidBlockingHit = true := rfl
  unfold ComputeFloorDist_Sweep
  simp only [hG, hH, hR, hE, hS, if_true]
  simp only [hP, hI, hT, Bool.false_eq_true, Bool.true_eq_false, or_self, if_false, hW, hTi, hV,
    true_and]
  norm_num [MAX_FLOOR_DIST]

theorem ledge_probe :
    ComputeFloorDist Rat.sqrt ledgeWorld ledgeComponent ⟨0, 0, 0⟩
      (FloorSweepTraceDist ledgeComponent) (FloorSweepTraceDist ledgeComponent)
      ledgeComponent.PawnRadius none =
      ({ FFindFloorResult.SetFromSweep ledgeHit 2 false with bWalkableFloor := true },
        [.ComputeFloorDist ⟨0, 0, 0⟩ (474001 / 10000) (474001 / 10000) 34,
         .Sweep ⟨0, 0, 0⟩ ⟨0, 0, -528001 / 10000⟩ (.CapsuleQuat ⟨1, 0, 0⟩ ⟨0, 1, 0⟩)
          (.Capsule 34 (413 / 5))]) := by
  have hR : ledgeComponent.PawnRadius = 34 := rfl
  have hD : ComputeFloorDist_Supplied Rat.sqrt ledgeComponent ⟨0, 0, 0⟩ none =
      (false, FFindFloorResult.Clear, false) := rfl
  rw [ledge_FloorSweepTraceDist, hR]
  unfold ComputeFloorDist
  simp only [hD, ledge_Sweep]
  norm_num

theorem ledge_ShouldComputePerchResult :
    ShouldComputePerchResult Rat.sqrt ledgeComponent ledgeHit true = true := by
  have hG : ledgeComponent.GravityDirection = ⟨0, 0, -1⟩ := rfl
  have hV : ledgeHit.IsValidBlockingHit = true := rfl
  have hI : ledgeHit.ImpactPoint = ⟨30, 0, -72⟩ := rfl
  have hL : ledgeHit.Location = ⟨0, 0, -37 / 5⟩ := rfl
  have hT : GetPerchRadiusThreshold ledgeComponent = 10 := by
    have h : ledgeComponent.PerchRadiusThreshold = 10 := rfl
    unfold GetPerchRadiusThreshold
    rw [h]
    norm_num
  have hP : GetValidPerchRadius ledgeComponent = 24 := by
    have ho : ledgeComponent.bHasCharacterOwner = true := rfl
    have hr : ledgeComponent.PawnRadius = 34 := rfl
    unfold GetValidPerchRadius
    rw [ho, hT, hr]
    norm_num [Clamp]
  unfold ShouldComputePerchResult FindClosestPointOnLine
  rw [hV, hT, hP, hI, hL, hG]
  norm_num [GetSafeNormal, Distance, Size, DotProduct, FVector.sub, FVector.add,
    FVector.scale, SWEEP_EDGE_REJECT_DISTANCE, Rat_sqrt_900]

theorem ledge_perch_misses :
    (ComputePerchResult Rat.sqrt ledgeWorld ledgeComponent (GetValidPerchRadius ledgeComponent)
      ledgeHit (MaxPerchFloorDist ledgeComponent) FFindFloorResult.Clear).1 = false := by
  have hP : GetValidPerchRadius ledgeComponent = 24 := by
    have ho : ledgeComponent.bHasCharacterOwner = true := rfl
    have hr : ledgeComponent.PawnRadius = 34 := rfl
    have h : ledgeComponent.PerchRadiusThreshold = 10 := rfl
    unfold GetValidPerchRadius GetPerchRadiusThreshold
    rw [ho, h, hr]
    norm_num [Clamp]
  rw [hP]
  apply ComputePerchResult_miss
  intro Start End HalfHeight
  have hB : ledgeComponent.bUseFlatBaseForFloorChecks = false := rfl
  unfold FloorSweepTest
  rw [if_pos hB]
  show (if (30 : ℚ) < 24 then (true, ledgeHit) else (false, FHitResult.init 1)).1 = false
  norm_num

theorem FindFloor_perch_decides_witness :
    (ComputeFloorDist Rat.sqrt ledgeWorld ledgeComponent ⟨0, 0, 0⟩
      (FloorSweepTraceDist ledgeComponent) (FloorSweepTraceDist ledgeComponent)
      ledgeComponent.PawnRadius none).1.IsWalkableFloor = true ∧
    (ComputePerchResult Rat.sqrt ledgeWorld ledgeComponent (GetValidPerchRadius ledgeComponent)
      ledgeHit (MaxPerchFloorDist ledgeComponent) FFindFloorResult.Clear).1 = false ∧
    (FindFloor Rat.sqrt ledgeWorld ledgeComponent ⟨0, 0, 0⟩ FFindFloorResult.Clear true
      none).OutFloorResult.bWalkableFloor = false := by
  have hH : (ComputeFloorDist Rat.sqrt ledgeWorld ledgeComponent ⟨0, 0, 0⟩
      (FloorSweepTraceDist ledgeComponent) (FloorSweepTraceDist ledgeComponent)
      ledgeComponent.PawnRadius none).1.HitResult = ledgeHit := by
    rw [ledge_probe]
    rfl
  refine ⟨by rw [ledge_probe]; rfl, ledge_perch_misses, ?_⟩
  exact (FindFloor_perch_decides Rat.sqrt ledgeWorld ledgeComponent ⟨0, 0, 0⟩
    FFindFloorResult.Clear true none rfl rfl
    (fun h => Bool.noConfusion h.1)
    (by rw [ledge_probe]; rfl) (by rw [ledge_probe]; rfl)
    (by rw [hH]; exact ledge_ShouldComputePerchResult)).1
    (by rw [hH]; exact ledge_perch_misses)

theorem cliff_Sweep :
    ComputeFloorDist_Sweep Rat.sqrt cliffWorld ledgeComponent ⟨0, 0, 0⟩ (474001 / 10000) 34
      FFindFloorResult.Clear =
      (FFindFloorResult.SetFromSweep rimHit 2 false, false,
        [.Sweep ⟨0, 0, 0⟩ ⟨0, 0, -528001 / 10000⟩ (.CapsuleQuat ⟨1, 0, 0⟩ ⟨0, 1, 0⟩)
          (.Capsule 34 (413 / 5))]) := by
  have hG : ledgeComponent.GravityDirection = ⟨0, 0, -1⟩ := rfl
  have hH : ledgeComponent.PawnHalfHeight = 88 := rfl
  have hR : ledgeComponent.PawnRadius = 34 := rfl
  have hE : add (⟨0, 0, 0⟩ : FVector ℚ)
      (scale ⟨0, 0, -1⟩ (474001 / 10000 + (88 - 34) * (1 - 9 / 10))) =
      ⟨0, 0, -528001 / 10000⟩ := by
    apply FVector_eq <;> norm_num [FVector.add, FVector.scale]
  have hS : FloorSweepTest cliffWorld ledgeComponent ⟨0, 0, 0⟩ ⟨0, 0, -528001 / 10000⟩ 34
      (88 - (88 - 34) * (1 - 9 / 10)) =
      (true, rimHit,
        [.Sweep ⟨0, 0, 0⟩ ⟨0, 0, -528001 / 10000⟩ (.CapsuleQuat ⟨1, 0, 0⟩ ⟨0, 1, 0⟩)
          (.Capsule 34 (413 / 5))]) := by
    have hB : ledgeComponent.bUseFlatBaseForFloorChecks = false := rfl
    have hX : ledgeComponent.AxisX = ⟨1, 0, 0⟩ := rfl
    have hY : ledgeComponent.AxisY = ⟨0, 1, 0⟩ := rfl
    unfold FloorSweepTest
    rw [if_pos hB, hX, hY]
    have e : (88 - (88 - 34) * (1 - 9 / 10) : ℚ) = 413 / 5 := by norm_num
    rw [e]
    have hW : cliffWorld.SweepSingleByChannel ⟨0, 0, 0⟩ ⟨0, 0, -528001 / 10000⟩
        (.CapsuleQuat ⟨1, 0, 0⟩ ⟨0, 1, 0⟩) (.Capsule 34 (413 / 5)) = (true, rimHit) := by
      show (if (30 : ℚ) < 34 then (true, rimHit) else (true, shelfHit)) = _
      norm_num
    rw [hW]
  have hT : IsWithinEdgeTolerance Rat.sqrt ledgeComponent ⟨0, 0, 0⟩ ⟨30, 0, -72⟩ 34 = true := by
    unfold IsWithinEdgeTolerance FindClosestPointOnLine
    rw [hG]
    norm_num [GetSafeNormal, Distance, Size, DotProduct, FVector.sub, FVector.add,
      FVector.scale, SWEEP_EDGE_REJECT_DISTANCE, KINDA_SMALL_NUMBER, Rat_sqrt_900]
  have hW : IsWalkable ledgeComponent rimHit = false := by
    unfold IsWalkable
    rw [hG]
    norm_num [rimHit, sampleHit, FHitResult.IsValidBlockingHit, DotProduct, FVector.neg,
      KINDA_SMALL_NUMBER]
  have hP : rimHit.bStartPenetrating = false := rfl
  have hI : rimHit.ImpactPoint = ⟨30, 0, -72⟩ := rfl
  have hTi : rimHit.Time = 74000 / 528001 := rfl
  unfold ComputeFloorDist_Sweep
  simp only [hG, hH, hR, hE, hS, if_true]
  simp only [hP, hI, hT, Bool.false_eq_true, Bool.true_eq_false, or_self, if_false, hW, hTi,
    and_false, false_and]
  norm_num [MAX_FLOOR_DIST]

theorem cliff_probe :
    ComputeFloorDist Rat.sqrt cliffWorld ledgeComponent ⟨0, 0, 0⟩
      (FloorSweepTraceDist ledgeComponent) (FloorSweepTraceDist ledgeComponent)
      ledgeComponent.PawnRadius none =
      ({ FFindFloorResult.SetFromSweep rimHit 2 false with bWalkableFloor := false },
        [.ComputeFloorDist ⟨0, 0, 0⟩ (474001 / 10000) (474001 / 10000) 34,
         .Sweep ⟨0, 0, 0⟩ ⟨0, 0, -528001 / 10000⟩ (.CapsuleQuat ⟨1, 0, 0⟩ ⟨0, 1, 0⟩)
          (.Capsule 34 (413 / 5)),
         .LineTrace ⟨0, 0, 0⟩ ⟨0, 0, 1354001 / 10000⟩]) := by
  have hG : ledgeComponent.GravityDirection = ⟨0, 0, -1⟩ := rfl
  have hH : ledgeComponent.PawnHalfHeight = 88 := rfl
  have hR : ledgeComponent.PawnRadius = 34 := rfl
  have hD : ComputeFloorDist_Supplied Rat.sqrt ledgeComponent ⟨0, 0, 0⟩ none =
      (false, FFindFloorResult.Clear, false) := rfl
  have hL : ComputeFloorDist_Line cliffWorld ledgeComponent ⟨0, 0, 0⟩ (474001 / 10000)
      (474001 / 10000) (FFindFloorResult.SetFromSweep rimHit 2 false) =
      ({ FFindFloorResult.SetFromSweep rimHit 2 false with bWalkableFloor := false },
        [.LineTrace ⟨0, 0, 0⟩ ⟨0, 0, 1354001 / 10000⟩]) := by
    have hB : (FFindFloorResult.SetFromSweep rimHit 2 false : FFindFloorResult ℚ).bBlockingHit
        = true := rfl
    have hE : add (⟨0, 0, 0⟩ : FVector ℚ) (scale ⟨0, 0, -1⟩ (-(474001 / 10000 + 88))) =
        ⟨0, 0, 1354001 / 10000⟩ := by
      apply FVector_eq <;> norm_num [FVector.add, FVector.scale]
    have hLT : cliffWorld.LineTraceSingleByChannel ⟨0, 0, 0⟩ ⟨0, 0, 1354001 / 10000⟩ =
        (false, { FHitResult.init 1 with
          TraceStart := ⟨0, 0, 0⟩, TraceEnd := ⟨0, 0, 1354001 / 10000⟩ }) := rfl
    unfold ComputeFloorDist_Line
    simp only [hB, hG, hH, hE, hLT]
    norm_num
  rw [ledge_FloorSweepTraceDist, hR]
  unfold ComputeFloorDist
  simp only [hD, cliff_Sweep, hL]
  norm_num

theorem cliff_ShouldComputePerchResult :
    ShouldComputePerchResult Rat.sqrt ledgeComponent rimHit true = true := by
  have hG : ledgeComponent.GravityDirection = ⟨0, 0, -1⟩ := rfl
  have hV : rimHit.IsValidBlockingHit = true := rfl
  have hI : rimHit.ImpactPoint = ⟨30, 0, -72⟩ := rfl
  have hL : rimHit.Location = ⟨0, 0, -37 / 5⟩ := rfl
  have hT : GetPerchRadiusThreshold ledgeComponent = 10 := by
    have h : ledgeComponent.PerchRadiusThreshold = 10 := rfl
    unfold GetPerchRadiusThreshold
    rw [h]
    norm_num
  have hP : GetValidPerchRadius ledgeComponent = 24 := by
    have ho : ledgeComponent.bHasCharacterOwner = true := rfl
    have hr : ledgeComponent.PawnRadius = 34 := rfl
    unfold GetValidPerchRadius
    rw [ho, hT, hr]
    norm_num [Clamp]
  unfold ShouldComputePerchResult FindClosestPointOnLine
  rw [hV, hT, hP, hI, hL, hG]
  norm_num [GetSafeNormal, Distance, Size, DotProduct, FVector.sub, FVector.add,
    FVector.scale, SWEEP_EDGE_REJECT_DISTANCE, Rat_sqrt_900]

theorem cliff_perch_Sweep :
    ComputeFloorDist_Sweep Rat.sqrt cliffWorld ledgeComponent ⟨0, 0, -37 / 5⟩
      (1214001 / 10000) 24 FFindFloorResult.Clear =
      ({ FFindFloorResult.SetFromSweep shelfHit (23 / 5) false with bWalkableFloor := true },
        true,
        [.Sweep ⟨0, 0, -37 / 5⟩ ⟨0, 0, -1342001 / 10000⟩ (.CapsuleQuat ⟨1, 0, 0⟩ ⟨0, 1, 0⟩)
          (.Capsule 24 (413 / 5))]) := by
  have hG : ledgeComponent.GravityDirection = ⟨0, 0, -1⟩ := rfl
  have hH : ledgeComponent.PawnHalfHeight = 88 := rfl
  have hR : ledgeComponent.PawnRadius = 34 := rfl
  have hE : add (⟨0, 0, -37 / 5⟩ : FVector ℚ)
      (scale ⟨0, 0, -1⟩ (1214001 / 10000 + (88 - 34) * (1 - 9 / 10))) =
      ⟨0, 0, -1342001 / 10000⟩ := by
    apply FVector_eq <;> norm_num [FVector.add, FVector.scale]
  have hS : FloorSweepTest cliffWorld ledgeComponent ⟨0, 0, -37 / 5⟩
      ⟨0, 0, -1342001 / 10000⟩ 24 (88 - (88 - 34) * (1 - 9 / 10)) =
      (true, shelfHit,
        [.Sweep ⟨0, 0, -37 / 5⟩ ⟨0, 0, -1342001 / 10000⟩ (.CapsuleQuat ⟨1, 0, 0⟩ ⟨0, 1, 0⟩)
          (.Capsule 24 (413 / 5))]) := by
    have hB : ledgeComponent.bUseFlatBaseForFloorChecks = false := rfl
    have hX : ledgeComponent.AxisX = ⟨1, 0, 0⟩ := rfl
    have hY : ledgeComponent.AxisY = ⟨0, 1, 0⟩ := rfl
    unfold FloorSweepTest
    rw [if_pos hB, hX, hY]
    have e : (88 - (88 - 34) * (1 - 9 / 10) : ℚ) = 413 / 5 := by norm_num
    rw [e]
    have hW : cliffWorld.SweepSingleByChannel ⟨0, 0, -37 / 5⟩ ⟨0, 0, -1342001 / 10000⟩
        (.CapsuleQuat ⟨1, 0, 0⟩ ⟨0, 1, 0⟩) (.Capsule 24 (413 / 5)) = (true, shelfHit) := by
      show (if (30 : ℚ) < 24 then (true, rimHit) else (true, shelfHit)) = _
      norm_num
    rw [hW]
  have hT : IsWithinEdgeTolerance Rat.sqrt ledgeComponent ⟨0, 0, -37 / 5⟩ ⟨0, 0, -100⟩ 24 =
      true := by
    unfold IsWithinEdgeTolerance FindClosestPointOnLine
    rw [hG]
    norm_num [GetSafeNormal, Distance, Size, DotProduct, FVector.sub, FVector.add,
      FVector.scale, SWEEP_EDGE_REJECT_DISTANCE, KINDA_SMALL_NUMBER, Rat_sqrt_zero]
  have hW : IsWalkable ledgeComponent shelfHit = true := by
    unfold IsWalkable
    rw [hG]
    norm_num [shelfHit, sampleHit, FHitResult.IsValidBlockingHit, DotProduct, FVector.neg,
      KINDA_SMALL_NUMBER, TestWalkableZ, ledgeComponent, walkingComponent, sampleComponent]
  have hP : shelfHit.bStartPenetrating = false := rfl
  have hI : shelfHit.ImpactPoint = ⟨0, 0, -100⟩ := rfl
  have hTi : shelfHit.Time = 100000 / 1268001 := rfl
  have hV : shelfHit.IsValidBlockingHit = true := rfl
  unfold ComputeFloorDist_Sweep
  simp only [hG, hH, hR, hE, hS, if_true]
  simp only [hP, hI, hT, Bool.false_eq_true, Bool.true_eq_false, or_self, if_false, hW, hTi, hV,
    true_and]
  norm_num [MAX_FLOOR_DIST]

theorem cliff_perch :
    ComputePerchResult Rat.sqrt cliffWorld ledgeComponent (GetValidPerchRadius ledgeComponent)
      rimHit (MaxPerchFloorDist ledgeComponent) FFindFloorResult.Clear =
      (true,
        { FFindFloorResult.SetFromSweep shelfHit (23 / 5) false with bWalkableFloor := true },
        [.ComputeFloorDist ⟨0, 0, -37 / 5⟩ (640001 / 10000) (1214001 / 10000) 24,
         .Sweep ⟨0, 0, -37 / 5⟩ ⟨0, 0, -1342001 / 10000⟩ (.CapsuleQuat ⟨1, 0, 0⟩ ⟨0, 1, 0⟩)
          (.Capsule 24 (413 / 5))]) := by
  have hG : ledgeComponent.GravityDirection = ⟨0, 0, -1⟩ := rfl
  have hH : ledgeComponent.PawnHalfHeight = 88 := rfl
  have hR : ledgeComponent.PawnRadius = 34 := rfl
  have hB : ledgeComponent.bUseFlatBaseForFloorChecks = false := rfl
  have hI : rimHit.ImpactPoint = ⟨30, 0, -72⟩ := rfl
  have hL : rimHit.Location = ⟨0, 0, -37 / 5⟩ := rfl
  have hP : GetValidPerchRadius ledgeComponent = 24 := by
    have ho : ledgeComponent.bHasCharacterOwner = true := rfl
    have h : ledgeComponent.PerchRadiusThreshold = 10 := rfl
    unfold GetValidPerchRadius GetPerchRadiusThreshold
    rw [ho, h, hR]
    norm_num [Clamp]
  have hM : MaxPerchFloorDist ledgeComponent = 874001 / 10000 := by
    have hm : IsMovingOnGround ledgeComponent = true := rfl
    have hs : ledgeComponent.MaxStepHeight = 45 := rfl
    have hp : ledgeComponent.PerchAdditionalHeight = 40 := rfl
    unfold MaxPerchFloorDist
    rw [hm, hs, hp]
    norm_num [MAX_FLOOR_DIST, KINDA_SMALL_NUMBER]
  have hA : max (0 : ℚ) (DotProduct (⟨30, 0, -72⟩ : FVector ℚ) (neg ⟨0, 0, -1⟩) -
      (DotProduct (⟨0, 0, -37 / 5⟩ : FVector ℚ) (neg ⟨0, 0, -1⟩) - 88)) = 117 / 5 := by
    norm_num [DotProduct, FVector.neg]
  have hD : ComputeFloorDist_Supplied Rat.sqrt ledgeComponent ⟨0, 0, -37 / 5⟩ none =
      (false, FFindFloorResult.Clear, false) := rfl
  have hC : ComputeFloorDist Rat.sqrt cliffWorld ledgeComponent ⟨0, 0, -37 / 5⟩
      (640001 / 10000) (1214001 / 10000) 24 none =
      ({ FFindFloorResult.SetFromSweep shelfHit (23 / 5) false with bWalkableFloor := true },
        [.ComputeFloorDist ⟨0, 0, -37 / 5⟩ (640001 / 10000) (1214001 / 10000) 24,
         .Sweep ⟨0, 0, -37 / 5⟩ ⟨0, 0, -1342001 / 10000⟩ (.CapsuleQuat ⟨1, 0, 0⟩ ⟨0, 1, 0⟩)
          (.Capsule 24 (413 / 5))]) := by
    unfold ComputeFloorDist
    simp only [hD, cliff_perch_Sweep]
    norm_num
  have e1 : max (0 : ℚ) (874001 / 10000 - 117 / 5) = 640001 / 10000 := by norm_num
  have e2 : max (0 : ℚ) (874001 / 10000) + 34 = 1214001 / 10000 := by norm_num
  rw [hP, hM]
  unfold ComputePerchResult
  simp only [hB, Bool.false_eq_true, if_false, hI, hL, hG, hH, hR, hA, e1, e2, hC]
  have hw : ({ FFindFloorResult.SetFromSweep shelfHit (23 / 5) false with
      bWalkableFloor := true } : FFindFloorResult ℚ).IsWalkableFloor = true := rfl
  have hf : ({ FFindFloorResult.SetFromSweep shelfHit (23 / 5) false with
      bWalkableFloor := true } : FFindFloorResult ℚ).FloorDist = 23 / 5 := rfl
  simp only [hw, hf]
  norm_num [FFindFloorResult.SetFromSweep]

/-- A floor probe in which the perch test promotes the floor: the main sweep of `FindFloor`
is stopped by the unwalkable face of a rim, the narrower perch sweep by a flat shelf, and the
floor `FindFloor` reports is walkable, with the normal of the shelf. -/
theorem FindFloor_perch_promotes_example :
    (ComputeFloorDist Rat.sqrt cliffWorld ledgeComponent ⟨0, 0, 0⟩
      (FloorSweepTraceDist ledgeComponent) (FloorSweepTraceDist ledgeComponent)
      ledgeComponent.PawnRadius none).1.bWalkableFloor = false ∧
    (ComputePerchResult Rat.sqrt cliffWorld ledgeComponent (GetValidPerchRadius ledgeComponent)
      rimHit (MaxPerchFloorDist ledgeComponent) FFindFloorResult.Clear).1 = true ∧
    (FindFloor Rat.sqrt cliffWorld ledgeComponent ⟨0, 0, 0⟩ FFindFloorResult.Clear true
      none).OutFloorResult.IsWalkableFloor = true ∧
    (FindFloor Rat.sqrt cliffWorld ledgeComponent ⟨0, 0, 0⟩ FFindFloorResult.Clear true
      none).OutFloorResult.HitResult.ImpactNormal = ⟨0, 0, 1⟩ ∧
    (FindFloor Rat.sqrt cliffWorld ledgeComponent ⟨0, 0, 0⟩ FFindFloorResult.Clear true
      none).OutFloorResult.HitResult.ImpactPoint = ⟨30, 0, -72⟩ := by
  have hR := FindFloor_fresh_result Rat.sqrt cliffWorld ledgeComponent ⟨0, 0, 0⟩
    FFindFloorResult.Clear true none rfl rfl (fun h => Bool.noConfusion h.1)
    (by rw [cliff_probe]; rfl) (by rw [cliff_probe]; rfl)
  rw [cliff_probe] at hR
  have hH : ({ FFindFloorResult.SetFromSweep rimHit 2 false with
      bWalkableFloor := false } : FFindFloorResult ℚ).HitResult = rimHit := rfl
  obtain ⟨h1, h2, h3⟩ := FindFloor_Perch_promotes Rat.sqrt cliffWorld ledgeComponent
    { FFindFloorResult.SetFromSweep rimHit 2 false with bWalkableFloor := false }
    (by rw [hH]; exact cliff_ShouldComputePerchResult)
    (by rw [hH, cliff_perch]) rfl
  rw [hH, cliff_perch] at h3
  refine ⟨by rw [cliff_probe], by rw [cliff_perch], ?_, ?_, ?_⟩
  · rw [hR]
    simp only [FFindFloorResult.IsWalkableFloor, h1, h2]
    rfl
  · rw [hR, h3]
    rfl
  · rw [hR, h3]
    rfl

end Gravity
